import Mathlib

/-! # prplMesh agent: the per-radio slave supervisor (son_slave_thread.cpp)

A shallow embedding of `slave_thread` and theorems about it.

Conventions of the embedding.

* The supervisor object is the record `State`; every member function is a Lean
  function from the state (and its arguments) to the new state, paired with the
  C++ return value where there is one.
* Frames handed to a socket are appended to the ghost field `State.sent`
  (oldest first), together with the socket they were written to. The ghost
  field `State.fsm_runs` counts the calls of `slave_fsm`.
* A `Socket *` is `Option SocketId`; `none` is `nullptr`. The pointer to the AP manager
  thread object is the flag `State.ap_manager` (true when it is not `nullptr`).
* A call that dereferences `nullptr` has no defined behaviour. It is recorded in the
  ghost field `State.null_dereference`: the function sets it and does nothing else, and
  what a later call returns for such a state means nothing.
* `std::chrono::steady_clock` time points are natural numbers of milliseconds.
  One call of a member function reads one clock value, `Env.now`. An elapsed time
  that the code stores into an `int` is reduced to 32 bits (`to_int`).
* What the operating system or another thread answers during a call (does the
  connection to a UNIX socket succeed, did the AP manager thread start, what is
  its last error code, what is the bridge address) is the argument `Env`.
* Constants and helper functions that live in headers and libraries outside this
  translation unit (`beerocks_defines.h`, `network_utils`, `version`, ...) are the
  fields of the parameter `Constants`.
* Building a fixed-size vendor-specific message on the transmit buffer
  (`create_vs_message`, `addClass` of a vendor-specific class) succeeds: the buffer
  is a member array sized for the largest message. The variable-size `alloc_data`
  of the ping messages can run out of room; it succeeds iff the size fits
  `Constants.tx_data_capacity`. The channel preference report is built byte by
  byte in the transmit buffer (`Mem`), with the checks of the tlvf classes.
* `addClass` on the receive buffer fails when the payload is malformed; an
  inbound vendor message carries this as `VsRx.cls_ok`.
* Character arrays are Lean strings; `copy_string` into a field of the same
  declared size is the identity.
-/

namespace Slave

/-! ## Basic types -/

/-- A point of `std::chrono::steady_clock`, in milliseconds. -/
abbrev TimePoint := Nat

/-- The identity of a `Socket` object (the value of a non-null `Socket *`). -/
abbrev SocketId := Nat

/-- A plain-old-data payload that the supervisor copies without looking inside. -/
abbrev Payload := List Nat

/-- Six octets. -/
structure sMacAddr where
  oct : List Nat
  deriving DecidableEq, Repr

/-- Four octets, `oct[0]` to `oct[3]`. -/
structure sIpv4Addr where
  oct0 : Nat
  oct1 : Nat
  oct2 : Nat
  oct3 : Nat
  deriving DecidableEq, Repr

/-- The states of the supervisor FSM, listed in the order of the `case` labels of
`slave_fsm`. -/
inductive eSlaveState
  | STATE_WAIT_BERFORE_INIT
  | STATE_INIT
  | STATE_CONNECT_TO_PLATFORM_MANAGER
  | STATE_WAIT_FOR_PLATFORM_MANAGER_CREDENTIALS_UPDATE_RESPONSE
  | STATE_WAIT_FOR_PLATFORM_MANAGER_REGISTER_RESPONSE
  | STATE_CONNECT_TO_BACKHAUL_MANAGER
  | STATE_WAIT_RETRY_CONNECT_TO_BACKHAUL_MANAGER
  | STATE_WAIT_FOR_BACKHAUL_MANAGER_REGISTER_RESPONSE
  | STATE_JOIN_INIT
  | STATE_GET_WLAN_READY_STATUS
  | STATE_WAIT_FOR_WLAN_READY_STATUS_RESPONSE
  | STATE_JOIN_INIT_BRING_UP_INTERFACES
  | STATE_JOIN_INIT_WAIT_FOR_IFACE_CHANGE_DONE
  | STATE_START_AP_MANAGER
  | STATE_WAIT_FOR_AP_MANAGER_INIT_DONE_NOTIFICATION
  | STATE_WAIT_FOR_AP_MANAGER_JOINED
  | STATE_AP_MANAGER_JOINED
  | STATE_UNIFY_WIFI_CREDENTIALS
  | STATE_WAIT_FOR_UNIFY_WIFI_CREDENTIALS_RESPONSE
  | STATE_START_MONITOR
  | STATE_WAIT_FOR_MONITOR_JOINED
  | STATE_BACKHAUL_ENABLE
  | STATE_SEND_BACKHAUL_MANAGER_ENABLE
  | STATE_WAIT_FOR_BACKHAUL_MANAGER_CONNECTED_NOTIFICATION
  | STATE_WAIT_BACKHAUL_MANAGER_BUSY
  | STATE_BACKHAUL_MANAGER_CONNECTED
  | STATE_WAIT_BEFORE_JOIN_MASTER
  | STATE_JOIN_MASTER
  | STATE_WAIT_FOR_JOINED_RESPONSE
  | STATE_UPDATE_MONITOR_SON_CONFIG
  | STATE_OPERATIONAL
  | STATE_ONBOARDING
  | STATE_WAIT_FOR_PLATFORM_BEEROCKS_CREDENTIALS_UPDATE_RESPONSE
  | STATE_WAIT_FOR_WIFI_CONFIGURATION_UPDATE_COMPLETE
  | STATE_WAIT_FOR_ANOTHER_WIFI_CONFIGURATION_UPDATE
  | STATE_VERSION_MISMATCH
  | STATE_SSID_MISMATCH
  | STATE_STOPPED
  deriving DecidableEq, Repr

open eSlaveState

/-- Modelled from the spec: the numeric value of each `eSlaveState` enumerator. The
enumeration is declared in son_slave_thread.h, which is not part of the sources; the
order used here is the order of the FSM sequence of the specification (section 4.5),
which is also the order of the `case` labels of `slave_fsm`: the main sequence from
`Init` to `Operational`, then the side branches, with `Stopped` last. The code only
uses the order in the range tests of the backhaul and AP manager handlers. -/
def eSlaveState.rank : eSlaveState → Nat
  | STATE_WAIT_BERFORE_INIT => 0
  | STATE_INIT => 1
  | STATE_CONNECT_TO_PLATFORM_MANAGER => 2
  | STATE_WAIT_FOR_PLATFORM_MANAGER_CREDENTIALS_UPDATE_RESPONSE => 3
  | STATE_WAIT_FOR_PLATFORM_MANAGER_REGISTER_RESPONSE => 4
  | STATE_CONNECT_TO_BACKHAUL_MANAGER => 5
  | STATE_WAIT_RETRY_CONNECT_TO_BACKHAUL_MANAGER => 6
  | STATE_WAIT_FOR_BACKHAUL_MANAGER_REGISTER_RESPONSE => 7
  | STATE_JOIN_INIT => 8
  | STATE_GET_WLAN_READY_STATUS => 9
  | STATE_WAIT_FOR_WLAN_READY_STATUS_RESPONSE => 10
  | STATE_JOIN_INIT_BRING_UP_INTERFACES => 11
  | STATE_JOIN_INIT_WAIT_FOR_IFACE_CHANGE_DONE => 12
  | STATE_START_AP_MANAGER => 13
  | STATE_WAIT_FOR_AP_MANAGER_INIT_DONE_NOTIFICATION => 14
  | STATE_WAIT_FOR_AP_MANAGER_JOINED => 15
  | STATE_AP_MANAGER_JOINED => 16
  | STATE_UNIFY_WIFI_CREDENTIALS => 17
  | STATE_WAIT_FOR_UNIFY_WIFI_CREDENTIALS_RESPONSE => 18
  | STATE_START_MONITOR => 19
  | STATE_WAIT_FOR_MONITOR_JOINED => 20
  | STATE_BACKHAUL_ENABLE => 21
  | STATE_SEND_BACKHAUL_MANAGER_ENABLE => 22
  | STATE_WAIT_FOR_BACKHAUL_MANAGER_CONNECTED_NOTIFICATION => 23
  | STATE_WAIT_BACKHAUL_MANAGER_BUSY => 24
  | STATE_BACKHAUL_MANAGER_CONNECTED => 25
  | STATE_WAIT_BEFORE_JOIN_MASTER => 26
  | STATE_JOIN_MASTER => 27
  | STATE_WAIT_FOR_JOINED_RESPONSE => 28
  | STATE_UPDATE_MONITOR_SON_CONFIG => 29
  | STATE_OPERATIONAL => 30
  | STATE_ONBOARDING => 31
  | STATE_WAIT_FOR_PLATFORM_BEEROCKS_CREDENTIALS_UPDATE_RESPONSE => 32
  | STATE_WAIT_FOR_WIFI_CONFIGURATION_UPDATE_COMPLETE => 33
  | STATE_WAIT_FOR_ANOTHER_WIFI_CONFIGURATION_UPDATE => 34
  | STATE_VERSION_MISMATCH => 35
  | STATE_SSID_MISMATCH => 36
  | STATE_STOPPED => 37

/-- The `beerocks::eRadioStatus` values. -/
inductive eRadioStatus
  | OFF
  | AP_OK
  | AP_DFS_CAC
  | BH_WIRED
  | BH_SCAN
  | BH_SIGNAL_TOO_LOW
  | BH_SIGNAL_OK
  | BH_SIGNAL_TOO_HIGH
  deriving DecidableEq, Repr

/-- The `beerocks::eWifiIfaceOperation` values; `WIFI_IFACE_OPER_OTHER` stands for an
`int8_t` taken from a message that is none of the five enumerators. -/
inductive eWifiIfaceOperation
  | WIFI_IFACE_OPER_NO_CHANGE
  | WIFI_IFACE_OPER_DISABLE
  | WIFI_IFACE_OPER_ENABLE
  | WIFI_IFACE_OPER_RESTORE
  | WIFI_IFACE_OPER_RESTART
  | WIFI_IFACE_OPER_OTHER
  deriving DecidableEq, Repr

open eWifiIfaceOperation

/-- The platform error codes of bpl_err.h that this file uses. -/
inductive BplErr
  | BPL_ERR_NONE
  | BPL_ERR_SLAVE_STOPPED
  | BPL_ERR_SLAVE_SLAVE_BACKHAUL_MANAGER_DISCONNECTED
  | BPL_ERR_AP_MANAGER_HOSTAP_DISABLED
  | BPL_ERR_AP_MANAGER_ATTACH_FAIL
  | BPL_ERR_AP_MANAGER_SUDDEN_DETACH
  | BPL_ERR_AP_MANAGER_HAL_DISCONNECTED
  | BPL_ERR_AP_MANAGER_CAC_TIMEOUT
  | BPL_ERR_AP_MANAGER_DISCONNECTED
  | BPL_ERR_AP_MANAGER_START
  | BPL_ERR_MONITOR_DISCONNECTED
  | BPL_ERR_MONITOR_HOSTAP_DISABLED
  | BPL_ERR_MONITOR_ATTACH_FAIL
  | BPL_ERR_MONITOR_SUDDEN_DETACH
  | BPL_ERR_MONITOR_HAL_DISCONNECTED
  | BPL_ERR_MONITOR_REPORT_PROCESS_FAIL
  | BPL_ERR_SLAVE_TIMEOUT_IFACE_ENABLE_REQUEST
  | BPL_ERR_SLAVE_TIMEOUT_IFACE_DISABLE_REQUEST
  | BPL_ERR_SLAVE_TIMEOUT_IFACE_RESTORE_REQUEST
  | BPL_ERR_SLAVE_TIMEOUT_IFACE_RESTART_REQUEST
  | BPL_ERR_SLAVE_MASTER_KEEP_ALIVE_TIMEOUT
  | BPL_ERR_SLAVE_FAILED_CONNECT_TO_PLATFORM_MANAGER
  | BPL_ERR_SLAVE_PLATFORM_MANAGER_REGISTER_TIMEOUT
  | BPL_ERR_SLAVE_CONNECTING_TO_BACKHAUL_MANAGER
  | BPL_ERR_SLAVE_IFACE_CHANGE_STATE_FAILED
  | BPL_ERR_SLAVE_TIMEOUT_GET_WLAN_READY_STATUS_REQUEST
  | BPL_ERR_SLAVE_TIMEOUT_WIFI_CREDENTIALS_SET_REQUEST
  | BPL_ERR_SLAVE_INVALID_MASTER_SOCKET
  | BPL_ERR_SLAVE_WIFI_CREDENTIALS_SET_FAILED
  | BPL_ERR_SLAVE_POST_INIT_CONFIG_FAILED
  | BPL_ERR_SLAVE_TX_CHANGE_STATE_FAILED
  | BPL_ERR_SLAVE_UPDATE_CREDENTIALS_FAILED
  | BPL_ERR_CONFIG_PLATFORM_REPORTED_INVALID_CONFIGURATION
  | BPL_ERR_CONFIG_BACKHAUL_WIRED_INTERFACE_IS_UNSUPPORTED
  | BPL_ERR_CONFIG_BACKHAUL_WIRELESS_INTERFACE_IS_UNSUPPORTED
  | BPL_ERR_CONFIG_NO_VALID_BACKHAUL_INTERFACE
  | BPL_ERR_WIFI_CONFIGURATION_CHANGE_TIMEOUT
  deriving DecidableEq, Repr

open BplErr

/-- The `ap_manager_thread::eThreadErrors` values. -/
inductive eApManagerThreadErrors
  | APMANAGER_THREAD_ERROR_NO_ERROR
  | APMANAGER_THREAD_ERROR_HOSTAP_DISABLED
  | APMANAGER_THREAD_ERROR_ATTACH_FAIL
  | APMANAGER_THREAD_ERROR_SUDDEN_DETACH
  | APMANAGER_THREAD_ERROR_HAL_DISCONNECTED
  | APMANAGER_THREAD_ERROR_CAC_TIMEOUT
  | APMANAGER_THREAD_ERROR_OTHER
  deriving DecidableEq, Repr

/-- The `monitor_thread::eThreadErrors` values. -/
inductive eMonitorThreadErrors
  | MONITOR_THREAD_ERROR_NO_ERROR
  | MONITOR_THREAD_ERROR_HOSTAP_DISABLED
  | MONITOR_THREAD_ERROR_ATTACH_FAIL
  | MONITOR_THREAD_ERROR_SUDDEN_DETACH
  | MONITOR_THREAD_ERROR_HAL_DISCONNECTED
  | MONITOR_THREAD_ERROR_REPORT_PROCESS_FAIL
  | MONITOR_THREAD_ERROR_OTHER
  deriving DecidableEq, Repr

/-- The `beerocks::eBeeRocksMessageDirection` values. -/
inductive eBeeRocksMessageDirection
  | BEEROCKS_DIRECTION_CONTROLLER
  | BEEROCKS_DIRECTION_AGENT
  deriving DecidableEq, Repr

/-- The `beerocks::eBeeRocksEntities` values used as `src_module`. -/
inductive eBeeRocksEntities
  | BEEROCKS_ENTITY_NONE
  | BEEROCKS_ENTITY_AP_MANAGER
  | BEEROCKS_ENTITY_BACKHAUL_MANAGER
  | BEEROCKS_ENTITY_MONITOR
  | BEEROCKS_ENTITY_OTHER
  deriving DecidableEq, Repr

/-- The `beerocks::eBeeRocksProcesses` values used as `module_name`. -/
inductive eBeeRocksProcesses
  | BEEROCKS_PROCESS_NONE
  | BEEROCKS_PROCESS_ALL
  | BEEROCKS_PROCESS_SLAVE
  | BEEROCKS_PROCESS_MONITOR
  | BEEROCKS_PROCESS_PLATFORM
  | BEEROCKS_PROCESS_OTHER
  deriving DecidableEq, Repr

/-- The `beerocks::eSlaveJoinResponseErrCode` values. -/
inductive eSlaveJoinResponseErrCode
  | JOIN_RESP_NO_ERROR
  | JOIN_RESP_VERSION_MISMATCH
  | JOIN_RESP_SSID_MISMATCH
  | JOIN_RESP_REJECT
  | JOIN_RESP_ADVERTISE_SSID_FLAG_MISMATCH
  | JOIN_RESP_OTHER (code : Nat)
  deriving DecidableEq, Repr

open eSlaveJoinResponseErrCode

/-- The `beerocks_message::eWiFiSec` values. -/
inductive eWiFiSec
  | eWiFiSec_None
  | eWiFiSec_WEP64
  | eWiFiSec_WEP128
  | eWiFiSec_WPA_PSK
  | eWiFiSec_WPA2_PSK
  | eWiFiSec_WPA_WPA2_PSK
  deriving DecidableEq, Repr

/-- The `bwl::WiFiSec` values. -/
inductive WiFiSec
  | Invalid
  | None
  | WEP_64
  | WEP_128
  | WPA_PSK
  | WPA2_PSK
  | WPA_WPA2_PSK
  deriving DecidableEq, Repr

/-- The `beerocks_message::eDHCPOp` values. -/
inductive eDHCPOp
  | eDHCPOp_Add
  | eDHCPOp_Del
  | eDHCPOp_Old
  deriving DecidableEq, Repr

/-- The result of `version::version_from_string`. -/
structure sBeerocksVersion where
  major : Nat
  minor : Nat
  build_number : Nat
  deriving DecidableEq, Repr

/-! ## tlvf: `sVendorOUI`

The struct of sVendorOUI.h: three `uint8_t` fields, held as natural numbers below 256. -/

/-- The struct `sVendorOUI`. -/
structure sVendorOUI where
  upper : Nat
  middle : Nat
  lower : Nat
  deriving DecidableEq, Repr

/-- The fields of an `sVendorOUI` are `uint8_t`. -/
def sVendorOUI.in_range (o : sVendorOUI) : Bool :=
  decide (o.upper < 256) && decide (o.middle < 256) && decide (o.lower < 256)

/-- The constructor `sVendorOUI(uint32_t val)`. -/
def sVendorOUI.of_uint32 (val : Nat) : sVendorOUI :=
  { lower := val &&& 0xFF
    middle := (val >>> 8) &&& 0xFF
    upper := (val >>> 16) &&& 0xFF }

/-- The conversion `operator uint32_t()`: the sum is computed in `int` and converted to
`uint32_t`. -/
def sVendorOUI.to_uint32 (o : sVendorOUI) : Nat :=
  ((o.upper <<< 16) + (o.middle <<< 8) + o.lower) % 4294967296

/-- The member `struct_swap`: three exclusive-or assignments on `uint8_t` fields. -/
def sVendorOUI.struct_swap (o : sVendorOUI) : sVendorOUI :=
  let upper := (o.upper ^^^ o.lower) % 256
  let lower := (o.lower ^^^ upper) % 256
  let upper := (upper ^^^ lower) % 256
  { upper := upper, middle := o.middle, lower := lower }

/-! ## tlvf: `tlvDeviceBridgingCapability` and `cMacList`

The two classes of tlvDeviceBridgingCapability.cpp. An object holds pointers into the
buffer it was given; pointers are addresses (natural numbers), `none` is `nullptr`. The
buffer is shared by the TLV and its `cMacList` entries, so every member takes the memory
and returns it. A call that dereferences `nullptr` has no defined result: it returns
`none`. -/

/-- What the two classes use from headers that are not part of the sources:
`BaseClass::kMinimumLength`, the value of `eTlvType::TLV_DEVICE_BRIDGING_CAPABILITY`, and
the width of `size_t`. -/
structure TlvConstants where
  kMinimumLength : Nat
  TLV_DEVICE_BRIDGING_CAPABILITY : Nat
  size_bits : Nat

/-- The memory the objects point into, by address. The cell at an address holds the value
of the field that starts there: the `uint16_t` length of the TLV, which occupies two
bytes, is held in the cell of its first byte. The bytes of the `sMacAddr` entries are not
held: `sMacAddr::struct_init` and `sMacAddr::struct_swap` (sMacAddr.h is not part of the
sources) act on them only. -/
abbrev Mem := Nat → Nat

/-- Reading a `uint8_t`. -/
def read8 (mem : Mem) (p : Nat) : Nat := mem p % 256

/-- Reading a `uint16_t`. -/
def read16 (mem : Mem) (p : Nat) : Nat := mem p % 65536

/-- Storing a value through a pointer. -/
def write (mem : Mem) (p v : Nat) : Mem :=
  fun i => if i = p then v else mem i

/-- Modelled from the spec: the members of `BaseClass` (tlvf/BaseClass.h, not part of the
sources) that the two classes use: the start of the buffer, the write position, the length
of the buffer, the parse and swap flags, `m_init_succeeded` and the allocation lock. -/
structure BaseClass where
  m_buff__ : Nat
  m_buff_ptr__ : Nat
  m_buff_len__ : Nat
  m_parse__ : Bool
  m_swap__ : Bool
  m_init_succeeded : Bool
  m_lock_allocation__ : Bool
  deriving DecidableEq, Repr

/-- Modelled from the spec: the constructor of `BaseClass` keeps the buffer, its length and
the two flags, and puts the write position at the start of the buffer. -/
def BaseClass.construct (buff buff_len : Nat) (parse swap_needed : Bool) : BaseClass :=
  { m_buff__ := buff, m_buff_ptr__ := buff, m_buff_len__ := buff_len, m_parse__ := parse,
    m_swap__ := swap_needed, m_init_succeeded := false, m_lock_allocation__ := false }

/-- Modelled from the spec: `BaseClass::getStartBuffPtr`. -/
def BaseClass.getStartBuffPtr (b : BaseClass) : Nat := b.m_buff__

/-- Modelled from the spec: `BaseClass::getBuffPtr`. -/
def BaseClass.getBuffPtr (b : BaseClass) : Nat := b.m_buff_ptr__

/-- Modelled from the spec: `BaseClass::getLen`, the bytes between the start of the buffer
and the write position. -/
def BaseClass.getLen (b : BaseClass) : Nat := b.m_buff_ptr__ - b.m_buff__

/-- Modelled from the spec: `BaseClass::getBuffRemainingBytes`, the bytes between the write
position and the end of the buffer, as a `size_t` (it wraps when the write position is
beyond the end). -/
def BaseClass.getBuffRemainingBytes (K : TlvConstants) (b : BaseClass) : Nat :=
  (b.m_buff__ + b.m_buff_len__ + 2 ^ K.size_bits - b.m_buff_ptr__) % 2 ^ K.size_bits

/-- The class `cMacList`: its base and its private members. -/
structure cMacList where
  base : BaseClass
  m_mac_list_length : Option Nat
  m_mac_list : Option Nat
  m_mac_list_idx__ : Nat
  deriving DecidableEq, Repr

/-- The size of an `sMacAddr`: six octets. -/
def sizeof_sMacAddr : Nat := 6

/-- The static member `cMacList::get_initial_size`. -/
def cMacList.get_initial_size : Nat := 1

/-- The member `cMacList::class_swap`: `struct_swap` of every entry; the bytes of the
entries are not held in the memory, so the cells are as before. -/
def cMacList.class_swap (_c : cMacList) (mem : Mem) : Mem := mem

/-- The member `cMacList::init`. -/
def cMacList.init (K : TlvConstants) (c : cMacList) (mem : Mem) : Bool × cMacList × Mem :=
  if c.base.getBuffRemainingBytes K < K.kMinimumLength then (false, c, mem)
  else
    let p := c.base.m_buff_ptr__
    let mem := if ¬ c.base.m_parse__ then write mem p 0 else mem
    let n := read8 mem p
    let c := { c with
      m_mac_list_length := some p
      m_mac_list := some (p + 1)
      m_mac_list_idx__ := n
      base := { c.base with m_buff_ptr__ := p + 1 + sizeof_sMacAddr * n } }
    if c.base.m_buff_ptr__ - c.base.m_buff__ > c.base.m_buff_len__ then (false, c, mem)
    else
      let mem := if c.base.m_parse__ ∧ c.base.m_swap__ then c.class_swap mem else mem
      (true, c, mem)

/-- The constructor `cMacList::cMacList(buff, buff_len, parse, swap_needed)`. -/
def cMacList.construct (K : TlvConstants) (buff buff_len : Nat) (parse swap_needed : Bool)
    (mem : Mem) : cMacList × Mem :=
  let c : cMacList :=
    { base := BaseClass.construct buff buff_len parse swap_needed
      m_mac_list_length := none, m_mac_list := none, m_mac_list_idx__ := 0 }
  let r := c.init K mem
  ({ r.2.1 with base := { r.2.1.base with m_init_succeeded := r.1 } }, r.2.2)

/-- The member `cMacList::mac_list_length`. -/
def cMacList.mac_list_length (c : cMacList) (mem : Mem) : Option Nat :=
  c.m_mac_list_length.map (read8 mem)

/-- The member `cMacList::mac_list`: whether the index is one of an allocated entry, and
the address of the entry returned. -/
def cMacList.mac_list (c : cMacList) (idx : Nat) : Bool × Option Nat :=
  let ret_success : Bool := c.m_mac_list_idx__ > 0 ∧ c.m_mac_list_idx__ > idx
  let ret_idx := if ret_success then idx else 0
  (ret_success, c.m_mac_list.map (fun p => p + sizeof_sMacAddr * ret_idx))

/-- The member `cMacList::alloc_mac_list`; `count` is a `size_t`. -/
def cMacList.alloc_mac_list (K : TlvConstants) (c : cMacList) (mem : Mem) (count : Nat) :
    Option (Bool × cMacList × Mem) :=
  if count = 0 then some (false, c, mem)
  else
    let len := (sizeof_sMacAddr * count) % 2 ^ K.size_bits
    if c.base.getBuffRemainingBytes K < len then some (false, c, mem)
    else
      match c.m_mac_list_length with
      | none => none
      | some p =>
        let c := { c with
          m_mac_list_idx__ := (c.m_mac_list_idx__ + count) % 2 ^ K.size_bits
          base := { c.base with m_buff_ptr__ := c.base.m_buff_ptr__ + len } }
        some (true, c, write mem p ((read8 mem p + count) % 256))

/-- The class `tlvDeviceBridgingCapability`: its base and its private members. The vector
holds the entries as they were when they were added. -/
structure tlvDeviceBridgingCapability where
  base : BaseClass
  m_type : Option Nat
  m_length : Option Nat
  m_bridging_tuples_list_length : Option Nat
  m_bridging_tuples_list : Option Nat
  m_bridging_tuples_list_idx__ : Nat
  m_bridging_tuples_list_vector : List cMacList
  deriving DecidableEq, Repr

/-- The member `tlvDeviceBridgingCapability::type`. -/
def tlvDeviceBridgingCapability.type (t : tlvDeviceBridgingCapability) (mem : Mem) :
    Option Nat :=
  t.m_type.map (read8 mem)

/-- The member `tlvDeviceBridgingCapability::length`. -/
def tlvDeviceBridgingCapability.length (t : tlvDeviceBridgingCapability) (mem : Mem) :
    Option Nat :=
  t.m_length.map (read16 mem)

/-- The member `tlvDeviceBridgingCapability::bridging_tuples_list_length`. -/
def tlvDeviceBridgingCapability.bridging_tuples_list_length
    (t : tlvDeviceBridgingCapability) (mem : Mem) : Option Nat :=
  t.m_bridging_tuples_list_length.map (read8 mem)

/-- The member `tlvDeviceBridgingCapability::bridging_tuples_list`: whether the index is
one of an added entry, and the entry of the vector returned (when the list length in the
buffer is 0 the reference is to the raw buffer, which is not an entry: `none`). -/
def tlvDeviceBridgingCapability.bridging_tuples_list (t : tlvDeviceBridgingCapability)
    (mem : Mem) (idx : Nat) : Option (Bool × Option cMacList) :=
  let ret_success : Bool :=
    t.m_bridging_tuples_list_idx__ > 0 ∧ t.m_bridging_tuples_list_idx__ > idx
  let ret_idx := if ret_success then idx else 0
  match t.m_bridging_tuples_list_length with
  | none => none
  | some p =>
    if read8 mem p > 0 then
      match t.m_bridging_tuples_list_vector.get? ret_idx with
      | none => none
      | some c => some (ret_success, some c)
    else some (ret_success, none)

/-- The member `tlvDeviceBridgingCapability::create_bridging_tuples_list`: the new entry
(`none` is the `nullptr` returned on failure), the TLV and the memory. -/
def tlvDeviceBridgingCapability.create_bridging_tuples_list (K : TlvConstants)
    (t : tlvDeviceBridgingCapability) (mem : Mem) :
    Option cMacList × tlvDeviceBridgingCapability × Mem :=
  let len := cMacList.get_initial_size
  if t.base.m_lock_allocation__ ∨ t.base.getBuffRemainingBytes K < len then (none, t, mem)
  else
    let t := { t with base := { t.base with m_lock_allocation__ := true } }
    let r := cMacList.construct K t.base.getBuffPtr (t.base.getBuffRemainingBytes K)
      t.base.m_parse__ t.base.m_swap__ mem
    (some r.1, t, r.2)

/-- The member `tlvDeviceBridgingCapability::add_bridging_tuples_list`. -/
def tlvDeviceBridgingCapability.add_bridging_tuples_list (K : TlvConstants)
    (t : tlvDeviceBridgingCapability) (mem : Mem) (ptr : Option cMacList) :
    Option (Bool × tlvDeviceBridgingCapability × Mem) :=
  match ptr with
  | none => some (false, t, mem)
  | some c =>
    if t.base.m_lock_allocation__ = false then some (false, t, mem)
    else if c.base.getStartBuffPtr ≠ t.base.getBuffPtr then some (false, t, mem)
    else if c.base.getLen > t.base.getBuffRemainingBytes K then some (false, t, mem)
    else
      let counted : Option (tlvDeviceBridgingCapability × Mem) :=
        if ¬ t.base.m_parse__ then
          match t.m_bridging_tuples_list_length with
          | none => none
          | some p =>
            some ({ t with m_bridging_tuples_list_idx__ :=
                      (t.m_bridging_tuples_list_idx__ + 1) % 2 ^ K.size_bits },
                  write mem p ((read8 mem p + 1) % 256))
        else some (t, mem)
      match counted with
      | none => none
      | some (t, mem) =>
        let len := c.base.getLen
        let mem :=
          match t.m_length with
          | some q => write mem q ((read16 mem q + len) % 65536)
          | none => mem
        some (true,
          { t with
            m_bridging_tuples_list_vector := t.m_bridging_tuples_list_vector ++ [c]
            base := { t.base with m_buff_ptr__ := t.base.m_buff_ptr__ + len,
                                  m_lock_allocation__ := false } },
          mem)

/-- The loop of `tlvDeviceBridgingCapability::init` that adds one entry for each tuple the
list length in the buffer announces. The list length is a `uint8_t`, so the loop runs at
most 255 times; the first argument bounds the number of iterations and is 256 in `init`. -/
def tlvDeviceBridgingCapability.init_loop (K : TlvConstants) :
    Nat → Nat → tlvDeviceBridgingCapability → Mem →
    Option (Bool × tlvDeviceBridgingCapability × Mem)
  | 0, _, t, mem => some (true, t, mem)
  | fuel + 1, i, t, mem =>
    match t.m_bridging_tuples_list_length with
    | none => none
    | some p =>
      if i < read8 mem p then
        let r := t.create_bridging_tuples_list K mem
        -- the entry is added to the TLV as `create_bridging_tuples_list` left it
        match r.2.1.add_bridging_tuples_list K r.2.2 r.1 with
        | none => none
        | some (ok, t, mem) =>
          if ok = false then some (false, t, mem)
          else tlvDeviceBridgingCapability.init_loop K fuel (i + 1) t mem
      else some (true, t, mem)

/-- The member `tlvDeviceBridgingCapability::class_swap`: the two bytes of the length are
exchanged and every entry is swapped; it runs only when parsing with `swap_needed`. The
byte order of the length cell is not held in the memory, so the value stored is the
byte-swapped one. -/
def tlvDeviceBridgingCapability.class_swap (t : tlvDeviceBridgingCapability) (mem : Mem) :
    Mem :=
  match t.m_length with
  | none => mem
  | some q => write mem q (read16 mem q % 256 * 256 + read16 mem q / 256)

/-- The member `tlvDeviceBridgingCapability::init`. -/
def tlvDeviceBridgingCapability.init (K : TlvConstants) (t : tlvDeviceBridgingCapability)
    (mem : Mem) : Option (Bool × tlvDeviceBridgingCapability × Mem) :=
  if t.base.getBuffRemainingBytes K < K.kMinimumLength then some (false, t, mem)
  else
    let p := t.base.m_buff_ptr__
    let t := { t with m_type := some p }
    let mem := if ¬ t.base.m_parse__ then write mem p (K.TLV_DEVICE_BRIDGING_CAPABILITY % 256)
      else mem
    if t.base.m_parse__ ∧ read8 mem p ≠ K.TLV_DEVICE_BRIDGING_CAPABILITY % 256 then
      some (false, t, mem)
    else
      let t := { t with m_length := some (p + 1) }
      let mem := if ¬ t.base.m_parse__ then write mem (p + 1) 0 else mem
      let t := { t with m_bridging_tuples_list_length := some (p + 3) }
      let mem := if ¬ t.base.m_parse__ then write mem (p + 3) 0 else mem
      let mem := if ¬ t.base.m_parse__ then write mem (p + 1) ((read16 mem (p + 1) + 1) % 65536)
        else mem
      let t := { t with
        m_bridging_tuples_list := some (p + 4)
        m_bridging_tuples_list_idx__ := read8 mem (p + 3)
        base := { t.base with m_buff_ptr__ := p + 4 } }
      match tlvDeviceBridgingCapability.init_loop K 256 0 t mem with
      | none => none
      | some (ok, t, mem) =>
        if ok = false then some (false, t, mem)
        else if t.base.m_buff_ptr__ - t.base.m_buff__ > t.base.m_buff_len__ then
          some (false, t, mem)
        else
          let mem := if t.base.m_parse__ ∧ t.base.m_swap__ then t.class_swap mem else mem
          some (true, t, mem)

/-- The constructor `tlvDeviceBridgingCapability(buff, buff_len, parse, swap_needed)`. -/
def tlvDeviceBridgingCapability.construct (K : TlvConstants)
    (buff buff_len : Nat) (parse swap_needed : Bool) (mem : Mem) :
    Option (tlvDeviceBridgingCapability × Mem) :=
  let t : tlvDeviceBridgingCapability :=
    { base := BaseClass.construct buff buff_len parse swap_needed
      m_type := none, m_length := none, m_bridging_tuples_list_length := none,
      m_bridging_tuples_list := none, m_bridging_tuples_list_idx__ := 0,
      m_bridging_tuples_list_vector := [] }
  match t.init K mem with
  | none => none
  | some (ok, t, mem) => some ({ t with base := { t.base with m_init_succeeded := ok } }, mem)

/-! ## Building and parsing a bridging capability TLV -/

/-- Constants for the examples: `kMinimumLength` 0, TLV type 4 (the value of the device
bridging capability TLV in IEEE 1905.1), a `size_t` of 64 bits. -/
def K0t : TlvConstants :=
  { kMinimumLength := 0, TLV_DEVICE_BRIDGING_CAPABILITY := 4, size_bits := 64 }

/-- A memory of zero cells. -/
def mem0 : Mem := fun _ => 0

/-- A sequence of `alloc_mac_list` calls on one list: the list and the memory after the
calls, and the number of entries of the calls that returned true. `none` when a call is
undefined. -/
def alloc_seq (K : TlvConstants) (c : cMacList) (mem : Mem) :
    List Nat → Option (cMacList × Mem × Nat)
  | [] => some (c, mem, 0)
  | count :: rest =>
    match c.alloc_mac_list K mem count with
    | none => none
    | some (ok, c, mem) =>
      match alloc_seq K c mem rest with
      | none => none
      | some (c, mem, total) => some (c, mem, (if ok then count else 0) + total)

/-- A sequence of `alloc_mac_list` calls that all succeed; `none` otherwise. -/
def alloc_all (K : TlvConstants) (c : cMacList) (mem : Mem) :
    List Nat → Option (cMacList × Mem)
  | [] => some (c, mem)
  | count :: rest =>
    match c.alloc_mac_list K mem count with
    | some (true, c, mem) => alloc_all K c mem rest
    | _ => none

/-- One cycle of the build protocol: `create_bridging_tuples_list`, one `alloc_mac_list`
for each of the given counts, `add_bridging_tuples_list`. `none` when a call fails. -/
def build_cycle (K : TlvConstants) (t : tlvDeviceBridgingCapability) (mem : Mem)
    (counts : List Nat) : Option (tlvDeviceBridgingCapability × Mem) :=
  let r := t.create_bridging_tuples_list K mem
  match r.1 with
  | none => none
  | some c =>
    match alloc_all K c r.2.2 counts with
    | none => none
    | some (c, mem) =>
      match r.2.1.add_bridging_tuples_list K mem (some c) with
      | some (true, t, mem) => some (t, mem)
      | _ => none

/-- Successive cycles of the build protocol, one for each tuple. -/
def build_cycles (K : TlvConstants) (t : tlvDeviceBridgingCapability) (mem : Mem) :
    List (List Nat) → Option (tlvDeviceBridgingCapability × Mem)
  | [] => some (t, mem)
  | counts :: rest =>
    match build_cycle K t mem counts with
    | none => none
    | some (t, mem) => build_cycles K t mem rest

/-- Building a TLV in the buffer at `buff`: the constructor with `parse = false`, then one
cycle for each tuple. `none` when the constructor or a call fails. -/
def build (K : TlvConstants) (buff buff_len : Nat) (mem : Mem) (tuples : List (List Nat)) :
    Option (tlvDeviceBridgingCapability × Mem) :=
  match tlvDeviceBridgingCapability.construct K buff buff_len false false mem with
  | none => none
  | some (t, mem) =>
    if t.base.m_init_succeeded = false then none
    else build_cycles K t mem tuples

/-- The bytes a tuple with the given allocation counts takes in the buffer: the length
byte and six bytes for each entry. -/
def tuple_size (counts : List Nat) : Nat :=
  1 + sizeof_sMacAddr * counts.sum

/-- The bytes the given tuples take in the buffer. -/
def tuples_size (tuples : List (List Nat)) : Nat :=
  (tuples.map tuple_size).sum

/-- The `cMacList` in build mode over the buffer of `len` bytes at `p` that holds `n`
entries. -/
def mac_list_built (p len n : Nat) : cMacList :=
  { base := { m_buff__ := p, m_buff_ptr__ := p + 1 + sizeof_sMacAddr * n, m_buff_len__ := len,
              m_parse__ := false, m_swap__ := false, m_init_succeeded := true,
              m_lock_allocation__ := false }
    m_mac_list_length := some p
    m_mac_list := some (p + 1)
    m_mac_list_idx__ := n }

/-- The TLV in build mode over the buffer of `len` bytes at `b` after `k` tuples that take
`size` bytes, with the entries `v` in its vector. -/
def tlv_built (b len size k : Nat) (v : List cMacList) : tlvDeviceBridgingCapability :=
  { base := { m_buff__ := b, m_buff_ptr__ := b + 4 + size, m_buff_len__ := len,
              m_parse__ := false, m_swap__ := false, m_init_succeeded := true,
              m_lock_allocation__ := false }
    m_type := some b
    m_length := some (b + 1)
    m_bridging_tuples_list_length := some (b + 3)
    m_bridging_tuples_list := some (b + 4)
    m_bridging_tuples_list_idx__ := k
    m_bridging_tuples_list_vector := v }

/-- The TLV of `tlv_built` between `create_bridging_tuples_list` and
`add_bridging_tuples_list`: the allocation lock is set. -/
def tlv_locked (b len size k : Nat) (v : List cMacList) : tlvDeviceBridgingCapability :=
  { tlv_built b len size k v with
    base := { (tlv_built b len size k v).base with m_lock_allocation__ := true } }

/-- Parsing the buffer a build left: the constructor with `parse = true` and
`swap_needed = false` over the same buffer. -/
def parse_built (K : TlvConstants) (buff buff_len : Nat) (mem : Mem)
    (tuples : List (List Nat)) : Option (tlvDeviceBridgingCapability × Mem) :=
  match build K buff buff_len mem tuples with
  | none => none
  | some (_, mem) => tlvDeviceBridgingCapability.construct K buff buff_len true false mem

/-! ## tlvf: `tlvChannelPreference` and `cPreferenceOperatingClasses`

The classes `wfa_map::tlvChannelPreference` and `wfa_map::cPreferenceOperatingClasses`,
with which `handle_channel_preference_query` builds its report, are generated code like
`tlvDeviceBridgingCapability` and `cMacList`, but they are not part of the sources. They
are modelled after the two generated classes that are, in build mode (`parse = false`),
the only mode the handler uses: `init` assigns the member pointers in the order of the
fields, at a time when the dynamic list is empty, and an `alloc` moves the write position
without moving what lies behind the list (the `memmove` is a TODO of the generator). In
`cPreferenceOperatingClasses` the field `flags` comes after the dynamic list
`channel_list`. The note in the handler says what follows from that: the `flags` are
written over the first channel of the list. -/

/-- Modelled from the spec: the struct `cPreferenceOperatingClasses::sFlags` (not part of
the sources), one byte with two fields of four bits: the preference in the upper half and
the reason code in the lower half, as the channel preference TLV has them. Storing
`preference` into the byte `b`: -/
def sFlags.set_preference (b preference : Nat) : Nat :=
  preference % 16 * 16 + b % 16

/-- Modelled from the spec: storing `reason_code` into the `sFlags` byte `b`. -/
def sFlags.set_reason_code (b reason_code : Nat) : Nat :=
  b / 16 % 16 * 16 + reason_code % 16

/-- Modelled from the spec: the field `preference` of an `sFlags` byte. -/
def sFlags.preference (b : Nat) : Nat := b / 16 % 16

/-- Modelled from the spec: the field `reason_code` of an `sFlags` byte. -/
def sFlags.reason_code (b : Nat) : Nat := b % 16

/-- Modelled from the spec: the value of
`cPreferenceOperatingClasses::eReasonCode::UNSPECIFIED` (not part of the sources). -/
def eReasonCode_UNSPECIFIED : Nat := 0

/-- Modelled from the spec: the class `wfa_map::cPreferenceOperatingClasses` (not part of
the sources): its base and its member pointers, one for each field in the order
operating_class, channel_list_length, channel_list, flags. -/
structure cPreferenceOperatingClasses where
  base : BaseClass
  m_operating_class : Option Nat
  m_channel_list_length : Option Nat
  m_channel_list : Option Nat
  m_channel_list_idx__ : Nat
  m_flags : Option Nat
  deriving DecidableEq, Repr

/-- Modelled from the spec: `cPreferenceOperatingClasses::get_initial_size`, the bytes of
operating_class, channel_list_length and flags. -/
def cPreferenceOperatingClasses.get_initial_size : Nat := 3

/-- Modelled from the spec: `cPreferenceOperatingClasses::init` in build mode, after
`cMacList::init`: the pointers are assigned one after the other while the write position
advances; the list is empty then, so `m_flags` is the address `m_channel_list` too.
`sFlags::struct_init` stores nothing, like the `struct_init` of `sVendorOUI`. -/
def cPreferenceOperatingClasses.init (K : TlvConstants) (c : cPreferenceOperatingClasses)
    (mem : Mem) : Bool × cPreferenceOperatingClasses × Mem :=
  if c.base.getBuffRemainingBytes K < K.kMinimumLength then (false, c, mem)
  else
    let p := c.base.m_buff_ptr__
    let mem := write mem (p + 1) 0
    let n := read8 mem (p + 1)
    let c := { c with
      m_operating_class := some p
      m_channel_list_length := some (p + 1)
      m_channel_list := some (p + 2)
      m_channel_list_idx__ := n
      m_flags := some (p + 2 + n)
      base := { c.base with m_buff_ptr__ := p + 2 + n + 1 } }
    if c.base.m_buff_ptr__ - c.base.m_buff__ > c.base.m_buff_len__ then (false, c, mem)
    else (true, c, mem)

/-- Modelled from the spec: the constructor
`cPreferenceOperatingClasses(buff, buff_len, parse = false, swap_needed)`. -/
def cPreferenceOperatingClasses.construct (K : TlvConstants) (buff buff_len : Nat)
    (swap_needed : Bool) (mem : Mem) : cPreferenceOperatingClasses × Mem :=
  let c : cPreferenceOperatingClasses :=
    { base := BaseClass.construct buff buff_len false swap_needed
      m_operating_class := none, m_channel_list_length := none, m_channel_list := none,
      m_channel_list_idx__ := 0, m_flags := none }
  let r := c.init K mem
  ({ r.2.1 with base := { r.2.1.base with m_init_succeeded := r.1 } }, r.2.2)

/-- Modelled from the spec: `cPreferenceOperatingClasses::channel_list_length`. -/
def cPreferenceOperatingClasses.channel_list_length (c : cPreferenceOperatingClasses)
    (mem : Mem) : Option Nat :=
  c.m_channel_list_length.map (read8 mem)

/-- Modelled from the spec: `cPreferenceOperatingClasses::channel_list`, after
`cMacList::mac_list`: whether the index is one of an allocated entry, and the address of
the entry returned. -/
def cPreferenceOperatingClasses.channel_list (c : cPreferenceOperatingClasses) (idx : Nat) :
    Bool × Option Nat :=
  let ret_success : Bool := c.m_channel_list_idx__ > 0 ∧ c.m_channel_list_idx__ > idx
  let ret_idx := if ret_success then idx else 0
  (ret_success, c.m_channel_list.map (fun p => p + ret_idx))

/-- Modelled from the spec: `cPreferenceOperatingClasses::alloc_channel_list`, after
`cMacList::alloc_mac_list`, an entry being one byte. Nothing behind the list is moved:
`m_flags` stays where `init` put it. -/
def cPreferenceOperatingClasses.alloc_channel_list (K : TlvConstants)
    (c : cPreferenceOperatingClasses) (mem : Mem) (count : Nat) :
    Option (Bool × cPreferenceOperatingClasses × Mem) :=
  if count = 0 then some (false, c, mem)
  else
    let len := count % 2 ^ K.size_bits
    if c.base.getBuffRemainingBytes K < len then some (false, c, mem)
    else
      match c.m_channel_list_length with
      | none => none
      | some p =>
        let c := { c with
          m_channel_list_idx__ := (c.m_channel_list_idx__ + count) % 2 ^ K.size_bits
          base := { c.base with m_buff_ptr__ := c.base.m_buff_ptr__ + len } }
        some (true, c, write mem p ((read8 mem p + count) % 256))

/-- Modelled from the spec: the class `wfa_map::tlvChannelPreference` (not part of the
sources): its base and its member pointers, one for each field in the order type, length,
radio_uid, operating_classes_list_length, operating_classes_list. -/
structure tlvChannelPreference where
  base : BaseClass
  m_type : Option Nat
  m_length : Option Nat
  m_radio_uid : Option Nat
  m_operating_classes_list_length : Option Nat
  m_operating_classes_list : Option Nat
  m_operating_classes_list_idx__ : Nat
  m_operating_classes_list_vector : List cPreferenceOperatingClasses
  deriving DecidableEq, Repr

/-- Modelled from the spec: `tlvChannelPreference::init` in build mode, after
`tlvDeviceBridgingCapability::init`: type (one byte), length (two bytes), radio_uid (six
bytes) and the list length (one byte) are laid out one after the other, and the length
field counts the bytes after it. The list is empty, so the loop over the entries does not
run. -/
def tlvChannelPreference.init (K : TlvConstants) (type : Nat) (t : tlvChannelPreference)
    (mem : Mem) : Bool × tlvChannelPreference × Mem :=
  if t.base.getBuffRemainingBytes K < K.kMinimumLength then (false, t, mem)
  else
    let p := t.base.m_buff_ptr__
    let mem := write mem p (type % 256)
    let mem := write mem (p + 1) 0
    let mem := write mem (p + 1) ((read16 mem (p + 1) + sizeof_sMacAddr) % 65536)
    let mem := write mem (p + 9) 0
    let mem := write mem (p + 1) ((read16 mem (p + 1) + 1) % 65536)
    let t := { t with
      m_type := some p
      m_length := some (p + 1)
      m_radio_uid := some (p + 3)
      m_operating_classes_list_length := some (p + 9)
      m_operating_classes_list := some (p + 10)
      m_operating_classes_list_idx__ := read8 mem (p + 9)
      base := { t.base with m_buff_ptr__ := p + 10 } }
    if t.base.m_buff_ptr__ - t.base.m_buff__ > t.base.m_buff_len__ then (false, t, mem)
    else (true, t, mem)

/-- Modelled from the spec: the constructor
`tlvChannelPreference(buff, buff_len, parse = false, swap_needed)`. -/
def tlvChannelPreference.construct (K : TlvConstants) (type buff buff_len : Nat)
    (swap_needed : Bool) (mem : Mem) : tlvChannelPreference × Mem :=
  let t : tlvChannelPreference :=
    { base := BaseClass.construct buff buff_len false swap_needed
      m_type := none, m_length := none, m_radio_uid := none,
      m_operating_classes_list_length := none, m_operating_classes_list := none,
      m_operating_classes_list_idx__ := 0, m_operating_classes_list_vector := [] }
  let r := t.init K type mem
  ({ r.2.1 with base := { r.2.1.base with m_init_succeeded := r.1 } }, r.2.2)

/-- Modelled from the spec: `tlvChannelPreference::create_operating_classes_list`, after
`tlvDeviceBridgingCapability::create_bridging_tuples_list`: the new entry (`none` is the
`nullptr` returned on failure), the TLV and the memory. -/
def tlvChannelPreference.create_operating_classes_list (K : TlvConstants)
    (t : tlvChannelPreference) (mem : Mem) :
    Option cPreferenceOperatingClasses × tlvChannelPreference × Mem :=
  let len := cPreferenceOperatingClasses.get_initial_size
  if t.base.m_lock_allocation__ ∨ t.base.getBuffRemainingBytes K < len then (none, t, mem)
  else
    let t := { t with base := { t.base with m_lock_allocation__ := true } }
    let r := cPreferenceOperatingClasses.construct K t.base.getBuffPtr
      (t.base.getBuffRemainingBytes K) t.base.m_swap__ mem
    (some r.1, t, r.2)

/-- Modelled from the spec: `tlvChannelPreference::add_operating_classes_list` in build
mode, after `tlvDeviceBridgingCapability::add_bridging_tuples_list`. -/
def tlvChannelPreference.add_operating_classes_list (K : TlvConstants)
    (t : tlvChannelPreference) (mem : Mem) (ptr : Option cPreferenceOperatingClasses) :
    Option (Bool × tlvChannelPreference × Mem) :=
  match ptr with
  | none => some (false, t, mem)
  | some c =>
    if t.base.m_lock_allocation__ = false then some (false, t, mem)
    else if c.base.getStartBuffPtr ≠ t.base.getBuffPtr then some (false, t, mem)
    else if c.base.getLen > t.base.getBuffRemainingBytes K then some (false, t, mem)
    else
      match t.m_operating_classes_list_length with
      | none => none
      | some p =>
        let mem := write mem p ((read8 mem p + 1) % 256)
        let len := c.base.getLen
        let mem :=
          match t.m_length with
          | some q => write mem q ((read16 mem q + len) % 65536)
          | none => mem
        some (true,
          { t with
            m_operating_classes_list_idx__ :=
              (t.m_operating_classes_list_idx__ + 1) % 2 ^ K.size_bits
            m_operating_classes_list_vector := t.m_operating_classes_list_vector ++ [c]
            base := { t.base with m_buff_ptr__ := t.base.m_buff_ptr__ + len,
                                  m_lock_allocation__ := false } },
          mem)

/-- One entry of the operating classes list as the bytes of the message have it. -/
structure sOperatingClassOnWire where
  operating_class : Nat
  channel_list : List Nat
  flags : Nat
  deriving DecidableEq, Repr

/-- The channel preference TLV as the bytes of the message have it: the radio identifier
(the six octets as one number) and the entries of the list. -/
structure sChannelPreferenceOnWire where
  radio_uid : Nat
  operating_classes_list : List sOperatingClassOnWire
  deriving DecidableEq, Repr

/-- Reading `n` entries of the operating classes list from the address `q` on, in the
order of the fields: the operating class, the number of channels, the channels, the
flags. -/
def operating_classes_on_wire (mem : Mem) : Nat → Nat → List sOperatingClassOnWire
  | 0, _ => []
  | n + 1, q =>
    let k := read8 mem (q + 1)
    { operating_class := read8 mem q
      channel_list := (List.range k).map (fun i => read8 mem (q + 2 + i))
      flags := read8 mem (q + 2 + k) } ::
      operating_classes_on_wire mem n (q + 3 + k)

/-- What the TLV built in the buffer carries: the bytes from the radio identifier on, read
in the order of the fields. `none` before `init`. -/
def tlvChannelPreference.on_wire (t : tlvChannelPreference) (mem : Mem) :
    Option sChannelPreferenceOnWire :=
  match t.m_radio_uid, t.m_operating_classes_list_length, t.m_operating_classes_list with
  | some u, some l, some q =>
    some { radio_uid := mem u
           operating_classes_list := operating_classes_on_wire mem (read8 mem l) q }
  | _, _, _ => none

/-- The six octets of an address as one number, first octet first. -/
def sMacAddr.to_nat (m : sMacAddr) : Nat :=
  m.oct.foldl (fun a o => a * 256 + o % 256) 0

/-- The memory that holds the given bytes from address 0 on, and 0 elsewhere. -/
def Mem.of_list (l : List Nat) : Mem := fun p => l.getD p 0

/-! ## Configuration and settings records -/

/-- The `sSlaveConfig` record handed to the constructor. -/
structure sSlaveConfig where
  temp_path : String
  hostap_iface : String
  hostap_iface_type : Nat
  hostap_ant_gain : Int
  backhaul_wire_iface : String
  backhaul_wire_iface_type : Nat
  backhaul_wireless_iface : String
  backhaul_wireless_iface_type : Nat
  backhaul_wireless_iface_filter_low : Bool
  backhaul_preferred_bssid : String
  bridge_iface : String
  radio_identifier : String
  platform : Nat
  stop_on_failure_attempts : Int
  enable_keep_alive : Bool
  enable_bpl_iface_status_notifications : Bool
  enable_credentials_automatic_unify : Bool
  enable_repeater_mode : Bool
  deriving DecidableEq, Repr

/-- The `beerocks_message::sPlatformSettings` record. -/
structure sPlatformSettings where
  front_ssid : String
  front_pass : String
  front_security_type : String
  back_ssid : String
  back_pass : String
  back_security_type : String
  onboarding : Bool
  local_master : Bool
  local_gw : Bool
  passive_mode_enabled : Bool
  wired_backhaul : Bool
  backhaul_vaps_bssid : List sMacAddr
  other : Payload
  deriving DecidableEq, Repr

/-- The `beerocks_message::sWlanSettings` record. -/
structure sWlanSettings where
  band_enabled : Bool
  acs_enabled : Bool
  advertise_ssid : Bool
  ssid : String
  pass : String
  security_type : String
  other : Payload
  deriving DecidableEq, Repr

/-- The `beerocks_message::sSonConfig` record; the monitor thresholds are a payload the
supervisor does not look into. -/
structure sSonConfig where
  slave_keep_alive_retries : Nat
  monitor_thresholds : Payload
  deriving DecidableEq, Repr

/-- The `beerocks_message::sNodeHostap` record. -/
structure sNodeHostap where
  iface_mac : sMacAddr
  iface_is_5ghz : Bool
  ant_gain : Int
  other : Payload
  deriving DecidableEq, Repr

/-- The `beerocks_message::sApChannelSwitch` record. -/
structure sApChannelSwitch where
  channel : Nat
  other : Payload
  deriving DecidableEq, Repr

/-- The `beerocks_message::sWifiCredentials` record. -/
structure sWifiCredentials where
  ssid : String
  pass : String
  sec : eWiFiSec
  other : Payload
  deriving DecidableEq, Repr

/-- The `beerocks_message::sVersions` record. -/
structure sVersions where
  master_version : String
  slave_version : String
  deriving DecidableEq, Repr

/-- The supervisor's `sSlaveBackhaulParams` record (addresses kept as strings). -/
structure sSlaveBackhaulParams where
  gw_ipv4 : String
  gw_bridge_mac : String
  controller_bridge_mac : String
  bridge_mac : String
  bridge_ipv4 : String
  bridge_iface : String
  backhaul_iface : String
  backhaul_mac : String
  backhaul_ipv4 : String
  backhaul_bssid : String
  backhaul_channel : Nat
  backhaul_is_wireless : Bool
  backhaul_iface_type : Nat
  backhaul_scan_measurement_list : Payload
  deriving DecidableEq, Repr

/-- The `beerocks_message::sBackhaulParams` record of a backhaul connected notification. -/
structure sBackhaulParams where
  gw_ipv4 : sIpv4Addr
  gw_bridge_mac : sMacAddr
  controller_bridge_mac : sMacAddr
  bridge_mac : sMacAddr
  bridge_ipv4 : sIpv4Addr
  backhaul_mac : sMacAddr
  backhaul_ipv4 : sIpv4Addr
  backhaul_bssid : sMacAddr
  backhaul_channel : Nat
  backhaul_is_wireless : Bool
  backhaul_iface_type : Nat
  is_backhaul_manager : Bool
  backhaul_scan_measurement_list : Payload
  deriving DecidableEq, Repr

/-- The `beerocks_message::sNodeRssiMeasurementRequest` record. -/
structure sNodeRssiMeasurementRequest where
  mac : sMacAddr
  ipv4 : sIpv4Addr
  channel : Nat
  bandwidth : Nat
  cross : Bool
  other : Payload
  deriving DecidableEq, Repr

/-- The `beerocks_message::sNodeRssiMeasurement` record. -/
structure sNodeRssiMeasurement where
  mac : sMacAddr
  rx_rssi : Int
  src_module : eBeeRocksEntities
  other : Payload
  deriving DecidableEq, Repr

/-- The `beerocks_message::sBeaconRequest11k` record. -/
structure sBeaconRequest11k where
  use_optional_ssid : Bool
  ssid : String
  other : Payload
  deriving DecidableEq, Repr

/-- The `beerocks_message::sClientMonitoringParams` record. -/
structure sClientMonitoringParams where
  mac : sMacAddr
  bridge_4addr_mac : sMacAddr
  ipv4 : sIpv4Addr
  is_ire : Bool
  other : Payload
  deriving DecidableEq, Repr

/-- The `beerocks_message::sLoggingLevelChange` record. -/
structure sLoggingLevelChange where
  module_name : eBeeRocksProcesses
  log_level : Nat
  enable : Bool
  deriving DecidableEq, Repr

/-- The `beerocks_message::sClientAssociationParams` / disconnection record: the client
MAC and the rest. -/
structure sClientParams where
  mac : sMacAddr
  other : Payload
  deriving DecidableEq, Repr

/-- The `beerocks_message::sBackhaulRssi` record. -/
structure sBackhaulRssi where
  rssi : Int
  other : Payload
  deriving DecidableEq, Repr

/-- One entry of `pending_iface_actions`. -/
structure sIfaceAction where
  iface : String
  operation : eWifiIfaceOperation
  timestamp : TimePoint
  deriving DecidableEq, Repr

/-- Constants and pure helpers defined outside son_slave_thread.cpp. -/
structure Constants where
  BEEROCKS_VERSION : String
  SLAVE_INIT_DELAY_SEC : Nat
  IFACE_ACTION_TIMEOUT_SEC : Int
  KEEP_ALIVE_INTERVAL_MSC : Int
  CONNECT_PLATFORM_RETRY_COUNT_MAX : Nat
  WAIT_FOR_PLATFORM_MANAGER_REGISTER_RESPONSE_TIMEOUT_SEC : Nat
  STATE_WAIT_FOR_WLAN_READY_STATUS_RESPONSE_TIMEOUT_SEC : Nat
  STATE_WAIT_FOR_UNIFY_WIFI_CREDENTIALS_RESPONSE_TIMEOUT_SEC : Nat
  WAIT_FOR_JOINED_RESPONSE_TIMEOUT_SEC : Nat
  WAIT_BEFORE_SEND_SLAVE_JOINED_NOTIFICATION_SEC : Nat
  WAIT_BEFORE_SEND_BH_ENABLE_NOTIFICATION_SEC : Nat
  IRE_MAX_WIRELESS_RECONNECTION_TIME_MSC : Nat
  SON_SLAVE_WAIT_AFTER_WIFI_CONFIG_UPDATE_SEC : Nat
  STATE_WAIT_FOR_WIFI_CONFIGURATION_UPDATE_COMPLETE_TIMEOUT_SEC : Nat
  STATE_WAIT_FOR_PLATFORM_BEEROCKS_CREDENTIALS_UPDATE_RESPONSE_TIMEOUT_SEC : Nat
  MONITOR_HEARTBEAT_TIMEOUT_SEC : Int
  MONITOR_HEARTBEAT_RETRIES : Nat
  AP_MANAGER_HEARTBEAT_TIMEOUT_SEC : Int
  AP_MANAGER_HEARTBEAT_RETRIES : Nat
  BH_SIGNAL_RSSI_THRESHOLD_HYSTERESIS : Int
  BH_SIGNAL_RSSI_THRESHOLD_LOW : Int
  BH_SIGNAL_RSSI_THRESHOLD_HIGH : Int
  IFACE_RADIO_ID : Int
  IFACE_TYPE_UNSUPPORTED : Nat
  IFACE_TYPE_GW_BRIDGE : Nat
  ZERO_MAC_STRING : String
  tx_data_capacity : Nat
  tx_sta_stats_capacity : Nat
  vs_default_direction : eBeeRocksMessageDirection
  vs_default_radio_mac : sMacAddr
  BPL_WLAN_SEC_NONE_STR : String
  BPL_WLAN_SEC_WEP64_STR : String
  BPL_WLAN_SEC_WEP128_STR : String
  BPL_WLAN_SEC_WPA_PSK_STR : String
  BPL_WLAN_SEC_WPA2_PSK_STR : String
  BPL_WLAN_SEC_WPA_WPA2_PSK_STR : String
  mac_to_string : sMacAddr → String
  ipv4_to_string : sIpv4Addr → String
  version_from_string : String → sBeerocksVersion
  is_dfs_channel : Nat → Bool
  mac_from_string : String → sMacAddr
  tlv : TlvConstants
  TLV_CHANNEL_PREFERENCE : Nat
  tx_buffer_len : Nat
  cmdu_header_len : Nat

/-- What the environment answers during one call. -/
structure Env where
  now : TimePoint
  platform_connect : Option SocketId
  backhaul_connect : Option SocketId
  ap_manager_start_ok : Bool
  ap_manager_last_error : eApManagerThreadErrors
  bridge_info_ip : String
  bridge_info_mac : String
  tx_buffer : List Nat
  deriving DecidableEq, Repr

/-! ## Inbound messages -/

/-- The inbound vendor-specific messages with action `ACTION_CONTROL`, by `action_op`,
with the fields of their class that the supervisor reads. -/
inductive ControlOp
  | ACTION_CONTROL_SLAVE_JOINED_RESPONSE (err_code : eSlaveJoinResponseErrCode)
      (master_version : String) (config : sSonConfig)
  | ACTION_CONTROL_ARP_QUERY_REQUEST (params : Payload)
  | ACTION_CONTROL_SON_CONFIG_UPDATE (config : sSonConfig)
  | ACTION_CONTROL_HOSTAP_SET_RESTRICTED_FAILSAFE_CHANNEL_REQUEST (params : Payload)
  | ACTION_CONTROL_HOSTAP_CHANNEL_SWITCH_ACS_START (cs_params : sApChannelSwitch)
  | ACTION_CONTROL_CLIENT_START_MONITORING_REQUEST (params : sClientMonitoringParams)
  | ACTION_CONTROL_CLIENT_STOP_MONITORING_REQUEST (mac : sMacAddr)
  | ACTION_CONTROL_CLIENT_RX_RSSI_MEASUREMENT_REQUEST (params : sNodeRssiMeasurementRequest)
  | ACTION_CONTROL_CLIENT_DISALLOW_REQUEST (mac : sMacAddr) (reject_sta : Nat)
  | ACTION_CONTROL_CLIENT_ALLOW_REQUEST (mac : sMacAddr) (ipv4 : sIpv4Addr)
  | ACTION_CONTROL_CLIENT_DISCONNECT_REQUEST (mac : sMacAddr) (vap_id : Int) (type : Nat)
      (reason : Nat)
  | ACTION_CONTROL_CLIENT_BSS_STEER_REQUEST (params : Payload)
  | ACTION_CONTROL_CONTROLLER_PING_REQUEST (total seq size : Nat)
  | ACTION_CONTROL_AGENT_PING_RESPONSE (total seq size : Nat)
  | ACTION_CONTROL_CHANGE_MODULE_LOGGING_LEVEL (params : sLoggingLevelChange)
  | ACTION_CONTROL_BACKHAUL_ROAM_REQUEST (params : Payload)
  | ACTION_CONTROL_BACKHAUL_RESET
  | ACTION_CONTROL_HOSTAP_TX_ON_REQUEST
  | ACTION_CONTROL_HOSTAP_TX_OFF_REQUEST
  | ACTION_CONTROL_HOSTAP_STATS_MEASUREMENT_REQUEST (sync : Nat)
  | ACTION_CONTROL_HOSTAP_SET_NEIGHBOR_11K_REQUEST (params : Payload)
  | ACTION_CONTROL_HOSTAP_REMOVE_NEIGHBOR_11K_REQUEST (params : Payload)
  | ACTION_CONTROL_CLIENT_BEACON_11K_REQUEST (params : sBeaconRequest11k)
  | ACTION_CONTROL_CLIENT_CHANNEL_LOAD_11K_REQUEST (params : Payload)
  | ACTION_CONTROL_CLIENT_STATISTICS_11K_REQUEST (params : Payload)
  | ACTION_CONTROL_CLIENT_LINK_MEASUREMENT_11K_REQUEST (mac : sMacAddr)
  | ACTION_CONTROL_HOSTAP_UPDATE_STOP_ON_FAILURE_ATTEMPTS_REQUEST (attempts : Nat)
  | ACTION_CONTROL_HOSTAP_DISABLED_BY_MASTER
  | ACTION_CONTROL_WIFI_CREDENTIALS_UPDATE_PREPARE_REQUEST (params : sWifiCredentials)
  | ACTION_CONTROL_WIFI_CREDENTIALS_UPDATE_PRE_COMMIT_REQUEST
  | ACTION_CONTROL_WIFI_CREDENTIALS_UPDATE_COMMIT_REQUEST
  | ACTION_CONTROL_WIFI_CREDENTIALS_UPDATE_ABORT_REQUEST
  | ACTION_CONTROL_VERSION_MISMATCH_NOTIFICATION (versions : sVersions)
  | ACTION_CONTROL_STEERING_CLIENT_SET_GROUP_REQUEST (params : Payload)
  | ACTION_CONTROL_STEERING_CLIENT_SET_REQUEST (params : Payload)
  | ACTION_CONTROL_OTHER (op : Nat)

/-- The inbound vendor-specific messages with action `ACTION_BACKHAUL`. -/
inductive BackhaulOp
  | ACTION_BACKHAUL_REGISTER_RESPONSE
  | ACTION_BACKHAUL_CONNECTED_NOTIFICATION (params : sBackhaulParams)
  | ACTION_BACKHAUL_BUSY_NOTIFICATION
  | ACTION_BACKHAUL_DISCONNECTED_NOTIFICATION (stopped : Bool)
  | ACTION_BACKHAUL_CLIENT_RX_RSSI_MEASUREMENT_RESPONSE (params : sNodeRssiMeasurement)
  | ACTION_BACKHAUL_CLIENT_RX_RSSI_MEASUREMENT_CMD_RESPONSE (mac : sMacAddr)
  | ACTION_BACKHAUL_DL_RSSI_REPORT_NOTIFICATION (params : sBackhaulRssi)
  | ACTION_BACKHAUL_OTHER (op : Nat)

/-- The inbound vendor-specific messages with action `ACTION_PLATFORM`. -/
inductive PlatformOp
  | ACTION_PLATFORM_ADVERTISE_SSID_FLAG_UPDATE_RESPONSE (result : Bool)
  | ACTION_PLATFORM_SON_SLAVE_REGISTER_RESPONSE (valid : Bool)
      (platform_settings : sPlatformSettings) (wlan_settings : sWlanSettings)
  | ACTION_PLATFORM_GET_WLAN_READY_STATUS_RESPONSE (result : Nat)
  | ACTION_PLATFORM_WIFI_SET_IFACE_STATE_RESPONSE (iface_name : String)
      (iface_operation : eWifiIfaceOperation) (success : Bool)
  | ACTION_PLATFORM_WIFI_CREDENTIALS_SET_RESPONSE (iface_name : String) (success : Nat)
  | ACTION_PLATFORM_POST_INIT_CONFIG_RESPONSE (result : Nat)
  | ACTION_PLATFORM_WIFI_SET_RADIO_TX_STATE_RESPONSE (iface_name : String) (enable : Bool)
      (success : Bool)
  | ACTION_PLATFORM_ARP_MONITOR_NOTIFICATION (params : Payload)
  | ACTION_PLATFORM_WLAN_PARAMS_CHANGED_NOTIFICATION (wlan_settings : sWlanSettings)
  | ACTION_PLATFORM_OPERATIONAL_NOTIFICATION (operational : Nat)
  | ACTION_PLATFORM_DHCP_MONITOR_NOTIFICATION (op : eDHCPOp) (mac : sMacAddr)
      (ipv4 : sIpv4Addr) (hostname : String)
  | ACTION_PLATFORM_BEEROCKS_CREDENTIALS_UPDATE_RESPONSE (result : Bool)
  | ACTION_PLATFORM_WIFI_CONFIGURATION_UPDATE_REQUEST (config_start : Bool)
  | ACTION_PLATFORM_ARP_QUERY_RESPONSE (params : Payload)
  | ACTION_PLATFORM_OTHER (op : Nat)

/-- The inbound vendor-specific messages with action `ACTION_APMANAGER`. -/
inductive ApManagerOp
  | ACTION_APMANAGER_INIT_DONE_NOTIFICATION
  | ACTION_APMANAGER_HEARTBEAT_NOTIFICATION
  | ACTION_APMANAGER_JOINED_NOTIFICATION (params : sNodeHostap) (cs_params : sApChannelSwitch)
  | ACTION_APMANAGER_HOSTAP_SET_RESTRICTED_FAILSAFE_CHANNEL_RESPONSE (success : Nat)
  | ACTION_APMANAGER_HOSTAP_AP_DISABLED_NOTIFICATION (vap_id : Int)
  | ACTION_APMANAGER_HOSTAP_AP_ENABLED_NOTIFICATION (vap_id : Int) (vap_info : Payload)
  | ACTION_APMANAGER_HOSTAP_VAPS_LIST_UPDATE_NOTIFICATION (params : Payload)
  | ACTION_APMANAGER_HOSTAP_ACS_NOTIFICATION (cs_params : sApChannelSwitch)
      (supported_channels : Payload)
  | ACTION_APMANAGER_HOSTAP_CSA_NOTIFICATION (cs_params : sApChannelSwitch)
  | ACTION_APMANAGER_HOSTAP_CSA_ERROR_NOTIFICATION (cs_params : sApChannelSwitch)
  | ACTION_APMANAGER_CLIENT_RX_RSSI_MEASUREMENT_RESPONSE (params : sNodeRssiMeasurement)
  | ACTION_APMANAGER_CLIENT_DISCONNECTED_NOTIFICATION (params : sClientParams)
  | ACTION_APMANAGER_CLIENT_BSS_STEER_RESPONSE (params : Payload)
  | ACTION_APMANAGER_CLIENT_RX_RSSI_MEASUREMENT_CMD_RESPONSE (mac : sMacAddr)
  | ACTION_APMANAGER_HOSTAP_DFS_CAC_COMPLETED_NOTIFICATION (params : Payload)
  | ACTION_APMANAGER_HOSTAP_DFS_CHANNEL_AVAILABLE_NOTIFICATION (params : Payload)
  | ACTION_APMANAGER_CLIENT_ASSOCIATED_NOTIFICATION (params : sClientParams)
  | ACTION_APMANAGER_STEERING_EVENT_PROBE_REQ_NOTIFICATION (params : Payload)
  | ACTION_APMANAGER_STEERING_EVENT_AUTH_FAIL_NOTIFICATION (params : Payload)
  | ACTION_APMANAGER_CLIENT_DISCONNECT_RESPONSE (params : Payload)
  | ACTION_APMANAGER_STEERING_CLIENT_SET_RESPONSE (params : Payload)
  | ACTION_APMANAGER_OTHER (op : Nat)

/-- The inbound vendor-specific messages with action `ACTION_MONITOR`. -/
inductive MonitorOp
  | ACTION_MONITOR_JOINED_NOTIFICATION
  | ACTION_MONITOR_HEARTBEAT_NOTIFICATION
  | ACTION_MONITOR_HOSTAP_AP_DISABLED_NOTIFICATION (vap_id : Int)
  | ACTION_MONITOR_HOSTAP_STATUS_CHANGED_NOTIFICATION (new_tx_state : Int)
      (new_hostap_enabled_state : Int)
  | ACTION_MONITOR_CLIENT_RX_RSSI_MEASUREMENT_RESPONSE (params : sNodeRssiMeasurement)
  | ACTION_MONITOR_CLIENT_RX_RSSI_MEASUREMENT_START_NOTIFICATION (mac : sMacAddr)
  | ACTION_MONITOR_HOSTAP_STATS_MEASUREMENT_RESPONSE (ap_stats : Payload)
      (sta_stats : List Payload)
  | ACTION_MONITOR_CLIENT_NO_RESPONSE_NOTIFICATION (mac : sMacAddr)
  | ACTION_MONITOR_CLIENT_BEACON_11K_RESPONSE (params : Payload)
  | ACTION_MONITOR_CLIENT_CHANNEL_LOAD_11K_RESPONSE (params : Payload)
  | ACTION_MONITOR_CLIENT_STATISTICS_11K_RESPONSE (params : Payload)
  | ACTION_MONITOR_CLIENT_LINK_MEASUREMENTS_11K_RESPONSE (params : Payload)
  | ACTION_MONITOR_CLIENT_RX_RSSI_MEASUREMENT_CMD_RESPONSE (mac : sMacAddr)
  | ACTION_MONITOR_CLIENT_NO_ACTIVITY_NOTIFICATION (mac : sMacAddr)
  | ACTION_MONITOR_HOSTAP_ACTIVITY_NOTIFICATION (params : Payload)
  | ACTION_MONITOR_ERROR_NOTIFICATION (error_code : eMonitorThreadErrors)
  | ACTION_MONITOR_CLIENT_RX_RSSI_MEASUREMENT_NOTIFICATION (params : Payload)
  | ACTION_MONITOR_STEERING_EVENT_CLIENT_ACTIVITY_NOTIFICATION (params : Payload)
  | ACTION_MONITOR_STEERING_EVENT_SNR_XING_NOTIFICATION (params : Payload)
  | ACTION_MONITOR_STEERING_CLIENT_SET_GROUP_RESPONSE (params : Payload)
  | ACTION_MONITOR_STEERING_CLIENT_SET_RESPONSE (params : Payload)
  | ACTION_MONITOR_OTHER (op : Nat)

/-- The header of a vendor-specific message (`cACTION_HEADER`) without its action and
action_op, which are carried by the body. -/
structure cACTION_HEADER where
  direction : eBeeRocksMessageDirection
  id : Nat
  radio_mac : sMacAddr
  deriving DecidableEq, Repr

/-- The action of an inbound vendor-specific message together with its action_op. -/
inductive VsBody
  | ACTION_CONTROL (op : ControlOp)
  | ACTION_BACKHAUL (op : BackhaulOp)
  | ACTION_PLATFORM (op : PlatformOp)
  | ACTION_APMANAGER (op : ApManagerOp)
  | ACTION_MONITOR (op : MonitorOp)
  | ACTION_OTHER (action : Nat)

/-- An inbound vendor-specific message as `parse_intel_vs_message` returns it. `cls_ok`
says whether `addClass` of the class of its action_op succeeds on the receive buffer;
when it is false the fields of the body are not read. -/
structure VsRx where
  header : cACTION_HEADER
  body : VsBody
  cls_ok : Bool

/-- The TLVs an inbound 1905.1 CMDU can hold, as far as the supervisor tells them apart.
`TLV_WSC` holds the manufacturer string of the M2 frame, or `none` when the TLV does not
parse as an M2. `TLV_VENDOR_SPECIFIC` holds the vendor message, or `none` when
`parse_intel_vs_message` fails on it. -/
inductive Tlv
  | TLV_AP_RADIO_BASIC_CAPABILITIES
  | TLV_AP_RADIO_IDENTIFIER (radio_uid : Option sMacAddr)
  | TLV_WSC (m2_manufacturer : Option String)
  | TLV_VENDOR_SPECIFIC (vs : Option VsRx)
  | TLV_OTHER (type : Nat)

/-- The 1905.1 message types the supervisor tells apart. -/
inductive eMessageType
  | AP_AUTOCONFIGURATION_WSC_MESSAGE
  | CHANNEL_PREFERENCE_QUERY_MESSAGE
  | OTHER_MESSAGE (type : Nat)
  deriving DecidableEq, Repr

/-- An inbound CMDU (`CmduMessageRx`): a vendor-specific message (`none` when
`parse_intel_vs_message` fails), or a 1905.1 message with its message id and the TLVs
that follow the header. -/
inductive CmduRx
  | VENDOR_SPECIFIC_MESSAGE (vs : Option VsRx)
  | IEEE1905_MESSAGE (type : eMessageType) (mid : Nat) (tlvs : List Tlv)

/-! ## Outbound frames -/

/-- The fields the FSM writes into a `cACTION_BACKHAUL_ENABLE`. The wireless and
interface fields stay at the zero value of a fresh message on a local gateway. -/
structure sBackhaulEnable where
  ssid : String
  pass : String
  security_type : Option WiFiSec
  wire_iface : String
  wire_iface_type : Nat
  wireless_iface_type : Nat
  wired_backhaul : Bool
  iface_mac : sMacAddr
  iface_is_5ghz : Bool
  preferred_bssid : String
  ap_iface : String
  sta_iface : String
  bridge_iface : String
  deriving DecidableEq, Repr

/-- The fields the FSM writes into a `cACTION_BACKHAUL_REGISTER_REQUEST`. -/
structure sBackhaulRegister where
  sta_iface : String
  hostap_iface : String
  local_master : Bool
  local_gw : Bool
  sta_iface_filter_low : Bool
  onboarding : Bool
  deriving DecidableEq, Repr

/-- The fields of a `cACTION_PLATFORM_WIFI_INTERFACE_STATUS_NOTIFICATION`. -/
structure sIfaceStatusNotification where
  iface_name_ap : String
  iface_name_bh : String
  status_ap : eRadioStatus
  status_bh : eRadioStatus
  status_bh_wired : eRadioStatus
  is_bh_manager : Bool
  status_operational : Bool
  deriving DecidableEq, Repr

/-- The vendor-specific message classes the supervisor builds, with the fields it sets. -/
inductive TxOp
  | cACTION_APMANAGER_CLIENT_ALLOW_REQUEST (mac : sMacAddr) (ipv4 : sIpv4Addr)
  | cACTION_APMANAGER_CLIENT_BSS_STEER_REQUEST (params : Payload)
  | cACTION_APMANAGER_CLIENT_DISALLOW_REQUEST (mac : sMacAddr) (reject_sta : Nat)
  | cACTION_APMANAGER_CLIENT_DISCONNECT_REQUEST (mac : sMacAddr) (vap_id : Int) (type : Nat)
      (reason : Nat)
  | cACTION_APMANAGER_CLIENT_IRE_CONNECTED_NOTIFICATION (mac : sMacAddr)
  | cACTION_APMANAGER_CLIENT_RX_RSSI_MEASUREMENT_REQUEST (params : sNodeRssiMeasurementRequest)
  | cACTION_APMANAGER_HOSTAP_CHANNEL_SWITCH_ACS_START (cs_params : sApChannelSwitch)
  | cACTION_APMANAGER_HOSTAP_REMOVE_NEIGHBOR_11K_REQUEST (params : Payload)
  | cACTION_APMANAGER_HOSTAP_SET_NEIGHBOR_11K_REQUEST (params : Payload)
  | cACTION_APMANAGER_HOSTAP_SET_RESTRICTED_FAILSAFE_CHANNEL_REQUEST (params : Payload)
  | cACTION_APMANAGER_HOSTAP_VAPS_LIST_UPDATE_REQUEST
  | cACTION_APMANAGER_STEERING_CLIENT_SET_REQUEST (params : Payload)
  | cACTION_BACKHAUL_CLIENT_RX_RSSI_MEASUREMENT_REQUEST (params : sNodeRssiMeasurementRequest)
  | cACTION_BACKHAUL_ENABLE (fields : sBackhaulEnable)
  | cACTION_BACKHAUL_REGISTER_REQUEST (fields : sBackhaulRegister)
  | cACTION_BACKHAUL_RESET
  | cACTION_BACKHAUL_ROAM_REQUEST (params : Payload)
  | cACTION_BACKHAUL_UPDATE_STOP_ON_FAILURE_ATTEMPTS_REQUEST (attempts : Nat)
  | cACTION_CONTROL_AGENT_PING_REQUEST (total seq size : Nat) (data : List Nat)
  | cACTION_CONTROL_ARP_QUERY_RESPONSE (params : Payload)
  | cACTION_CONTROL_BACKHAUL_DL_RSSI_REPORT_NOTIFICATION (params : sBackhaulRssi)
  | cACTION_CONTROL_CLIENT_ARP_MONITOR_NOTIFICATION (params : Payload)
  | cACTION_CONTROL_CLIENT_ASSOCIATED_NOTIFICATION (params : sClientParams)
  | cACTION_CONTROL_CLIENT_BEACON_11K_RESPONSE (params : Payload)
  | cACTION_CONTROL_CLIENT_BSS_STEER_RESPONSE (params : Payload)
  | cACTION_CONTROL_CLIENT_CHANNEL_LOAD_11K_RESPONSE (params : Payload)
  | cACTION_CONTROL_CLIENT_DHCP_COMPLETE_NOTIFICATION (mac : sMacAddr) (ipv4 : sIpv4Addr)
      (name : String)
  | cACTION_CONTROL_CLIENT_DISCONNECTED_NOTIFICATION (params : sClientParams)
  | cACTION_CONTROL_CLIENT_DISCONNECT_RESPONSE (params : Payload)
  | cACTION_CONTROL_CLIENT_LINK_MEASUREMENTS_11K_RESPONSE (params : Payload)
  | cACTION_CONTROL_CLIENT_NO_ACTIVITY_NOTIFICATION (mac : sMacAddr)
  | cACTION_CONTROL_CLIENT_NO_RESPONSE_NOTIFICATION (mac : sMacAddr)
  | cACTION_CONTROL_CLIENT_RX_RSSI_MEASUREMENT_CMD_RESPONSE (mac : sMacAddr)
  | cACTION_CONTROL_CLIENT_RX_RSSI_MEASUREMENT_NOTIFICATION (params : Payload)
  | cACTION_CONTROL_CLIENT_RX_RSSI_MEASUREMENT_RESPONSE (params : sNodeRssiMeasurement)
  | cACTION_CONTROL_CLIENT_RX_RSSI_MEASUREMENT_START_NOTIFICATION (mac : sMacAddr)
  | cACTION_CONTROL_CLIENT_STATISTICS_11K_RESPONSE (params : Payload)
  | cACTION_CONTROL_CONTROLLER_PING_RESPONSE (total seq size : Nat) (data : List Nat)
  | cACTION_CONTROL_HOSTAP_ACS_NOTIFICATION (cs_params : sApChannelSwitch)
      (supported_channels : Payload)
  | cACTION_CONTROL_HOSTAP_ACTIVITY_NOTIFICATION (params : Payload)
  | cACTION_CONTROL_HOSTAP_AP_DISABLED_NOTIFICATION (vap_id : Int)
  | cACTION_CONTROL_HOSTAP_AP_ENABLED_NOTIFICATION (vap_id : Int) (vap_info : Payload)
  | cACTION_CONTROL_HOSTAP_CSA_ERROR_NOTIFICATION (cs_params : sApChannelSwitch)
  | cACTION_CONTROL_HOSTAP_CSA_NOTIFICATION (cs_params : sApChannelSwitch)
  | cACTION_CONTROL_HOSTAP_DFS_CAC_COMPLETED_NOTIFICATION (params : Payload)
  | cACTION_CONTROL_HOSTAP_DFS_CHANNEL_AVAILABLE_NOTIFICATION (params : Payload)
  | cACTION_CONTROL_HOSTAP_SET_RESTRICTED_FAILSAFE_CHANNEL_RESPONSE (success : Nat)
  | cACTION_CONTROL_HOSTAP_STATS_MEASUREMENT_RESPONSE (ap_stats : Payload)
      (sta_stats : List Payload)
  | cACTION_CONTROL_HOSTAP_TX_ON_RESPONSE
  | cACTION_CONTROL_HOSTAP_VAPS_LIST_UPDATE_NOTIFICATION (params : Payload)
  | cACTION_CONTROL_PLATFORM_OPERATIONAL_NOTIFICATION (operational : Nat) (bridge_mac : String)
  | cACTION_CONTROL_STEERING_CLIENT_SET_GROUP_RESPONSE (params : Payload)
  | cACTION_CONTROL_STEERING_CLIENT_SET_RESPONSE (params : Payload)
  | cACTION_CONTROL_STEERING_EVENT_AUTH_FAIL_NOTIFICATION (params : Payload)
  | cACTION_CONTROL_STEERING_EVENT_CLIENT_ACTIVITY_NOTIFICATION (params : Payload)
  | cACTION_CONTROL_STEERING_EVENT_PROBE_REQ_NOTIFICATION (params : Payload)
  | cACTION_CONTROL_STEERING_EVENT_SNR_XING_NOTIFICATION (params : Payload)
  | cACTION_CONTROL_WIFI_CREDENTIALS_UPDATE_PREPARE_RESPONSE
  | cACTION_CONTROL_WIFI_CREDENTIALS_UPDATE_PRE_COMMIT_RESPONSE
  | cACTION_MONITOR_CHANGE_MODULE_LOGGING_LEVEL (params : sLoggingLevelChange)
  | cACTION_MONITOR_CLIENT_BEACON_11K_REQUEST (params : sBeaconRequest11k)
  | cACTION_MONITOR_CLIENT_CHANNEL_LOAD_11K_REQUEST (params : Payload)
  | cACTION_MONITOR_CLIENT_LINK_MEASUREMENT_11K_REQUEST (mac : sMacAddr)
  | cACTION_MONITOR_CLIENT_RX_RSSI_MEASUREMENT_REQUEST (params : sNodeRssiMeasurementRequest)
  | cACTION_MONITOR_CLIENT_START_MONITORING_REQUEST (params : sClientMonitoringParams)
  | cACTION_MONITOR_CLIENT_STATISTICS_11K_REQUEST (params : Payload)
  | cACTION_MONITOR_CLIENT_STOP_MONITORING_REQUEST (mac : sMacAddr)
  | cACTION_MONITOR_ERROR_NOTIFICATION_ACK
  | cACTION_MONITOR_HOSTAP_STATS_MEASUREMENT_REQUEST (sync : Nat)
  | cACTION_MONITOR_SON_CONFIG_UPDATE (config : sSonConfig)
  | cACTION_MONITOR_STEERING_CLIENT_SET_GROUP_REQUEST (params : Payload)
  | cACTION_MONITOR_STEERING_CLIENT_SET_REQUEST (params : Payload)
  | cACTION_PLATFORM_ADVERTISE_SSID_FLAG_UPDATE_REQUEST (flag : Nat)
  | cACTION_PLATFORM_ARP_QUERY_REQUEST (params : Payload)
  | cACTION_PLATFORM_BEEROCKS_CREDENTIALS_UPDATE_REQUEST (params : sWifiCredentials)
  | cACTION_PLATFORM_CHANGE_MODULE_LOGGING_LEVEL (params : sLoggingLevelChange)
  | cACTION_PLATFORM_ERROR_NOTIFICATION (code : BplErr) (data : String)
  | cACTION_PLATFORM_GET_WLAN_READY_STATUS_REQUEST
  | cACTION_PLATFORM_MASTER_SLAVE_VERSIONS_NOTIFICATION (versions : sVersions)
  | cACTION_PLATFORM_POST_INIT_CONFIG_REQUEST (iface_name : String)
  | cACTION_PLATFORM_SON_SLAVE_BACKHAUL_CONNECTION_COMPLETE_NOTIFICATION
      (is_backhaul_manager : Bool)
  | cACTION_PLATFORM_SON_SLAVE_REGISTER_REQUEST (iface_name : String)
  | cACTION_PLATFORM_VERSION_MISMATCH_NOTIFICATION (versions : sVersions)
  | cACTION_PLATFORM_WIFI_CREDENTIALS_SET_REQUEST (iface_name ssid pass security_type : String)
  | cACTION_PLATFORM_WIFI_INTERFACE_STATUS_NOTIFICATION (fields : sIfaceStatusNotification)
  | cACTION_PLATFORM_WIFI_SET_IFACE_STATE_REQUEST (iface_name : String)
      (iface_operation : eWifiIfaceOperation)
  | cACTION_PLATFORM_WIFI_SET_RADIO_TX_STATE_REQUEST (iface_name : String) (enable : Bool)

/-- One entry of the operating classes list of `tlvApRadioBasicCapabilities`. -/
structure cOperatingClassesInfo where
  operating_class : Nat
  maximum_transmit_power_dbm : Nat
  statically_non_operable_channels_list : List Nat
  deriving DecidableEq, Repr

/-- The `tlvApRadioBasicCapabilities` the join builds; `radio_uid` is the string handed
to `mac_from_string`. -/
structure tlvApRadioBasicCapabilities where
  radio_uid : String
  maximum_number_of_bsss_supported : Nat
  operating_classes_info_list : List cOperatingClassesInfo
  deriving DecidableEq, Repr

/-- The WSC RF band attribute values. -/
inductive eWscRfBands
  | WSC_RF_BAND_2GHZ
  | WSC_RF_BAND_5GHZ
  deriving DecidableEq, Repr

/-- The attributes of the M1 frame that `autoconfig_wsc_add_m1` sets. The authentication
and encryption flags are the lists of the flags or-ed together; the BSS type bitmap
likewise. -/
structure tlvWscM1 where
  mac_attr : sMacAddr
  manufacturer_attr : String
  model_name_attr : String
  model_number_attr : String
  device_name_attr : String
  serial_number_attr : String
  uuid_e_attr : List Nat
  authentication_type_flags_attr : List String
  encryption_type_flags_attr : List String
  rf_bands_attr : eWscRfBands
  vendor_extensions_bss_type : List String
  primary_device_type_attr : String
  deriving DecidableEq, Repr

/-- The backhaul parameters inside a slave joined notification, kept as the strings
handed to `mac_from_string` / `ipv4_from_string`; `none` is a field left at the zero
value of a fresh message. -/
structure sJoinedBackhaulParams where
  gw_ipv4 : String
  gw_bridge_mac : String
  is_backhaul_manager : Bool
  backhaul_iface_type : Nat
  backhaul_mac : String
  backhaul_channel : Nat
  backhaul_bssid : String
  backhaul_is_wireless : Bool
  bridge_mac : Option String
  bridge_ipv4 : Option String
  backhaul_ipv4 : String
  backhaul_scan_measurement_list : Payload
  deriving DecidableEq, Repr

/-- The fields of `cACTION_CONTROL_SLAVE_JOINED_NOTIFICATION`. -/
structure cACTION_CONTROL_SLAVE_JOINED_NOTIFICATION where
  is_slave_reconf : Bool
  slave_version : String
  platform : Nat
  low_pass_filter_on : Bool
  enable_repeater_mode : Bool
  radio_identifier : String
  backhaul_params : sJoinedBackhaulParams
  platform_settings : sPlatformSettings
  wlan_settings : sWlanSettings
  hostap : sNodeHostap
  cs_params : sApChannelSwitch
  deriving DecidableEq, Repr

/-- A frame built on `cmdu_tx`: a vendor-specific message with its header, the
AP-Autoconfiguration WSC message of the join, or a channel preference report with the
channel preference TLV as its bytes have it. -/
inductive TxFrame
  | VENDOR_SPECIFIC_MESSAGE (header : cACTION_HEADER) (op : TxOp)
  | AP_AUTOCONFIGURATION_WSC_MESSAGE (radio_basic_caps : tlvApRadioBasicCapabilities)
      (m1 : tlvWscM1) (notification : cACTION_CONTROL_SLAVE_JOINED_NOTIFICATION)
  | CHANNEL_PREFERENCE_REPORT_MESSAGE (mid : Nat)
      (channel_preference : sChannelPreferenceOnWire)

/-- A frame written to a socket. `dst_mac` and `src_mac` are the bridge addresses given
for a frame to the controller, and empty for a frame to a local worker. -/
structure Sent where
  sd : SocketId
  frame : TxFrame
  dst_mac : String
  src_mac : String

/-! ## The supervisor state -/

/-- The members of `slave_thread`. -/
structure State where
  config : sSlaveConfig
  slave_state : eSlaveState
  slave_state_timer : TimePoint
  should_stop : Bool
  ap_manager : Bool
  backhaul_manager_socket : Option SocketId
  master_socket : Option SocketId
  monitor_socket : Option SocketId
  ap_manager_socket : Option SocketId
  platform_manager_socket : Option SocketId
  configuration_stop_on_failure_attempts : Int
  stop_on_failure_attempts : Int
  stopped : Bool
  is_credentials_changed_on_db : Bool
  is_backhaul_disconnected : Bool
  is_slave_reset : Bool
  is_backhaul_manager : Bool
  is_backhual_reconf : Bool
  is_wlan_credentials_unified : Bool
  detach_on_conf_change : Bool
  slave_resets_counter : Nat
  connect_platform_retry_counter : Nat
  keep_alive_retries : Nat
  monitor_retries_counter : Nat
  ap_manager_retries_counter : Nat
  master_last_seen : TimePoint
  monitor_last_seen : TimePoint
  ap_manager_last_seen : TimePoint
  pending_iface_actions : List (String × sIfaceAction)
  pending_client_association_cmdu : List (String × sClientParams)
  platform_settings : sPlatformSettings
  wlan_settings : sWlanSettings
  backhaul_params : sSlaveBackhaulParams
  hostap_params : sNodeHostap
  hostap_cs_params : sApChannelSwitch
  son_config : sSonConfig
  new_credentials : sWifiCredentials
  master_version : String
  iface_status_ap : eRadioStatus
  iface_status_ap_prev : eRadioStatus
  iface_status_bh : eRadioStatus
  iface_status_bh_prev : eRadioStatus
  iface_status_bh_wired : eRadioStatus
  iface_status_bh_wired_prev : eRadioStatus
  iface_status_operational_state : Bool
  iface_status_operational_state_prev : Bool
  last_reported_backhaul_rssi : Int
  log_levels : List (Nat × Bool)
  sent : List Sent
  fsm_runs : Nat
  null_dereference : Bool

/-! ## Transport and small helpers -/

/-- A `std::unordered_map<std::string, V>` is a list of key/value pairs with distinct
keys. The order in which the C++ container iterates is not specified; here iteration
visits the list in the order of insertion. `m[key] = v`: -/
def map_assign {V : Type} (m : List (String × V)) (key : String) (v : V) : List (String × V) :=
  if (m.lookup key).isSome then m.map (fun p => if p.1 = key then (key, v) else p)
  else m ++ [(key, v)]

/-- The `erase(key)` of a `std::unordered_map<std::string, V>`. -/
def map_erase {V : Type} (m : List (String × V)) (key : String) : List (String × V) :=
  m.filter (fun p => p.1 ≠ key)

/-- Modelled from the spec: `message_com::send_cmdu` (beerocks bcl, not part of the
sources) writes the frame built on `cmdu_tx` to the given endpoint. An absent endpoint
(`nullptr`) receives nothing and the call returns false; a write to an attached local
endpoint succeeds. -/
def send_cmdu (s : State) (sd : Option SocketId) (f : TxFrame) : Bool × State :=
  match sd with
  | none => (false, s)
  | some k =>
    (true, { s with sent := s.sent ++ [{ sd := k, frame := f, dst_mac := "", src_mac := "" }] })

/-- Modelled from the spec: `message_com::create_vs_message<T>(cmdu_tx, id)` (beerocks
bcl, not part of the sources) starts a vendor-specific message of class `T` with the
given header id (0 when omitted) and the default direction and radio MAC. -/
def create_vs_message (K : Constants) (op : TxOp) (id : Nat) : TxFrame :=
  .VENDOR_SPECIFIC_MESSAGE
    { direction := K.vs_default_direction, id := id, radio_mac := K.vs_default_radio_mac } op

/-- The local function `platform_to_bwl_security`. -/
def platform_to_bwl_security (sec : String) : WiFiSec :=
  if sec = "None" then .None
  else if sec = "WEP-64" then .WEP_64
  else if sec = "WEP-128" then .WEP_128
  else if sec = "WPA-Personal" then .WPA_PSK
  else if sec = "WPA2-Personal" then .WPA2_PSK
  else if sec = "WPA-WPA2-Personal" then .WPA_WPA2_PSK
  else .Invalid

/-- The member `send_cmdu_to_controller`. -/
def send_cmdu_to_controller (s : State) (f : TxFrame) : Bool × State :=
  match s.master_socket with
  | none => (false, s)
  | some k =>
    let f1 : TxFrame :=
      match f with
      | .VENDOR_SPECIFIC_MESSAGE h op =>
        .VENDOR_SPECIFIC_MESSAGE
          { h with radio_mac := s.hostap_params.iface_mac,
                   direction := .BEEROCKS_DIRECTION_CONTROLLER } op
      | g => g
    (true, { s with sent := s.sent ++ [{ sd := k, frame := f1,
                                          dst_mac := s.backhaul_params.controller_bridge_mac,
                                          src_mac := s.backhaul_params.bridge_mac }] })

/-- The member `platform_notify_error`. -/
def platform_notify_error (K : Constants) (s : State) (code : BplErr) (error_data : String) :
    State :=
  match s.platform_manager_socket with
  | none => s
  | some _ =>
    (send_cmdu s s.platform_manager_socket
      (create_vs_message K (.cACTION_PLATFORM_ERROR_NOTIFICATION code error_data) 0)).2

/-- The member `ap_manager_stop`. -/
def ap_manager_stop (s : State) : State :=
  { s with ap_manager_socket := none, ap_manager := false, iface_status_ap := .OFF }

/-- The member `backhaul_manager_stop`. -/
def backhaul_manager_stop (s : State) : State :=
  { s with backhaul_manager_socket := none, master_socket := none,
           iface_status_bh := .OFF, iface_status_bh_wired := .OFF }

/-- The member `platform_manager_stop`. -/
def platform_manager_stop (s : State) : State :=
  { s with platform_manager_socket := none }

/-- The member `hostap_services_off` (it only logs). -/
def hostap_services_off (s : State) : State := s

/-- The member `monitor_stop`. -/
def monitor_stop (s : State) : State :=
  { s with monitor_socket := none }

/-- The member `monitor_start`: stop a running monitor, then spawn the monitor process. -/
def monitor_start (s : State) : State :=
  monitor_stop s

/-- The member `ap_manager_start`; whether the thread starts is the environment's answer. -/
def ap_manager_start (e : Env) (s : State) : Bool × State :=
  if e.ap_manager_start_ok then (true, { s with ap_manager := true })
  else (false, { s with ap_manager := false })

/-- The member `slave_reset`. -/
def slave_reset (K : Constants) (e : Env) (s : State) : State :=
  let s := { s with slave_resets_counter := s.slave_resets_counter + 1 }
  let s := if ¬ s.detach_on_conf_change then backhaul_manager_stop s else s
  let s := platform_manager_stop s
  let s := hostap_services_off s
  let s := ap_manager_stop s
  let s := monitor_stop s
  let s := { s with pending_iface_actions := [], is_backhaul_manager := false,
                    iface_status_operational_state := false, detach_on_conf_change := false }
  let s := if s.configuration_stop_on_failure_attempts ≠ 0 ∧ s.stop_on_failure_attempts = 0
    then { s with stopped := true } else s
  let s :=
    if s.stopped ∧ ¬ s.is_credentials_changed_on_db ∧ s.slave_state ≠ STATE_INIT then
      let s := platform_notify_error K s BPL_ERR_SLAVE_STOPPED ""
      { s with slave_state := STATE_STOPPED }
    else if s.is_credentials_changed_on_db ∨ s.is_backhaul_disconnected then
      { s with slave_state_timer := e.now + 1000 * K.SLAVE_INIT_DELAY_SEC,
               slave_state := STATE_WAIT_BERFORE_INIT }
    else
      { s with slave_state := STATE_INIT }
  { s with is_slave_reset := true }

/-- The member `stop_slave_thread`. -/
def stop_slave_thread (K : Constants) (e : Env) (s : State) : State :=
  { slave_reset K e s with should_stop := true }

/-- The lambda `ap_manager_err_code_to_bpl_err_code` of `socket_disconnected`. -/
def ap_manager_err_code_to_bpl_err_code : eApManagerThreadErrors → BplErr
  | .APMANAGER_THREAD_ERROR_HOSTAP_DISABLED => BPL_ERR_AP_MANAGER_HOSTAP_DISABLED
  | .APMANAGER_THREAD_ERROR_ATTACH_FAIL => BPL_ERR_AP_MANAGER_ATTACH_FAIL
  | .APMANAGER_THREAD_ERROR_SUDDEN_DETACH => BPL_ERR_AP_MANAGER_SUDDEN_DETACH
  | .APMANAGER_THREAD_ERROR_HAL_DISCONNECTED => BPL_ERR_AP_MANAGER_HAL_DISCONNECTED
  | .APMANAGER_THREAD_ERROR_CAC_TIMEOUT => BPL_ERR_AP_MANAGER_CAC_TIMEOUT
  | _ => BPL_ERR_AP_MANAGER_DISCONNECTED

/-- The member `socket_disconnected`. Its last branch calls
`ap_manager->get_thread_last_error_code()` without testing the pointer: when there is no
AP manager thread object that is a null dereference. -/
def socket_disconnected (K : Constants) (e : Env) (s : State) (sd : SocketId) : Bool × State :=
  if s.slave_state = STATE_WAIT_FOR_WIFI_CONFIGURATION_UPDATE_COMPLETE ∨
      s.slave_state = STATE_WAIT_FOR_ANOTHER_WIFI_CONFIGURATION_UPDATE ∨
      s.slave_state = STATE_WAIT_FOR_UNIFY_WIFI_CREDENTIALS_RESPONSE then
    let s := { s with detach_on_conf_change := true }
    if s.ap_manager_socket = some sd ∨ s.monitor_socket = some sd then
      (false, monitor_stop (ap_manager_stop s))
    else (true, s)
  else if s.backhaul_manager_socket = some sd then
    let s := platform_notify_error K s BPL_ERR_SLAVE_SLAVE_BACKHAUL_MANAGER_DISCONNECTED ""
    (false, stop_slave_thread K e s)
  else if s.platform_manager_socket = some sd then
    (false, stop_slave_thread K e s)
  else if s.ap_manager_socket = some sd ∨ s.monitor_socket = some sd then
    -- `auto err_code = ap_manager->get_thread_last_error_code();`
    if s.ap_manager = false then (false, { s with null_dereference := true })
    else
      let err_code := e.ap_manager_last_error
      if s.ap_manager_socket = some sd ∨
          err_code ≠ .APMANAGER_THREAD_ERROR_NO_ERROR then
        let s :=
          if ¬ s.platform_settings.passive_mode_enabled then
            platform_notify_error K
              { s with stop_on_failure_attempts := s.stop_on_failure_attempts - 1 }
              (ap_manager_err_code_to_bpl_err_code err_code) ""
          else s
        (false, slave_reset K e s)
      else
        let s :=
          if ¬ s.platform_settings.passive_mode_enabled then
            platform_notify_error K
              { s with stop_on_failure_attempts := s.stop_on_failure_attempts - 1 }
              BPL_ERR_MONITOR_DISCONNECTED ""
          else s
        (false, slave_reset K e s)
  else (true, s)

/-- The member `update_iface_status`. -/
def update_iface_status (s : State) (is_ap : Bool) (iface_status : Int) : State :=
  if iface_status = 1 then
    if is_ap then { s with iface_status_ap := .AP_OK }
    else { s with iface_status_bh := .BH_SCAN }
  else if iface_status = 0 then
    { s with iface_status_bh := .OFF, iface_status_ap := .OFF }
  else s

/-- The member `send_platform_iface_status_notif`. -/
def send_platform_iface_status_notif (K : Constants) (s : State) (radio_status : eRadioStatus)
    (status_operational : Bool) : State :=
  let f := create_vs_message K
    (.cACTION_PLATFORM_WIFI_INTERFACE_STATUS_NOTIFICATION
      { iface_name_ap := s.config.hostap_iface,
        iface_name_bh := s.config.backhaul_wireless_iface,
        status_ap := radio_status,
        status_bh := s.iface_status_bh,
        status_bh_wired := s.iface_status_bh_wired,
        is_bh_manager := s.is_backhaul_manager,
        status_operational := status_operational }) 0
  let s := { s with iface_status_ap_prev := s.iface_status_ap,
                    iface_status_bh_prev := s.iface_status_bh,
                    iface_status_bh_wired_prev := s.iface_status_bh_wired,
                    iface_status_operational_state_prev := s.iface_status_operational_state }
  (send_cmdu s s.platform_manager_socket f).2

/-- The member `send_iface_status`. -/
def send_iface_status (K : Constants) (s : State) : State :=
  if s.iface_status_ap_prev ≠ s.iface_status_ap ∨ s.iface_status_bh_prev ≠ s.iface_status_bh ∨
      s.iface_status_bh_wired_prev ≠ s.iface_status_bh_wired ∨
      s.iface_status_operational_state_prev ≠ s.iface_status_operational_state then
    send_platform_iface_status_notif K s s.iface_status_ap s.iface_status_operational_state
  else s

/-- The member `set_wifi_iface_state`: adds a pending action for the interface and asks
the platform manager to carry it out. -/
def set_wifi_iface_state (K : Constants) (e : Env) (s : State) (iface : String)
    (iface_operation : eWifiIfaceOperation) : Bool × State :=
  if iface = "" then (false, s)
  else
    match s.pending_iface_actions.lookup iface with
    | some a => if a.operation = iface_operation then (true, s) else (false, s)
    | none =>
      let a : sIfaceAction := { iface := iface, operation := iface_operation, timestamp := e.now }
      let s := { s with pending_iface_actions := (map_assign s.pending_iface_actions iface a) }
      let r := send_cmdu s s.platform_manager_socket
        (create_vs_message K (.cACTION_PLATFORM_WIFI_SET_IFACE_STATE_REQUEST iface iface_operation) 0)
      if ¬ r.1 then (false, r.2) else (true, r.2)

/-- The member `set_radio_tx_enable`. -/
def set_radio_tx_enable (K : Constants) (s : State) (iface : String) (enable : Bool) :
    Bool × State :=
  if iface = "" then (false, s)
  else
    let r := send_cmdu s s.platform_manager_socket
      (create_vs_message K (.cACTION_PLATFORM_WIFI_SET_RADIO_TX_STATE_REQUEST iface enable) 0)
    if ¬ r.1 then (false, r.2) else (true, r.2)

/-- The value of an `int` variable (32 bits, two's complement) into which the 64-bit
`count()` of a duration is stored. -/
def to_int (x : Int) : Int :=
  (x + 2147483648) % 4294967296 - 2147483648

/-- The local `int time_elapsed_secs`: whole seconds from `t0` to `now`
(`duration_cast<seconds>`, truncating toward zero), stored into an `int`. -/
def elapsed_secs (now t0 : TimePoint) : Int :=
  to_int (Int.tdiv ((now : Int) - (t0 : Int)) 1000)

/-- The local `int keep_alive_time_elapsed_ms`: whole milliseconds from `t0` to `now`,
stored into an `int`. -/
def elapsed_ms (now t0 : TimePoint) : Int :=
  to_int ((now : Int) - (t0 : Int))

/-- The member `monitor_heartbeat_check`. -/
def monitor_heartbeat_check (K : Constants) (e : Env) (s : State) : Bool × State :=
  match s.monitor_socket with
  | none => (true, s)
  | some _ =>
    let s := if elapsed_secs e.now s.monitor_last_seen > K.MONITOR_HEARTBEAT_TIMEOUT_SEC then
        { s with monitor_retries_counter := s.monitor_retries_counter + 1,
                 monitor_last_seen := e.now }
      else s
    if s.monitor_retries_counter ≥ K.MONITOR_HEARTBEAT_RETRIES then
      (false, { s with monitor_retries_counter := 0 })
    else (true, s)

/-- The member `ap_manager_heartbeat_check`. -/
def ap_manager_heartbeat_check (K : Constants) (e : Env) (s : State) : Bool × State :=
  match s.ap_manager_socket with
  | none => (true, s)
  | some _ =>
    let s := if elapsed_secs e.now s.ap_manager_last_seen > K.AP_MANAGER_HEARTBEAT_TIMEOUT_SEC then
        { s with ap_manager_retries_counter := s.ap_manager_retries_counter + 1,
                 ap_manager_last_seen := e.now }
      else s
    if s.ap_manager_retries_counter ≥ K.AP_MANAGER_HEARTBEAT_RETRIES then
      (false, { s with ap_manager_retries_counter := 0 })
    else (true, s)

/-- The member `process_keep_alive`. -/
def process_keep_alive (K : Constants) (e : Env) (s : State) : State :=
  if ¬ s.config.enable_keep_alive ∨ s.son_config.slave_keep_alive_retries = 0 then s
  else
    match s.master_socket with
    | none => s
    | some _ =>
      if elapsed_ms e.now s.master_last_seen ≥ K.KEEP_ALIVE_INTERVAL_MSC then
        if s.keep_alive_retries ≥ s.son_config.slave_keep_alive_retries then
          let s := platform_notify_error K s BPL_ERR_SLAVE_MASTER_KEEP_ALIVE_TIMEOUT
            ("Reached master keep-alive retries limit: " ++ toString s.keep_alive_retries)
          let s := { s with stop_on_failure_attempts := s.stop_on_failure_attempts - 1 }
          slave_reset K e s
        else
          let s := (send_cmdu_to_controller s
            (create_vs_message K (.cACTION_CONTROL_AGENT_PING_REQUEST 1 0 0 []) 0)).2
          { s with keep_alive_retries := s.keep_alive_retries + 1, master_last_seen := e.now }
      else s

/-! ## Message handlers -/

/-- Build a vendor-specific message and write it to a local endpoint (a
`create_vs_message` followed by `message_com::send_cmdu`, return value unused). -/
def send_vs (K : Constants) (s : State) (sd : Option SocketId) (op : TxOp) (id : Nat) : State :=
  (send_cmdu s sd (create_vs_message K op id)).2

/-- Build a vendor-specific message and hand it to `send_cmdu_to_controller` (return
value unused). -/
def send_vs_to_controller (K : Constants) (s : State) (op : TxOp) (id : Nat) : State :=
  (send_cmdu_to_controller s (create_vs_message K op id)).2

/-- The body of the `switch` of `handle_cmdu_control_message`, after the guards. -/
def control_switch (K : Constants) (e : Env) (s : State) (hdr : cACTION_HEADER) (cls_ok : Bool) :
    ControlOp → Bool × State
  | .ACTION_CONTROL_ARP_QUERY_REQUEST params =>
    if ¬ cls_ok then (false, s)
    else (true, send_vs K s s.platform_manager_socket
      (.cACTION_PLATFORM_ARP_QUERY_REQUEST params) hdr.id)
  | .ACTION_CONTROL_SON_CONFIG_UPDATE config =>
    if ¬ cls_ok then (false, s)
    else (true, { s with son_config := config })
  | .ACTION_CONTROL_HOSTAP_SET_RESTRICTED_FAILSAFE_CHANNEL_REQUEST params =>
    if ¬ cls_ok then (false, s)
    else (true, send_vs K s s.ap_manager_socket
      (.cACTION_APMANAGER_HOSTAP_SET_RESTRICTED_FAILSAFE_CHANNEL_REQUEST params) 0)
  | .ACTION_CONTROL_HOSTAP_CHANNEL_SWITCH_ACS_START cs_params =>
    if ¬ cls_ok then (false, s)
    else (true, send_vs K s s.ap_manager_socket
      (.cACTION_APMANAGER_HOSTAP_CHANNEL_SWITCH_ACS_START cs_params) hdr.id)
  | .ACTION_CONTROL_CLIENT_START_MONITORING_REQUEST params =>
    if ¬ cls_ok then (false, s)
    else
      let s := if params.is_ire then
          send_vs K s s.ap_manager_socket
            (.cACTION_APMANAGER_CLIENT_IRE_CONNECTED_NOTIFICATION params.mac) 0
        else s
      (true, send_vs K s s.monitor_socket
        (.cACTION_MONITOR_CLIENT_START_MONITORING_REQUEST params) hdr.id)
  | .ACTION_CONTROL_CLIENT_STOP_MONITORING_REQUEST mac =>
    if ¬ cls_ok then (false, s)
    else (true, send_vs K s s.monitor_socket
      (.cACTION_MONITOR_CLIENT_STOP_MONITORING_REQUEST mac) hdr.id)
  | .ACTION_CONTROL_CLIENT_RX_RSSI_MEASUREMENT_REQUEST params =>
    if ¬ cls_ok then (false, s)
    else
      let forbackhaul : Bool := s.is_backhaul_manager && s.backhaul_params.backhaul_is_wireless
      if params.cross ∧ params.ipv4.oct0 = 0 ∧ forbackhaul then
        (true, send_vs K s s.backhaul_manager_socket
          (.cACTION_BACKHAUL_CLIENT_RX_RSSI_MEASUREMENT_REQUEST params) hdr.id)
      else if params.cross ∧ params.ipv4.oct0 = 0 then
        (true, send_vs K s s.ap_manager_socket
          (.cACTION_APMANAGER_CLIENT_RX_RSSI_MEASUREMENT_REQUEST params) hdr.id)
      else
        (true, send_vs K s s.monitor_socket
          (.cACTION_MONITOR_CLIENT_RX_RSSI_MEASUREMENT_REQUEST params) hdr.id)
  | .ACTION_CONTROL_CLIENT_DISALLOW_REQUEST mac reject_sta =>
    if ¬ cls_ok then (false, s)
    else (true, send_vs K s s.ap_manager_socket
      (.cACTION_APMANAGER_CLIENT_DISALLOW_REQUEST mac reject_sta) hdr.id)
  | .ACTION_CONTROL_CLIENT_ALLOW_REQUEST mac ipv4 =>
    if ¬ cls_ok then (false, s)
    else (true, send_vs K s s.ap_manager_socket
      (.cACTION_APMANAGER_CLIENT_ALLOW_REQUEST mac ipv4) hdr.id)
  | .ACTION_CONTROL_CLIENT_DISCONNECT_REQUEST mac vap_id type reason =>
    if ¬ cls_ok then (false, s)
    else (true, send_vs K s s.ap_manager_socket
      (.cACTION_APMANAGER_CLIENT_DISCONNECT_REQUEST mac vap_id type reason) hdr.id)
  | .ACTION_CONTROL_CLIENT_BSS_STEER_REQUEST params =>
    if ¬ cls_ok then (false, s)
    else (true, send_vs K s s.ap_manager_socket
      (.cACTION_APMANAGER_CLIENT_BSS_STEER_REQUEST params) hdr.id)
  | .ACTION_CONTROL_CONTROLLER_PING_REQUEST total seq size =>
    if ¬ cls_ok then (false, s)
    else if size ≠ 0 ∧ ¬ (size ≤ K.tx_data_capacity) then (true, s)
    else (true, send_vs_to_controller K s
      (.cACTION_CONTROL_CONTROLLER_PING_RESPONSE total seq size (List.replicate size 0)) 0)
  | .ACTION_CONTROL_AGENT_PING_RESPONSE total seq size =>
    if ¬ cls_ok then (false, s)
    else if (seq : Int) < (total : Int) - 1 then
      if size ≠ 0 ∧ ¬ (size ≤ K.tx_data_capacity) then (true, s)
      else (true, send_vs_to_controller K s
        (.cACTION_CONTROL_AGENT_PING_REQUEST total ((seq + 1) % 65536) size
          (List.replicate size 0)) 0)
    else (true, s)
  | .ACTION_CONTROL_CHANGE_MODULE_LOGGING_LEVEL params =>
    if ¬ cls_ok then (false, s)
    else
      let all : Bool := params.module_name = .BEEROCKS_PROCESS_ALL
      let s := if all ∨ params.module_name = .BEEROCKS_PROCESS_SLAVE then
          { s with log_levels := s.log_levels ++ [(params.log_level, params.enable)] }
        else s
      let s := if all ∨ params.module_name = .BEEROCKS_PROCESS_MONITOR then
          send_vs K s s.monitor_socket (.cACTION_MONITOR_CHANGE_MODULE_LOGGING_LEVEL params) 0
        else s
      let s := if all ∨ params.module_name = .BEEROCKS_PROCESS_PLATFORM then
          send_vs K s s.platform_manager_socket
            (.cACTION_PLATFORM_CHANGE_MODULE_LOGGING_LEVEL params) 0
        else s
      (true, s)
  | .ACTION_CONTROL_BACKHAUL_ROAM_REQUEST params =>
    if s.is_backhaul_manager ∧ s.backhaul_params.backhaul_is_wireless then
      if ¬ cls_ok then (false, s)
      else (true, send_vs K s s.backhaul_manager_socket
        (.cACTION_BACKHAUL_ROAM_REQUEST params) hdr.id)
    else (true, s)
  | .ACTION_CONTROL_BACKHAUL_RESET =>
    (true, send_vs K s s.backhaul_manager_socket .cACTION_BACKHAUL_RESET 0)
  | .ACTION_CONTROL_HOSTAP_TX_ON_REQUEST =>
    (true, (set_radio_tx_enable K s s.config.hostap_iface true).2)
  | .ACTION_CONTROL_HOSTAP_TX_OFF_REQUEST =>
    (true, (set_radio_tx_enable K s s.config.hostap_iface false).2)
  | .ACTION_CONTROL_HOSTAP_STATS_MEASUREMENT_REQUEST sync =>
    match s.monitor_socket with
    | none => (true, s)
    | some _ =>
      if ¬ cls_ok then (false, s)
      else (true, send_vs K s s.monitor_socket
        (.cACTION_MONITOR_HOSTAP_STATS_MEASUREMENT_REQUEST sync) hdr.id)
  | .ACTION_CONTROL_HOSTAP_SET_NEIGHBOR_11K_REQUEST params =>
    if ¬ cls_ok then (false, s)
    else (true, send_vs K s s.ap_manager_socket
      (.cACTION_APMANAGER_HOSTAP_SET_NEIGHBOR_11K_REQUEST params) hdr.id)
  | .ACTION_CONTROL_HOSTAP_REMOVE_NEIGHBOR_11K_REQUEST params =>
    if ¬ cls_ok then (false, s)
    else (true, send_vs K s s.ap_manager_socket
      (.cACTION_APMANAGER_HOSTAP_REMOVE_NEIGHBOR_11K_REQUEST params) hdr.id)
  | .ACTION_CONTROL_CLIENT_BEACON_11K_REQUEST params =>
    if ¬ cls_ok then (false, s)
    else
      let params := if params.use_optional_ssid ∧ params.ssid = "" then
          { params with ssid := s.platform_settings.front_ssid }
        else params
      (true, send_vs K s s.monitor_socket
        (.cACTION_MONITOR_CLIENT_BEACON_11K_REQUEST params) hdr.id)
  | .ACTION_CONTROL_CLIENT_CHANNEL_LOAD_11K_REQUEST params =>
    if ¬ cls_ok then (false, s)
    else (true, send_vs K s s.monitor_socket
      (.cACTION_MONITOR_CLIENT_CHANNEL_LOAD_11K_REQUEST params) hdr.id)
  | .ACTION_CONTROL_CLIENT_STATISTICS_11K_REQUEST params =>
    if ¬ cls_ok then (false, s)
    else (true, send_vs K s s.monitor_socket
      (.cACTION_MONITOR_CLIENT_STATISTICS_11K_REQUEST params) hdr.id)
  | .ACTION_CONTROL_CLIENT_LINK_MEASUREMENT_11K_REQUEST mac =>
    if ¬ cls_ok then (false, s)
    else (true, send_vs K s s.monitor_socket
      (.cACTION_MONITOR_CLIENT_LINK_MEASUREMENT_11K_REQUEST mac) hdr.id)
  | .ACTION_CONTROL_HOSTAP_UPDATE_STOP_ON_FAILURE_ATTEMPTS_REQUEST attempts =>
    if ¬ cls_ok then (false, s)
    else
      let s := { s with configuration_stop_on_failure_attempts := (attempts : Int) }
      if s.is_backhaul_manager then
        (true, send_vs K s s.backhaul_manager_socket
          (.cACTION_BACKHAUL_UPDATE_STOP_ON_FAILURE_ATTEMPTS_REQUEST attempts) 0)
      else (true, s)
  | .ACTION_CONTROL_HOSTAP_DISABLED_BY_MASTER =>
    (true, { s with iface_status_operational_state := true })
  | .ACTION_CONTROL_WIFI_CREDENTIALS_UPDATE_PREPARE_REQUEST params =>
    if ¬ cls_ok then (false, s)
    else
      let s := { s with new_credentials := params }
      (true, send_vs_to_controller K s
        .cACTION_CONTROL_WIFI_CREDENTIALS_UPDATE_PREPARE_RESPONSE hdr.id)
  | .ACTION_CONTROL_WIFI_CREDENTIALS_UPDATE_PRE_COMMIT_REQUEST =>
    if s.new_credentials.ssid = "" then (true, s)
    else
      let s := send_vs K s s.platform_manager_socket
        (.cACTION_PLATFORM_BEEROCKS_CREDENTIALS_UPDATE_REQUEST s.new_credentials) hdr.id
      (true, send_vs_to_controller K s
        .cACTION_CONTROL_WIFI_CREDENTIALS_UPDATE_PRE_COMMIT_RESPONSE hdr.id)
  | .ACTION_CONTROL_WIFI_CREDENTIALS_UPDATE_COMMIT_REQUEST =>
    (true, { s with
      slave_state_timer := e.now +
        1000 * K.STATE_WAIT_FOR_PLATFORM_BEEROCKS_CREDENTIALS_UPDATE_RESPONSE_TIMEOUT_SEC,
      slave_state := STATE_WAIT_FOR_PLATFORM_BEEROCKS_CREDENTIALS_UPDATE_RESPONSE })
  | .ACTION_CONTROL_WIFI_CREDENTIALS_UPDATE_ABORT_REQUEST =>
    if s.is_credentials_changed_on_db then
      let nc := { s.new_credentials with ssid := s.platform_settings.front_ssid,
                                         pass := s.platform_settings.front_pass }
      let sec_str := s.platform_settings.front_security_type
      let sec : Option eWiFiSec :=
        if sec_str = K.BPL_WLAN_SEC_NONE_STR then some .eWiFiSec_None
        else if sec_str = K.BPL_WLAN_SEC_WEP64_STR then some .eWiFiSec_WEP64
        else if sec_str = K.BPL_WLAN_SEC_WEP128_STR then some .eWiFiSec_WEP128
        else if sec_str = K.BPL_WLAN_SEC_WPA_PSK_STR then some .eWiFiSec_WPA_PSK
        else if sec_str = K.BPL_WLAN_SEC_WPA2_PSK_STR then some .eWiFiSec_WPA2_PSK
        else if sec_str = K.BPL_WLAN_SEC_WPA_WPA2_PSK_STR then some .eWiFiSec_WPA_WPA2_PSK
        else none
      match sec with
      | none => (true, { s with new_credentials := nc })
      | some v =>
        let nc := { nc with sec := v }
        let s := { s with new_credentials := nc }
        (true, send_vs K s s.platform_manager_socket
          (.cACTION_PLATFORM_BEEROCKS_CREDENTIALS_UPDATE_REQUEST nc) hdr.id)
    else (true, s)
  | .ACTION_CONTROL_VERSION_MISMATCH_NOTIFICATION versions =>
    if ¬ cls_ok then (false, s)
    else (true, send_vs K s s.platform_manager_socket
      (.cACTION_PLATFORM_VERSION_MISMATCH_NOTIFICATION versions) hdr.id)
  | .ACTION_CONTROL_STEERING_CLIENT_SET_GROUP_REQUEST params =>
    if ¬ cls_ok then (false, s)
    else (true, send_vs K s s.monitor_socket
      (.cACTION_MONITOR_STEERING_CLIENT_SET_GROUP_REQUEST params) hdr.id)
  | .ACTION_CONTROL_STEERING_CLIENT_SET_REQUEST params =>
    if ¬ cls_ok then (false, s)
    else
      let s := send_vs K s s.monitor_socket
        (.cACTION_MONITOR_STEERING_CLIENT_SET_REQUEST params) hdr.id
      (true, send_vs K s s.ap_manager_socket
        (.cACTION_APMANAGER_STEERING_CLIENT_SET_REQUEST params) hdr.id)
  | .ACTION_CONTROL_SLAVE_JOINED_RESPONSE _ _ _ => (false, s)
  | .ACTION_CONTROL_OTHER _ => (false, s)

/-- The member `handle_cmdu_control_message`. -/
def handle_cmdu_control_message (K : Constants) (e : Env) (s : State) (sd : SocketId)
    (hdr : cACTION_HEADER) (cls_ok : Bool) (op : ControlOp) : Bool × State :=
  if hdr.radio_mac ≠ s.hostap_params.iface_mac then (true, s)
  else if hdr.direction = .BEEROCKS_DIRECTION_CONTROLLER then (true, s)
  else if s.master_socket = none then (true, s)
  else if s.master_socket ≠ some sd then (true, s)
  else if s.slave_state = STATE_STOPPED then (true, s)
  else
    control_switch K e { s with master_last_seen := e.now, keep_alive_retries := 0 } hdr cls_ok op

/-- The body of the `switch` of `handle_cmdu_backhaul_manager_message`, after the guards. -/
def backhaul_switch (K : Constants) (e : Env) (s : State) (hdr : cACTION_HEADER)
    (cls_ok : Bool) : BackhaulOp → Bool × State
  | .ACTION_BACKHAUL_REGISTER_RESPONSE =>
    if s.slave_state = STATE_WAIT_FOR_BACKHAUL_MANAGER_REGISTER_RESPONSE then
      if ¬ cls_ok then (false, s)
      else (true, { s with slave_state := STATE_JOIN_INIT })
    else (true, s)
  | .ACTION_BACKHAUL_CONNECTED_NOTIFICATION params =>
    if ¬ cls_ok then (false, s)
    else if STATE_WAIT_FOR_BACKHAUL_MANAGER_CONNECTED_NOTIFICATION.rank ≤ s.slave_state.rank ∧
        s.slave_state.rank ≤ STATE_OPERATIONAL.rank then
      let s := if STATE_WAIT_FOR_JOINED_RESPONSE.rank ≤ s.slave_state.rank ∧
          s.slave_state.rank ≤ STATE_OPERATIONAL.rank then
          { s with is_backhual_reconf := true }
        else s
      let s := { s with is_backhaul_manager := params.is_backhaul_manager }
      let s := { s with backhaul_params :=
        { s.backhaul_params with
          gw_ipv4 := K.ipv4_to_string params.gw_ipv4,
          gw_bridge_mac := K.mac_to_string params.gw_bridge_mac,
          controller_bridge_mac := K.mac_to_string params.controller_bridge_mac,
          bridge_mac := K.mac_to_string params.bridge_mac,
          bridge_ipv4 := K.ipv4_to_string params.bridge_ipv4,
          backhaul_mac := K.mac_to_string params.backhaul_mac,
          backhaul_ipv4 := K.ipv4_to_string params.backhaul_ipv4,
          backhaul_bssid := K.mac_to_string params.backhaul_bssid,
          backhaul_channel := params.backhaul_channel,
          backhaul_is_wireless := params.backhaul_is_wireless,
          backhaul_iface_type := params.backhaul_iface_type,
          backhaul_scan_measurement_list := params.backhaul_scan_measurement_list,
          backhaul_iface :=
            if params.backhaul_is_wireless then s.config.backhaul_wireless_iface
            else s.config.backhaul_wire_iface } }
      let s :=
        if s.is_backhaul_manager then
          if params.backhaul_is_wireless then
            { s with iface_status_bh := .BH_SIGNAL_OK, iface_status_bh_wired := .OFF }
          else
            { s with iface_status_bh := .OFF, iface_status_bh_wired := .BH_WIRED }
        else
          { s with iface_status_bh := .OFF, iface_status_bh_wired := .OFF }
      (true, { s with slave_state := STATE_BACKHAUL_MANAGER_CONNECTED })
    else (true, s)
  | .ACTION_BACKHAUL_BUSY_NOTIFICATION =>
    if s.slave_state ≠ STATE_WAIT_FOR_BACKHAUL_MANAGER_CONNECTED_NOTIFICATION then (true, s)
    else
      (true, { s with
        slave_state_timer := e.now + 1000 * K.WAIT_BEFORE_SEND_BH_ENABLE_NOTIFICATION_SEC,
        slave_state := STATE_WAIT_BACKHAUL_MANAGER_BUSY })
  | .ACTION_BACKHAUL_DISCONNECTED_NOTIFICATION stopped =>
    if s.is_slave_reset then (true, s)
    else if ¬ cls_ok then (false, s)
    else
      let s := { s with stopped := s.stopped || stopped, is_backhaul_disconnected := true,
                        iface_status_operational_state := false }
      let s := update_iface_status s false 0
      let s := { s with
        slave_state_timer := e.now + K.IRE_MAX_WIRELESS_RECONNECTION_TIME_MSC,
        master_socket := none }
      if s.slave_state = STATE_WAIT_FOR_PLATFORM_BEEROCKS_CREDENTIALS_UPDATE_RESPONSE then
        (true, s)
      else (true, slave_reset K e s)
  | .ACTION_BACKHAUL_CLIENT_RX_RSSI_MEASUREMENT_RESPONSE params =>
    if ¬ cls_ok then (false, s)
    else (true, send_vs_to_controller K s
      (.cACTION_CONTROL_CLIENT_RX_RSSI_MEASUREMENT_RESPONSE
        { params with src_module := .BEEROCKS_ENTITY_BACKHAUL_MANAGER }) hdr.id)
  | .ACTION_BACKHAUL_CLIENT_RX_RSSI_MEASUREMENT_CMD_RESPONSE mac =>
    if ¬ cls_ok then (false, s)
    else (true, send_vs_to_controller K s
      (.cACTION_CONTROL_CLIENT_RX_RSSI_MEASUREMENT_CMD_RESPONSE mac) hdr.id)
  | .ACTION_BACKHAUL_DL_RSSI_REPORT_NOTIFICATION params =>
    if ¬ cls_ok then (false, s)
    else
      let s := send_vs_to_controller K s
        (.cACTION_CONTROL_BACKHAUL_DL_RSSI_REPORT_NOTIFICATION params) hdr.id
      let rssi := params.rssi
      if |s.last_reported_backhaul_rssi - rssi| ≥ K.BH_SIGNAL_RSSI_THRESHOLD_HYSTERESIS then
        let s := { s with last_reported_backhaul_rssi := rssi }
        if rssi < K.BH_SIGNAL_RSSI_THRESHOLD_LOW then
          (true, { s with iface_status_bh := .BH_SIGNAL_TOO_LOW })
        else if rssi ≥ K.BH_SIGNAL_RSSI_THRESHOLD_LOW ∧ rssi < K.BH_SIGNAL_RSSI_THRESHOLD_HIGH then
          (true, { s with iface_status_bh := .BH_SIGNAL_OK })
        else
          (true, { s with iface_status_bh := .BH_SIGNAL_TOO_HIGH })
      else (true, s)
  | .ACTION_BACKHAUL_OTHER _ => (false, s)

/-- The member `handle_cmdu_backhaul_manager_message`. -/
def handle_cmdu_backhaul_manager_message (K : Constants) (e : Env) (s : State) (sd : SocketId)
    (hdr : cACTION_HEADER) (cls_ok : Bool) (op : BackhaulOp) : Bool × State :=
  if s.backhaul_manager_socket = none then (true, s)
  else if s.backhaul_manager_socket ≠ some sd then (true, s)
  else backhaul_switch K e s hdr cls_ok op

/-- The body of the `switch` of `handle_cmdu_platform_manager_message`, after the guard. -/
def platform_switch (K : Constants) (e : Env) (s : State) (hdr : cACTION_HEADER)
    (cls_ok : Bool) : PlatformOp → Bool × State
  | .ACTION_PLATFORM_ADVERTISE_SSID_FLAG_UPDATE_RESPONSE _ =>
    if ¬ cls_ok then (false, s) else (true, s)
  | .ACTION_PLATFORM_SON_SLAVE_REGISTER_RESPONSE valid platform_settings wlan_settings =>
    if s.slave_state = STATE_WAIT_FOR_PLATFORM_MANAGER_REGISTER_RESPONSE then
      if ¬ cls_ok then (false, s)
      else if ¬ valid then
        let s := platform_notify_error K s
          BPL_ERR_CONFIG_PLATFORM_REPORTED_INVALID_CONFIGURATION ""
        let s := { s with stop_on_failure_attempts := s.stop_on_failure_attempts - 1 }
        (true, slave_reset K e s)
      else
        let s := { s with platform_settings := platform_settings,
                          wlan_settings := wlan_settings }
        let s :=
          if wlan_settings.ssid = platform_settings.front_ssid ∧
              wlan_settings.pass = platform_settings.front_pass ∧
              wlan_settings.security_type = platform_settings.front_security_type then
            { s with is_wlan_credentials_unified := true }
          else if s.config.enable_credentials_automatic_unify then
            { s with is_wlan_credentials_unified := false }
          else s
        (true, { s with slave_state := STATE_CONNECT_TO_BACKHAUL_MANAGER })
    else (true, s)
  | .ACTION_PLATFORM_GET_WLAN_READY_STATUS_RESPONSE result =>
    if s.slave_state = STATE_WAIT_FOR_WLAN_READY_STATUS_RESPONSE then
      if ¬ cls_ok then (false, s)
      else if result = 1 then
        (true, { s with slave_state := STATE_JOIN_INIT_BRING_UP_INTERFACES })
      else
        (true, { s with slave_state := STATE_GET_WLAN_READY_STATUS })
    else (true, s)
  | .ACTION_PLATFORM_WIFI_SET_IFACE_STATE_RESPONSE iface iface_operation success =>
    if ¬ cls_ok then (false, s)
    else if success then
      let s := { s with pending_iface_actions := (map_erase s.pending_iface_actions iface) }
      if iface_operation ≠ WIFI_IFACE_OPER_NO_CHANGE then
        (true, update_iface_status s s.ap_manager_socket.isSome
          (if iface_operation = WIFI_IFACE_OPER_DISABLE then 0 else 1))
      else (true, s)
    else
      let s := platform_notify_error K s BPL_ERR_SLAVE_IFACE_CHANGE_STATE_FAILED iface
      let s := { s with stop_on_failure_attempts := s.stop_on_failure_attempts - 1 }
      (true, slave_reset K e s)
  | .ACTION_PLATFORM_WIFI_CREDENTIALS_SET_RESPONSE iface success =>
    if s.slave_state = STATE_WAIT_FOR_UNIFY_WIFI_CREDENTIALS_RESPONSE then
      if ¬ cls_ok then (false, s)
      else
        let ok : Bool := success = 1
        let s := { s with is_wlan_credentials_unified := ok }
        if ¬ ok then
          let s := platform_notify_error K s BPL_ERR_SLAVE_WIFI_CREDENTIALS_SET_FAILED iface
          let s := { s with stop_on_failure_attempts := s.stop_on_failure_attempts - 1 }
          (true, slave_reset K e s)
        else if s.detach_on_conf_change then
          (true, slave_reset K e s)
        else
          (true, { s with slave_state := STATE_START_MONITOR })
    else (true, s)
  | .ACTION_PLATFORM_POST_INIT_CONFIG_RESPONSE result =>
    if s.slave_state = STATE_OPERATIONAL then
      if ¬ cls_ok then (false, s)
      else if ¬ (result = 1) then
        let s := platform_notify_error K s BPL_ERR_SLAVE_POST_INIT_CONFIG_FAILED
          s.config.hostap_iface
        let s := { s with stop_on_failure_attempts := s.stop_on_failure_attempts - 1 }
        (true, slave_reset K e s)
      else (true, s)
    else (true, s)
  | .ACTION_PLATFORM_WIFI_SET_RADIO_TX_STATE_RESPONSE iface_name enable success =>
    if ¬ cls_ok then (false, s)
    else if ¬ success then
      let s := { s with stop_on_failure_attempts := s.stop_on_failure_attempts - 1 }
      let s := platform_notify_error K s BPL_ERR_SLAVE_TX_CHANGE_STATE_FAILED iface_name
      (true, slave_reset K e s)
    else
      let s := update_iface_status s s.ap_manager_socket.isSome (if enable then 1 else 0)
      if s.master_socket.isSome ∧ enable then
        (true, send_vs_to_controller K s .cACTION_CONTROL_HOSTAP_TX_ON_RESPONSE 0)
      else (true, s)
  | .ACTION_PLATFORM_ARP_MONITOR_NOTIFICATION params =>
    match s.master_socket with
    | none => (true, s)
    | some _ =>
      if ¬ cls_ok then (false, s)
      else (true, send_vs_to_controller K s
        (.cACTION_CONTROL_CLIENT_ARP_MONITOR_NOTIFICATION params) 0)
  | .ACTION_PLATFORM_WLAN_PARAMS_CHANGED_NOTIFICATION wlan_settings =>
    if ¬ cls_ok then (false, s)
    else if s.wlan_settings.band_enabled ≠ wlan_settings.band_enabled then
      (true, slave_reset K e s)
    else (true, s)
  | .ACTION_PLATFORM_OPERATIONAL_NOTIFICATION operational =>
    if ¬ cls_ok then (false, s)
    else
      match s.master_socket with
      | none => (true, s)
      | some _ =>
        (true, send_vs_to_controller K s
          (.cACTION_CONTROL_PLATFORM_OPERATIONAL_NOTIFICATION operational
            s.backhaul_params.bridge_mac) 0)
  | .ACTION_PLATFORM_DHCP_MONITOR_NOTIFICATION op mac ipv4 hostname =>
    if ¬ cls_ok then (false, s)
    else if op = .eDHCPOp_Add ∨ op = .eDHCPOp_Old then
      match s.master_socket with
      | none => (true, s)
      | some _ =>
        (true, send_vs_to_controller K s
          (.cACTION_CONTROL_CLIENT_DHCP_COMPLETE_NOTIFICATION mac ipv4 hostname) 0)
    else (true, s)
  | .ACTION_PLATFORM_BEEROCKS_CREDENTIALS_UPDATE_RESPONSE result =>
    if ¬ cls_ok then (false, s)
    else if result then
      (true, { s with is_credentials_changed_on_db := true })
    else
      let s := { s with is_credentials_changed_on_db := false }
      let s := platform_notify_error K s BPL_ERR_SLAVE_UPDATE_CREDENTIALS_FAILED ""
      let s := { s with stop_on_failure_attempts := s.stop_on_failure_attempts - 1 }
      (true, slave_reset K e s)
  | .ACTION_PLATFORM_WIFI_CONFIGURATION_UPDATE_REQUEST config_start =>
    if ¬ cls_ok then (false, s)
    else if s.slave_state = STATE_WAIT_FOR_UNIFY_WIFI_CREDENTIALS_RESPONSE then (true, s)
    else if s.slave_state ≠ STATE_OPERATIONAL ∧
        s.slave_state ≠ STATE_WAIT_FOR_WIFI_CONFIGURATION_UPDATE_COMPLETE ∧
        s.slave_state ≠ STATE_WAIT_FOR_ANOTHER_WIFI_CONFIGURATION_UPDATE then (true, s)
    else if ¬ config_start then
      if s.detach_on_conf_change then (true, slave_reset K e s)
      else if s.master_socket.isSome then (true, { s with slave_state := STATE_OPERATIONAL })
      else (true, s)
    else if s.slave_state = STATE_WAIT_FOR_WIFI_CONFIGURATION_UPDATE_COMPLETE then
      (true, { s with
        slave_state_timer := e.now + 1000 * K.SON_SLAVE_WAIT_AFTER_WIFI_CONFIG_UPDATE_SEC,
        slave_state := STATE_WAIT_FOR_ANOTHER_WIFI_CONFIGURATION_UPDATE })
    else
      (true, { s with
        slave_state_timer := e.now +
          1000 * K.STATE_WAIT_FOR_WIFI_CONFIGURATION_UPDATE_COMPLETE_TIMEOUT_SEC,
        slave_state := STATE_WAIT_FOR_WIFI_CONFIGURATION_UPDATE_COMPLETE })
  | .ACTION_PLATFORM_ARP_QUERY_RESPONSE params =>
    match s.master_socket with
    | none => (true, s)
    | some _ =>
      if ¬ cls_ok then (false, s)
      else (true, send_vs_to_controller K s
        (.cACTION_CONTROL_ARP_QUERY_RESPONSE params) hdr.id)
  | .ACTION_PLATFORM_OTHER _ => (false, s)

/-- The member `handle_cmdu_platform_manager_message`. -/
def handle_cmdu_platform_manager_message (K : Constants) (e : Env) (s : State) (sd : SocketId)
    (hdr : cACTION_HEADER) (cls_ok : Bool) (op : PlatformOp) : Bool × State :=
  if s.platform_manager_socket ≠ some sd then (true, s)
  else platform_switch K e s hdr cls_ok op

/-- The body of the `switch` of `handle_cmdu_ap_manager_message`, after the guards. -/
def ap_manager_switch (K : Constants) (e : Env) (s : State) (sd : SocketId)
    (hdr : cACTION_HEADER) (cls_ok : Bool) : ApManagerOp → Bool × State
  | .ACTION_APMANAGER_INIT_DONE_NOTIFICATION =>
    (true, { s with ap_manager_socket := some sd,
                    slave_state := STATE_WAIT_FOR_AP_MANAGER_JOINED })
  | .ACTION_APMANAGER_JOINED_NOTIFICATION params cs_params =>
    if ¬ cls_ok then (false, s)
    else
      let s := { s with hostap_params := params, hostap_cs_params := cs_params }
      if s.slave_state = STATE_WAIT_FOR_AP_MANAGER_JOINED then
        (true, { s with slave_state := STATE_AP_MANAGER_JOINED })
      else (true, s)
  | .ACTION_APMANAGER_HOSTAP_SET_RESTRICTED_FAILSAFE_CHANNEL_RESPONSE success =>
    if ¬ cls_ok then (false, s)
    else (true, send_vs_to_controller K s
      (.cACTION_CONTROL_HOSTAP_SET_RESTRICTED_FAILSAFE_CHANNEL_RESPONSE success) 0)
  | .ACTION_APMANAGER_HOSTAP_AP_DISABLED_NOTIFICATION vap_id =>
    if ¬ cls_ok then (false, s)
    else if vap_id = K.IFACE_RADIO_ID then
      let s :=
        if s.slave_state = STATE_WAIT_FOR_WIFI_CONFIGURATION_UPDATE_COMPLETE ∨
            s.slave_state = STATE_WAIT_FOR_ANOTHER_WIFI_CONFIGURATION_UPDATE ∨
            s.slave_state = STATE_WAIT_FOR_UNIFY_WIFI_CREDENTIALS_RESPONSE then
          { s with detach_on_conf_change := true }
        else if ¬ s.platform_settings.passive_mode_enabled then
          platform_notify_error K
            { s with stop_on_failure_attempts := s.stop_on_failure_attempts - 1 }
            BPL_ERR_AP_MANAGER_HOSTAP_DISABLED s.config.hostap_iface
        else s
      (true, slave_reset K e s)
    else
      (true, send_vs_to_controller K s
        (.cACTION_CONTROL_HOSTAP_AP_DISABLED_NOTIFICATION vap_id) 0)
  | .ACTION_APMANAGER_HOSTAP_AP_ENABLED_NOTIFICATION vap_id vap_info =>
    if ¬ cls_ok then (false, s)
    else (true, send_vs_to_controller K s
      (.cACTION_CONTROL_HOSTAP_AP_ENABLED_NOTIFICATION vap_id vap_info) 0)
  | .ACTION_APMANAGER_HOSTAP_VAPS_LIST_UPDATE_NOTIFICATION params =>
    if ¬ cls_ok then (false, s)
    else (true, send_vs_to_controller K s
      (.cACTION_CONTROL_HOSTAP_VAPS_LIST_UPDATE_NOTIFICATION params) 0)
  | .ACTION_APMANAGER_HOSTAP_ACS_NOTIFICATION cs_params supported_channels =>
    if ¬ cls_ok then (false, s)
    else (true, send_vs_to_controller K s
      (.cACTION_CONTROL_HOSTAP_ACS_NOTIFICATION cs_params supported_channels) hdr.id)
  | .ACTION_APMANAGER_HOSTAP_CSA_NOTIFICATION cs_params =>
    if ¬ cls_ok then (false, s)
    else
      let s := send_vs_to_controller K s
        (.cACTION_CONTROL_HOSTAP_CSA_NOTIFICATION cs_params) hdr.id
      if K.is_dfs_channel s.hostap_cs_params.channel then
        (true, { s with iface_status_ap := .AP_DFS_CAC })
      else
        (true, { s with iface_status_ap := .AP_OK })
  | .ACTION_APMANAGER_HOSTAP_CSA_ERROR_NOTIFICATION cs_params =>
    if ¬ cls_ok then (false, s)
    else (true, send_vs_to_controller K s
      (.cACTION_CONTROL_HOSTAP_CSA_ERROR_NOTIFICATION cs_params) hdr.id)
  | .ACTION_APMANAGER_CLIENT_RX_RSSI_MEASUREMENT_RESPONSE params =>
    if ¬ cls_ok then (false, s)
    else (true, send_vs_to_controller K s
      (.cACTION_CONTROL_CLIENT_RX_RSSI_MEASUREMENT_RESPONSE
        { params with src_module := .BEEROCKS_ENTITY_AP_MANAGER }) hdr.id)
  | .ACTION_APMANAGER_CLIENT_DISCONNECTED_NOTIFICATION params =>
    if ¬ cls_ok then (false, s)
    else
      let client_mac := K.mac_to_string params.mac
      let s := send_vs K s s.monitor_socket
        (.cACTION_MONITOR_CLIENT_STOP_MONITORING_REQUEST params.mac) hdr.id
      match s.master_socket with
      | some _ =>
        (true, send_vs_to_controller K s
          (.cACTION_CONTROL_CLIENT_DISCONNECTED_NOTIFICATION params) hdr.id)
      | none =>
        (true, { s with pending_client_association_cmdu :=
          (map_erase s.pending_client_association_cmdu client_mac) })
  | .ACTION_APMANAGER_CLIENT_BSS_STEER_RESPONSE params =>
    if ¬ cls_ok then (false, s)
    else (true, send_vs_to_controller K s
      (.cACTION_CONTROL_CLIENT_BSS_STEER_RESPONSE params) hdr.id)
  | .ACTION_APMANAGER_CLIENT_RX_RSSI_MEASUREMENT_CMD_RESPONSE mac =>
    if ¬ cls_ok then (false, s)
    else (true, send_vs_to_controller K s
      (.cACTION_CONTROL_CLIENT_RX_RSSI_MEASUREMENT_CMD_RESPONSE mac) hdr.id)
  | .ACTION_APMANAGER_HOSTAP_DFS_CAC_COMPLETED_NOTIFICATION params =>
    if ¬ cls_ok then (false, s)
    else
      let s := send_vs_to_controller K s
        (.cACTION_CONTROL_HOSTAP_DFS_CAC_COMPLETED_NOTIFICATION params) 0
      (true, { s with iface_status_ap := .AP_OK })
  | .ACTION_APMANAGER_HOSTAP_DFS_CHANNEL_AVAILABLE_NOTIFICATION params =>
    if ¬ cls_ok then (false, s)
    else (true, send_vs_to_controller K s
      (.cACTION_CONTROL_HOSTAP_DFS_CHANNEL_AVAILABLE_NOTIFICATION params) 0)
  | .ACTION_APMANAGER_CLIENT_ASSOCIATED_NOTIFICATION params =>
    if ¬ cls_ok then (false, s)
    else
      let client_mac := K.mac_to_string params.mac
      match s.master_socket with
      | some _ =>
        (true, send_vs_to_controller K s
          (.cACTION_CONTROL_CLIENT_ASSOCIATED_NOTIFICATION params) hdr.id)
      | none =>
        (true, { s with pending_client_association_cmdu :=
          (map_assign s.pending_client_association_cmdu client_mac params) })
  | .ACTION_APMANAGER_STEERING_EVENT_PROBE_REQ_NOTIFICATION params =>
    if ¬ cls_ok then (false, s)
    else (true, send_vs_to_controller K s
      (.cACTION_CONTROL_STEERING_EVENT_PROBE_REQ_NOTIFICATION params) hdr.id)
  | .ACTION_APMANAGER_STEERING_EVENT_AUTH_FAIL_NOTIFICATION params =>
    if ¬ cls_ok then (false, s)
    else (true, send_vs_to_controller K s
      (.cACTION_CONTROL_STEERING_EVENT_AUTH_FAIL_NOTIFICATION params) hdr.id)
  | .ACTION_APMANAGER_CLIENT_DISCONNECT_RESPONSE params =>
    if ¬ cls_ok then (false, s)
    else (true, send_vs_to_controller K s
      (.cACTION_CONTROL_CLIENT_DISCONNECT_RESPONSE params) 0)
  | .ACTION_APMANAGER_STEERING_CLIENT_SET_RESPONSE params =>
    if ¬ cls_ok then (false, s)
    else (true, send_vs_to_controller K s
      (.cACTION_CONTROL_STEERING_CLIENT_SET_RESPONSE params) 0)
  | .ACTION_APMANAGER_HEARTBEAT_NOTIFICATION => (false, s)
  | .ACTION_APMANAGER_OTHER _ => (false, s)

/-- The member `handle_cmdu_ap_manager_message`. -/
def handle_cmdu_ap_manager_message (K : Constants) (e : Env) (s : State) (sd : SocketId)
    (hdr : cACTION_HEADER) (cls_ok : Bool) (op : ApManagerOp) : Bool × State :=
  match s.ap_manager_socket with
  | none =>
    match op with
    | .ACTION_APMANAGER_INIT_DONE_NOTIFICATION => ap_manager_switch K e s sd hdr cls_ok op
    | _ => (true, s)
  | some k =>
    if k ≠ sd then (true, s)
    else
      match op with
      | .ACTION_APMANAGER_HEARTBEAT_NOTIFICATION =>
        (true, { s with ap_manager_last_seen := e.now, ap_manager_retries_counter := 0 })
      | _ => ap_manager_switch K e s sd hdr cls_ok op

/-- The body of the `switch` of `handle_cmdu_monitor_message`, after the guards. -/
def monitor_switch (K : Constants) (e : Env) (s : State) (sd : SocketId)
    (hdr : cACTION_HEADER) (cls_ok : Bool) : MonitorOp → Bool × State
  | .ACTION_MONITOR_JOINED_NOTIFICATION =>
    if s.slave_state = STATE_WAIT_FOR_MONITOR_JOINED then
      (true, { s with monitor_socket := some sd, slave_state := STATE_BACKHAUL_ENABLE })
    else (true, s)
  | .ACTION_MONITOR_HOSTAP_AP_DISABLED_NOTIFICATION vap_id =>
    if ¬ cls_ok then (false, s)
    else if vap_id = K.IFACE_RADIO_ID then
      let s :=
        if ¬ s.platform_settings.passive_mode_enabled then
          platform_notify_error K
            { s with stop_on_failure_attempts := s.stop_on_failure_attempts - 1 }
            BPL_ERR_MONITOR_HOSTAP_DISABLED s.config.hostap_iface
        else s
      (true, slave_reset K e s)
    else (true, s)
  | .ACTION_MONITOR_HOSTAP_STATUS_CHANGED_NOTIFICATION new_tx_state new_hostap_enabled_state =>
    if ¬ cls_ok then (false, s)
    else
      let s :=
        if s.slave_state = STATE_OPERATIONAL ∧ new_tx_state = 1 ∧
            new_hostap_enabled_state = 1 then
          let s := send_vs K s s.platform_manager_socket
            (.cACTION_PLATFORM_POST_INIT_CONFIG_REQUEST s.config.hostap_iface) 0
          { s with iface_status_operational_state := true, slave_resets_counter := 0 }
        else
          { s with iface_status_operational_state := false }
      if s.slave_state = STATE_OPERATIONAL ∧ new_tx_state = 0 ∧
          new_hostap_enabled_state = 1 then
        let r := set_wifi_iface_state K e s s.config.hostap_iface WIFI_IFACE_OPER_ENABLE
        if ¬ r.1 then
          let s := platform_notify_error K r.2 BPL_ERR_SLAVE_IFACE_CHANGE_STATE_FAILED
            s.config.hostap_iface
          let s := { s with stop_on_failure_attempts := s.stop_on_failure_attempts - 1 }
          (true, slave_reset K e s)
        else (true, r.2)
      else (true, s)
  | .ACTION_MONITOR_CLIENT_RX_RSSI_MEASUREMENT_RESPONSE params =>
    if ¬ cls_ok then (true, s)
    else (true, send_vs_to_controller K s
      (.cACTION_CONTROL_CLIENT_RX_RSSI_MEASUREMENT_RESPONSE
        { params with src_module := .BEEROCKS_ENTITY_MONITOR }) hdr.id)
  | .ACTION_MONITOR_CLIENT_RX_RSSI_MEASUREMENT_START_NOTIFICATION mac =>
    if ¬ cls_ok then (true, s)
    else (true, send_vs_to_controller K s
      (.cACTION_CONTROL_CLIENT_RX_RSSI_MEASUREMENT_START_NOTIFICATION mac) hdr.id)
  | .ACTION_MONITOR_HOSTAP_STATS_MEASUREMENT_RESPONSE ap_stats sta_stats =>
    if ¬ cls_ok then (false, s)
    else if sta_stats.length > 0 ∧ ¬ (sta_stats.length ≤ K.tx_sta_stats_capacity) then (true, s)
    else (true, send_vs_to_controller K s
      (.cACTION_CONTROL_HOSTAP_STATS_MEASUREMENT_RESPONSE ap_stats sta_stats) hdr.id)
  | .ACTION_MONITOR_CLIENT_NO_RESPONSE_NOTIFICATION mac =>
    if ¬ cls_ok then (true, s)
    else (true, send_vs_to_controller K s
      (.cACTION_CONTROL_CLIENT_NO_RESPONSE_NOTIFICATION mac) hdr.id)
  | .ACTION_MONITOR_CLIENT_BEACON_11K_RESPONSE params =>
    if ¬ cls_ok then (true, s)
    else (true, send_vs_to_controller K s
      (.cACTION_CONTROL_CLIENT_BEACON_11K_RESPONSE params) hdr.id)
  | .ACTION_MONITOR_CLIENT_CHANNEL_LOAD_11K_RESPONSE params =>
    if ¬ cls_ok then (true, s)
    else (true, send_vs_to_controller K s
      (.cACTION_CONTROL_CLIENT_CHANNEL_LOAD_11K_RESPONSE params) hdr.id)
  | .ACTION_MONITOR_CLIENT_STATISTICS_11K_RESPONSE params =>
    if ¬ cls_ok then (true, s)
    else (true, send_vs_to_controller K s
      (.cACTION_CONTROL_CLIENT_STATISTICS_11K_RESPONSE params) hdr.id)
  | .ACTION_MONITOR_CLIENT_LINK_MEASUREMENTS_11K_RESPONSE params =>
    if ¬ cls_ok then (true, s)
    else (true, send_vs_to_controller K s
      (.cACTION_CONTROL_CLIENT_LINK_MEASUREMENTS_11K_RESPONSE params) hdr.id)
  | .ACTION_MONITOR_CLIENT_RX_RSSI_MEASUREMENT_CMD_RESPONSE mac =>
    if ¬ cls_ok then (true, s)
    else (true, send_vs_to_controller K s
      (.cACTION_CONTROL_CLIENT_RX_RSSI_MEASUREMENT_CMD_RESPONSE mac) hdr.id)
  | .ACTION_MONITOR_CLIENT_NO_ACTIVITY_NOTIFICATION mac =>
    if ¬ cls_ok then (true, s)
    else (true, send_vs_to_controller K s
      (.cACTION_CONTROL_CLIENT_NO_ACTIVITY_NOTIFICATION mac) hdr.id)
  | .ACTION_MONITOR_HOSTAP_ACTIVITY_NOTIFICATION params =>
    if ¬ cls_ok then (false, s)
    else (true, send_vs_to_controller K s
      (.cACTION_CONTROL_HOSTAP_ACTIVITY_NOTIFICATION params) 0)
  | .ACTION_MONITOR_ERROR_NOTIFICATION error_code =>
    if ¬ cls_ok then (false, s)
    else if s.slave_state = STATE_WAIT_FOR_WIFI_CONFIGURATION_UPDATE_COMPLETE ∨
        s.slave_state = STATE_WAIT_FOR_ANOTHER_WIFI_CONFIGURATION_UPDATE ∨
        s.slave_state = STATE_WAIT_FOR_UNIFY_WIFI_CREDENTIALS_RESPONSE then
      (true, { s with detach_on_conf_change := true })
    else
      let s :=
        match error_code with
        | .MONITOR_THREAD_ERROR_HOSTAP_DISABLED =>
          platform_notify_error K s BPL_ERR_MONITOR_HOSTAP_DISABLED ""
        | .MONITOR_THREAD_ERROR_ATTACH_FAIL =>
          platform_notify_error K s BPL_ERR_MONITOR_ATTACH_FAIL ""
        | .MONITOR_THREAD_ERROR_SUDDEN_DETACH =>
          platform_notify_error K s BPL_ERR_MONITOR_SUDDEN_DETACH ""
        | .MONITOR_THREAD_ERROR_HAL_DISCONNECTED =>
          platform_notify_error K s BPL_ERR_MONITOR_HAL_DISCONNECTED ""
        | .MONITOR_THREAD_ERROR_REPORT_PROCESS_FAIL =>
          platform_notify_error K s BPL_ERR_MONITOR_REPORT_PROCESS_FAIL ""
        | _ => s
      (true, send_vs K s s.monitor_socket .cACTION_MONITOR_ERROR_NOTIFICATION_ACK 0)
  | .ACTION_MONITOR_CLIENT_RX_RSSI_MEASUREMENT_NOTIFICATION params =>
    if ¬ cls_ok then (false, s)
    else (true, send_vs_to_controller K s
      (.cACTION_CONTROL_CLIENT_RX_RSSI_MEASUREMENT_NOTIFICATION params) 0)
  | .ACTION_MONITOR_STEERING_EVENT_CLIENT_ACTIVITY_NOTIFICATION params =>
    if ¬ cls_ok then (false, s)
    else (true, send_vs_to_controller K s
      (.cACTION_CONTROL_STEERING_EVENT_CLIENT_ACTIVITY_NOTIFICATION params) 0)
  | .ACTION_MONITOR_STEERING_EVENT_SNR_XING_NOTIFICATION params =>
    if ¬ cls_ok then (false, s)
    else (true, send_vs_to_controller K s
      (.cACTION_CONTROL_STEERING_EVENT_SNR_XING_NOTIFICATION params) 0)
  | .ACTION_MONITOR_STEERING_CLIENT_SET_GROUP_RESPONSE params =>
    if ¬ cls_ok then (false, s)
    else (true, send_vs_to_controller K s
      (.cACTION_CONTROL_STEERING_CLIENT_SET_GROUP_RESPONSE params) 0)
  | .ACTION_MONITOR_STEERING_CLIENT_SET_RESPONSE params =>
    if ¬ cls_ok then (false, s)
    else (true, send_vs_to_controller K s
      (.cACTION_CONTROL_STEERING_CLIENT_SET_RESPONSE params) 0)
  | .ACTION_MONITOR_HEARTBEAT_NOTIFICATION => (false, s)
  | .ACTION_MONITOR_OTHER _ => (false, s)

/-- The member `handle_cmdu_monitor_message`. -/
def handle_cmdu_monitor_message (K : Constants) (e : Env) (s : State) (sd : SocketId)
    (hdr : cACTION_HEADER) (cls_ok : Bool) (op : MonitorOp) : Bool × State :=
  match s.monitor_socket with
  | none =>
    match op with
    | .ACTION_MONITOR_JOINED_NOTIFICATION => monitor_switch K e s sd hdr cls_ok op
    | _ => (true, s)
  | some k =>
    if k ≠ sd then (true, s)
    else
      match op with
      | .ACTION_MONITOR_HEARTBEAT_NOTIFICATION =>
        (true, { s with monitor_last_seen := e.now, monitor_retries_counter := 0 })
      | _ => monitor_switch K e s sd hdr cls_ok op

/-! ## The join response and the 1905.1 messages -/

/-- The loop of `handle_autoconfiguration_wsc` that reads every leading `TLV_WSC` as an
M2: the manufacturer strings read and the TLVs left, or `none` when one of them does not
parse as an M2. -/
def parse_m2_list : List Tlv → Option (List String × List Tlv)
  | [] => some ([], [])
  | .TLV_WSC (some m) :: rest =>
    match parse_m2_list rest with
    | some (l, r) => some (m :: l, r)
    | none => none
  | .TLV_WSC none :: _ => none
  | .TLV_AP_RADIO_BASIC_CAPABILITIES :: rest => some ([], .TLV_AP_RADIO_BASIC_CAPABILITIES :: rest)
  | .TLV_AP_RADIO_IDENTIFIER u :: rest => some ([], .TLV_AP_RADIO_IDENTIFIER u :: rest)
  | .TLV_VENDOR_SPECIFIC v :: rest => some ([], .TLV_VENDOR_SPECIFIC v :: rest)
  | .TLV_OTHER n :: rest => some ([], .TLV_OTHER n :: rest)

/-- The part of `parse_intel_join_response` after the response class has been read. -/
def join_response_body (K : Constants) (e : Env) (s : State)
    (err_code : eSlaveJoinResponseErrCode) (master_version : String) (config : sSonConfig) :
    Bool × State :=
  if err_code = JOIN_RESP_REJECT then
    (true, { s with
      slave_state_timer := e.now + 1000 * K.WAIT_BEFORE_SEND_SLAVE_JOINED_NOTIFICATION_SEC,
      slave_state := STATE_WAIT_BEFORE_JOIN_MASTER })
  else
    let s := send_vs K s s.ap_manager_socket .cACTION_APMANAGER_HOSTAP_VAPS_LIST_UPDATE_REQUEST 0
    let s := s.pending_client_association_cmdu.foldl
      (fun st notify => send_vs_to_controller K st
        (.cACTION_CONTROL_CLIENT_ASSOCIATED_NOTIFICATION notify.2) 0) s
    let s := { s with pending_client_association_cmdu := [], master_version := master_version }
    let slave_version_s := K.version_from_string K.BEEROCKS_VERSION
    let master_version_s := K.version_from_string s.master_version
    let s :=
      if master_version_s.major > slave_version_s.major ∨
          (master_version_s.major = slave_version_s.major ∧
            master_version_s.minor > slave_version_s.minor) ∨
          (master_version_s.major = slave_version_s.major ∧
            master_version_s.minor = slave_version_s.minor ∧
            master_version_s.build_number > slave_version_s.build_number) then
        send_vs K s s.platform_manager_socket
          (.cACTION_PLATFORM_VERSION_MISMATCH_NOTIFICATION
            { master_version := s.master_version, slave_version := K.BEEROCKS_VERSION }) 0
      else s
    if err_code = JOIN_RESP_VERSION_MISMATCH then
      (true, { s with slave_state := STATE_VERSION_MISMATCH })
    else if err_code = JOIN_RESP_SSID_MISMATCH then
      (true, { s with slave_state := STATE_SSID_MISMATCH })
    else if err_code = JOIN_RESP_ADVERTISE_SSID_FLAG_MISMATCH then
      (true, send_vs K s s.platform_manager_socket
        (.cACTION_PLATFORM_ADVERTISE_SSID_FLAG_UPDATE_REQUEST
          (if s.wlan_settings.advertise_ssid then 0 else 1)) 0)
    else
      let s := send_vs K s s.platform_manager_socket
        (.cACTION_PLATFORM_MASTER_SLAVE_VERSIONS_NOTIFICATION
          { master_version := s.master_version, slave_version := K.BEEROCKS_VERSION }) 0
      (true, { s with son_config := config, slave_state := STATE_UPDATE_MONITOR_SON_CONFIG })

/-- The member `parse_intel_join_response`; `tlvs` are the TLVs of the CMDU not yet read.
(The source compares only the numeric action_op of the vendor header with
`ACTION_CONTROL_SLAVE_JOINED_RESPONSE`; here the header must be that of the joined
response class.) -/
def parse_intel_join_response (K : Constants) (e : Env) (s : State) (tlvs : List Tlv) :
    Bool × State :=
  if s.slave_state ≠ STATE_WAIT_FOR_JOINED_RESPONSE then (false, s)
  else
    match tlvs with
    | .TLV_VENDOR_SPECIFIC (some vs) :: _ =>
      match vs.body with
      | .ACTION_CONTROL (.ACTION_CONTROL_SLAVE_JOINED_RESPONSE err_code master_version config) =>
        if ¬ vs.cls_ok then (false, s)
        else join_response_body K e s err_code master_version config
      | _ => (false, s)
    | _ => (false, s)

/-- The member `handle_autoconfiguration_wsc`; `tlvs` are the TLVs of the inbound CMDU. -/
def handle_autoconfiguration_wsc (K : Constants) (e : Env) (s : State) (tlvs : List Tlv) :
    Bool × State :=
  match tlvs with
  | .TLV_AP_RADIO_BASIC_CAPABILITIES :: _ => (true, s)
  | .TLV_AP_RADIO_IDENTIFIER (some radio_uid) :: rest =>
    -- `!config.radio_identifier.compare(x)` is true when the two strings are equal
    if s.config.radio_identifier = K.mac_to_string radio_uid then (true, s)
    else
      match parse_m2_list rest with
      | none => (false, s)
      | some (m2_list, rest2) =>
        if m2_list = [] then (false, s)
        -- `!manufacturer.compare("Intel")` is true when the manufacturer is "Intel"
        else if m2_list.any (fun manufacturer => manufacturer = "Intel") then (false, s)
        else
          match rest2 with
          | .TLV_VENDOR_SPECIFIC _ :: _ =>
            let r := parse_intel_join_response K e s rest2
            if ¬ r.1 then (false, r.2) else (true, r.2)
          | _ => (false, s)
  | _ => (false, s)

/-- The loop `for (uint8_t ch = 36; ch < 50; ch += 2)` of
`handle_channel_preference_query`, over the values `ch` takes: one `alloc_channel_list()`,
the entry `channel_list(channel_list_length() - 1)` and the store of `ch` into it. The
result is `some none` when the handler returns false, and `none` when it dereferences
`nullptr`. -/
def fill_channel_list (K : TlvConstants) :
    cPreferenceOperatingClasses → Mem → List Nat →
    Option (Option (cPreferenceOperatingClasses × Mem))
  | op_class_channels, mem, [] => some (some (op_class_channels, mem))
  | op_class_channels, mem, ch :: rest =>
    match op_class_channels.alloc_channel_list K mem 1 with
    | none => none
    | some (ok, op_class_channels, mem) =>
      if ok = false then some none
      else
        match op_class_channels.channel_list_length mem with
        | none => none
        | some channel_idx =>
          -- `channel_idx - 1` is an `int`, converted to the `size_t` of the parameter
          let channel_tuple := op_class_channels.channel_list
            ((channel_idx + 2 ^ K.size_bits - 1) % 2 ^ K.size_bits)
          if channel_tuple.1 = false then some none
          else
            match channel_tuple.2 with
            | none => none
            | some q => fill_channel_list K op_class_channels (write mem q (ch % 256)) rest

/-- Modelled from the spec: `CmduMessageTx::create` (tlvf, not part of the sources) starts
a message at the beginning of the transmit buffer, a member array of `tx_buffer_len` bytes
at address 0, with the CMDU header of `cmdu_header_len` bytes; it returns `nullptr`
(false) when the buffer does not hold the header. -/
def cmdu_tx_create (K : Constants) : Bool :=
  decide (K.cmdu_header_len ≤ K.tx_buffer_len)

/-- The part of `handle_channel_preference_query` before `send_cmdu_to_controller`: the
message is built on the transmit buffer, whose bytes before the call are `Env.tx_buffer`.
Modelled from the spec: `CmduMessageTx::addClass` (tlvf, not part of the sources)
constructs the class behind what the message holds so far, over the rest of the buffer,
and returns `nullptr` when its `init` fails. The result is what the TLV carries; `some
none` when the handler returns false, `none` when it dereferences `nullptr`. -/
def channel_preference_report_body (K : Constants) (e : Env) (s : State) :
    Option (Option sChannelPreferenceOnWire) :=
  -- `cmdu_tx.create(mid, CHANNEL_PREFERENCE_REPORT_MESSAGE)`
  if cmdu_tx_create K = false then some none
  else
    -- `cmdu_tx.addClass<wfa_map::tlvChannelPreference>()`
    let r := tlvChannelPreference.construct K.tlv K.TLV_CHANNEL_PREFERENCE K.cmdu_header_len
      (K.tx_buffer_len - K.cmdu_header_len) false (Mem.of_list e.tx_buffer)
    if r.1.base.m_init_succeeded = false then some none
    else
      let channel_preference_tlv := r.1
      -- `channel_preference_tlv->radio_uid() = mac_from_string(config.radio_identifier)`
      match channel_preference_tlv.m_radio_uid with
      | none => none
      | some u =>
        let mem := write r.2 u (K.mac_from_string s.config.radio_identifier).to_nat
        let r := channel_preference_tlv.create_operating_classes_list K.tlv mem
        match r.1 with
        | none => some none
        | some op_class_channels =>
          -- `op_class_channels->operating_class() = 80`
          match op_class_channels.m_operating_class with
          | none => none
          | some q =>
            let mem := write r.2.2 q 80
            match fill_channel_list K.tlv op_class_channels mem
                ((List.range 7).map (fun i => 36 + 2 * i)) with
            | none => none
            | some none => some none
            | some (some (op_class_channels, mem)) =>
              -- `flags().preference = 15` and `flags().reason_code = UNSPECIFIED`
              match op_class_channels.m_flags with
              | none => none
              | some f =>
                let mem := write mem f (sFlags.set_preference (read8 mem f) 15)
                let mem := write mem f
                  (sFlags.set_reason_code (read8 mem f) eReasonCode_UNSPECIFIED)
                match r.2.1.add_operating_classes_list K.tlv mem
                    (some op_class_channels) with
                | none => none
                | some (ok, channel_preference_tlv, mem) =>
                  if ok = false then some none
                  else (channel_preference_tlv.on_wire mem).map some

/-- The member `handle_channel_preference_query`. -/
def handle_channel_preference_query (K : Constants) (e : Env) (s : State) (mid : Nat) :
    Bool × State :=
  match channel_preference_report_body K e s with
  | none => (false, { s with null_dereference := true })
  | some none => (false, s)
  | some (some report) =>
    send_cmdu_to_controller s (.CHANNEL_PREFERENCE_REPORT_MESSAGE mid report)

/-- The member `handle_cmdu_control_ieee1905_1_message`. -/
def handle_cmdu_control_ieee1905_1_message (K : Constants) (e : Env) (s : State)
    (sd : SocketId) (cmdu_message_type : eMessageType) (mid : Nat) (tlvs : List Tlv) :
    Bool × State :=
  if s.master_socket = none then (true, s)
  else if s.master_socket ≠ some sd then (true, s)
  else if s.slave_state = STATE_STOPPED then (true, s)
  else
    let s := { s with master_last_seen := e.now, keep_alive_retries := 0 }
    match cmdu_message_type with
    | .AP_AUTOCONFIGURATION_WSC_MESSAGE => handle_autoconfiguration_wsc K e s tlvs
    | .CHANNEL_PREFERENCE_QUERY_MESSAGE => handle_channel_preference_query K e s mid
    | .OTHER_MESSAGE _ => (false, s)

/-- The member `handle_cmdu`. -/
def handle_cmdu (K : Constants) (e : Env) (s : State) (sd : SocketId) (cmdu_rx : CmduRx) :
    Bool × State :=
  match cmdu_rx with
  | .VENDOR_SPECIFIC_MESSAGE none => (false, s)
  | .VENDOR_SPECIFIC_MESSAGE (some vs) =>
    match vs.body with
    | .ACTION_CONTROL op => handle_cmdu_control_message K e s sd vs.header vs.cls_ok op
    | .ACTION_BACKHAUL op => handle_cmdu_backhaul_manager_message K e s sd vs.header vs.cls_ok op
    | .ACTION_PLATFORM op => handle_cmdu_platform_manager_message K e s sd vs.header vs.cls_ok op
    | .ACTION_APMANAGER op => handle_cmdu_ap_manager_message K e s sd vs.header vs.cls_ok op
    | .ACTION_MONITOR op => handle_cmdu_monitor_message K e s sd vs.header vs.cls_ok op
    | .ACTION_OTHER _ => (true, s)
  | .IEEE1905_MESSAGE type mid tlvs =>
    handle_cmdu_control_ieee1905_1_message K e s sd type mid tlvs

/-! ## The supervisor FSM -/

/-- The result of `slave_fsm`: its return value, the value left in the reference
parameter `call_slave_select`, and the new state. -/
structure FsmResult where
  slave_ok : Bool
  call_slave_select : Bool
  state : State

/-- A `break` out of the `switch` of `slave_fsm`: the function returns `slave_ok = true`
and leaves `call_slave_select` as it was passed in. -/
def fsm_break (s : State) : FsmResult :=
  { slave_ok := true, call_slave_select := true, state := s }

/-- A `return false` inside the `switch` of `slave_fsm`. -/
def fsm_return_false (s : State) : FsmResult :=
  { slave_ok := false, call_slave_select := true, state := s }

/-- The failure path shared by many FSM states: a platform error, one failure attempt
spent, and a reset. -/
def fsm_fail (K : Constants) (e : Env) (s : State) (code : BplErr) (data : String) : State :=
  let s := platform_notify_error K s code data
  let s := { s with stop_on_failure_attempts := s.stop_on_failure_attempts - 1 }
  slave_reset K e s

/-- The AP-Autoconfiguration WSC frame that `STATE_JOIN_MASTER` builds (radio basic
capabilities, the M1 of `autoconfig_wsc_add_m1`, and the slave joined notification). -/
def build_join_frame (K : Constants) (s : State) : TxFrame :=
  let info : cOperatingClassesInfo :=
    { operating_class := 0, maximum_transmit_power_dbm := 1,
      statically_non_operable_channels_list := [1] }
  let caps : tlvApRadioBasicCapabilities :=
    { radio_uid := s.config.radio_identifier,
      maximum_number_of_bsss_supported := 4,
      operating_classes_info_list := List.replicate 4 info }
  let m1 : tlvWscM1 :=
    { mac_attr := s.hostap_params.iface_mac,
      manufacturer_attr := "Intel",
      model_name_attr := "Ubuntu",
      model_number_attr := "18.04",
      device_name_attr := "prplMesh-agent",
      serial_number_attr := "prpl12345",
      uuid_e_attr := List.replicate 16 255,
      authentication_type_flags_attr := ["WSC_AUTH_OPEN", "WSC_AUTH_WPA2"],
      encryption_type_flags_attr := ["WSC_ENCR_NONE"],
      rf_bands_attr :=
        if s.hostap_params.iface_is_5ghz then .WSC_RF_BAND_5GHZ else .WSC_RF_BAND_2GHZ,
      vendor_extensions_bss_type := ["FRONTHAUL_BSS", "BACKHAUL_BSS"],
      primary_device_type_attr := "WSC_DEV_NETWORK_INFRA_AP" }
  let bp := s.backhaul_params
  let has_bridge : Bool := s.config.bridge_iface ≠ ""
  let jbp : sJoinedBackhaulParams :=
    { gw_ipv4 := bp.gw_ipv4,
      gw_bridge_mac := bp.gw_bridge_mac,
      is_backhaul_manager := s.is_backhaul_manager,
      backhaul_iface_type := bp.backhaul_iface_type,
      backhaul_mac := bp.backhaul_mac,
      backhaul_channel := bp.backhaul_channel,
      backhaul_bssid := bp.backhaul_bssid,
      backhaul_is_wireless := bp.backhaul_is_wireless,
      bridge_mac := if has_bridge then some bp.bridge_mac else none,
      bridge_ipv4 := if has_bridge then some bp.bridge_ipv4 else none,
      backhaul_ipv4 := if has_bridge then bp.bridge_ipv4 else bp.backhaul_ipv4,
      backhaul_scan_measurement_list := bp.backhaul_scan_measurement_list }
  let notification : cACTION_CONTROL_SLAVE_JOINED_NOTIFICATION :=
    { is_slave_reconf := s.is_backhual_reconf,
      slave_version := K.BEEROCKS_VERSION,
      platform := s.config.platform,
      low_pass_filter_on := s.config.backhaul_wireless_iface_filter_low,
      enable_repeater_mode := s.config.enable_repeater_mode,
      radio_identifier := s.config.radio_identifier,
      backhaul_params := jbp,
      platform_settings := s.platform_settings,
      wlan_settings := s.wlan_settings,
      hostap := { s.hostap_params with ant_gain := s.config.hostap_ant_gain },
      cs_params := s.hostap_cs_params }
  .AP_AUTOCONFIGURATION_WSC_MESSAGE caps m1 notification

/-- The `cACTION_BACKHAUL_ENABLE` that `STATE_SEND_BACKHAUL_MANAGER_ENABLE` builds. -/
def build_backhaul_enable (s : State) : sBackhaulEnable :=
  let gw : Bool := s.platform_settings.local_gw
  { ssid := if gw then "" else s.platform_settings.back_ssid,
    pass := if gw then "" else s.platform_settings.back_pass,
    security_type :=
      if gw then none else some (platform_to_bwl_security s.platform_settings.back_security_type),
    wire_iface :=
      if gw then "" else if s.platform_settings.wired_backhaul then s.config.backhaul_wire_iface
      else "",
    wire_iface_type := if gw then 0 else s.config.backhaul_wire_iface_type,
    wireless_iface_type := if gw then 0 else s.config.backhaul_wireless_iface_type,
    wired_backhaul := if gw then false else s.platform_settings.wired_backhaul,
    iface_mac := s.hostap_params.iface_mac,
    iface_is_5ghz := s.hostap_params.iface_is_5ghz,
    preferred_bssid := s.config.backhaul_preferred_bssid,
    ap_iface := s.config.hostap_iface,
    sta_iface := s.config.backhaul_wireless_iface,
    bridge_iface := s.config.bridge_iface }

/-- The `case` of `slave_fsm` for each state. -/
def fsm_case (K : Constants) (e : Env) (s : State) : eSlaveState → FsmResult
  | STATE_WAIT_BERFORE_INIT =>
    if e.now > s.slave_state_timer then
      fsm_break { s with is_backhaul_disconnected := false,
                         is_credentials_changed_on_db := false,
                         slave_state := STATE_INIT }
    else fsm_break s
  | STATE_INIT =>
    fsm_break { s with slave_state := STATE_CONNECT_TO_PLATFORM_MANAGER }
  | STATE_CONNECT_TO_PLATFORM_MANAGER =>
    match e.platform_connect with
    | none =>
      let s := { s with platform_manager_socket := none,
                        connect_platform_retry_counter := s.connect_platform_retry_counter + 1 }
      if s.connect_platform_retry_counter ≥ K.CONNECT_PLATFORM_RETRY_COUNT_MAX then
        let s := fsm_fail K e s BPL_ERR_SLAVE_FAILED_CONNECT_TO_PLATFORM_MANAGER ""
        fsm_break { s with connect_platform_retry_counter := 0 }
      else fsm_break s
    | some k =>
      let s := { s with platform_manager_socket := some k }
      let s := send_vs K s s.platform_manager_socket
        (.cACTION_PLATFORM_SON_SLAVE_REGISTER_REQUEST s.config.hostap_iface) 0
      fsm_break { s with
        slave_state_timer := e.now +
          1000 * K.WAIT_FOR_PLATFORM_MANAGER_REGISTER_RESPONSE_TIMEOUT_SEC,
        slave_state := STATE_WAIT_FOR_PLATFORM_MANAGER_REGISTER_RESPONSE }
  | STATE_WAIT_FOR_PLATFORM_MANAGER_CREDENTIALS_UPDATE_RESPONSE => fsm_break s
  | STATE_WAIT_FOR_PLATFORM_MANAGER_REGISTER_RESPONSE =>
    if e.now > s.slave_state_timer then
      fsm_break (fsm_fail K e s BPL_ERR_SLAVE_PLATFORM_MANAGER_REGISTER_TIMEOUT "")
    else fsm_break s
  | STATE_CONNECT_TO_BACKHAUL_MANAGER =>
    match e.backhaul_connect with
    | none =>
      let s := { s with backhaul_manager_socket := none }
      fsm_break (fsm_fail K e s BPL_ERR_SLAVE_CONNECTING_TO_BACKHAUL_MANAGER
        ("iface=" ++ s.config.backhaul_wireless_iface))
    | some k =>
      let s := { s with backhaul_manager_socket := some k }
      let sta_iface :=
        if s.platform_settings.local_gw ∨ s.config.backhaul_wireless_iface = "" then ""
        else s.config.backhaul_wireless_iface
      let s := send_vs K s s.backhaul_manager_socket
        (.cACTION_BACKHAUL_REGISTER_REQUEST
          { sta_iface := sta_iface,
            hostap_iface := s.config.hostap_iface,
            local_master := s.platform_settings.local_master,
            local_gw := s.platform_settings.local_gw,
            sta_iface_filter_low := s.config.backhaul_wireless_iface_filter_low,
            onboarding := s.platform_settings.onboarding }) 0
      fsm_break { s with slave_state := STATE_WAIT_FOR_BACKHAUL_MANAGER_REGISTER_RESPONSE }
  | STATE_WAIT_RETRY_CONNECT_TO_BACKHAUL_MANAGER =>
    if e.now > s.slave_state_timer then
      fsm_break { s with slave_state := STATE_CONNECT_TO_BACKHAUL_MANAGER }
    else fsm_break s
  | STATE_WAIT_FOR_BACKHAUL_MANAGER_REGISTER_RESPONSE => fsm_break s
  | STATE_JOIN_INIT =>
    if s.platform_settings.onboarding then
      fsm_break { s with slave_state := STATE_ONBOARDING }
    else if ¬ s.wlan_settings.band_enabled then
      fsm_break { s with slave_state := STATE_BACKHAUL_ENABLE }
    else
      let finish (s : State) : FsmResult :=
        let s := if ¬ s.platform_settings.local_gw then
            { s with is_backhaul_manager := false, iface_status_bh_wired := .OFF }
          else s
        fsm_break { s with iface_status_operational_state := false,
                           slave_state := STATE_GET_WLAN_READY_STATUS }
      if s.is_slave_reset then
        let r := set_wifi_iface_state K e s s.config.hostap_iface WIFI_IFACE_OPER_RESTORE
        if ¬ r.1 then
          fsm_break (fsm_fail K e r.2 BPL_ERR_SLAVE_IFACE_CHANGE_STATE_FAILED
            s.config.hostap_iface)
        else if s.config.backhaul_wireless_iface ≠ "" ∧ ¬ s.platform_settings.local_gw then
          let r2 := set_wifi_iface_state K e r.2 s.config.backhaul_wireless_iface
            WIFI_IFACE_OPER_RESTORE
          if ¬ r2.1 then
            fsm_break (fsm_fail K e r2.2 BPL_ERR_SLAVE_IFACE_CHANGE_STATE_FAILED
              s.config.backhaul_wireless_iface)
          else finish r2.2
        else finish r.2
      else finish s
  | STATE_GET_WLAN_READY_STATUS =>
    let r := send_cmdu s s.platform_manager_socket
      (create_vs_message K .cACTION_PLATFORM_GET_WLAN_READY_STATUS_REQUEST 0)
    if ¬ r.1 then fsm_return_false r.2
    else
      fsm_break { r.2 with
        slave_state_timer := e.now +
          1000 * K.STATE_WAIT_FOR_WLAN_READY_STATUS_RESPONSE_TIMEOUT_SEC,
        slave_state := STATE_WAIT_FOR_WLAN_READY_STATUS_RESPONSE }
  | STATE_WAIT_FOR_WLAN_READY_STATUS_RESPONSE =>
    if e.now > s.slave_state_timer then
      fsm_break (fsm_fail K e s BPL_ERR_SLAVE_TIMEOUT_GET_WLAN_READY_STATUS_REQUEST "")
    else fsm_break s
  | STATE_JOIN_INIT_BRING_UP_INTERFACES =>
    let r := set_wifi_iface_state K e s s.config.hostap_iface WIFI_IFACE_OPER_ENABLE
    if ¬ r.1 then
      fsm_break (fsm_fail K e r.2 BPL_ERR_SLAVE_IFACE_CHANGE_STATE_FAILED s.config.hostap_iface)
    else if s.config.backhaul_wireless_iface ≠ "" ∧ ¬ s.platform_settings.local_gw then
      let r2 := set_wifi_iface_state K e r.2 s.config.backhaul_wireless_iface
        WIFI_IFACE_OPER_ENABLE
      if ¬ r2.1 then
        fsm_break (fsm_fail K e r2.2 BPL_ERR_SLAVE_IFACE_CHANGE_STATE_FAILED
          s.config.backhaul_wireless_iface)
      else fsm_break { r2.2 with slave_state := STATE_JOIN_INIT_WAIT_FOR_IFACE_CHANGE_DONE }
    else fsm_break { r.2 with slave_state := STATE_JOIN_INIT_WAIT_FOR_IFACE_CHANGE_DONE }
  | STATE_JOIN_INIT_WAIT_FOR_IFACE_CHANGE_DONE =>
    fsm_break { s with is_slave_reset := false, slave_state := STATE_START_AP_MANAGER }
  | STATE_START_AP_MANAGER =>
    let r := ap_manager_start e s
    if r.1 then
      fsm_break { r.2 with slave_state := STATE_WAIT_FOR_AP_MANAGER_INIT_DONE_NOTIFICATION }
    else fsm_break (fsm_fail K e r.2 BPL_ERR_AP_MANAGER_START "")
  | STATE_WAIT_FOR_AP_MANAGER_INIT_DONE_NOTIFICATION => fsm_break s
  | STATE_WAIT_FOR_AP_MANAGER_JOINED => fsm_break s
  | STATE_AP_MANAGER_JOINED =>
    if ¬ s.is_wlan_credentials_unified ∧ s.config.enable_credentials_automatic_unify then
      fsm_break { s with slave_state := STATE_UNIFY_WIFI_CREDENTIALS }
    else fsm_break { s with slave_state := STATE_START_MONITOR }
  | STATE_UNIFY_WIFI_CREDENTIALS =>
    let iface :=
      if s.config.backhaul_wireless_iface ≠ "" ∧ ¬ s.platform_settings.local_gw then
        s.config.backhaul_wireless_iface
      else s.config.hostap_iface
    let r := send_cmdu s s.platform_manager_socket
      (create_vs_message K
        (.cACTION_PLATFORM_WIFI_CREDENTIALS_SET_REQUEST iface s.platform_settings.front_ssid
          s.platform_settings.front_pass s.platform_settings.front_security_type) 0)
    if ¬ r.1 then fsm_return_false r.2
    else
      fsm_break { r.2 with
        slave_state_timer := e.now +
          1000 * K.STATE_WAIT_FOR_UNIFY_WIFI_CREDENTIALS_RESPONSE_TIMEOUT_SEC,
        slave_state := STATE_WAIT_FOR_UNIFY_WIFI_CREDENTIALS_RESPONSE }
  | STATE_WAIT_FOR_UNIFY_WIFI_CREDENTIALS_RESPONSE =>
    if e.now > s.slave_state_timer then
      fsm_break (fsm_fail K e s BPL_ERR_SLAVE_TIMEOUT_WIFI_CREDENTIALS_SET_REQUEST "")
    else fsm_break s
  | STATE_START_MONITOR =>
    fsm_break { monitor_start s with slave_state := STATE_WAIT_FOR_MONITOR_JOINED }
  | STATE_WAIT_FOR_MONITOR_JOINED => fsm_break s
  | STATE_BACKHAUL_ENABLE =>
    let wire_bad : Bool := s.config.backhaul_wire_iface ≠ "" ∧
      s.config.backhaul_wire_iface_type = K.IFACE_TYPE_UNSUPPORTED
    let wireless_bad : Bool := s.config.backhaul_wireless_iface ≠ "" ∧
      s.config.backhaul_wireless_iface_type = K.IFACE_TYPE_UNSUPPORTED
    let none_valid : Bool := s.config.backhaul_wire_iface = "" ∧
      s.config.backhaul_wireless_iface = ""
    let s1 := if wire_bad then
        platform_notify_error K s BPL_ERR_CONFIG_BACKHAUL_WIRED_INTERFACE_IS_UNSUPPORTED ""
      else s
    let s2 := if wireless_bad then
        platform_notify_error K s1 BPL_ERR_CONFIG_BACKHAUL_WIRELESS_INTERFACE_IS_UNSUPPORTED ""
      else s1
    let s3 := if none_valid then
        platform_notify_error K s2 BPL_ERR_CONFIG_NO_VALID_BACKHAUL_INTERFACE ""
      else s2
    if wire_bad ∨ wireless_bad ∨ none_valid then
      fsm_break (slave_reset K e
        { s3 with stop_on_failure_attempts := s3.stop_on_failure_attempts - 1 })
    else fsm_break { s3 with slave_state := STATE_SEND_BACKHAUL_MANAGER_ENABLE }
  | STATE_SEND_BACKHAUL_MANAGER_ENABLE =>
    let r := send_cmdu s s.backhaul_manager_socket
      (create_vs_message K (.cACTION_BACKHAUL_ENABLE (build_backhaul_enable s)) 0)
    let s := if ¬ r.1 then slave_reset K e r.2 else r.2
    fsm_break { s with slave_state := STATE_WAIT_FOR_BACKHAUL_MANAGER_CONNECTED_NOTIFICATION }
  | STATE_WAIT_FOR_BACKHAUL_MANAGER_CONNECTED_NOTIFICATION => fsm_break s
  | STATE_WAIT_BACKHAUL_MANAGER_BUSY =>
    if e.now > s.slave_state_timer then
      fsm_break { s with slave_state := STATE_SEND_BACKHAUL_MANAGER_ENABLE }
    else fsm_break s
  | STATE_BACKHAUL_MANAGER_CONNECTED =>
    if ¬ s.wlan_settings.band_enabled then
      fsm_break { s with iface_status_operational_state := true,
                         master_socket := s.backhaul_manager_socket,
                         iface_status_ap := .OFF,
                         slave_state := STATE_OPERATIONAL }
    else
      let finish (s : State) : FsmResult :=
        let s :=
          if s.platform_settings.local_gw then
            { s with backhaul_params :=
              { s.backhaul_params with
                bridge_iface := s.config.bridge_iface,
                gw_ipv4 := e.bridge_info_ip,
                gw_bridge_mac := e.bridge_info_mac,
                bridge_mac := e.bridge_info_mac,
                bridge_ipv4 := e.bridge_info_ip,
                backhaul_iface :=
                  if s.is_backhaul_manager then s.config.backhaul_wire_iface
                  else s.config.bridge_iface,
                backhaul_mac := e.bridge_info_mac,
                backhaul_ipv4 := e.bridge_info_ip,
                backhaul_bssid := K.ZERO_MAC_STRING,
                backhaul_channel := 0,
                backhaul_is_wireless := false,
                backhaul_iface_type := K.IFACE_TYPE_GW_BRIDGE } }
          else s
        let s :=
          if s.is_backhaul_manager then
            send_vs K s s.platform_manager_socket
              (.cACTION_PLATFORM_SON_SLAVE_BACKHAUL_CONNECTION_COMPLETE_NOTIFICATION
                s.is_backhaul_manager) 0
          else s
        { slave_ok := true, call_slave_select := false,
          state := { s with master_socket := s.backhaul_manager_socket,
                            slave_state := STATE_JOIN_MASTER } }
      if s.is_backhaul_manager then
        if s.backhaul_params.backhaul_iface = s.config.backhaul_wire_iface ∧
            s.config.backhaul_wireless_iface ≠ "" then
          let r := set_wifi_iface_state K e s s.config.backhaul_wireless_iface
            WIFI_IFACE_OPER_DISABLE
          if ¬ r.1 then fsm_break (slave_reset K e r.2) else finish r.2
        else finish s
      else
        if s.config.backhaul_wireless_iface ≠ "" then
          let r := set_wifi_iface_state K e s s.config.backhaul_wireless_iface
            WIFI_IFACE_OPER_DISABLE
          if ¬ r.1 then
            fsm_break (fsm_fail K e r.2 BPL_ERR_SLAVE_IFACE_CHANGE_STATE_FAILED
              s.config.backhaul_wireless_iface)
          else finish r.2
        else finish s
  | STATE_WAIT_BEFORE_JOIN_MASTER =>
    if e.now > s.slave_state_timer then
      fsm_break { s with slave_state := STATE_JOIN_MASTER }
    else fsm_break s
  | STATE_JOIN_MASTER =>
    match s.master_socket with
    | none =>
      fsm_break (fsm_fail K e s BPL_ERR_SLAVE_INVALID_MASTER_SOCKET "Invalid master socket")
    | some _ =>
      let frame := build_join_frame K s
      let s := { s with is_backhual_reconf := false }
      let s := (send_cmdu_to_controller s frame).2
      let s := { s with
        slave_state_timer := e.now + 1000 * K.WAIT_FOR_JOINED_RESPONSE_TIMEOUT_SEC }
      let s := if ¬ s.wlan_settings.acs_enabled then
          send_platform_iface_status_notif K s .AP_OK true
        else s
      fsm_break { s with slave_state := STATE_WAIT_FOR_JOINED_RESPONSE }
  | STATE_WAIT_FOR_JOINED_RESPONSE =>
    if e.now > s.slave_state_timer then
      fsm_break { s with slave_state := STATE_JOIN_MASTER }
    else fsm_break s
  | STATE_UPDATE_MONITOR_SON_CONFIG =>
    let s := send_vs K s s.monitor_socket (.cACTION_MONITOR_SON_CONFIG_UPDATE s.son_config) 0
    fsm_break { s with slave_state := STATE_OPERATIONAL }
  | STATE_OPERATIONAL =>
    let s := { s with stop_on_failure_attempts := s.configuration_stop_on_failure_attempts }
    fsm_break (process_keep_alive K e s)
  | STATE_ONBOARDING => fsm_break s
  | STATE_WAIT_FOR_PLATFORM_BEEROCKS_CREDENTIALS_UPDATE_RESPONSE =>
    let s :=
      if s.is_credentials_changed_on_db then
        slave_reset K e
          { s with slave_state_timer := e.now + K.IRE_MAX_WIRELESS_RECONNECTION_TIME_MSC }
      else s
    if e.now > s.slave_state_timer then fsm_break (slave_reset K e s)
    else fsm_break s
  | STATE_WAIT_FOR_WIFI_CONFIGURATION_UPDATE_COMPLETE =>
    if e.now > s.slave_state_timer then
      let s := platform_notify_error K s BPL_ERR_WIFI_CONFIGURATION_CHANGE_TIMEOUT
        "WIFI configuration timeout!"
      fsm_break (slave_reset K e s)
    else fsm_break s
  | STATE_WAIT_FOR_ANOTHER_WIFI_CONFIGURATION_UPDATE =>
    if e.now > s.slave_state_timer then fsm_break (slave_reset K e s)
    else fsm_break s
  | STATE_VERSION_MISMATCH => fsm_break s
  | STATE_SSID_MISMATCH => fsm_break s
  | STATE_STOPPED => fsm_break s

/-- The member `slave_fsm`, called with `call_slave_select = true` as `work` does. -/
def slave_fsm (K : Constants) (e : Env) (s : State) : FsmResult :=
  fsm_case K e { s with fsm_runs := s.fsm_runs + 1 } s.slave_state

/-- The lambda `operation_to_err_code` of `work`. -/
def operation_to_err_code : eWifiIfaceOperation → BplErr
  | WIFI_IFACE_OPER_DISABLE => BPL_ERR_SLAVE_TIMEOUT_IFACE_ENABLE_REQUEST
  | WIFI_IFACE_OPER_ENABLE => BPL_ERR_SLAVE_TIMEOUT_IFACE_DISABLE_REQUEST
  | WIFI_IFACE_OPER_RESTORE => BPL_ERR_SLAVE_TIMEOUT_IFACE_RESTORE_REQUEST
  | WIFI_IFACE_OPER_RESTART => BPL_ERR_SLAVE_TIMEOUT_IFACE_RESTART_REQUEST
  | _ => BPL_ERR_NONE

/-- The result of the supervisor's own part of `work`: its return value, whether the
base class `socket_thread::work` (the socket dispatch) is to be called next, and the new
state. -/
structure WorkResult where
  ret : Bool
  call_slave_select : Bool
  state : State

/-- The member `work`, up to the call of `socket_thread::work`. -/
def work (K : Constants) (e : Env) (s : State) : WorkResult :=
  let r1 := monitor_heartbeat_check K e s
  let r2 := if ¬ r1.1 then (false, r1.2) else ap_manager_heartbeat_check K e r1.2
  let s := if ¬ r2.1 then slave_reset K e r2.2 else r2.2
  if s.pending_iface_actions ≠ [] then
    match s.pending_iface_actions.find?
        (fun p => elapsed_secs e.now p.2.timestamp > K.IFACE_ACTION_TIMEOUT_SEC) with
    | some (iface, action) =>
      let s := if operation_to_err_code action.operation ≠ BPL_ERR_NONE then
          platform_notify_error K s (operation_to_err_code action.operation) iface
        else s
      let s := { s with stop_on_failure_attempts := s.stop_on_failure_attempts - 1 }
      { ret := true, call_slave_select := true, state := slave_reset K e s }
    | none => { ret := true, call_slave_select := true, state := s }
  else
    let r := slave_fsm K e s
    if ¬ r.slave_ok then { ret := false, call_slave_select := r.call_slave_select, state := r.state }
    else
      let s := r.state
      let s :=
        if s.config.enable_bpl_iface_status_notifications ∧ s.platform_manager_socket.isSome ∧
            ¬ s.platform_settings.onboarding then
          send_iface_status K s
        else s
      { ret := true, call_slave_select := r.call_slave_select, state := s }

/-- What the socket dispatch of the base class can deliver to the supervisor between two
calls of `work`: a CMDU read from a socket, or the disconnection of a socket. -/
inductive Event
  | cmdu (sd : SocketId) (cmdu_rx : CmduRx)
  | disconnected (sd : SocketId)
  | fsm_step

/-- The supervisor's reaction to one event. -/
def step (K : Constants) (e : Env) (s : State) : Event → State
  | .cmdu sd cmdu_rx => (handle_cmdu K e s sd cmdu_rx).2
  | .disconnected sd => (socket_disconnected K e s sd).2
  | .fsm_step => (slave_fsm K e s).state

/-! ## Reading the trace of sent frames -/

/-- The trace entries a `send_cmdu` to the endpoint `sd` adds. -/
def frames_to (sd : Option SocketId) (f : TxFrame) : List Sent :=
  match sd with
  | none => []
  | some k => [{ sd := k, frame := f, dst_mac := "", src_mac := "" }]

/-- The frame as `send_cmdu_to_controller` hands it to the transport: a vendor-specific
header gets the local radio MAC and the direction `BEEROCKS_DIRECTION_CONTROLLER`. -/
def controller_stamp (s : State) : TxFrame → TxFrame
  | .VENDOR_SPECIFIC_MESSAGE h op =>
    .VENDOR_SPECIFIC_MESSAGE
      { h with radio_mac := s.hostap_params.iface_mac,
               direction := .BEEROCKS_DIRECTION_CONTROLLER } op
  | g => g

/-- The trace entries a `send_cmdu_to_controller` adds. -/
def controller_frames (s : State) (f : TxFrame) : List Sent :=
  match s.master_socket with
  | none => []
  | some k => [{ sd := k, frame := controller_stamp s f,
                 dst_mac := s.backhaul_params.controller_bridge_mac,
                 src_mac := s.backhaul_params.bridge_mac }]

/-- The vendor-specific message class carried by a trace entry, if it is one. -/
def Sent.op (x : Sent) : Option TxOp :=
  match x.frame with
  | .VENDOR_SPECIFIC_MESSAGE _ op => some op
  | _ => none

/-- Is the trace entry a `cACTION_PLATFORM_ADVERTISE_SSID_FLAG_UPDATE_REQUEST`? -/
def is_advertise_ssid_flag_update_request (x : Sent) : Bool :=
  match x.op with
  | some (.cACTION_PLATFORM_ADVERTISE_SSID_FLAG_UPDATE_REQUEST _) => true
  | _ => false

/-- Is the trace entry a `cACTION_PLATFORM_ERROR_NOTIFICATION` with the given code? -/
def is_platform_error (code : BplErr) (x : Sent) : Bool :=
  match x.op with
  | some (.cACTION_PLATFORM_ERROR_NOTIFICATION c _) => c = code
  | _ => false

/-! ## Concrete inputs

The constants, configuration and states the closed theorems below evaluate the code at. -/

/-- Two lower-case hexadecimal digits of an octet. -/
def hex2 (n : Nat) : String :=
  let d (k : Nat) : Char :=
    match k with
    | 0 => '0' | 1 => '1' | 2 => '2' | 3 => '3' | 4 => '4' | 5 => '5' | 6 => '6' | 7 => '7'
    | 8 => '8' | 9 => '9' | 10 => 'a' | 11 => 'b' | 12 => 'c' | 13 => 'd' | 14 => 'e'
    | _ => 'f'
  String.mk [d (n / 16 % 16), d (n % 16)]

/-- Modelled from the spec: `network_utils::mac_to_string` (beerocks bcl, not part of the
sources), the usual rendering of a 48-bit address, colon-separated lower-case hex. -/
def mac_to_string0 (m : sMacAddr) : String :=
  ":".intercalate (m.oct.map hex2)

/-- The value of a hexadecimal digit; 0 for another character. -/
def hex_digit (c : Char) : Nat :=
  if '0' ≤ c ∧ c ≤ '9' then c.toNat - '0'.toNat
  else if 'a' ≤ c ∧ c ≤ 'f' then c.toNat - 'a'.toNat + 10
  else if 'A' ≤ c ∧ c ≤ 'F' then c.toNat - 'A'.toNat + 10
  else 0

/-- The numbers between the colons of an address string, read as hexadecimal. -/
def mac_octets : List Char → Nat → List Nat
  | [], cur => [cur]
  | c :: cs, cur =>
    if c = ':' then cur :: mac_octets cs 0
    else mac_octets cs (cur * 16 + hex_digit c)

/-- Modelled from the spec: `network_utils::mac_from_string` (beerocks bcl, not part of the
sources), the inverse of `mac_to_string` on well-formed strings. -/
def mac_from_string0 (s : String) : sMacAddr :=
  { oct := mac_octets s.data 0 }

/-- Modelled from the spec: `network_utils::ipv4_to_string` (beerocks bcl, not part of the
sources), dotted decimal. -/
def ipv4_to_string0 (a : sIpv4Addr) : String :=
  ".".intercalate [toString a.oct0, toString a.oct1, toString a.oct2, toString a.oct3]

/-- The decimal numbers between the dots of a version string; characters that are neither
a digit nor a dot are skipped. -/
def version_components : List Char → Nat → List Nat
  | [], cur => [cur]
  | c :: cs, cur =>
    if c = '.' then cur :: version_components cs 0
    else if c.isDigit then version_components cs (cur * 10 + (c.toNat - '0'.toNat))
    else version_components cs cur

/-- Modelled from the spec: `version::version_from_string` (beerocks bcl, not part of the
sources) reads "major.minor.build_number" (end-to-end scenario 2 of the specification
compares "1.2.3" with "1.0.0"); a missing or non-numeric component reads as 0. -/
def version_from_string0 (v : String) : sBeerocksVersion :=
  let parts := version_components v.toList 0
  { major := parts.getD 0 0, minor := parts.getD 1 0, build_number := parts.getD 2 0 }

/-- Modelled from the spec: one assignment of the constants that live in headers outside
the sources (`beerocks_defines.h`, `bpl_cfg.h`, ...). The general theorems hold for every
assignment; this one is used only to run the code on concrete inputs. -/
def K0 : Constants :=
  { BEEROCKS_VERSION := "1.0.0"
    SLAVE_INIT_DELAY_SEC := 4
    IFACE_ACTION_TIMEOUT_SEC := 60
    KEEP_ALIVE_INTERVAL_MSC := 10000
    CONNECT_PLATFORM_RETRY_COUNT_MAX := 5
    WAIT_FOR_PLATFORM_MANAGER_REGISTER_RESPONSE_TIMEOUT_SEC := 600
    STATE_WAIT_FOR_WLAN_READY_STATUS_RESPONSE_TIMEOUT_SEC := 4
    STATE_WAIT_FOR_UNIFY_WIFI_CREDENTIALS_RESPONSE_TIMEOUT_SEC := 600
    WAIT_FOR_JOINED_RESPONSE_TIMEOUT_SEC := 5
    WAIT_BEFORE_SEND_SLAVE_JOINED_NOTIFICATION_SEC := 1
    WAIT_BEFORE_SEND_BH_ENABLE_NOTIFICATION_SEC := 1
    IRE_MAX_WIRELESS_RECONNECTION_TIME_MSC := 6000
    SON_SLAVE_WAIT_AFTER_WIFI_CONFIG_UPDATE_SEC := 3
    STATE_WAIT_FOR_WIFI_CONFIGURATION_UPDATE_COMPLETE_TIMEOUT_SEC := 600
    STATE_WAIT_FOR_PLATFORM_BEEROCKS_CREDENTIALS_UPDATE_RESPONSE_TIMEOUT_SEC := 300
    MONITOR_HEARTBEAT_TIMEOUT_SEC := 10
    MONITOR_HEARTBEAT_RETRIES := 10
    AP_MANAGER_HEARTBEAT_TIMEOUT_SEC := 10
    AP_MANAGER_HEARTBEAT_RETRIES := 10
    BH_SIGNAL_RSSI_THRESHOLD_HYSTERESIS := 2
    BH_SIGNAL_RSSI_THRESHOLD_LOW := -75
    BH_SIGNAL_RSSI_THRESHOLD_HIGH := -40
    IFACE_RADIO_ID := -1
    IFACE_TYPE_UNSUPPORTED := 0
    IFACE_TYPE_GW_BRIDGE := 7
    ZERO_MAC_STRING := "00:00:00:00:00:00"
    tx_data_capacity := 1024
    tx_sta_stats_capacity := 64
    vs_default_direction := .BEEROCKS_DIRECTION_AGENT
    vs_default_radio_mac := { oct := [0, 0, 0, 0, 0, 0] }
    BPL_WLAN_SEC_NONE_STR := "None"
    BPL_WLAN_SEC_WEP64_STR := "WEP-64"
    BPL_WLAN_SEC_WEP128_STR := "WEP-128"
    BPL_WLAN_SEC_WPA_PSK_STR := "WPA-Personal"
    BPL_WLAN_SEC_WPA2_PSK_STR := "WPA2-Personal"
    BPL_WLAN_SEC_WPA_WPA2_PSK_STR := "WPA-WPA2-Personal"
    mac_to_string := mac_to_string0
    ipv4_to_string := ipv4_to_string0
    version_from_string := version_from_string0
    is_dfs_channel := fun ch => decide (52 ≤ ch ∧ ch ≤ 144)
    mac_from_string := mac_from_string0
    tlv := K0t
    TLV_CHANNEL_PREFERENCE := 139
    tx_buffer_len := 1500
    cmdu_header_len := 8 }

/-- A configuration: radio wlan0 with identifier 02:00:00:00:00:01, wired backhaul eth0,
wireless backhaul wlan1, bridge br-lan, at most 3 failure attempts, keep-alive on. -/
def conf0 : sSlaveConfig :=
  { temp_path := "/tmp/beerocks/"
    hostap_iface := "wlan0"
    hostap_iface_type := 1
    hostap_ant_gain := 0
    backhaul_wire_iface := "eth0"
    backhaul_wire_iface_type := 2
    backhaul_wireless_iface := "wlan1"
    backhaul_wireless_iface_type := 1
    backhaul_wireless_iface_filter_low := false
    backhaul_preferred_bssid := "00:00:00:00:00:00"
    bridge_iface := "br-lan"
    radio_identifier := "02:00:00:00:00:01"
    platform := 0
    stop_on_failure_attempts := 3
    enable_keep_alive := true
    enable_bpl_iface_status_notifications := false
    enable_credentials_automatic_unify := false
    enable_repeater_mode := false }

/-- The constructor `slave_thread::slave_thread`: the socket pointers are null, the
failure budget is the configured one and the state is `STATE_INIT`; the members the
constructor does not mention have the zero value of their type. -/
def slave_thread (conf : sSlaveConfig) : State :=
  { config := conf
    slave_state := STATE_INIT
    slave_state_timer := 0
    should_stop := false
    ap_manager := false
    backhaul_manager_socket := none
    master_socket := none
    monitor_socket := none
    ap_manager_socket := none
    platform_manager_socket := none
    configuration_stop_on_failure_attempts := conf.stop_on_failure_attempts
    stop_on_failure_attempts := conf.stop_on_failure_attempts
    stopped := false
    is_credentials_changed_on_db := false
    is_backhaul_disconnected := false
    is_slave_reset := false
    is_backhaul_manager := false
    is_backhual_reconf := false
    is_wlan_credentials_unified := false
    detach_on_conf_change := false
    slave_resets_counter := 0
    connect_platform_retry_counter := 0
    keep_alive_retries := 0
    monitor_retries_counter := 0
    ap_manager_retries_counter := 0
    master_last_seen := 0
    monitor_last_seen := 0
    ap_manager_last_seen := 0
    pending_iface_actions := []
    pending_client_association_cmdu := []
    platform_settings :=
      { front_ssid := "", front_pass := "", front_security_type := "", back_ssid := "",
        back_pass := "", back_security_type := "", onboarding := false, local_master := false,
        local_gw := false, passive_mode_enabled := false, wired_backhaul := false,
        backhaul_vaps_bssid := [], other := [] }
    wlan_settings :=
      { band_enabled := false, acs_enabled := false, advertise_ssid := false, ssid := "",
        pass := "", security_type := "", other := [] }
    backhaul_params :=
      { gw_ipv4 := "", gw_bridge_mac := "", controller_bridge_mac := "", bridge_mac := "",
        bridge_ipv4 := "", bridge_iface := "", backhaul_iface := "", backhaul_mac := "",
        backhaul_ipv4 := "", backhaul_bssid := "", backhaul_channel := 0,
        backhaul_is_wireless := false, backhaul_iface_type := 0,
        backhaul_scan_measurement_list := [] }
    hostap_params := { iface_mac := { oct := [] }, iface_is_5ghz := false, ant_gain := 0,
                       other := [] }
    hostap_cs_params := { channel := 0, other := [] }
    son_config := { slave_keep_alive_retries := 0, monitor_thresholds := [] }
    new_credentials := { ssid := "", pass := "", sec := .eWiFiSec_None, other := [] }
    master_version := ""
    iface_status_ap := .OFF
    iface_status_ap_prev := .OFF
    iface_status_bh := .OFF
    iface_status_bh_prev := .OFF
    iface_status_bh_wired := .OFF
    iface_status_bh_wired_prev := .OFF
    iface_status_operational_state := false
    iface_status_operational_state_prev := false
    last_reported_backhaul_rssi := 0
    log_levels := []
    sent := []
    fsm_runs := 0
    null_dereference := false }

/-- An environment at clock value 100 s in which every connection succeeds. -/
def env0 : Env :=
  { now := 100000
    platform_connect := some 11
    backhaul_connect := some 12
    ap_manager_start_ok := true
    ap_manager_last_error := .APMANAGER_THREAD_ERROR_NO_ERROR
    bridge_info_ip := "192.168.1.1"
    bridge_info_mac := "02:00:00:00:00:aa"
    tx_buffer := [] }

/-- The radio MAC of the example radio. -/
def mac0 : sMacAddr := { oct := [2, 0, 0, 0, 0, 1] }

/-- A supervisor that has joined: platform adapter on socket 11, backhaul manager and
controller on socket 12, AP manager on 13, monitor on 14, radio MAC 02:00:00:00:00:01,
band enabled, in `STATE_OPERATIONAL`. -/
def s_operational : State :=
  { slave_thread conf0 with
    slave_state := STATE_OPERATIONAL
    ap_manager := true
    platform_manager_socket := some 11
    backhaul_manager_socket := some 12
    master_socket := some 12
    ap_manager_socket := some 13
    monitor_socket := some 14
    master_last_seen := 100000
    monitor_last_seen := 100000
    ap_manager_last_seen := 100000
    hostap_params := { iface_mac := mac0, iface_is_5ghz := false, ant_gain := 0, other := [] }
    wlan_settings :=
      { band_enabled := true, acs_enabled := true, advertise_ssid := true, ssid := "mesh",
        pass := "secret", security_type := "WPA2-Personal", other := [] } }

/-- The same supervisor while it waits for the controller's join response. -/
def s_wait_joined : State :=
  { s_operational with slave_state := STATE_WAIT_FOR_JOINED_RESPONSE }

/-- The son configuration carried by the example join responses. -/
def son_config0 : sSonConfig :=
  { slave_keep_alive_retries := 10, monitor_thresholds := [] }

/-- A well-formed join response of the controller with the given error code, from a
controller of the same version. -/
def joined_response (err_code : eSlaveJoinResponseErrCode) : VsRx :=
  { header := { direction := .BEEROCKS_DIRECTION_AGENT, id := 0, radio_mac := mac0 }
    body := .ACTION_CONTROL (.ACTION_CONTROL_SLAVE_JOINED_RESPONSE err_code "1.0.0" son_config0)
    cls_ok := true }

/-- The radio MAC of another radio of the same device. -/
def mac1 : sMacAddr := { oct := [2, 0, 0, 0, 0, 2] }

/-- The TLVs of an AP-Autoconfiguration WSC answer of the controller: the radio
identifier, one M2 with the given manufacturer, and the vendor TLV with a join response
without error. -/
def wsc_m2 (radio_uid : sMacAddr) (manufacturer : String) : List Tlv :=
  [.TLV_AP_RADIO_IDENTIFIER (some radio_uid), .TLV_WSC (some manufacturer),
   .TLV_VENDOR_SPECIFIC (some (joined_response JOIN_RESP_NO_ERROR))]

/-- The operational supervisor with its failure budget (3 attempts configured) used up. -/
def s_exhausted : State :=
  { s_operational with stop_on_failure_attempts := 0 }

/-- The operational supervisor of a configuration with `stop_on_failure_attempts = 0`:
the constructor copies the 0 into both counters. -/
def s_unlimited : State :=
  { s_operational with configuration_stop_on_failure_attempts := 0,
                       stop_on_failure_attempts := 0 }

/-- The `ACTION_APMANAGER_INIT_DONE_NOTIFICATION` an AP manager thread sends when it has
started. -/
def apmanager_init_done : CmduRx :=
  .VENDOR_SPECIFIC_MESSAGE (some
    { header := { direction := .BEEROCKS_DIRECTION_AGENT, id := 0, radio_mac := mac0 }
      body := .ACTION_APMANAGER .ACTION_APMANAGER_INIT_DONE_NOTIFICATION
      cls_ok := true })

/-- The operational supervisor with one interface action pending, requested at the
current clock value of `env0`. -/
def s_pending : State :=
  { s_operational with
    pending_iface_actions :=
      [("wlan0", { iface := "wlan0", operation := WIFI_IFACE_OPER_ENABLE, timestamp := 100000 })] }

/-- The same, but the monitor has been silent for 100 s and 9 heartbeat periods have
already been missed. -/
def s_pending_monitor_silent : State :=
  { s_pending with monitor_last_seen := 0, monitor_retries_counter := 9 }

/-! ## The specification's transition table for the join response -/

/-- The FSM state the specification gives for each error code of a join response that
arrives in `STATE_WAIT_FOR_JOINED_RESPONSE`; for `AdvertiseSsidFlagMismatch` the
supervisor stays where it is. -/
def spec_join_next_state : eSlaveJoinResponseErrCode → eSlaveState
  | JOIN_RESP_REJECT => STATE_WAIT_BEFORE_JOIN_MASTER
  | JOIN_RESP_VERSION_MISMATCH => STATE_VERSION_MISMATCH
  | JOIN_RESP_SSID_MISMATCH => STATE_SSID_MISMATCH
  | JOIN_RESP_ADVERTISE_SSID_FLAG_MISMATCH => STATE_WAIT_FOR_JOINED_RESPONSE
  | _ => STATE_UPDATE_MONITOR_SON_CONFIG

/-! ## More readings of the trace -/

/-- The parameters carried by a trace entry that is a
`cACTION_CONTROL_CLIENT_ASSOCIATED_NOTIFICATION`. -/
def Sent.associated_forward (x : Sent) : Option sClientParams :=
  match x.op with
  | some (.cACTION_CONTROL_CLIENT_ASSOCIATED_NOTIFICATION params) => some params
  | _ => none

/-- The client-associated notifications of a trace, oldest first. -/
def associated_forwards (l : List Sent) : List sClientParams :=
  l.filterMap Sent.associated_forward

/-- Is the trace entry a `cACTION_PLATFORM_VERSION_MISMATCH_NOTIFICATION`? -/
def is_version_mismatch_notification (x : Sent) : Bool :=
  match x.op with
  | some (.cACTION_PLATFORM_VERSION_MISMATCH_NOTIFICATION _) => true
  | _ => false

/-- Is the trace entry a `cACTION_PLATFORM_MASTER_SLAVE_VERSIONS_NOTIFICATION`? -/
def is_master_slave_versions_notification (x : Sent) : Bool :=
  match x.op with
  | some (.cACTION_PLATFORM_MASTER_SLAVE_VERSIONS_NOTIFICATION _) => true
  | _ => false

/-- Is the trace entry a `cACTION_APMANAGER_HOSTAP_VAPS_LIST_UPDATE_REQUEST`? -/
def is_hostap_vaps_list_update_request (x : Sent) : Bool :=
  match x.op with
  | some .cACTION_APMANAGER_HOSTAP_VAPS_LIST_UPDATE_REQUEST => true
  | _ => false

/-- Is the master version newer than the slave version, as `parse_intel_join_response`
compares them (major, then minor, then build number)? -/
def master_version_newer (K : Constants) (master_version : String) : Bool :=
  decide ((K.version_from_string master_version).major
        > (K.version_from_string K.BEEROCKS_VERSION).major ∨
      ((K.version_from_string master_version).major
          = (K.version_from_string K.BEEROCKS_VERSION).major ∧
        (K.version_from_string master_version).minor
          > (K.version_from_string K.BEEROCKS_VERSION).minor) ∨
      ((K.version_from_string master_version).major
          = (K.version_from_string K.BEEROCKS_VERSION).major ∧
        (K.version_from_string master_version).minor
          = (K.version_from_string K.BEEROCKS_VERSION).minor ∧
        (K.version_from_string master_version).build_number
          > (K.version_from_string K.BEEROCKS_VERSION).build_number))

/-- The trace entries the first part of `parse_intel_join_response` adds for a response
that is not a rejection: the VAP list request to the AP manager, then one client-associated
notification to the controller for every held-back association, in the order of the map. -/
def join_drain_frames (K : Constants) (s : State) : List Sent :=
  frames_to s.ap_manager_socket
      (create_vs_message K .cACTION_APMANAGER_HOSTAP_VAPS_LIST_UPDATE_REQUEST 0) ++
    s.pending_client_association_cmdu.flatMap (fun notify =>
      controller_frames s
        (create_vs_message K (.cACTION_CONTROL_CLIENT_ASSOCIATED_NOTIFICATION notify.2) 0))

/-- The trace entries the version check of `parse_intel_join_response` adds. -/
def version_mismatch_frames (K : Constants) (s : State) (master_version : String) :
    List Sent :=
  if master_version_newer K master_version then
    frames_to s.platform_manager_socket
      (create_vs_message K (.cACTION_PLATFORM_VERSION_MISMATCH_NOTIFICATION
        { master_version := master_version, slave_version := K.BEEROCKS_VERSION }) 0)
  else []

/-- The trace entries the err_code branch at the end of `parse_intel_join_response` adds
(a rejection returns before it). -/
def join_err_code_frames (K : Constants) (s : State) (master_version : String) :
    eSlaveJoinResponseErrCode → List Sent
  | JOIN_RESP_REJECT => []
  | JOIN_RESP_VERSION_MISMATCH => []
  | JOIN_RESP_SSID_MISMATCH => []
  | JOIN_RESP_ADVERTISE_SSID_FLAG_MISMATCH =>
    frames_to s.platform_manager_socket
      (create_vs_message K (.cACTION_PLATFORM_ADVERTISE_SSID_FLAG_UPDATE_REQUEST
        (if s.wlan_settings.advertise_ssid then 0 else 1)) 0)
  | _ =>
    frames_to s.platform_manager_socket
      (create_vs_message K (.cACTION_PLATFORM_MASTER_SLAVE_VERSIONS_NOTIFICATION
        { master_version := master_version, slave_version := K.BEEROCKS_VERSION }) 0)

/-! ## Runs of the keep-alive -/

/-- Successive calls of `process_keep_alive` at the given clock values, with nothing else
happening in between (no controller message, no other FSM state). -/
def keep_alive_calls (K : Constants) (e : Env) (s : State) : List TimePoint → State
  | [] => s
  | t :: ts => keep_alive_calls K e (process_keep_alive K { e with now := t } s) ts

/-- Is every clock value of the list at least `lo` and less than `hi` milliseconds after
the one before it, the first after `t0`? -/
def paced (lo hi : Int) : TimePoint → List TimePoint → Bool
  | _, [] => true
  | t0, t :: ts =>
    decide (lo ≤ (t : Int) - (t0 : Int)) && decide ((t : Int) - (t0 : Int) < hi) && paced lo hi t ts

/-- The ping request `process_keep_alive` sends, as it reaches the controller socket `m`. -/
def keep_alive_ping (K : Constants) (s : State) (m : SocketId) : Sent :=
  { sd := m,
    frame := controller_stamp s (create_vs_message K (.cACTION_CONTROL_AGENT_PING_REQUEST 1 0 0 []) 0),
    dst_mac := s.backhaul_params.controller_bridge_mac,
    src_mac := s.backhaul_params.bridge_mac }

/-! ## Concrete inputs for the router and the keep-alive -/

/-- The operational supervisor after a join that configured 10 keep-alive retries. -/
def s_keep_alive : State :=
  { s_operational with son_config := son_config0 }

/-- The same supervisor when the controller was last heard at clock value 0. -/
def s_keep_alive_silent : State :=
  { s_keep_alive with master_last_seen := 0 }

/-- An environment at clock value 2^31 ms (about 24.9 days). -/
def env_late : Env :=
  { env0 with now := 2147483648 }

/-- The header of a frame the controller sends to the example radio. -/
def hdr0 : cACTION_HEADER :=
  { direction := .BEEROCKS_DIRECTION_AGENT, id := 7, radio_mac := mac0 }

/-- An RX-RSSI measurement request for a client with the given address. -/
def rssi_request (cross : Bool) (ipv4 : sIpv4Addr) : sNodeRssiMeasurementRequest :=
  { mac := { oct := [2, 0, 0, 0, 0, 9] }, ipv4 := ipv4, channel := 36, bandwidth := 80,
    cross := cross, other := [] }

/-- An RX-RSSI measurement result as a worker reports it, tagged with a module that is
none of the three workers. -/
def rssi_response0 : sNodeRssiMeasurement :=
  { mac := { oct := [2, 0, 0, 0, 0, 9] }, rx_rssi := -60,
    src_module := .BEEROCKS_ENTITY_NONE, other := [] }

/-- Two stations. -/
def client_a : sClientParams := { mac := { oct := [2, 0, 0, 0, 0, 0x0a] }, other := [] }

/-- The second station. -/
def client_b : sClientParams := { mac := { oct := [2, 0, 0, 0, 0, 0x0b] }, other := [] }

/-- The supervisor waiting for the join response with the association of `client_a`
held back. -/
def s_wait_joined_pending : State :=
  { s_wait_joined with
    pending_client_association_cmdu := [("02:00:00:00:00:0a", client_a)] }

/-- A join response with the given error code from a controller of the given version. -/
def joined_response_from (err_code : eSlaveJoinResponseErrCode) (master_version : String) :
    VsRx :=
  { header := { direction := .BEEROCKS_DIRECTION_AGENT, id := 0, radio_mac := mac0 }
    body := .ACTION_CONTROL
      (.ACTION_CONTROL_SLAVE_JOINED_RESPONSE err_code master_version son_config0)
    cls_ok := true }

/-! ## Runs of the FSM and inputs for disconnects, timeouts and forwarding -/

/-- The states of the FSM whose `case` compares the clock with `slave_state_timer`. -/
def has_deadline : eSlaveState → Bool
  | STATE_WAIT_BERFORE_INIT => true
  | STATE_WAIT_FOR_PLATFORM_MANAGER_REGISTER_RESPONSE => true
  | STATE_WAIT_RETRY_CONNECT_TO_BACKHAUL_MANAGER => true
  | STATE_WAIT_FOR_WLAN_READY_STATUS_RESPONSE => true
  | STATE_WAIT_FOR_UNIFY_WIFI_CREDENTIALS_RESPONSE => true
  | STATE_WAIT_BACKHAUL_MANAGER_BUSY => true
  | STATE_WAIT_BEFORE_JOIN_MASTER => true
  | STATE_WAIT_FOR_JOINED_RESPONSE => true
  | STATE_WAIT_FOR_PLATFORM_BEEROCKS_CREDENTIALS_UPDATE_RESPONSE => true
  | STATE_WAIT_FOR_WIFI_CONFIGURATION_UPDATE_COMPLETE => true
  | STATE_WAIT_FOR_ANOTHER_WIFI_CONFIGURATION_UPDATE => true
  | _ => false

/-- The waiting states of the FSM whose `case` is an empty `break`. -/
def waits_without_deadline : eSlaveState → Bool
  | STATE_WAIT_FOR_PLATFORM_MANAGER_CREDENTIALS_UPDATE_RESPONSE => true
  | STATE_WAIT_FOR_BACKHAUL_MANAGER_REGISTER_RESPONSE => true
  | STATE_WAIT_FOR_AP_MANAGER_INIT_DONE_NOTIFICATION => true
  | STATE_WAIT_FOR_AP_MANAGER_JOINED => true
  | STATE_WAIT_FOR_MONITOR_JOINED => true
  | STATE_WAIT_FOR_BACKHAUL_MANAGER_CONNECTED_NOTIFICATION => true
  | _ => false

/-- The operational supervisor with an interface action for wlan0 of the given kind,
requested at clock value 0, 100 s before the clock value of `env0`. -/
def s_pending_stale (operation : eWifiIfaceOperation) : State :=
  { s_operational with
    pending_iface_actions :=
      [("wlan0", { iface := "wlan0", operation := operation, timestamp := 0 })] }

/-- The supervisor waiting for the AP manager to join, with a state timer that ran out at
clock value 0. -/
def s_wait_ap_manager_joined : State :=
  { s_operational with slave_state := STATE_WAIT_FOR_AP_MANAGER_JOINED,
                       slave_state_timer := 0 }

/-- The operational supervisor whose platform settings name the front SSID "home". -/
def s_front_ssid : State :=
  { s_operational with
    platform_settings := { s_operational.platform_settings with front_ssid := "home" } }

/-- A beacon request of the controller. -/
def beacon_request (use_optional_ssid : Bool) (ssid : String) : sBeaconRequest11k :=
  { use_optional_ssid := use_optional_ssid, ssid := ssid, other := [] }

/-- The supervisor in `STATE_JOIN_INIT` with the onboarding flag set by the platform. -/
def s_onboarding : State :=
  { s_operational with
    slave_state := STATE_JOIN_INIT
    platform_settings := { s_operational.platform_settings with onboarding := true } }

/-- The operational supervisor in passive mode. -/
def s_passive : State :=
  { s_operational with
    platform_settings := { s_operational.platform_settings with passive_mode_enabled := true } }

/-- The operational supervisor whose monitor was last heard of at clock value 89500,
10.5 s before the clock value of `env0`. -/
def s_monitor_quiet : State :=
  { s_operational with monitor_last_seen := 89500 }

/-! ## The controller endpoint, resets inside FSM steps -/

/-- The states of the FSM before `STATE_BACKHAUL_MANAGER_CONNECTED` in the main sequence:
from `STATE_WAIT_BERFORE_INIT` and `STATE_INIT` to `STATE_WAIT_BACKHAUL_MANAGER_BUSY`. -/
def pre_backhaul : eSlaveState → Bool
  | STATE_WAIT_BERFORE_INIT => true
  | STATE_INIT => true
  | STATE_CONNECT_TO_PLATFORM_MANAGER => true
  | STATE_WAIT_FOR_PLATFORM_MANAGER_CREDENTIALS_UPDATE_RESPONSE => true
  | STATE_WAIT_FOR_PLATFORM_MANAGER_REGISTER_RESPONSE => true
  | STATE_CONNECT_TO_BACKHAUL_MANAGER => true
  | STATE_WAIT_RETRY_CONNECT_TO_BACKHAUL_MANAGER => true
  | STATE_WAIT_FOR_BACKHAUL_MANAGER_REGISTER_RESPONSE => true
  | STATE_JOIN_INIT => true
  | STATE_GET_WLAN_READY_STATUS => true
  | STATE_WAIT_FOR_WLAN_READY_STATUS_RESPONSE => true
  | STATE_JOIN_INIT_BRING_UP_INTERFACES => true
  | STATE_JOIN_INIT_WAIT_FOR_IFACE_CHANGE_DONE => true
  | STATE_START_AP_MANAGER => true
  | STATE_WAIT_FOR_AP_MANAGER_INIT_DONE_NOTIFICATION => true
  | STATE_WAIT_FOR_AP_MANAGER_JOINED => true
  | STATE_AP_MANAGER_JOINED => true
  | STATE_UNIFY_WIFI_CREDENTIALS => true
  | STATE_WAIT_FOR_UNIFY_WIFI_CREDENTIALS_RESPONSE => true
  | STATE_START_MONITOR => true
  | STATE_WAIT_FOR_MONITOR_JOINED => true
  | STATE_BACKHAUL_ENABLE => true
  | STATE_SEND_BACKHAUL_MANAGER_ENABLE => true
  | STATE_WAIT_FOR_BACKHAUL_MANAGER_CONNECTED_NOTIFICATION => true
  | STATE_WAIT_BACKHAUL_MANAGER_BUSY => true
  | _ => false

/-- The implication of the specification between the controller endpoint and the FSM
state: when `master_socket` is attached, the FSM is not in a state before
`STATE_BACKHAUL_MANAGER_CONNECTED`. -/
def controller_link_ok (s : State) : Bool :=
  s.master_socket.isNone || !pre_backhaul s.slave_state

/-- What a step from `s` to `t` keeps of that implication: the step does not attach the
controller endpoint, and unless it runs a `slave_reset` (which counts up
`slave_resets_counter`) it keeps `controller_link_ok`. -/
def keeps_link (s t : State) : Prop :=
  (s.master_socket = none → t.master_socket = none) ∧
  (t.slave_resets_counter = s.slave_resets_counter →
    controller_link_ok s = true → controller_link_ok t = true)

/-- The supervisor's reactions to a sequence of events, at one clock value. -/
def steps (K : Constants) (e : Env) (s : State) : List Event → State
  | [] => s
  | ev :: evs => steps K e (step K e s ev) evs

/-- The `ACTION_PLATFORM_WIFI_CONFIGURATION_UPDATE_REQUEST` of the platform manager that
announces the start (`config_start = true`) or the end of a Wifi configuration change. -/
def wifi_configuration_update_request (config_start : Bool) : CmduRx :=
  .VENDOR_SPECIFIC_MESSAGE (some
    { header := hdr0
      body := .ACTION_PLATFORM (.ACTION_PLATFORM_WIFI_CONFIGURATION_UPDATE_REQUEST config_start)
      cls_ok := true })

/-- A Wifi configuration change during which the monitor (socket 14) goes away: the
platform manager (socket 11) announces the start, the monitor socket disconnects, the
platform manager announces the end. -/
def conf_change_events : List Event :=
  [.cmdu 11 (wifi_configuration_update_request true),
   .disconnected 14,
   .cmdu 11 (wifi_configuration_update_request false)]

/-- The supervisor about to send the backhaul enable request, with no backhaul manager
endpoint to send it to, so that the send fails. -/
def s_send_backhaul_enable : State :=
  { s_operational with
    slave_state := STATE_SEND_BACKHAUL_MANAGER_ENABLE
    backhaul_manager_socket := none
    master_socket := none }

/-- The `ACTION_APMANAGER_JOINED_NOTIFICATION` of the AP manager of the example radio. -/
def apmanager_joined : CmduRx :=
  .VENDOR_SPECIFIC_MESSAGE (some
    { header := hdr0
      body := .ACTION_APMANAGER (.ACTION_APMANAGER_JOINED_NOTIFICATION
        s_operational.hostap_params s_operational.hostap_cs_params)
      cls_ok := true })

/-- The `ACTION_MONITOR_JOINED_NOTIFICATION` of a monitor thread. -/
def monitor_joined : CmduRx :=
  .VENDOR_SPECIFIC_MESSAGE (some
    { header := hdr0, body := .ACTION_MONITOR .ACTION_MONITOR_JOINED_NOTIFICATION,
      cls_ok := true })

/-- The backhaul manager (socket 12) goes away, which resets the supervisor; then the
notifications of an AP manager (socket 13) and of a monitor (socket 14) arrive, with FSM
steps in between. -/
def backhaul_lost_events : List Event :=
  [.disconnected 12, .cmdu 13 apmanager_init_done, .cmdu 13 apmanager_joined,
   .fsm_step, .fsm_step, .cmdu 14 monitor_joined, .fsm_step]

/-- The operational supervisor during a Wifi configuration change in which a worker has
gone away. -/
def s_detach : State :=
  { s_operational with detach_on_conf_change := true }

/-- The AP manager socket (13) of the operational supervisor disconnects, which resets the
supervisor and deletes the AP manager thread object; then an
`ACTION_APMANAGER_INIT_DONE_NOTIFICATION` arrives on a new socket (15). -/
def thread_lost_events : List Event :=
  [.disconnected 13, .cmdu 15 apmanager_init_done]

/-- The supervisor after `thread_lost_events`: `ap_manager_socket` is attached again while
`ap_manager` is `nullptr`. -/
def s_nothread : State :=
  steps K0 env0 s_operational thread_lost_events

/-- The supervisor that waits for the connected notification of the backhaul manager: the
backhaul manager is attached (socket 12), the controller is not. -/
def s_backhaul_only : State :=
  { s_operational with
    slave_state := STATE_WAIT_FOR_BACKHAUL_MANAGER_CONNECTED_NOTIFICATION
    master_socket := none }

@[simp] theorem sofa_send_cmdu (s : State) (sd : Option SocketId) (f : TxFrame) :
    (send_cmdu s sd f).2.stop_on_failure_attempts = s.stop_on_failure_attempts := by
  unfold send_cmdu; split <;> rfl

@[simp] theorem sofa_send_cmdu_to_controller (s : State) (f : TxFrame) :
    (send_cmdu_to_controller s f).2.stop_on_failure_attempts = s.stop_on_failure_attempts := by
  unfold send_cmdu_to_controller; split <;> rfl

@[simp] theorem sofa_send_vs (K : Constants) (s : State) (sd : Option SocketId) (op : TxOp) (id : Nat) :
    (send_vs K s sd op id).stop_on_failure_attempts = s.stop_on_failure_attempts := by
  simp [send_vs]

@[simp] theorem sofa_send_vs_to_controller (K : Constants) (s : State) (op : TxOp) (id : Nat) :
    (send_vs_to_controller K s op id).stop_on_failure_attempts = s.stop_on_failure_attempts := by
  simp [send_vs_to_controller]

@[simp] theorem sofa_platform_notify_error (K : Constants) (s : State) (c : BplErr) (d : String) :
    (platform_notify_error K s c d).stop_on_failure_attempts = s.stop_on_failure_attempts := by
  unfold platform_notify_error; split <;> simp

@[simp] theorem sofa_slave_reset (K : Constants) (e : Env) (s : State) :
    (slave_reset K e s).stop_on_failure_attempts = s.stop_on_failure_attempts := by
  unfold slave_reset
  simp only [hostap_services_off, platform_manager_stop, ap_manager_stop, monitor_stop, backhaul_manager_stop]
  split_ifs <;> simp

@[simp] theorem sofa_update_iface_status (s : State) (a : Bool) (i : Int) :
    (update_iface_status s a i).stop_on_failure_attempts = s.stop_on_failure_attempts := by
  unfold update_iface_status; split_ifs <;> rfl

@[simp] theorem sofa_set_wifi_iface_state (K : Constants) (e : Env) (s : State) (i : String) (o : eWifiIfaceOperation) :
    (set_wifi_iface_state K e s i o).2.stop_on_failure_attempts = s.stop_on_failure_attempts := by
  unfold set_wifi_iface_state; split_ifs
  · rfl
  · split
    · split_ifs <;> rfl
    · simp only []; split_ifs <;> simp

@[simp] theorem sofa_set_radio_tx_enable (K : Constants) (s : State) (i : String) (o : Bool) :
    (set_radio_tx_enable K s i o).2.stop_on_failure_attempts = s.stop_on_failure_attempts := by
  simp only [set_radio_tx_enable]; split_ifs <;> simp

@[simp] theorem sofa_fsm_fail (K : Constants) (e : Env) (s : State) (c : BplErr) (d : String) :
    (fsm_fail K e s c d).stop_on_failure_attempts = s.stop_on_failure_attempts - 1 := by
  simp [fsm_fail]

@[simp] theorem sofa_send_platform_iface_status_notif (K : Constants) (s : State) (r : eRadioStatus) (b : Bool) :
    (send_platform_iface_status_notif K s r b).stop_on_failure_attempts = s.stop_on_failure_attempts := by
  simp [send_platform_iface_status_notif]

@[simp] theorem sofa_ap_manager_start (e : Env) (s : State) :
    (ap_manager_start e s).2.stop_on_failure_attempts = s.stop_on_failure_attempts := by
  unfold ap_manager_start; split_ifs <;> rfl

theorem send_cmdu_snd (s : State) (sd : Option SocketId) (f : TxFrame) :
    (send_cmdu s sd f).2 = { s with sent := s.sent ++ frames_to sd f } := by
  cases sd <;> simp [send_cmdu, frames_to]

theorem send_cmdu_fst (s : State) (sd : Option SocketId) (f : TxFrame) :
    (send_cmdu s sd f).1 = sd.isSome := by
  cases sd <;> rfl

theorem send_cmdu_to_controller_snd (s : State) (f : TxFrame) :
    (send_cmdu_to_controller s f).2 = { s with sent := s.sent ++ controller_frames s f } := by
  unfold send_cmdu_to_controller controller_frames
  split <;> simp [controller_stamp]

theorem send_vs_eq (K : Constants) (s : State) (sd : Option SocketId) (op : TxOp) (id : Nat) :
    send_vs K s sd op id = { s with sent := s.sent ++ frames_to sd (create_vs_message K op id) } := by
  simp [send_vs, send_cmdu_snd]

theorem send_vs_to_controller_eq (K : Constants) (s : State) (op : TxOp) (id : Nat) :
    send_vs_to_controller K s op id
      = { s with sent := s.sent ++ controller_frames s (create_vs_message K op id) } := by
  simp [send_vs_to_controller, send_cmdu_to_controller_snd]

theorem foldl_send_associated (K : Constants) (l : List (String × sClientParams)) (s : State) :
    l.foldl (fun st notify => send_vs_to_controller K st
        (.cACTION_CONTROL_CLIENT_ASSOCIATED_NOTIFICATION notify.2) 0) s
      = { s with sent := s.sent ++ l.flatMap (fun notify => controller_frames s
          (create_vs_message K (.cACTION_CONTROL_CLIENT_ASSOCIATED_NOTIFICATION notify.2) 0)) } := by
  induction l generalizing s with
  | nil => simp
  | cons a l ih =>
    rw [List.foldl_cons, ih, send_vs_to_controller_eq]
    simp [controller_frames, controller_stamp, List.append_assoc]

theorem adv_vs_false (K : Constants) (op : TxOp) (id k : Nat) (d1 d2 : String)
    (h : ∀ flag, op ≠ .cACTION_PLATFORM_ADVERTISE_SSID_FLAG_UPDATE_REQUEST flag) :
    is_advertise_ssid_flag_update_request
      { sd := k, frame := create_vs_message K op id, dst_mac := d1, src_mac := d2 } = false := by
  cases op <;> first | rfl | exact absurd rfl (h _)

theorem adv_stamp_false (s : State) (K : Constants) (op : TxOp) (id k : Nat) (d1 d2 : String)
    (h : ∀ flag, op ≠ .cACTION_PLATFORM_ADVERTISE_SSID_FLAG_UPDATE_REQUEST flag) :
    is_advertise_ssid_flag_update_request
      { sd := k, frame := controller_stamp s (create_vs_message K op id),
        dst_mac := d1, src_mac := d2 } = false := by
  cases op <;> first | rfl | exact absurd rfl (h _)

theorem adv_frames_to (sd : Option SocketId) (K : Constants) (op : TxOp) (id : Nat)
    (h : ∀ flag, op ≠ .cACTION_PLATFORM_ADVERTISE_SSID_FLAG_UPDATE_REQUEST flag) :
    (frames_to sd (create_vs_message K op id)).countP is_advertise_ssid_flag_update_request = 0 := by
  cases sd with
  | none => rfl
  | some k => simp [frames_to, List.countP_cons, adv_vs_false K op id k "" "" h]

theorem adv_controller_frames (s : State) (K : Constants) (op : TxOp) (id : Nat)
    (h : ∀ flag, op ≠ .cACTION_PLATFORM_ADVERTISE_SSID_FLAG_UPDATE_REQUEST flag) :
    (controller_frames s (create_vs_message K op id)).countP
      is_advertise_ssid_flag_update_request = 0 := by
  unfold controller_frames
  split
  · rfl
  · simp [List.countP_cons, adv_stamp_false s K op id _ _ _ h]


theorem fsm_update_monitor_son_config (K : Constants) (e : Env) (s : State)
    (h : s.slave_state = STATE_UPDATE_MONITOR_SON_CONFIG) :
    (slave_fsm K e s).state.slave_state = STATE_OPERATIONAL := by
  simp [slave_fsm, h, fsm_case, fsm_break]

theorem parse_intel_join_response_wellformed (K : Constants) (e : Env) (s : State) (vs : VsRx)
    (rest : List Tlv) (err_code : eSlaveJoinResponseErrCode) (master_version : String)
    (config : sSonConfig)
    (hstate : s.slave_state = STATE_WAIT_FOR_JOINED_RESPONSE)
    (hbody : vs.body = .ACTION_CONTROL
      (.ACTION_CONTROL_SLAVE_JOINED_RESPONSE err_code master_version config))
    (hok : vs.cls_ok = true) :
    parse_intel_join_response K e s (.TLV_VENDOR_SPECIFIC (some vs) :: rest)
      = join_response_body K e s err_code master_version config := by
  simp [parse_intel_join_response, hstate, hbody, hok]

theorem join_response_body_ok (K : Constants) (e : Env) (s : State)
    (err_code : eSlaveJoinResponseErrCode) (master_version : String) (config : sSonConfig) :
    (join_response_body K e s err_code master_version config).1 = true := by
  unfold join_response_body
  (repeat' split) <;> rfl

theorem join_response_body_state (K : Constants) (e : Env) (s : State)
    (err_code : eSlaveJoinResponseErrCode) (master_version : String) (config : sSonConfig)
    (hstate : s.slave_state = STATE_WAIT_FOR_JOINED_RESPONSE) :
    (join_response_body K e s err_code master_version config).2.slave_state
      = spec_join_next_state err_code := by
  unfold join_response_body
  cases err_code <;>
    simp [spec_join_next_state, send_vs_eq, foldl_send_associated, hstate] <;>
    split_ifs <;> simp [hstate]

theorem join_response_body_reject (K : Constants) (e : Env) (s : State)
    (master_version : String) (config : sSonConfig) :
    (join_response_body K e s JOIN_RESP_REJECT master_version config).2.slave_state_timer
      = e.now + 1000 * K.WAIT_BEFORE_SEND_SLAVE_JOINED_NOTIFICATION_SEC := by
  simp [join_response_body]

theorem adv_flatMap (s : State) (K : Constants) (l : List (String × sClientParams)) :
    (l.flatMap (fun notify => controller_frames s
        (create_vs_message K (.cACTION_CONTROL_CLIENT_ASSOCIATED_NOTIFICATION notify.2) 0))).countP
      is_advertise_ssid_flag_update_request = 0 := by
  induction l with
  | nil => rfl
  | cons a l ih =>
    rw [List.flatMap_cons, List.countP_append, ih,
      adv_controller_frames s K _ 0 (by intro flag h; cases h)]

theorem frames_to_some (k : SocketId) (f : TxFrame) :
    frames_to (some k) f = [{ sd := k, frame := f, dst_mac := "", src_mac := "" }] := rfl

theorem adv_request_true (K : Constants) (flag id k : Nat) (d1 d2 : String) :
    is_advertise_ssid_flag_update_request
      { sd := k, frame := create_vs_message K
          (.cACTION_PLATFORM_ADVERTISE_SSID_FLAG_UPDATE_REQUEST flag) id,
        dst_mac := d1, src_mac := d2 } = true := rfl

theorem join_response_body_advertise (K : Constants) (e : Env) (s : State)
    (master_version : String) (config : sSonConfig) (p : SocketId)
    (hp : s.platform_manager_socket = some p) :
    (join_response_body K e s JOIN_RESP_ADVERTISE_SSID_FLAG_MISMATCH master_version
        config).2.sent.countP is_advertise_ssid_flag_update_request
      = s.sent.countP is_advertise_ssid_flag_update_request + 1 ∧
    (join_response_body K e s JOIN_RESP_ADVERTISE_SSID_FLAG_MISMATCH master_version
        config).2.sent.getLast? = some
      { sd := p,
        frame := create_vs_message K (.cACTION_PLATFORM_ADVERTISE_SSID_FLAG_UPDATE_REQUEST
          (if s.wlan_settings.advertise_ssid then 0 else 1)) 0,
        dst_mac := "", src_mac := "" } := by
  simp only [join_response_body]
  simp only [send_vs_eq, foldl_send_associated]
  simp only [reduceCtorEq, if_false, if_true]
  have h1 := adv_frames_to s.ap_manager_socket K
    .cACTION_APMANAGER_HOSTAP_VAPS_LIST_UPDATE_REQUEST 0 (by intro _ h; cases h)
  have h2 := fun v => adv_vs_false K
    (.cACTION_PLATFORM_VERSION_MISMATCH_NOTIFICATION v) 0 p "" "" (by intro _ h; cases h)
  split_ifs <;>
    simp [hp, frames_to_some, List.countP_append, adv_flatMap, h1, h2, adv_request_true,
      List.countP_cons]

theorem join_response_body_advertise_keeps (K : Constants) (e : Env) (s : State)
    (master_version : String) (config : sSonConfig) :
    (join_response_body K e s JOIN_RESP_ADVERTISE_SSID_FLAG_MISMATCH master_version
        config).2.slave_resets_counter = s.slave_resets_counter ∧
    (join_response_body K e s JOIN_RESP_ADVERTISE_SSID_FLAG_MISMATCH master_version
        config).2.is_slave_reset = s.is_slave_reset := by
  simp only [join_response_body]
  simp only [send_vs_eq, foldl_send_associated]
  simp only [reduceCtorEq, if_false, if_true]
  split_ifs <;> simp

/-! ## The failure budget across the dispatchers -/

theorem handle_channel_preference_query_cases (K : Constants) (e : Env) (s : State)
    (mid : Nat) :
    handle_channel_preference_query K e s mid
      = (false, { s with null_dereference := true }) ∨
    handle_channel_preference_query K e s mid = (false, s) ∨
    ∃ report : sChannelPreferenceOnWire,
      handle_channel_preference_query K e s mid
        = send_cmdu_to_controller s (.CHANNEL_PREFERENCE_REPORT_MESSAGE mid report) := by
  unfold handle_channel_preference_query
  split
  · exact Or.inl rfl
  · exact Or.inr (Or.inl rfl)
  · exact Or.inr (Or.inr ⟨_, rfl⟩)

theorem frame_handle_channel_preference_query (K : Constants) (e : Env) (s : State)
    (mid : Nat) :
    (handle_channel_preference_query K e s mid).2.master_socket = s.master_socket ∧
    (handle_channel_preference_query K e s mid).2.slave_state = s.slave_state ∧
    (handle_channel_preference_query K e s mid).2.slave_resets_counter
      = s.slave_resets_counter ∧
    (handle_channel_preference_query K e s mid).2.stop_on_failure_attempts
      = s.stop_on_failure_attempts ∧
    (handle_channel_preference_query K e s mid).2.keep_alive_retries
      = s.keep_alive_retries ∧
    (handle_channel_preference_query K e s mid).2.master_last_seen = s.master_last_seen := by
  rcases handle_channel_preference_query_cases K e s mid with h | h | ⟨r, h⟩ <;> rw [h] <;>
    simp [send_cmdu_to_controller_snd]

@[simp] theorem sofa_stop_slave_thread (K : Constants) (e : Env) (s : State) :
    (stop_slave_thread K e s).stop_on_failure_attempts = s.stop_on_failure_attempts := by
  simp [stop_slave_thread]

theorem slave_reset_sent (K : Constants) (e : Env) (s : State) :
    (slave_reset K e s).sent = s.sent := by
  unfold slave_reset
  simp only [hostap_services_off, platform_manager_stop, ap_manager_stop, monitor_stop,
    backhaul_manager_stop, platform_notify_error]
  split_ifs <;> simp

theorem monitor_heartbeat_check_keeps (K : Constants) (e : Env) (s : State) :
    (monitor_heartbeat_check K e s).2.pending_iface_actions = s.pending_iface_actions ∧
    (monitor_heartbeat_check K e s).2.fsm_runs = s.fsm_runs ∧
    (monitor_heartbeat_check K e s).2.slave_state = s.slave_state := by
  unfold monitor_heartbeat_check
  split
  · exact ⟨rfl, rfl, rfl⟩
  · simp only []
    split_ifs <;> exact ⟨rfl, rfl, rfl⟩

theorem ap_manager_heartbeat_check_keeps (K : Constants) (e : Env) (s : State) :
    (ap_manager_heartbeat_check K e s).2.pending_iface_actions = s.pending_iface_actions ∧
    (ap_manager_heartbeat_check K e s).2.fsm_runs = s.fsm_runs ∧
    (ap_manager_heartbeat_check K e s).2.slave_state = s.slave_state := by
  unfold ap_manager_heartbeat_check
  split
  · exact ⟨rfl, rfl, rfl⟩
  · simp only []
    split_ifs <;> exact ⟨rfl, rfl, rfl⟩

theorem work_of_checks_pass (K : Constants) (e : Env) (s : State)
    (hm : (monitor_heartbeat_check K e s).1 = true)
    (ha : (ap_manager_heartbeat_check K e (monitor_heartbeat_check K e s).2).1 = true)
    (hp : s.pending_iface_actions ≠ [])
    (ht : ∀ p ∈ s.pending_iface_actions,
      elapsed_secs e.now p.2.timestamp ≤ K.IFACE_ACTION_TIMEOUT_SEC) :
    work K e s = { ret := true, call_slave_select := true,
                   state := (ap_manager_heartbeat_check K e (monitor_heartbeat_check K e s).2).2 } := by
  have hm2 := monitor_heartbeat_check_keeps K e s
  have ha2 := ap_manager_heartbeat_check_keeps K e (monitor_heartbeat_check K e s).2
  have hpend : (ap_manager_heartbeat_check K e
      (monitor_heartbeat_check K e s).2).2.pending_iface_actions = s.pending_iface_actions := by
    rw [ha2.1, hm2.1]
  have hfind : s.pending_iface_actions.find?
      (fun p => elapsed_secs e.now p.2.timestamp > K.IFACE_ACTION_TIMEOUT_SEC) = none := by
    rw [List.find?_eq_none]
    intro p hmem
    simpa using ht p hmem
  unfold work
  simp only [hm, ha, not_true_eq_false, if_false, hpend, hfind, hp, ne_eq, not_false_eq_true,
    if_true]

/-! ## The claims -/

/-- C1: a well-formed `SlaveJoinedResponse` read by `parse_intel_join_response` in
`STATE_WAIT_FOR_JOINED_RESPONSE` is accepted and the next state is the one the
specification's table gives for its err_code, whatever the rest of the state is. For
`Reject` the state timer is armed. For `AdvertiseSsidFlagMismatch` the state stays
`STATE_WAIT_FOR_JOINED_RESPONSE`, no reset happens, and with the platform adapter attached
exactly one advertise-flag update request is sent, last, to the platform adapter, with flag
0 when `wlan_settings.advertise_ssid` is set and 1 otherwise. For every other code the
state is `STATE_UPDATE_MONITOR_SON_CONFIG`, and the next FSM step enters
`STATE_OPERATIONAL`. -/
theorem parse_intel_join_response_by_err_code (K : Constants) (e : Env) (s : State)
    (vs : VsRx) (rest : List Tlv) (err_code : eSlaveJoinResponseErrCode)
    (master_version : String) (config : sSonConfig)
    (hstate : s.slave_state = STATE_WAIT_FOR_JOINED_RESPONSE)
    (hbody : vs.body = .ACTION_CONTROL
      (.ACTION_CONTROL_SLAVE_JOINED_RESPONSE err_code master_version config))
    (hok : vs.cls_ok = true) :
    (parse_intel_join_response K e s (.TLV_VENDOR_SPECIFIC (some vs) :: rest)).1 = true ∧
    (parse_intel_join_response K e s (.TLV_VENDOR_SPECIFIC (some vs) :: rest)).2.slave_state
      = spec_join_next_state err_code ∧
    (err_code = JOIN_RESP_REJECT →
      (parse_intel_join_response K e s
          (.TLV_VENDOR_SPECIFIC (some vs) :: rest)).2.slave_state_timer
        = e.now + 1000 * K.WAIT_BEFORE_SEND_SLAVE_JOINED_NOTIFICATION_SEC) ∧
    (err_code = JOIN_RESP_ADVERTISE_SSID_FLAG_MISMATCH →
      (parse_intel_join_response K e s
          (.TLV_VENDOR_SPECIFIC (some vs) :: rest)).2.slave_resets_counter
        = s.slave_resets_counter ∧
      (parse_intel_join_response K e s
          (.TLV_VENDOR_SPECIFIC (some vs) :: rest)).2.is_slave_reset = s.is_slave_reset ∧
      ∀ p : SocketId, s.platform_manager_socket = some p →
        (parse_intel_join_response K e s
            (.TLV_VENDOR_SPECIFIC (some vs) :: rest)).2.sent.countP
            is_advertise_ssid_flag_update_request
          = s.sent.countP is_advertise_ssid_flag_update_request + 1 ∧
        (parse_intel_join_response K e s
            (.TLV_VENDOR_SPECIFIC (some vs) :: rest)).2.sent.getLast? = some
          { sd := p,
            frame := create_vs_message K (.cACTION_PLATFORM_ADVERTISE_SSID_FLAG_UPDATE_REQUEST
              (if s.wlan_settings.advertise_ssid then 0 else 1)) 0,
            dst_mac := "", src_mac := "" }) ∧
    (spec_join_next_state err_code = STATE_UPDATE_MONITOR_SON_CONFIG →
      (slave_fsm K e (parse_intel_join_response K e s
          (.TLV_VENDOR_SPECIFIC (some vs) :: rest)).2).state.slave_state
        = STATE_OPERATIONAL) := by
  rw [parse_intel_join_response_wellformed K e s vs rest err_code master_version config
    hstate hbody hok]
  refine ⟨join_response_body_ok K e s err_code master_version config,
    join_response_body_state K e s err_code master_version config hstate, ?_, ?_, ?_⟩
  · intro h
    subst h
    exact join_response_body_reject K e s master_version config
  · intro h
    subst h
    exact ⟨(join_response_body_advertise_keeps K e s master_version config).1,
      (join_response_body_advertise_keeps K e s master_version config).2,
      fun p hp => join_response_body_advertise K e s master_version config p hp⟩
  · intro h
    apply fsm_update_monitor_son_config
    rw [join_response_body_state K e s err_code master_version config hstate]
    exact h

/-- C1, at a concrete input: the waiting supervisor receives a join response with
`JOIN_RESP_SSID_MISMATCH` and moves to `STATE_SSID_MISMATCH`. -/
theorem parse_intel_join_response_by_err_code_witness :
    s_wait_joined.slave_state = STATE_WAIT_FOR_JOINED_RESPONSE ∧
    (joined_response JOIN_RESP_SSID_MISMATCH).cls_ok = true ∧
    (parse_intel_join_response K0 env0 s_wait_joined
      [.TLV_VENDOR_SPECIFIC (some (joined_response JOIN_RESP_SSID_MISMATCH))]).1 = true ∧
    (parse_intel_join_response K0 env0 s_wait_joined
      [.TLV_VENDOR_SPECIFIC (some (joined_response JOIN_RESP_SSID_MISMATCH))]).2.slave_state
        = STATE_SSID_MISMATCH :=
  ⟨rfl, rfl,
    (parse_intel_join_response_by_err_code K0 env0 s_wait_joined
      (joined_response JOIN_RESP_SSID_MISMATCH) [] JOIN_RESP_SSID_MISMATCH "1.0.0" son_config0
      rfl rfl rfl).1,
    (parse_intel_join_response_by_err_code K0 env0 s_wait_joined
      (joined_response JOIN_RESP_SSID_MISMATCH) [] JOIN_RESP_SSID_MISMATCH "1.0.0" son_config0
      rfl rfl rfl).2.1⟩

/-- C2: the radio-identifier test of `handle_autoconfiguration_wsc` is the wrong way
round. The waiting supervisor of radio 02:00:00:00:00:01 receives a WSC answer addressed to
its own radio identifier and ignores it (success, state unchanged, nothing sent); it
receives the same answer addressed to radio 02:00:00:00:00:02 and processes the join
response in it (the FSM moves on, two frames are sent). -/
theorem handle_autoconfiguration_wsc_radio_uid_inverted :
    K0.mac_to_string mac0 = s_wait_joined.config.radio_identifier ∧
    handle_autoconfiguration_wsc K0 env0 s_wait_joined (wsc_m2 mac0 "Intel")
      = (true, s_wait_joined) ∧
    K0.mac_to_string mac1 ≠ s_wait_joined.config.radio_identifier ∧
    (handle_autoconfiguration_wsc K0 env0 s_wait_joined (wsc_m2 mac1 "Acme")).1 = true ∧
    (handle_autoconfiguration_wsc K0 env0 s_wait_joined (wsc_m2 mac1 "Acme")).2.slave_state
      = STATE_UPDATE_MONITOR_SON_CONFIG ∧
    (handle_autoconfiguration_wsc K0 env0 s_wait_joined (wsc_m2 mac1 "Acme")).2.sent.length
      = 2 :=
  ⟨by decide, rfl, by decide, by decide, by decide, by decide⟩

/-- C3: the manufacturer test of `handle_autoconfiguration_wsc` is the wrong way round.
Of two WSC answers that reach the test and differ only in the manufacturer of their M2, the
one that declares "Intel" is rejected (the handler returns false, the state is unchanged)
and the one that declares "Acme" is accepted and its join response processed. -/
theorem handle_autoconfiguration_wsc_manufacturer_inverted :
    handle_autoconfiguration_wsc K0 env0 s_wait_joined (wsc_m2 mac1 "Intel")
      = (false, s_wait_joined) ∧
    (handle_autoconfiguration_wsc K0 env0 s_wait_joined (wsc_m2 mac1 "Acme")).1 = true ∧
    (handle_autoconfiguration_wsc K0 env0 s_wait_joined (wsc_m2 mac1 "Acme")).2.son_config
      = son_config0 ∧
    (handle_autoconfiguration_wsc K0 env0 s_wait_joined (wsc_m2 mac1 "Acme")).2.slave_state
      ≠ s_wait_joined.slave_state :=
  ⟨rfl, by decide, by decide, by decide⟩

/-- C4: an AP-Autoconfiguration WSC message whose first TLV is ApRadioBasicCapabilities
(the looped-back M1) makes `handle_autoconfiguration_wsc` return success with the whole
supervisor state, the trace of sent frames included, unchanged, in every state. -/
theorem handle_autoconfiguration_wsc_m1_echo (K : Constants) (e : Env) (s : State)
    (rest : List Tlv) :
    handle_autoconfiguration_wsc K e s (.TLV_AP_RADIO_BASIC_CAPABILITIES :: rest)
      = (true, s) := by
  rfl

/-- C5, as the code has it: after `slave_reset` the state is `STATE_STOPPED` exactly when
the `stopped` latch is set (it was set before, or it is set by this reset because a
non-zero budget is configured and `stop_on_failure_attempts` is 0), credentials have not
just changed and the state before was not `STATE_INIT`; otherwise it is
`STATE_WAIT_BERFORE_INIT` when credentials changed or the backhaul disconnected, and
`STATE_INIT` otherwise. Whenever the reset lands in `STATE_WAIT_BERFORE_INIT` the state
timer is now + SLAVE_INIT_DELAY_SEC seconds. In particular, with a non-zero configured
budget used up, credentials unchanged and a state other than `STATE_INIT`, the reset lands
in `STATE_STOPPED`. The latch itself is set after the reset exactly when it was set before
or a non-zero configured budget is used up: such a reset sets it, and with a configured
budget of 0 a reset leaves the latch as it was, so it never sets it. -/
theorem slave_reset_next_state (K : Constants) (e : Env) (s : State) :
    (slave_reset K e s).slave_state =
      (if (s.stopped = true ∨
            (s.configuration_stop_on_failure_attempts ≠ 0 ∧ s.stop_on_failure_attempts = 0)) ∧
          s.is_credentials_changed_on_db = false ∧ s.slave_state ≠ STATE_INIT then
        STATE_STOPPED
      else if s.is_credentials_changed_on_db = true ∨ s.is_backhaul_disconnected = true then
        STATE_WAIT_BERFORE_INIT
      else STATE_INIT) ∧
    ((slave_reset K e s).slave_state = STATE_WAIT_BERFORE_INIT →
      (slave_reset K e s).slave_state_timer = e.now + 1000 * K.SLAVE_INIT_DELAY_SEC) ∧
    (s.configuration_stop_on_failure_attempts ≠ 0 → s.stop_on_failure_attempts = 0 →
      s.is_credentials_changed_on_db = false → s.slave_state ≠ STATE_INIT →
      (slave_reset K e s).slave_state = STATE_STOPPED) ∧
    ((slave_reset K e s).stopped = true ↔
      (s.stopped = true ∨
        (s.configuration_stop_on_failure_attempts ≠ 0 ∧ s.stop_on_failure_attempts = 0))) ∧
    (s.configuration_stop_on_failure_attempts ≠ 0 → s.stop_on_failure_attempts = 0 →
      (slave_reset K e s).stopped = true) ∧
    (s.configuration_stop_on_failure_attempts = 0 →
      (slave_reset K e s).stopped = s.stopped) := by
  unfold slave_reset
  simp only [hostap_services_off, platform_manager_stop, ap_manager_stop, monitor_stop,
    backhaul_manager_stop, platform_notify_error]
  split_ifs <;> simp_all

/-- C5, the sentence as the specification has it fails: with no budget configured
(`stop_on_failure_attempts = 0` in the configuration, so the counter is 0 from the start),
credentials unchanged and the supervisor operational, a reset lands in `STATE_INIT`, not
in `STATE_STOPPED`, and the `stopped` latch stays clear. -/
theorem slave_reset_zero_budget_unlimited :
    s_unlimited.stop_on_failure_attempts = 0 ∧
    s_unlimited.configuration_stop_on_failure_attempts = 0 ∧
    s_unlimited.stopped = false ∧
    s_unlimited.is_credentials_changed_on_db = false ∧
    s_unlimited.slave_state ≠ STATE_INIT ∧
    (slave_reset K0 env0 s_unlimited).slave_state = STATE_INIT ∧
    (slave_reset K0 env0 s_unlimited).stopped = false := by
  decide

/-- C7: `slave_reset` never sends anything, so no `SlaveStopped` notification leaves the
supervisor. With the platform adapter attached (socket 11) and the budget used up, the reset
parks the FSM in `STATE_STOPPED` and the trace of sent frames is still empty: by the time
`platform_notify_error` runs, `platform_manager_stop` has already dropped the socket. -/
theorem slave_reset_stopped_sends_nothing :
    s_exhausted.platform_manager_socket = some 11 ∧
    (slave_reset K0 env0 s_exhausted).slave_state = STATE_STOPPED ∧
    (slave_reset K0 env0 s_exhausted).platform_manager_socket = none ∧
    (slave_reset K0 env0 s_exhausted).sent = [] ∧
    ∀ (K : Constants) (e : Env) (s : State), (slave_reset K e s).sent = s.sent :=
  ⟨by decide, by decide, by decide, rfl, slave_reset_sent⟩

/-- C8: `STATE_STOPPED` is not latching. The supervisor parked in `STATE_STOPPED` by a
reset (AP manager socket detached) receives an `ACTION_APMANAGER_INIT_DONE_NOTIFICATION`,
accepts it and moves to `STATE_WAIT_FOR_AP_MANAGER_JOINED`. -/
theorem stopped_left_on_ap_manager_init_done :
    (slave_reset K0 env0 s_exhausted).slave_state = STATE_STOPPED ∧
    (handle_cmdu K0 env0 (slave_reset K0 env0 s_exhausted) 13
      apmanager_init_done).1 = true ∧
    (handle_cmdu K0 env0 (slave_reset K0 env0 s_exhausted) 13
      apmanager_init_done).2.slave_state = STATE_WAIT_FOR_AP_MANAGER_JOINED := by
  decide

/-- C9, as the code has it: an iteration of `work` entered with a non-empty
`pending_iface_actions`, in which both heartbeat checks pass and no pending action is older
than IFACE_ACTION_TIMEOUT_SEC, does not run `slave_fsm` and leaves the FSM state and the
pending actions as they were. -/
theorem work_paused_while_pending (K : Constants) (e : Env) (s : State)
    (hm : (monitor_heartbeat_check K e s).1 = true)
    (ha : (ap_manager_heartbeat_check K e (monitor_heartbeat_check K e s).2).1 = true)
    (hp : s.pending_iface_actions ≠ [])
    (ht : ∀ p ∈ s.pending_iface_actions,
      elapsed_secs e.now p.2.timestamp ≤ K.IFACE_ACTION_TIMEOUT_SEC) :
    (work K e s).ret = true ∧
    (work K e s).state.fsm_runs = s.fsm_runs ∧
    (work K e s).state.slave_state = s.slave_state ∧
    (work K e s).state.pending_iface_actions = s.pending_iface_actions := by
  rw [work_of_checks_pass K e s hm ha hp ht]
  have hm2 := monitor_heartbeat_check_keeps K e s
  have ha2 := ap_manager_heartbeat_check_keeps K e (monitor_heartbeat_check K e s).2
  exact ⟨rfl, ha2.2.1.trans hm2.2.1, ha2.2.2.trans hm2.2.2, ha2.1.trans hm2.1⟩

/-- C9, at a concrete input: the operational supervisor with a fresh pending action and
fresh heartbeats does not run the FSM and stays in `STATE_OPERATIONAL`. -/
theorem work_paused_while_pending_witness :
    s_pending.pending_iface_actions ≠ [] ∧
    (work K0 env0 s_pending).state.fsm_runs = s_pending.fsm_runs ∧
    (work K0 env0 s_pending).state.slave_state = STATE_OPERATIONAL :=
  ⟨by decide,
    (work_paused_while_pending K0 env0 s_pending (by decide) (by decide) (by decide)
      (by decide)).2.1,
    (work_paused_while_pending K0 env0 s_pending (by decide) (by decide) (by decide)
      (by decide)).2.2.1⟩

/-- C9, the sentence as the specification has it fails: the supervisor has a fresh pending
action, but its monitor has missed its last heartbeat period; `work` resets the
supervisor, which empties the pending actions, and runs `slave_fsm` in the same iteration:
the state goes from `STATE_OPERATIONAL` to `STATE_CONNECT_TO_PLATFORM_MANAGER`. -/
theorem work_pending_heartbeat_failure :
    s_pending_monitor_silent.pending_iface_actions ≠ [] ∧
    (∀ p ∈ s_pending_monitor_silent.pending_iface_actions,
      elapsed_secs env0.now p.2.timestamp ≤ K0.IFACE_ACTION_TIMEOUT_SEC) ∧
    (work K0 env0 s_pending_monitor_silent).state.fsm_runs
      = s_pending_monitor_silent.fsm_runs + 1 ∧
    s_pending_monitor_silent.slave_state = STATE_OPERATIONAL ∧
    (work K0 env0 s_pending_monitor_silent).state.slave_state
      = STATE_CONNECT_TO_PLATFORM_MANAGER := by
  decide

/-- C10: a vendor-specific ACTION_CONTROL frame whose header radio_mac differs from
`hostap_params.iface_mac` makes `handle_cmdu_control_message` return true with the whole
supervisor state, the trace of sent frames included, unchanged, for every action_op and in
every state. -/
theorem handle_cmdu_control_message_other_radio (K : Constants) (e : Env) (s : State)
    (sd : SocketId) (hdr : cACTION_HEADER) (cls_ok : Bool) (op : ControlOp)
    (h : hdr.radio_mac ≠ s.hostap_params.iface_mac) :
    handle_cmdu_control_message K e s sd hdr cls_ok op = (true, s) := by
  unfold handle_cmdu_control_message
  rw [if_pos h]

/-- C10, at a concrete input: a pre-commit request addressed to radio 02:00:00:00:00:02
arrives from the controller at the supervisor of radio 02:00:00:00:00:01. -/
theorem handle_cmdu_control_message_other_radio_witness :
    mac1 ≠ s_operational.hostap_params.iface_mac ∧
    handle_cmdu_control_message K0 env0 s_operational 12
      { direction := .BEEROCKS_DIRECTION_AGENT, id := 7, radio_mac := mac1 } true
      .ACTION_CONTROL_WIFI_CREDENTIALS_UPDATE_PRE_COMMIT_REQUEST = (true, s_operational) :=
  ⟨by decide,
    handle_cmdu_control_message_other_radio K0 env0 s_operational 12
      { direction := .BEEROCKS_DIRECTION_AGENT, id := 7, radio_mac := mac1 } true
      .ACTION_CONTROL_WIFI_CREDENTIALS_UPDATE_PRE_COMMIT_REQUEST (by decide)⟩

/-! ## The trace of a join response -/

theorem controller_frames_congr (s t : State) (f : TxFrame)
    (h1 : t.master_socket = s.master_socket) (h2 : t.hostap_params = s.hostap_params)
    (h3 : t.backhaul_params = s.backhaul_params) :
    controller_frames t f = controller_frames s f := by
  cases f <;> simp [controller_frames, controller_stamp, h1, h2, h3]

theorem join_response_body_sent (K : Constants) (e : Env) (s : State)
    (err_code : eSlaveJoinResponseErrCode) (master_version : String) (config : sSonConfig)
    (h : err_code ≠ JOIN_RESP_REJECT) :
    (join_response_body K e s err_code master_version config).2.sent =
      s.sent ++ join_drain_frames K s ++ version_mismatch_frames K s master_version ++
        join_err_code_frames K s master_version err_code := by
  have hc : ∀ (x : List Sent) (f : TxFrame),
      controller_frames { s with sent := x } f = controller_frames s f :=
    fun x f => controller_frames_congr s _ f rfl rfl rfl
  unfold join_response_body
  simp only [send_vs_eq, foldl_send_associated, join_drain_frames, version_mismatch_frames,
    master_version_newer, decide_eq_true_eq, join_err_code_frames]
  cases err_code <;> simp only [reduceCtorEq, if_false, if_true] <;>
    first
    | exact absurd rfl h
    | (split_ifs <;> simp [hc, List.append_assoc])

theorem join_response_body_pending (K : Constants) (e : Env) (s : State)
    (err_code : eSlaveJoinResponseErrCode) (master_version : String) (config : sSonConfig)
    (h : err_code ≠ JOIN_RESP_REJECT) :
    (join_response_body K e s err_code master_version config).2.pending_client_association_cmdu
      = [] := by
  unfold join_response_body
  simp only [send_vs_eq, foldl_send_associated]
  cases err_code <;> simp only [reduceCtorEq, if_false, if_true] <;>
    first
    | exact absurd rfl h
    | (split_ifs <;> rfl)

theorem join_response_body_of_reject (K : Constants) (e : Env) (s : State)
    (master_version : String) (config : sSonConfig) :
    join_response_body K e s JOIN_RESP_REJECT master_version config =
      (true, { s with
        slave_state_timer := e.now + 1000 * K.WAIT_BEFORE_SEND_SLAVE_JOINED_NOTIFICATION_SEC,
        slave_state := STATE_WAIT_BEFORE_JOIN_MASTER }) := by
  simp [join_response_body]

theorem op_of_mem_frames_to (sd : Option SocketId) (K : Constants) (op : TxOp) (id : Nat)
    (x : Sent) (h : x ∈ frames_to sd (create_vs_message K op id)) : x.op = some op := by
  cases sd with
  | none => simp [frames_to] at h
  | some k =>
    simp only [frames_to, List.mem_singleton] at h
    subst h
    rfl

theorem op_of_mem_controller_frames (s : State) (K : Constants) (op : TxOp) (id : Nat)
    (x : Sent) (h : x ∈ controller_frames s (create_vs_message K op id)) : x.op = some op := by
  unfold controller_frames at h
  split at h
  · simp at h
  · simp only [List.mem_singleton] at h
    subst h
    rfl

theorem op_of_mem_drain (K : Constants) (s : State) (x : Sent)
    (h : x ∈ join_drain_frames K s) :
    x.op = some .cACTION_APMANAGER_HOSTAP_VAPS_LIST_UPDATE_REQUEST ∨
    ∃ params, x.op = some (.cACTION_CONTROL_CLIENT_ASSOCIATED_NOTIFICATION params) := by
  unfold join_drain_frames at h
  rw [List.mem_append] at h
  rcases h with h | h
  · exact Or.inl (op_of_mem_frames_to _ _ _ _ _ h)
  · rw [List.mem_flatMap] at h
    obtain ⟨notify, _, hx⟩ := h
    exact Or.inr ⟨notify.2, op_of_mem_controller_frames _ _ _ _ _ hx⟩

theorem op_of_mem_version_mismatch_frames (K : Constants) (s : State) (mv : String) (x : Sent)
    (h : x ∈ version_mismatch_frames K s mv) :
    x.op = some (.cACTION_PLATFORM_VERSION_MISMATCH_NOTIFICATION
      { master_version := mv, slave_version := K.BEEROCKS_VERSION }) := by
  unfold version_mismatch_frames at h
  split at h
  · exact op_of_mem_frames_to _ _ _ _ _ h
  · simp at h

theorem associated_forwards_append (l1 l2 : List Sent) :
    associated_forwards (l1 ++ l2) = associated_forwards l1 ++ associated_forwards l2 := by
  simp [associated_forwards, List.filterMap_append]

theorem associated_forwards_eq_nil (l : List Sent)
    (h : ∀ x ∈ l, x.associated_forward = none) : associated_forwards l = [] := by
  induction l with
  | nil => rfl
  | cons a l ih =>
    have ha := h a (List.mem_cons_self _ _)
    have hl := ih (fun x hx => h x (List.mem_cons_of_mem _ hx))
    simp [associated_forwards, List.filterMap_cons, ha] at hl ⊢
    exact hl

theorem associated_forward_of_op (x : Sent) (op : TxOp) (h : x.op = some op)
    (hop : ∀ params, op ≠ .cACTION_CONTROL_CLIENT_ASSOCIATED_NOTIFICATION params) :
    x.associated_forward = none := by
  unfold Sent.associated_forward
  rw [h]
  cases op <;> first | rfl | exact absurd rfl (hop _)

theorem associated_forwards_frames_to (sd : Option SocketId) (K : Constants) (op : TxOp)
    (id : Nat)
    (hop : ∀ params, op ≠ .cACTION_CONTROL_CLIENT_ASSOCIATED_NOTIFICATION params) :
    associated_forwards (frames_to sd (create_vs_message K op id)) = [] :=
  associated_forwards_eq_nil _ (fun x hx =>
    associated_forward_of_op x op (op_of_mem_frames_to _ _ _ _ _ hx) hop)

theorem associated_forwards_pending (K : Constants) (s : State) (m : SocketId)
    (hm : s.master_socket = some m) (l : List (String × sClientParams)) :
    associated_forwards (l.flatMap (fun notify => controller_frames s
      (create_vs_message K (.cACTION_CONTROL_CLIENT_ASSOCIATED_NOTIFICATION notify.2) 0)))
      = l.map Prod.snd := by
  induction l with
  | nil => rfl
  | cons a l ih =>
    rw [List.flatMap_cons, associated_forwards_append, ih]
    simp [controller_frames, hm, associated_forwards, Sent.associated_forward, Sent.op,
      controller_stamp, create_vs_message]

theorem associated_forwards_drain (K : Constants) (s : State) (m : SocketId)
    (hm : s.master_socket = some m) :
    associated_forwards (join_drain_frames K s)
      = s.pending_client_association_cmdu.map Prod.snd := by
  unfold join_drain_frames
  rw [associated_forwards_append, associated_forwards_pending K s m hm,
    associated_forwards_frames_to _ _ _ _ (by intro _ h; cases h)]
  rfl

theorem associated_forwards_version_mismatch_frames (K : Constants) (s : State)
    (mv : String) : associated_forwards (version_mismatch_frames K s mv) = [] :=
  associated_forwards_eq_nil _ (fun x hx =>
    associated_forward_of_op x _ (op_of_mem_version_mismatch_frames K s mv x hx)
      (by intro _ h; cases h))

theorem join_response_body_associated_forwards (K : Constants) (e : Env) (s : State)
    (err_code : eSlaveJoinResponseErrCode) (master_version : String) (config : sSonConfig)
    (m : SocketId) (hm : s.master_socket = some m) (h : err_code ≠ JOIN_RESP_REJECT) :
    associated_forwards (join_response_body K e s err_code master_version config).2.sent
      = associated_forwards s.sent ++ s.pending_client_association_cmdu.map Prod.snd := by
  rw [join_response_body_sent K e s err_code master_version config h]
  simp only [associated_forwards_append, associated_forwards_drain K s m hm,
    associated_forwards_version_mismatch_frames]
  have h0 : associated_forwards [] = [] := rfl
  have h1 := fun v => associated_forwards_frames_to s.platform_manager_socket K
    (.cACTION_PLATFORM_MASTER_SLAVE_VERSIONS_NOTIFICATION v) 0 (by intro _ h; cases h)
  have h2 := fun flag => associated_forwards_frames_to s.platform_manager_socket K
    (.cACTION_PLATFORM_ADVERTISE_SSID_FLAG_UPDATE_REQUEST flag) 0 (by intro _ h; cases h)
  cases err_code <;> simp only [join_err_code_frames, h0, h1, h2, List.append_nil]

theorem countP_zero_of_forall (p : Sent → Bool) (l : List Sent)
    (h : ∀ x ∈ l, p x = false) : l.countP p = 0 := by
  rw [List.countP_eq_zero]
  intro x hx
  simp [h x hx]

theorem msv_of_op (x : Sent) (op : TxOp) (h : x.op = some op)
    (hop : ∀ v, op ≠ .cACTION_PLATFORM_MASTER_SLAVE_VERSIONS_NOTIFICATION v) :
    is_master_slave_versions_notification x = false := by
  unfold is_master_slave_versions_notification
  rw [h]
  cases op <;> first | rfl | exact absurd rfl (hop _)

theorem vm_of_op (x : Sent) (op : TxOp) (h : x.op = some op)
    (hop : ∀ v, op ≠ .cACTION_PLATFORM_VERSION_MISMATCH_NOTIFICATION v) :
    is_version_mismatch_notification x = false := by
  unfold is_version_mismatch_notification
  rw [h]
  cases op <;> first | rfl | exact absurd rfl (hop _)

theorem vaps_of_op (x : Sent) (op : TxOp) (h : x.op = some op)
    (hop : op ≠ .cACTION_APMANAGER_HOSTAP_VAPS_LIST_UPDATE_REQUEST) :
    is_hostap_vaps_list_update_request x = false := by
  unfold is_hostap_vaps_list_update_request
  rw [h]
  cases op <;> first | rfl | exact absurd rfl hop

theorem msv_drain (K : Constants) (s : State) :
    (join_drain_frames K s).countP is_master_slave_versions_notification = 0 :=
  countP_zero_of_forall _ _ (fun x hx => by
    rcases op_of_mem_drain K s x hx with h | ⟨params, h⟩
    · exact msv_of_op x _ h (by intro _ h; cases h)
    · exact msv_of_op x _ h (by intro _ h; cases h))

theorem vm_drain (K : Constants) (s : State) :
    (join_drain_frames K s).countP is_version_mismatch_notification = 0 :=
  countP_zero_of_forall _ _ (fun x hx => by
    rcases op_of_mem_drain K s x hx with h | ⟨params, h⟩
    · exact vm_of_op x _ h (by intro _ h; cases h)
    · exact vm_of_op x _ h (by intro _ h; cases h))

theorem vaps_drain (K : Constants) (s : State) (a : SocketId)
    (ha : s.ap_manager_socket = some a) :
    (join_drain_frames K s).countP is_hostap_vaps_list_update_request = 1 := by
  unfold join_drain_frames
  rw [List.countP_append, ha]
  have h2 : (s.pending_client_association_cmdu.flatMap (fun notify => controller_frames s
      (create_vs_message K (.cACTION_CONTROL_CLIENT_ASSOCIATED_NOTIFICATION notify.2)
        0))).countP is_hostap_vaps_list_update_request = 0 :=
    countP_zero_of_forall _ _ (fun x hx => by
      rw [List.mem_flatMap] at hx
      obtain ⟨notify, _, hx⟩ := hx
      exact vaps_of_op x _ (op_of_mem_controller_frames _ _ _ _ _ hx) (by intro h; cases h))
  rw [h2]
  rfl

theorem msv_version_mismatch_frames (K : Constants) (s : State) (mv : String) :
    (version_mismatch_frames K s mv).countP is_master_slave_versions_notification = 0 :=
  countP_zero_of_forall _ _ (fun x hx =>
    msv_of_op x _ (op_of_mem_version_mismatch_frames K s mv x hx) (by intro _ h; cases h))

theorem vaps_version_mismatch_frames (K : Constants) (s : State) (mv : String) :
    (version_mismatch_frames K s mv).countP is_hostap_vaps_list_update_request = 0 :=
  countP_zero_of_forall _ _ (fun x hx =>
    vaps_of_op x _ (op_of_mem_version_mismatch_frames K s mv x hx) (by intro h; cases h))

theorem vm_version_mismatch_frames (K : Constants) (s : State) (mv : String) :
    (version_mismatch_frames K s mv).countP is_version_mismatch_notification
      = if master_version_newer K mv = true ∧ s.platform_manager_socket.isSome = true
        then 1 else 0 := by
  unfold version_mismatch_frames
  cases hn : master_version_newer K mv <;> cases hp : s.platform_manager_socket <;>
    simp [frames_to] <;> rfl

theorem lookup_map_erase {V : Type} (m : List (String × V)) (key : String) :
    (map_erase m key).lookup key = none := by
  induction m with
  | nil => rfl
  | cons a m ih =>
    unfold map_erase at ih ⊢
    by_cases h : a.1 = key
    · simp only [List.filter_cons, ne_eq, h, not_true_eq_false, decide_False,
        Bool.false_eq_true, if_false]
      exact ih
    · have h2 : (key == a.1) = false := by
        simp only [beq_eq_false_iff_ne, ne_eq]
        exact fun h3 => h h3.symm
      obtain ⟨k, v⟩ := a
      simp only [List.filter_cons, ne_eq, h, not_false_eq_true, decide_True, if_true,
        List.lookup_cons, h2]
      exact ih

theorem lookup_map_erase_ne {V : Type} (m : List (String × V)) (key k : String)
    (hk : k ≠ key) : (map_erase m key).lookup k = m.lookup k := by
  induction m with
  | nil => rfl
  | cons a m ih =>
    unfold map_erase at ih ⊢
    obtain ⟨k1, v⟩ := a
    by_cases h : k1 = key
    · have h2 : (k == k1) = false := by
        simp only [beq_eq_false_iff_ne, ne_eq]
        exact fun h3 => hk (h3.trans h)
      simp only [List.filter_cons, ne_eq, h, not_true_eq_false, decide_False,
        Bool.false_eq_true, if_false, List.lookup_cons, h2]
      subst h
      simp only [List.lookup_cons, h2] at ih ⊢
      exact ih
    · simp only [List.filter_cons, ne_eq, h, not_false_eq_true, decide_True, if_true,
        List.lookup_cons]
      cases (k == k1)
      · exact ih
      · rfl

theorem fsm_update_monitor_son_config_sent (K : Constants) (e : Env) (s : State)
    (h : s.slave_state = STATE_UPDATE_MONITOR_SON_CONFIG) :
    (slave_fsm K e s).state.sent = s.sent ++ frames_to s.monitor_socket
      (create_vs_message K (.cACTION_MONITOR_SON_CONFIG_UPDATE s.son_config) 0) := by
  simp [slave_fsm, h, fsm_case, fsm_break, send_vs_eq]

theorem join_response_body_other (K : Constants) (e : Env) (s : State)
    (err_code : eSlaveJoinResponseErrCode) (master_version : String) (config : sSonConfig)
    (h1 : err_code ≠ JOIN_RESP_REJECT) (h2 : err_code ≠ JOIN_RESP_VERSION_MISMATCH)
    (h3 : err_code ≠ JOIN_RESP_SSID_MISMATCH)
    (h4 : err_code ≠ JOIN_RESP_ADVERTISE_SSID_FLAG_MISMATCH) :
    (join_response_body K e s err_code master_version config).2.son_config = config ∧
    (join_response_body K e s err_code master_version config).2.slave_state
      = STATE_UPDATE_MONITOR_SON_CONFIG ∧
    (join_response_body K e s err_code master_version config).2.monitor_socket
      = s.monitor_socket := by
  unfold join_response_body
  simp only [send_vs_eq, foldl_send_associated, h1, h2, h3, h4, if_false]
  split_ifs <;> simp

/-! ## The join response: accepted joins, version mismatch -/

/-- C19: a `SlaveJoinedResponse` processed in `STATE_WAIT_FOR_JOINED_RESPONSE` whose
err_code is none of Reject, VersionMismatch, SsidMismatch, AdvertiseSsidFlagMismatch is
accepted; `son_config` becomes the response's config and the state becomes
`STATE_UPDATE_MONITOR_SON_CONFIG`. With the platform adapter attached exactly one
`MasterSlaveVersionsNotification` is sent, last, to the platform adapter, with the response's
master version and BEEROCKS_VERSION. With the AP manager attached exactly one
`HostapVapsListUpdateRequest` is sent, to the AP manager. The next FSM step sends that
son_config to the monitor socket and enters `STATE_OPERATIONAL`. -/
theorem join_response_accepted (K : Constants) (e : Env) (s : State)
    (vs : VsRx) (rest : List Tlv) (err_code : eSlaveJoinResponseErrCode)
    (master_version : String) (config : sSonConfig)
    (hstate : s.slave_state = STATE_WAIT_FOR_JOINED_RESPONSE)
    (hbody : vs.body = .ACTION_CONTROL
      (.ACTION_CONTROL_SLAVE_JOINED_RESPONSE err_code master_version config))
    (hok : vs.cls_ok = true)
    (h1 : err_code ≠ JOIN_RESP_REJECT) (h2 : err_code ≠ JOIN_RESP_VERSION_MISMATCH)
    (h3 : err_code ≠ JOIN_RESP_SSID_MISMATCH)
    (h4 : err_code ≠ JOIN_RESP_ADVERTISE_SSID_FLAG_MISMATCH) :
    let r := parse_intel_join_response K e s (.TLV_VENDOR_SPECIFIC (some vs) :: rest)
    r.1 = true ∧
    r.2.son_config = config ∧
    r.2.slave_state = STATE_UPDATE_MONITOR_SON_CONFIG ∧
    (∀ p : SocketId, s.platform_manager_socket = some p →
      r.2.sent.countP is_master_slave_versions_notification
        = s.sent.countP is_master_slave_versions_notification + 1 ∧
      r.2.sent.getLast? = some
        { sd := p,
          frame := create_vs_message K (.cACTION_PLATFORM_MASTER_SLAVE_VERSIONS_NOTIFICATION
            { master_version := master_version, slave_version := K.BEEROCKS_VERSION }) 0,
          dst_mac := "", src_mac := "" }) ∧
    (∀ a : SocketId, s.ap_manager_socket = some a →
      r.2.sent.countP is_hostap_vaps_list_update_request
        = s.sent.countP is_hostap_vaps_list_update_request + 1 ∧
      { sd := a,
        frame := create_vs_message K .cACTION_APMANAGER_HOSTAP_VAPS_LIST_UPDATE_REQUEST 0,
        dst_mac := "", src_mac := "" } ∈ r.2.sent) ∧
    (slave_fsm K e r.2).state.slave_state = STATE_OPERATIONAL ∧
    (slave_fsm K e r.2).state.sent = r.2.sent ++ frames_to s.monitor_socket
      (create_vs_message K (.cACTION_MONITOR_SON_CONFIG_UPDATE config) 0) := by
  intro r
  have hr : r = join_response_body K e s err_code master_version config :=
    parse_intel_join_response_wellformed K e s vs rest err_code master_version config
      hstate hbody hok
  have ho := join_response_body_other K e s err_code master_version config h1 h2 h3 h4
  have hsent := join_response_body_sent K e s err_code master_version config h1
  have hlast : join_err_code_frames K s master_version err_code
      = frames_to s.platform_manager_socket
          (create_vs_message K (.cACTION_PLATFORM_MASTER_SLAVE_VERSIONS_NOTIFICATION
            { master_version := master_version, slave_version := K.BEEROCKS_VERSION }) 0) := by
    cases err_code <;> first | rfl | contradiction
  rw [hlast] at hsent
  rw [hr]
  refine ⟨join_response_body_ok K e s err_code master_version config, ho.1, ho.2.1, ?_, ?_,
    ?_, ?_⟩
  · intro p hp
    rw [hsent, hp]
    constructor
    · simp only [List.countP_append, msv_drain, msv_version_mismatch_frames, frames_to_some]
      rfl
    · simp [frames_to_some]
  · intro a ha
    rw [hsent]
    constructor
    · have hz : (frames_to s.platform_manager_socket
          (create_vs_message K (.cACTION_PLATFORM_MASTER_SLAVE_VERSIONS_NOTIFICATION
            { master_version := master_version, slave_version := K.BEEROCKS_VERSION })
            0)).countP is_hostap_vaps_list_update_request = 0 :=
        countP_zero_of_forall _ _ (fun x hx =>
          vaps_of_op x _ (op_of_mem_frames_to _ _ _ _ _ hx) (by intro h; cases h))
      simp only [List.countP_append, vaps_drain K s a ha, vaps_version_mismatch_frames, hz]
    · simp [join_drain_frames, ha, frames_to_some]
  · exact fsm_update_monitor_son_config K e _ ho.2.1
  · rw [fsm_update_monitor_son_config_sent K e _ ho.2.1, ho.1, ho.2.2]

/-- C19, at a concrete input: the waiting supervisor receives a join response without
error from a controller of its own version. -/
theorem join_response_accepted_witness :
    s_wait_joined.slave_state = STATE_WAIT_FOR_JOINED_RESPONSE ∧
    (parse_intel_join_response K0 env0 s_wait_joined
      [.TLV_VENDOR_SPECIFIC (some (joined_response JOIN_RESP_NO_ERROR))]).2.son_config
        = son_config0 ∧
    (slave_fsm K0 env0 (parse_intel_join_response K0 env0 s_wait_joined
      [.TLV_VENDOR_SPECIFIC (some (joined_response JOIN_RESP_NO_ERROR))]).2).state.slave_state
        = STATE_OPERATIONAL :=
  ⟨rfl,
    (join_response_accepted K0 env0 s_wait_joined (joined_response JOIN_RESP_NO_ERROR) []
      JOIN_RESP_NO_ERROR "1.0.0" son_config0 rfl rfl rfl (by decide) (by decide) (by decide)
      (by decide)).2.1,
    (join_response_accepted K0 env0 s_wait_joined (joined_response JOIN_RESP_NO_ERROR) []
      JOIN_RESP_NO_ERROR "1.0.0" son_config0 rfl rfl rfl (by decide) (by decide) (by decide)
      (by decide)).2.2.2.2.2.1⟩

theorem vm_err_code_frames (K : Constants) (s : State) (mv : String)
    (err_code : eSlaveJoinResponseErrCode) :
    (join_err_code_frames K s mv err_code).countP is_version_mismatch_notification = 0 :=
  countP_zero_of_forall _ _ (fun x hx => by
    cases err_code <;> simp only [join_err_code_frames, List.not_mem_nil] at hx <;>
      exact vm_of_op x _ (op_of_mem_frames_to _ _ _ _ _ hx) (by intro _ h; cases h))

/-- C20, as the code has it: whether a join response processed in
`STATE_WAIT_FOR_JOINED_RESPONSE` makes the supervisor send a `VersionMismatchNotification`
depends on the versions, not on err_code: exactly one is sent (platform adapter attached)
when the response is not a rejection and its master version is newer than BEEROCKS_VERSION,
none otherwise. A response with err_code VersionMismatch moves the supervisor to
`STATE_VERSION_MISMATCH` and sends no `MasterSlaveVersionsNotification`. -/
theorem version_mismatch_notification_by_version (K : Constants) (e : Env) (s : State)
    (vs : VsRx) (rest : List Tlv) (err_code : eSlaveJoinResponseErrCode)
    (master_version : String) (config : sSonConfig)
    (hstate : s.slave_state = STATE_WAIT_FOR_JOINED_RESPONSE)
    (hbody : vs.body = .ACTION_CONTROL
      (.ACTION_CONTROL_SLAVE_JOINED_RESPONSE err_code master_version config))
    (hok : vs.cls_ok = true) :
    let r := parse_intel_join_response K e s (.TLV_VENDOR_SPECIFIC (some vs) :: rest)
    r.2.sent.countP is_version_mismatch_notification
      = s.sent.countP is_version_mismatch_notification +
        (if err_code ≠ JOIN_RESP_REJECT ∧ master_version_newer K master_version = true ∧
            s.platform_manager_socket.isSome = true then 1 else 0) ∧
    (err_code = JOIN_RESP_VERSION_MISMATCH →
      r.2.slave_state = STATE_VERSION_MISMATCH ∧
      r.2.sent.countP is_master_slave_versions_notification
        = s.sent.countP is_master_slave_versions_notification) := by
  intro r
  have hr : r = join_response_body K e s err_code master_version config :=
    parse_intel_join_response_wellformed K e s vs rest err_code master_version config
      hstate hbody hok
  rw [hr]
  constructor
  · by_cases h : err_code = JOIN_RESP_REJECT
    · subst h
      rw [join_response_body_of_reject]
      simp
    · rw [join_response_body_sent K e s err_code master_version config h]
      simp only [List.countP_append, vm_drain, vm_version_mismatch_frames, vm_err_code_frames,
        ne_eq, h, not_false_eq_true, true_and, Nat.add_zero]
  · intro h
    subst h
    constructor
    · exact join_response_body_state K e s _ master_version config hstate
    · rw [join_response_body_sent K e s _ master_version config (by decide)]
      simp only [List.countP_append, msv_drain, msv_version_mismatch_frames,
        join_err_code_frames, List.countP_nil, Nat.add_zero]

/-- C20, at a concrete input: a join response with err_code VersionMismatch from a
controller of version 1.2.3, newer than the supervisor's 1.0.0, makes the supervisor send
one `VersionMismatchNotification`. -/
theorem version_mismatch_notification_by_version_witness :
    s_wait_joined.slave_state = STATE_WAIT_FOR_JOINED_RESPONSE ∧
    (parse_intel_join_response K0 env0 s_wait_joined
      [.TLV_VENDOR_SPECIFIC (some (joined_response_from JOIN_RESP_VERSION_MISMATCH
        "1.2.3"))]).2.sent.countP is_version_mismatch_notification = 1 :=
  ⟨rfl,
    (version_mismatch_notification_by_version K0 env0 s_wait_joined
      (joined_response_from JOIN_RESP_VERSION_MISMATCH "1.2.3") [] JOIN_RESP_VERSION_MISMATCH
      "1.2.3" son_config0 rfl rfl rfl).1⟩

/-- C20, the sentence as the specification has it fails in both directions: a join response
with err_code VersionMismatch that carries the supervisor's own version 1.0.0 sends no
`VersionMismatchNotification`; a join response without error from a controller of version
2.0.0 sends one. -/
theorem version_mismatch_notification_not_by_err_code :
    (parse_intel_join_response K0 env0 s_wait_joined
      [.TLV_VENDOR_SPECIFIC (some (joined_response_from JOIN_RESP_VERSION_MISMATCH
        "1.0.0"))]).1 = true ∧
    (parse_intel_join_response K0 env0 s_wait_joined
      [.TLV_VENDOR_SPECIFIC (some (joined_response_from JOIN_RESP_VERSION_MISMATCH
        "1.0.0"))]).2.slave_state = STATE_VERSION_MISMATCH ∧
    (parse_intel_join_response K0 env0 s_wait_joined
      [.TLV_VENDOR_SPECIFIC (some (joined_response_from JOIN_RESP_VERSION_MISMATCH
        "1.0.0"))]).2.sent.countP is_version_mismatch_notification = 0 ∧
    (parse_intel_join_response K0 env0 s_wait_joined
      [.TLV_VENDOR_SPECIFIC (some (joined_response_from JOIN_RESP_NO_ERROR
        "2.0.0"))]).2.slave_state = STATE_UPDATE_MONITOR_SON_CONFIG ∧
    (parse_intel_join_response K0 env0 s_wait_joined
      [.TLV_VENDOR_SPECIFIC (some (joined_response_from JOIN_RESP_NO_ERROR
        "2.0.0"))]).2.sent.countP is_version_mismatch_notification = 1 := by
  decide

/-! ## Held-back client associations -/

theorem lookup_map_replace {V : Type} (m : List (String × V)) (key k : String) (v : V) :
    (m.map (fun p => if p.1 = key then (key, v) else p)).lookup k
      = if k = key then (m.lookup k).map (fun _ => v) else m.lookup k := by
  induction m with
  | nil => simp
  | cons a m ih =>
    obtain ⟨k1, v1⟩ := a
    by_cases h1 : k1 = key
    · subst h1
      by_cases h2 : k = k1
      · subst h2
        simp [List.lookup_cons]
      · have h3 : (k == k1) = false := by simpa using h2
        simp only [h2, if_false] at ih
        simp only [List.map_cons, if_true, List.lookup_cons, h3, h2, if_false]
        exact ih
    · by_cases h2 : k = k1
      · subst h2
        simp [List.lookup_cons, h1]
      · have h3 : (k == k1) = false := by simpa using h2
        simp only [List.map_cons, h1, if_false, List.lookup_cons, h3]
        exact ih

theorem lookup_append_single {V : Type} (m : List (String × V)) (key k : String) (v : V) :
    (m ++ [(key, v)]).lookup k
      = match m.lookup k with
        | some w => some w
        | none => if k = key then some v else none := by
  induction m with
  | nil =>
    by_cases h : k = key
    · subst h; simp
    · have h3 : (k == key) = false := by simpa using h
      simp [List.lookup_cons, h3, h]
  | cons a m ih =>
    obtain ⟨k1, v1⟩ := a
    simp only [List.cons_append, List.lookup_cons]
    cases (k == k1)
    · exact ih
    · rfl

theorem lookup_map_assign_self {V : Type} (m : List (String × V)) (key : String) (v : V) :
    (map_assign m key v).lookup key = some v := by
  unfold map_assign
  split
  next h =>
    rw [lookup_map_replace]
    obtain ⟨w, hw⟩ := Option.isSome_iff_exists.mp h
    simp [hw]
  next h =>
    rw [lookup_append_single]
    have hn : m.lookup key = none := by
      cases hl : m.lookup key with
      | none => rfl
      | some w => simp [hl] at h
    simp [hn]

theorem lookup_map_assign_ne {V : Type} (m : List (String × V)) (key k : String) (v : V)
    (hk : k ≠ key) : (map_assign m key v).lookup k = m.lookup k := by
  unfold map_assign
  split
  · rw [lookup_map_replace]
    simp [hk]
  · rw [lookup_append_single]
    cases m.lookup k <;> simp [hk]

theorem keys_map_replace {V : Type} (m : List (String × V)) (key : String) (v : V) :
    (m.map (fun p => if p.1 = key then (key, v) else p)).map Prod.fst = m.map Prod.fst := by
  induction m with
  | nil => rfl
  | cons a m ih =>
    simp only [List.map_cons, ih]
    by_cases h : a.1 = key
    · simp [h]
    · simp [h]

theorem keys_map_assign {V : Type} (m : List (String × V)) (key : String) (v : V) :
    (map_assign m key v).map Prod.fst
      = if (m.lookup key).isSome then m.map Prod.fst else m.map Prod.fst ++ [key] := by
  unfold map_assign
  split
  · exact keys_map_replace m key v
  · simp

theorem ap_manager_client_associated (K : Constants) (e : Env) (s : State) (sd : SocketId)
    (hdr : cACTION_HEADER) (params : sClientParams) (hap : s.ap_manager_socket = some sd) :
    handle_cmdu_ap_manager_message K e s sd hdr true
        (.ACTION_APMANAGER_CLIENT_ASSOCIATED_NOTIFICATION params)
      = match s.master_socket with
        | some _ => (true, send_vs_to_controller K s
            (.cACTION_CONTROL_CLIENT_ASSOCIATED_NOTIFICATION params) hdr.id)
        | none => (true, { s with pending_client_association_cmdu :=
            (map_assign s.pending_client_association_cmdu (K.mac_to_string params.mac)
              params) }) := by
  cases hm : s.master_socket <;>
    simp [handle_cmdu_ap_manager_message, hap, ap_manager_switch, hm]

theorem ap_manager_client_disconnected (K : Constants) (e : Env) (s : State) (sd : SocketId)
    (hdr : cACTION_HEADER) (params : sClientParams) (hap : s.ap_manager_socket = some sd)
    (hm : s.master_socket = none) :
    handle_cmdu_ap_manager_message K e s sd hdr true
        (.ACTION_APMANAGER_CLIENT_DISCONNECTED_NOTIFICATION params)
      = (true, { s with
          sent := (s.sent ++ frames_to s.monitor_socket
            (create_vs_message K (.cACTION_MONITOR_CLIENT_STOP_MONITORING_REQUEST params.mac)
              hdr.id)),
          pending_client_association_cmdu :=
            (map_erase s.pending_client_association_cmdu (K.mac_to_string params.mac)) }) := by
  simp [handle_cmdu_ap_manager_message, hap, ap_manager_switch, send_vs_eq, hm]

/-- C17: a client-associated notification from the AP manager is accepted and either
forwarded or stored, never both. With the controller attached exactly one frame is added to
the trace, the notification with the same parameters and header id, to the controller, and
`pending_client_association_cmdu` is unchanged. With no controller attached nothing is sent
and the parameters are stored under the client MAC: looking up that MAC gives the new
parameters, every other key is as before, and the keys are those before plus the MAC if it
was not there (an earlier entry is replaced, not doubled). -/
theorem client_associated_forwarded_or_stored (K : Constants) (e : Env) (s : State)
    (sd : SocketId) (hdr : cACTION_HEADER) (params : sClientParams)
    (hap : s.ap_manager_socket = some sd) :
    let r := handle_cmdu_ap_manager_message K e s sd hdr true
      (.ACTION_APMANAGER_CLIENT_ASSOCIATED_NOTIFICATION params)
    r.1 = true ∧
    (∀ m : SocketId, s.master_socket = some m →
      r.2.sent = s.sent ++
        [{ sd := m,
           frame := .VENDOR_SPECIFIC_MESSAGE
             { direction := .BEEROCKS_DIRECTION_CONTROLLER, id := hdr.id,
               radio_mac := s.hostap_params.iface_mac }
             (.cACTION_CONTROL_CLIENT_ASSOCIATED_NOTIFICATION params),
           dst_mac := s.backhaul_params.controller_bridge_mac,
           src_mac := s.backhaul_params.bridge_mac }] ∧
      r.2.pending_client_association_cmdu = s.pending_client_association_cmdu) ∧
    (s.master_socket = none →
      r.2.sent = s.sent ∧
      r.2.pending_client_association_cmdu.lookup (K.mac_to_string params.mac)
        = some params ∧
      (∀ k : String, k ≠ K.mac_to_string params.mac →
        r.2.pending_client_association_cmdu.lookup k
          = s.pending_client_association_cmdu.lookup k) ∧
      r.2.pending_client_association_cmdu.map Prod.fst
        = if (s.pending_client_association_cmdu.lookup (K.mac_to_string params.mac)).isSome
          then s.pending_client_association_cmdu.map Prod.fst
          else s.pending_client_association_cmdu.map Prod.fst
            ++ [K.mac_to_string params.mac]) := by
  intro r
  have hr : r = _ := ap_manager_client_associated K e s sd hdr params hap
  rw [hr]
  refine ⟨?_, ?_, ?_⟩
  · cases s.master_socket <;> rfl
  · intro m hm
    simp [hm, send_vs_to_controller_eq, controller_frames, controller_stamp,
      create_vs_message]
  · intro hm
    simp only [hm]
    exact ⟨trivial, lookup_map_assign_self _ _ _, fun k hk => lookup_map_assign_ne _ _ _ _ hk,
      keys_map_assign _ _ _⟩

/-- C17, at a concrete input: the AP manager (socket 13) reports the association of
`client_a` to the operational supervisor, whose controller is on socket 12. -/
theorem client_associated_forwarded_or_stored_witness :
    s_operational.ap_manager_socket = some 13 ∧
    (handle_cmdu_ap_manager_message K0 env0 s_operational 13 hdr0 true
      (.ACTION_APMANAGER_CLIENT_ASSOCIATED_NOTIFICATION client_a)).1 = true ∧
    (handle_cmdu_ap_manager_message K0 env0 s_operational 13 hdr0 true
      (.ACTION_APMANAGER_CLIENT_ASSOCIATED_NOTIFICATION client_a)).2.pending_client_association_cmdu
        = s_operational.pending_client_association_cmdu :=
  ⟨rfl,
    (client_associated_forwarded_or_stored K0 env0 s_operational 13 hdr0 client_a rfl).1,
    ((client_associated_forwarded_or_stored K0 env0 s_operational 13 hdr0 client_a rfl).2.1
      12 rfl).2⟩

/-- C18, as the code has it. A client-disconnected notification that arrives with no
controller attached removes the entry stored for its MAC and adds no client-associated
notification to the trace. A join response that is not a rejection, processed in
`STATE_WAIT_FOR_JOINED_RESPONSE` with the controller attached, adds exactly one
client-associated notification for every stored entry, in the order of the map, and empties
the map, whatever its err_code (also when the join then fails with a version or SSID
mismatch). A rejection adds nothing to the trace and leaves the map as it is. -/
theorem pending_association_erased_or_forwarded (K : Constants) (e : Env) (s : State) :
    (∀ (sd : SocketId) (hdr : cACTION_HEADER) (params : sClientParams),
      s.ap_manager_socket = some sd → s.master_socket = none →
      (handle_cmdu_ap_manager_message K e s sd hdr true
        (.ACTION_APMANAGER_CLIENT_DISCONNECTED_NOTIFICATION
          params)).2.pending_client_association_cmdu.lookup (K.mac_to_string params.mac)
        = none ∧
      (∀ k : String, k ≠ K.mac_to_string params.mac →
        (handle_cmdu_ap_manager_message K e s sd hdr true
          (.ACTION_APMANAGER_CLIENT_DISCONNECTED_NOTIFICATION
            params)).2.pending_client_association_cmdu.lookup k
          = s.pending_client_association_cmdu.lookup k) ∧
      associated_forwards (handle_cmdu_ap_manager_message K e s sd hdr true
        (.ACTION_APMANAGER_CLIENT_DISCONNECTED_NOTIFICATION params)).2.sent
        = associated_forwards s.sent) ∧
    (∀ (vs : VsRx) (rest : List Tlv) (err_code : eSlaveJoinResponseErrCode)
        (master_version : String) (config : sSonConfig) (m : SocketId),
      s.slave_state = STATE_WAIT_FOR_JOINED_RESPONSE →
      vs.body = .ACTION_CONTROL
        (.ACTION_CONTROL_SLAVE_JOINED_RESPONSE err_code master_version config) →
      vs.cls_ok = true → s.master_socket = some m →
      (err_code ≠ JOIN_RESP_REJECT →
        associated_forwards (parse_intel_join_response K e s
            (.TLV_VENDOR_SPECIFIC (some vs) :: rest)).2.sent
          = associated_forwards s.sent ++ s.pending_client_association_cmdu.map Prod.snd ∧
        (parse_intel_join_response K e s
            (.TLV_VENDOR_SPECIFIC (some vs) :: rest)).2.pending_client_association_cmdu
          = []) ∧
      (err_code = JOIN_RESP_REJECT →
        (parse_intel_join_response K e s
            (.TLV_VENDOR_SPECIFIC (some vs) :: rest)).2.sent = s.sent ∧
        (parse_intel_join_response K e s
            (.TLV_VENDOR_SPECIFIC (some vs) :: rest)).2.pending_client_association_cmdu
          = s.pending_client_association_cmdu)) := by
  constructor
  · intro sd hdr params hap hm
    rw [ap_manager_client_disconnected K e s sd hdr params hap hm]
    refine ⟨lookup_map_erase _ _, fun k hk => lookup_map_erase_ne _ _ _ hk, ?_⟩
    show associated_forwards (s.sent ++ _) = _
    rw [associated_forwards_append,
      associated_forwards_frames_to _ _ _ _ (by intro _ h; cases h), List.append_nil]
  · intro vs rest err_code master_version config m hstate hbody hok hm
    rw [parse_intel_join_response_wellformed K e s vs rest err_code master_version config
      hstate hbody hok]
    constructor
    · intro h
      exact ⟨join_response_body_associated_forwards K e s err_code master_version config m hm h,
        join_response_body_pending K e s err_code master_version config h⟩
    · intro h
      subst h
      rw [join_response_body_of_reject]
      exact ⟨rfl, rfl⟩

/-- C18, at a concrete input: the supervisor waits for the join response holding the
association of `client_a`; a join response without error forwards it and empties the
map. -/
theorem pending_association_erased_or_forwarded_witness :
    associated_forwards (parse_intel_join_response K0 env0 s_wait_joined_pending
      [.TLV_VENDOR_SPECIFIC (some (joined_response JOIN_RESP_NO_ERROR))]).2.sent
      = [client_a] ∧
    (parse_intel_join_response K0 env0 s_wait_joined_pending
      [.TLV_VENDOR_SPECIFIC (some (joined_response
        JOIN_RESP_NO_ERROR))]).2.pending_client_association_cmdu = [] :=
  ((pending_association_erased_or_forwarded K0 env0 s_wait_joined_pending).2
    (joined_response JOIN_RESP_NO_ERROR) [] JOIN_RESP_NO_ERROR "1.0.0" son_config0 12
    rfl rfl rfl rfl).1 (by decide)

/-- C18, the sentence as the specification has it fails: the supervisor holds the
association of `client_a` and receives a join response with err_code VersionMismatch. The
join fails (the supervisor ends in `STATE_VERSION_MISMATCH`), yet the held association is
forwarded to the controller and the map is emptied. -/
theorem pending_association_forwarded_at_failed_join :
    s_wait_joined_pending.pending_client_association_cmdu.map Prod.snd = [client_a] ∧
    (parse_intel_join_response K0 env0 s_wait_joined_pending
      [.TLV_VENDOR_SPECIFIC (some (joined_response
        JOIN_RESP_VERSION_MISMATCH))]).2.slave_state = STATE_VERSION_MISMATCH ∧
    associated_forwards (parse_intel_join_response K0 env0 s_wait_joined_pending
      [.TLV_VENDOR_SPECIFIC (some (joined_response JOIN_RESP_VERSION_MISMATCH))]).2.sent
      = [client_a] ∧
    (parse_intel_join_response K0 env0 s_wait_joined_pending
      [.TLV_VENDOR_SPECIFIC (some (joined_response
        JOIN_RESP_VERSION_MISMATCH))]).2.pending_client_association_cmdu = [] := by
  decide

/-! ## Frames from the controller -/

theorem set_radio_tx_enable_keep_alive (K : Constants) (s : State) (i : String) (o : Bool) :
    (set_radio_tx_enable K s i o).2.keep_alive_retries = s.keep_alive_retries ∧
    (set_radio_tx_enable K s i o).2.master_last_seen = s.master_last_seen := by
  simp only [set_radio_tx_enable]
  split_ifs <;> simp [send_cmdu_snd]

set_option maxHeartbeats 800000 in
theorem control_switch_keep_alive (K : Constants) (e : Env) (s : State)
    (hdr : cACTION_HEADER) (ok : Bool) (op : ControlOp) :
    (control_switch K e s hdr ok op).2.keep_alive_retries = s.keep_alive_retries ∧
    (control_switch K e s hdr ok op).2.master_last_seen = s.master_last_seen := by
  cases op <;> simp only [control_switch] <;> (repeat' split) <;>
    simp [send_vs_eq, send_vs_to_controller_eq, set_radio_tx_enable_keep_alive]

theorem join_response_body_keep_alive (K : Constants) (e : Env) (s : State)
    (err_code : eSlaveJoinResponseErrCode) (master_version : String) (config : sSonConfig) :
    (join_response_body K e s err_code master_version config).2.keep_alive_retries
      = s.keep_alive_retries ∧
    (join_response_body K e s err_code master_version config).2.master_last_seen
      = s.master_last_seen := by
  unfold join_response_body
  simp only [send_vs_eq, foldl_send_associated]
  (repeat' split) <;> exact ⟨rfl, rfl⟩

theorem parse_intel_join_response_keep_alive (K : Constants) (e : Env) (s : State)
    (tlvs : List Tlv) :
    (parse_intel_join_response K e s tlvs).2.keep_alive_retries = s.keep_alive_retries ∧
    (parse_intel_join_response K e s tlvs).2.master_last_seen = s.master_last_seen := by
  unfold parse_intel_join_response
  (repeat' split) <;> first
    | exact ⟨rfl, rfl⟩
    | exact join_response_body_keep_alive _ _ _ _ _ _

theorem handle_autoconfiguration_wsc_keep_alive (K : Constants) (e : Env) (s : State)
    (tlvs : List Tlv) :
    (handle_autoconfiguration_wsc K e s tlvs).2.keep_alive_retries = s.keep_alive_retries ∧
    (handle_autoconfiguration_wsc K e s tlvs).2.master_last_seen = s.master_last_seen := by
  unfold handle_autoconfiguration_wsc
  (repeat' split) <;> first
    | exact ⟨rfl, rfl⟩
    | (simp only []; split_ifs <;> exact parse_intel_join_response_keep_alive _ _ _ _)

theorem handle_channel_preference_query_keep_alive (K : Constants) (e : Env) (s : State)
    (mid : Nat) :
    (handle_channel_preference_query K e s mid).2.keep_alive_retries
      = s.keep_alive_retries ∧
    (handle_channel_preference_query K e s mid).2.master_last_seen = s.master_last_seen :=
  ⟨(frame_handle_channel_preference_query K e s mid).2.2.2.2.1,
    (frame_handle_channel_preference_query K e s mid).2.2.2.2.2⟩

/-- C11: a frame from the controller that the router accepts leaves `keep_alive_retries` at
0 and `master_last_seen` at the current clock value, whatever the handler then does and
returns. Accepted means: the frame arrives on the controller socket while the state is not
`STATE_STOPPED`, and, for a vendor-specific ACTION_CONTROL frame, its header names this
radio and its direction is not towards the controller; every action_op, and for a 1905.1
frame every message type, is covered. -/
theorem controller_frame_refreshes_keep_alive (K : Constants) (e : Env) (s : State)
    (sd : SocketId)
    (hm : s.master_socket = some sd) (hs : s.slave_state ≠ STATE_STOPPED) :
    (∀ (hdr : cACTION_HEADER) (cls_ok : Bool) (op : ControlOp),
      hdr.radio_mac = s.hostap_params.iface_mac →
      hdr.direction ≠ .BEEROCKS_DIRECTION_CONTROLLER →
      (handle_cmdu_control_message K e s sd hdr cls_ok op).2.keep_alive_retries = 0 ∧
      (handle_cmdu_control_message K e s sd hdr cls_ok op).2.master_last_seen = e.now) ∧
    (∀ (type : eMessageType) (mid : Nat) (tlvs : List Tlv),
      (handle_cmdu_control_ieee1905_1_message K e s sd type mid tlvs).2.keep_alive_retries
        = 0 ∧
      (handle_cmdu_control_ieee1905_1_message K e s sd type mid tlvs).2.master_last_seen
        = e.now) := by
  constructor
  · intro hdr cls_ok op hmac hdir
    unfold handle_cmdu_control_message
    simp only [hmac, hdir, hm, hs, ne_eq, not_true_eq_false, if_false, reduceCtorEq]
    exact control_switch_keep_alive K e _ hdr cls_ok op
  · intro type mid tlvs
    unfold handle_cmdu_control_ieee1905_1_message
    simp only [hm, hs, ne_eq, not_true_eq_false, if_false, reduceCtorEq]
    cases type
    · exact handle_autoconfiguration_wsc_keep_alive K e _ tlvs
    · exact handle_channel_preference_query_keep_alive K e _ mid
    · exact ⟨rfl, rfl⟩

/-- C11, at a concrete input: the supervisor has missed three keep-alive periods when a
pre-commit request arrives from the controller on socket 12. -/
theorem controller_frame_refreshes_keep_alive_witness :
    ({ s_keep_alive_silent with keep_alive_retries := 3 } : State).master_socket = some 12 ∧
    (handle_cmdu_control_message K0 env0 { s_keep_alive_silent with keep_alive_retries := 3 }
      12 hdr0 true .ACTION_CONTROL_WIFI_CREDENTIALS_UPDATE_PRE_COMMIT_REQUEST).2.keep_alive_retries
      = 0 ∧
    (handle_cmdu_control_message K0 env0 { s_keep_alive_silent with keep_alive_retries := 3 }
      12 hdr0 true .ACTION_CONTROL_WIFI_CREDENTIALS_UPDATE_PRE_COMMIT_REQUEST).2.master_last_seen
      = 100000 :=
  ⟨rfl,
    (controller_frame_refreshes_keep_alive K0 env0
      { s_keep_alive_silent with keep_alive_retries := 3 } 12 rfl (by decide)).1
      hdr0 true .ACTION_CONTROL_WIFI_CREDENTIALS_UPDATE_PRE_COMMIT_REQUEST rfl (by decide)⟩

theorem handle_cmdu_control_message_accepted (K : Constants) (e : Env) (s : State)
    (sd : SocketId) (hdr : cACTION_HEADER) (cls_ok : Bool) (op : ControlOp)
    (hmac : hdr.radio_mac = s.hostap_params.iface_mac)
    (hdir : hdr.direction ≠ .BEEROCKS_DIRECTION_CONTROLLER)
    (hm : s.master_socket = some sd) (hs : s.slave_state ≠ STATE_STOPPED) :
    handle_cmdu_control_message K e s sd hdr cls_ok op
      = control_switch K e { s with master_last_seen := e.now, keep_alive_retries := 0 }
          hdr cls_ok op := by
  unfold handle_cmdu_control_message
  simp only [hmac, hdir, hm, hs, ne_eq, not_true_eq_false, if_false, reduceCtorEq]

/-- C13: with keep-alive switched off, by `enable_keep_alive` or by
`son_config.slave_keep_alive_retries = 0`, `process_keep_alive` returns the supervisor
state as it was, the trace of sent frames included, for every clock value and every value
of `keep_alive_retries`. -/
theorem process_keep_alive_disabled (K : Constants) (e : Env) (s : State)
    (h : s.config.enable_keep_alive = false ∨ s.son_config.slave_keep_alive_retries = 0) :
    process_keep_alive K e s = s := by
  unfold process_keep_alive
  rw [if_pos]
  rcases h with h | h
  · exact Or.inl (by simp [h])
  · exact Or.inr h

/-- C13, at a concrete input: the operational supervisor with no keep-alive retries
configured, the controller silent for 100 s and 7 retries counted. -/
theorem process_keep_alive_disabled_witness :
    ({ s_operational with master_last_seen := 0, keep_alive_retries := 7 } :
      State).son_config.slave_keep_alive_retries = 0 ∧
    (process_keep_alive K0 env0
      { s_operational with master_last_seen := 0, keep_alive_retries := 7 }).keep_alive_retries
        = 7 :=
  ⟨rfl, congrArg State.keep_alive_retries
    (process_keep_alive_disabled K0 env0
      { s_operational with master_last_seen := 0, keep_alive_retries := 7 } (Or.inr rfl))⟩

/-- C14, as the code has it: an accepted `ClientRxRssiMeasurementRequest` is translated
into one request with the same parameters and header id, handed to one endpoint: the
backhaul manager socket if cross is set, the first octet of the request's ipv4 is 0,
`is_backhaul_manager` and `backhaul_is_wireless`; the AP manager socket if cross is set and
the first octet is 0 but the supervisor is not a wireless backhaul manager; the monitor
socket in every other case. -/
theorem rx_rssi_request_routing (K : Constants) (e : Env) (s : State)
    (sd : SocketId) (hdr : cACTION_HEADER) (params : sNodeRssiMeasurementRequest)
    (hmac : hdr.radio_mac = s.hostap_params.iface_mac)
    (hdir : hdr.direction ≠ .BEEROCKS_DIRECTION_CONTROLLER)
    (hm : s.master_socket = some sd) (hs : s.slave_state ≠ STATE_STOPPED) :
    let r := handle_cmdu_control_message K e s sd hdr true
      (.ACTION_CONTROL_CLIENT_RX_RSSI_MEASUREMENT_REQUEST params)
    r.1 = true ∧
    r.2.slave_state = s.slave_state ∧
    r.2.sent = s.sent ++
      (if params.cross = true ∧ params.ipv4.oct0 = 0 then
        if s.is_backhaul_manager = true ∧ s.backhaul_params.backhaul_is_wireless = true then
          frames_to s.backhaul_manager_socket (create_vs_message K
            (.cACTION_BACKHAUL_CLIENT_RX_RSSI_MEASUREMENT_REQUEST params) hdr.id)
        else
          frames_to s.ap_manager_socket (create_vs_message K
            (.cACTION_APMANAGER_CLIENT_RX_RSSI_MEASUREMENT_REQUEST params) hdr.id)
      else
        frames_to s.monitor_socket (create_vs_message K
          (.cACTION_MONITOR_CLIENT_RX_RSSI_MEASUREMENT_REQUEST params) hdr.id)) := by
  intro r
  have hr : r = _ := handle_cmdu_control_message_accepted K e s sd hdr true _ hmac hdir hm hs
  rw [hr]
  simp only [control_switch, send_vs_eq]
  by_cases h1 : params.cross = true <;> by_cases h2 : params.ipv4.oct0 = 0 <;>
    by_cases h3 : s.is_backhaul_manager = true <;>
    by_cases h4 : s.backhaul_params.backhaul_is_wireless = true <;>
    simp [h1, h2, h3, h4]

/-- C14, at a concrete input: a cross request for a client without address reaches the
AP manager of the example supervisor, which is not a backhaul manager. -/
theorem rx_rssi_request_routing_witness :
    s_operational.master_socket = some 12 ∧
    (handle_cmdu_control_message K0 env0 s_operational 12 hdr0 true
      (.ACTION_CONTROL_CLIENT_RX_RSSI_MEASUREMENT_REQUEST
        (rssi_request true { oct0 := 0, oct1 := 0, oct2 := 0, oct3 := 0 }))).2.sent
      = frames_to (some 13) (create_vs_message K0
          (.cACTION_APMANAGER_CLIENT_RX_RSSI_MEASUREMENT_REQUEST
            (rssi_request true { oct0 := 0, oct1 := 0, oct2 := 0, oct3 := 0 })) 7) :=
  ⟨rfl,
    (rx_rssi_request_routing K0 env0 s_operational 12 hdr0
      (rssi_request true { oct0 := 0, oct1 := 0, oct2 := 0, oct3 := 0 })
      rfl (by decide) rfl (by decide)).2.2⟩

/-- C14, the sentence as the specification has it fails: a cross request whose ipv4 is
0.0.0.5, not the zero address, is handed to the AP manager (socket 13) and not to the
monitor (socket 14). -/
theorem rx_rssi_request_first_octet_only :
    (rssi_request true { oct0 := 0, oct1 := 0, oct2 := 0, oct3 := 5 }).ipv4
      ≠ { oct0 := 0, oct1 := 0, oct2 := 0, oct3 := 0 } ∧
    s_operational.ap_manager_socket = some 13 ∧
    s_operational.monitor_socket = some 14 ∧
    (handle_cmdu_control_message K0 env0 s_operational 12 hdr0 true
      (.ACTION_CONTROL_CLIENT_RX_RSSI_MEASUREMENT_REQUEST
        (rssi_request true { oct0 := 0, oct1 := 0, oct2 := 0, oct3 := 5 }))).2.sent.map
      Sent.sd = [13] := by
  decide

theorem send_vs_to_controller_sent_some (K : Constants) (s : State) (op : TxOp) (id : Nat)
    (m : SocketId) (hm : s.master_socket = some m) :
    (send_vs_to_controller K s op id).sent = s.sent ++
      [{ sd := m,
         frame := .VENDOR_SPECIFIC_MESSAGE
           { direction := .BEEROCKS_DIRECTION_CONTROLLER, id := id,
             radio_mac := s.hostap_params.iface_mac } op,
         dst_mac := s.backhaul_params.controller_bridge_mac,
         src_mac := s.backhaul_params.bridge_mac }] := by
  simp [send_vs_to_controller_eq, controller_frames, controller_stamp, create_vs_message, hm]

/-- C15: the RX-RSSI measurement response of a worker is relayed to the controller with
the `src_module` of the worker whose handler relays it (backhaul manager, AP manager,
monitor), whatever `src_module` the inbound response held; the other fields of its
parameters and the header id are those of the inbound response, and exactly this one frame
is sent. -/
theorem rx_rssi_response_src_module (K : Constants) (e : Env) (s : State)
    (sd m : SocketId) (hdr : cACTION_HEADER) (params : sNodeRssiMeasurement)
    (hm : s.master_socket = some m) :
    (s.backhaul_manager_socket = some sd →
      handle_cmdu_backhaul_manager_message K e s sd hdr true
          (.ACTION_BACKHAUL_CLIENT_RX_RSSI_MEASUREMENT_RESPONSE params)
        = (true, { s with sent := s.sent ++
            [{ sd := m,
               frame := .VENDOR_SPECIFIC_MESSAGE
                 { direction := .BEEROCKS_DIRECTION_CONTROLLER, id := hdr.id,
                   radio_mac := s.hostap_params.iface_mac }
                 (.cACTION_CONTROL_CLIENT_RX_RSSI_MEASUREMENT_RESPONSE
                   { mac := params.mac, rx_rssi := params.rx_rssi,
                     src_module := .BEEROCKS_ENTITY_BACKHAUL_MANAGER, other := params.other }),
               dst_mac := s.backhaul_params.controller_bridge_mac,
               src_mac := s.backhaul_params.bridge_mac }] })) ∧
    (s.ap_manager_socket = some sd →
      handle_cmdu_ap_manager_message K e s sd hdr true
          (.ACTION_APMANAGER_CLIENT_RX_RSSI_MEASUREMENT_RESPONSE params)
        = (true, { s with sent := s.sent ++
            [{ sd := m,
               frame := .VENDOR_SPECIFIC_MESSAGE
                 { direction := .BEEROCKS_DIRECTION_CONTROLLER, id := hdr.id,
                   radio_mac := s.hostap_params.iface_mac }
                 (.cACTION_CONTROL_CLIENT_RX_RSSI_MEASUREMENT_RESPONSE
                   { mac := params.mac, rx_rssi := params.rx_rssi,
                     src_module := .BEEROCKS_ENTITY_AP_MANAGER, other := params.other }),
               dst_mac := s.backhaul_params.controller_bridge_mac,
               src_mac := s.backhaul_params.bridge_mac }] })) ∧
    (s.monitor_socket = some sd →
      handle_cmdu_monitor_message K e s sd hdr true
          (.ACTION_MONITOR_CLIENT_RX_RSSI_MEASUREMENT_RESPONSE params)
        = (true, { s with sent := s.sent ++
            [{ sd := m,
               frame := .VENDOR_SPECIFIC_MESSAGE
                 { direction := .BEEROCKS_DIRECTION_CONTROLLER, id := hdr.id,
                   radio_mac := s.hostap_params.iface_mac }
                 (.cACTION_CONTROL_CLIENT_RX_RSSI_MEASUREMENT_RESPONSE
                   { mac := params.mac, rx_rssi := params.rx_rssi,
                     src_module := .BEEROCKS_ENTITY_MONITOR, other := params.other }),
               dst_mac := s.backhaul_params.controller_bridge_mac,
               src_mac := s.backhaul_params.bridge_mac }] })) := by
  refine ⟨?_, ?_, ?_⟩
  · intro h
    simp [handle_cmdu_backhaul_manager_message, h, backhaul_switch, send_vs_to_controller_eq,
      controller_frames, controller_stamp, create_vs_message, hm]
  · intro h
    simp [handle_cmdu_ap_manager_message, h, ap_manager_switch, send_vs_to_controller_eq,
      controller_frames, controller_stamp, create_vs_message, hm]
  · intro h
    simp [handle_cmdu_monitor_message, h, monitor_switch, send_vs_to_controller_eq,
      controller_frames, controller_stamp, create_vs_message, hm]

/-- C15, at a concrete input: the monitor (socket 14) reports a measurement tagged with
`BEEROCKS_ENTITY_NONE`; the frame relayed to the controller is tagged
`BEEROCKS_ENTITY_MONITOR`. -/
theorem rx_rssi_response_src_module_witness :
    s_operational.master_socket = some 12 ∧
    rssi_response0.src_module = .BEEROCKS_ENTITY_NONE ∧
    ((handle_cmdu_monitor_message K0 env0 s_operational 14 hdr0 true
      (.ACTION_MONITOR_CLIENT_RX_RSSI_MEASUREMENT_RESPONSE rssi_response0)).2.sent.map
        Sent.op)
      = [some (.cACTION_CONTROL_CLIENT_RX_RSSI_MEASUREMENT_RESPONSE
          { rssi_response0 with src_module := .BEEROCKS_ENTITY_MONITOR })] :=
  ⟨rfl, rfl,
    congrArg (fun r : Bool × State => r.2.sent.map Sent.op)
      ((rx_rssi_response_src_module K0 env0 s_operational 14 12 hdr0 rssi_response0 rfl).2.2
        rfl)⟩

/-- C16, as the code has it: an accepted `ControllerPingRequest(total, seq, size)` whose
size is 0, or for which the response's data can be allocated on the transmit buffer, is
answered by exactly one `ControllerPingResponse` to the controller with the same total, seq
and size and a data payload of `size` bytes, all zero; nothing else is sent and the FSM
state is unchanged. -/
theorem controller_ping_echo (K : Constants) (e : Env) (s : State)
    (sd : SocketId) (hdr : cACTION_HEADER) (total seq size : Nat)
    (hmac : hdr.radio_mac = s.hostap_params.iface_mac)
    (hdir : hdr.direction ≠ .BEEROCKS_DIRECTION_CONTROLLER)
    (hm : s.master_socket = some sd) (hs : s.slave_state ≠ STATE_STOPPED)
    (hsize : size = 0 ∨ size ≤ K.tx_data_capacity) :
    let r := handle_cmdu_control_message K e s sd hdr true
      (.ACTION_CONTROL_CONTROLLER_PING_REQUEST total seq size)
    r.1 = true ∧
    r.2.slave_state = s.slave_state ∧
    r.2.sent = s.sent ++
      [{ sd := sd,
         frame := .VENDOR_SPECIFIC_MESSAGE
           { direction := .BEEROCKS_DIRECTION_CONTROLLER, id := 0,
             radio_mac := s.hostap_params.iface_mac }
           (.cACTION_CONTROL_CONTROLLER_PING_RESPONSE total seq size (List.replicate size 0)),
         dst_mac := s.backhaul_params.controller_bridge_mac,
         src_mac := s.backhaul_params.bridge_mac }] := by
  intro r
  have hr : r = _ := handle_cmdu_control_message_accepted K e s sd hdr true _ hmac hdir hm hs
  rw [hr]
  have hfit : ¬ (size ≠ 0 ∧ ¬ size ≤ K.tx_data_capacity) := by
    rintro ⟨h1, h2⟩
    rcases hsize with h | h
    · exact h1 h
    · exact h2 h
  simp only [control_switch, not_true_eq_false, if_false, if_neg hfit]
  simp [send_vs_to_controller_eq, controller_frames, controller_stamp, create_vs_message, hm]

/-- C16, at a concrete input: scenario 3 of the specification, a ping of 16 bytes. -/
theorem controller_ping_echo_witness :
    s_operational.master_socket = some 12 ∧
    ((handle_cmdu_control_message K0 env0 s_operational 12 hdr0 true
      (.ACTION_CONTROL_CONTROLLER_PING_REQUEST 3 0 16)).2.sent.map Sent.op)
      = [some (.cACTION_CONTROL_CONTROLLER_PING_RESPONSE 3 0 16 (List.replicate 16 0))] :=
  ⟨rfl,
    congrArg (fun l : List Sent => l.map Sent.op)
      (controller_ping_echo K0 env0 s_operational 12 hdr0 3 0 16 rfl (by decide) rfl
        (by decide) (Or.inr (by decide))).2.2⟩

/-- C16, the sentence as the specification has it fails: a ping request of size 65535,
more than the transmit buffer holds, is accepted (the handler returns true) but no response
is sent. -/
theorem controller_ping_too_large :
    (handle_cmdu_control_message K0 env0 s_operational 12 hdr0 true
      (.ACTION_CONTROL_CONTROLLER_PING_REQUEST 3 0 65535)).1 = true ∧
    (handle_cmdu_control_message K0 env0 s_operational 12 hdr0 true
      (.ACTION_CONTROL_CONTROLLER_PING_REQUEST 3 0 65535)).2.sent.length = 0 := by
  decide

/-! ## The controller keep-alive -/

theorem le_to_int (lo x : Int) (h1 : lo ≤ x) (h2 : x < 2147483648) : lo ≤ to_int x := by
  unfold to_int
  omega

theorem to_int_of_range (x : Int) (h1 : -2147483648 ≤ x) (h2 : x < 2147483648) :
    to_int x = x := by
  unfold to_int
  omega

theorem process_keep_alive_ping (K : Constants) (e : Env) (s : State) (m : SocketId)
    (hen : s.config.enable_keep_alive = true)
    (hm : s.master_socket = some m)
    (hk : s.keep_alive_retries < s.son_config.slave_keep_alive_retries)
    (h1 : K.KEEP_ALIVE_INTERVAL_MSC ≤ (e.now : Int) - (s.master_last_seen : Int))
    (h2 : (e.now : Int) - (s.master_last_seen : Int) < 2147483648) :
    process_keep_alive K e s =
      { s with sent := s.sent ++ [keep_alive_ping K s m],
               keep_alive_retries := s.keep_alive_retries + 1,
               master_last_seen := e.now } := by
  have hel : elapsed_ms e.now s.master_last_seen ≥ K.KEEP_ALIVE_INTERVAL_MSC :=
    le_to_int _ _ h1 h2
  have hN : s.son_config.slave_keep_alive_retries ≠ 0 := by omega
  have hk2 : ¬ s.keep_alive_retries ≥ s.son_config.slave_keep_alive_retries := by omega
  unfold process_keep_alive
  simp only [hen, hN, hm, not_true_eq_false, false_or, if_false, hel, if_true, hk2,
    send_cmdu_to_controller_snd, controller_frames, keep_alive_ping]

theorem process_keep_alive_timeout (K : Constants) (e : Env) (s : State) (m : SocketId)
    (hen : s.config.enable_keep_alive = true)
    (hN : s.son_config.slave_keep_alive_retries ≠ 0)
    (hm : s.master_socket = some m)
    (hk : s.son_config.slave_keep_alive_retries ≤ s.keep_alive_retries)
    (h1 : K.KEEP_ALIVE_INTERVAL_MSC ≤ (e.now : Int) - (s.master_last_seen : Int))
    (h2 : (e.now : Int) - (s.master_last_seen : Int) < 2147483648) :
    process_keep_alive K e s =
      slave_reset K e
        { platform_notify_error K s BPL_ERR_SLAVE_MASTER_KEEP_ALIVE_TIMEOUT
            ("Reached master keep-alive retries limit: " ++ toString s.keep_alive_retries) with
          stop_on_failure_attempts :=
            (platform_notify_error K s BPL_ERR_SLAVE_MASTER_KEEP_ALIVE_TIMEOUT
              ("Reached master keep-alive retries limit: "
                ++ toString s.keep_alive_retries)).stop_on_failure_attempts - 1 } := by
  have hel : elapsed_ms e.now s.master_last_seen ≥ K.KEEP_ALIVE_INTERVAL_MSC :=
    le_to_int _ _ h1 h2
  have hk2 : s.keep_alive_retries ≥ s.son_config.slave_keep_alive_retries := hk
  unfold process_keep_alive
  simp only [hen, hN, hm, not_true_eq_false, false_or, if_false, hel, if_true, hk2]

theorem process_keep_alive_early (K : Constants) (e : Env) (s : State)
    (h0 : (s.master_last_seen : Int) ≤ (e.now : Int))
    (h1 : (e.now : Int) - (s.master_last_seen : Int) < K.KEEP_ALIVE_INTERVAL_MSC)
    (h2 : (e.now : Int) - (s.master_last_seen : Int) < 2147483648) :
    process_keep_alive K e s = s := by
  have hel : ¬ elapsed_ms e.now s.master_last_seen ≥ K.KEEP_ALIVE_INTERVAL_MSC := by
    unfold elapsed_ms
    rw [to_int_of_range _ (by omega) h2]
    omega
  unfold process_keep_alive
  simp only [if_neg hel]
  (repeat' split) <;> rfl

theorem platform_notify_error_eq (K : Constants) (s : State) (code : BplErr) (data : String) :
    platform_notify_error K s code data =
      { s with sent := (s.sent ++ frames_to s.platform_manager_socket
          (create_vs_message K (.cACTION_PLATFORM_ERROR_NOTIFICATION code data) 0)) } := by
  unfold platform_notify_error
  split
  next h =>
    have hf : frames_to s.platform_manager_socket
        (create_vs_message K (.cACTION_PLATFORM_ERROR_NOTIFICATION code data) 0) = [] := by
      rw [h]
      rfl
    rw [hf, List.append_nil]
  next k h =>
    rw [send_cmdu_snd]

theorem slave_reset_flags (K : Constants) (e : Env) (s : State) :
    (slave_reset K e s).is_slave_reset = true ∧
    (slave_reset K e s).slave_resets_counter = s.slave_resets_counter + 1 := by
  unfold slave_reset
  simp only [hostap_services_off, platform_manager_stop, ap_manager_stop, monitor_stop,
    backhaul_manager_stop, platform_notify_error]
  split_ifs <;> simp

theorem keep_alive_calls_append (K : Constants) (e : Env) (ts : List TimePoint)
    (t : TimePoint) : ∀ s : State,
    keep_alive_calls K e s (ts ++ [t])
      = process_keep_alive K { e with now := t } (keep_alive_calls K e s ts) := by
  induction ts with
  | nil => intro s; rfl
  | cons a ts ih =>
    intro s
    simp only [List.cons_append, keep_alive_calls]
    exact ih _

theorem paced_append (lo hi : Int) (ts : List TimePoint) (t : TimePoint) :
    ∀ t0 : TimePoint, paced lo hi t0 (ts ++ [t]) = true →
      paced lo hi t0 ts = true ∧
      lo ≤ (t : Int) - (ts.getLastD t0 : Int) ∧ (t : Int) - (ts.getLastD t0 : Int) < hi := by
  induction ts with
  | nil =>
    intro t0 h
    simpa [paced] using h
  | cons a ts ih =>
    intro t0 h
    simp only [List.cons_append, paced, Bool.and_eq_true, decide_eq_true_eq] at h
    obtain ⟨⟨h1, h2⟩, h3⟩ := h
    have := ih a h3
    simp only [paced, Bool.and_eq_true, decide_eq_true_eq, List.getLastD_cons]
    exact ⟨⟨⟨h1, h2⟩, this.1⟩, this.2⟩

theorem getLast_cons_getD (t d : TimePoint) (ts : List TimePoint) :
    (t :: ts).getLast?.getD d = ts.getLast?.getD t := by
  cases ts with
  | nil => rfl
  | cons a l =>
    rw [List.getLast?_cons_cons, List.getLast?_eq_getLast (a :: l) (List.cons_ne_nil a l)]
    rfl

theorem keep_alive_calls_pings (K : Constants) (e : Env) (m : SocketId) :
    ∀ (ts : List TimePoint) (s : State),
    s.config.enable_keep_alive = true → s.master_socket = some m →
    paced K.KEEP_ALIVE_INTERVAL_MSC 2147483648 s.master_last_seen ts = true →
    s.keep_alive_retries + ts.length ≤ s.son_config.slave_keep_alive_retries →
    keep_alive_calls K e s ts =
      { s with sent := s.sent ++ List.replicate ts.length (keep_alive_ping K s m),
               keep_alive_retries := s.keep_alive_retries + ts.length,
               master_last_seen := ts.getLastD s.master_last_seen } := by
  intro ts
  induction ts with
  | nil =>
    intro s _ _ _ _
    simp [keep_alive_calls]
  | cons t ts ih =>
    intro s hen hm hp hk
    simp only [paced, Bool.and_eq_true, decide_eq_true_eq] at hp
    obtain ⟨⟨h1, h2⟩, h3⟩ := hp
    simp only [List.length_cons] at hk
    simp only [keep_alive_calls]
    rw [process_keep_alive_ping K { e with now := t } s m hen hm (by omega) h1 h2]
    refine (ih { s with sent := s.sent ++ [keep_alive_ping K s m],
                        keep_alive_retries := s.keep_alive_retries + 1,
                        master_last_seen := t } hen hm h3 (by simp only []; omega)).trans ?_
    simp [keep_alive_ping, controller_stamp, List.replicate_succ, Nat.add_assoc,
      Nat.add_comm 1]
    exact (getLast_cons_getD _ _ _).symm

theorem process_keep_alive_timeout_effects (K : Constants) (e : Env) (s : State)
    (m : SocketId)
    (hen : s.config.enable_keep_alive = true)
    (hN : s.son_config.slave_keep_alive_retries ≠ 0)
    (hm : s.master_socket = some m)
    (hk : s.son_config.slave_keep_alive_retries ≤ s.keep_alive_retries)
    (h1 : K.KEEP_ALIVE_INTERVAL_MSC ≤ (e.now : Int) - (s.master_last_seen : Int))
    (h2 : (e.now : Int) - (s.master_last_seen : Int) < 2147483648) :
    (process_keep_alive K e s).sent = s.sent ++ frames_to s.platform_manager_socket
      (create_vs_message K (.cACTION_PLATFORM_ERROR_NOTIFICATION
        BPL_ERR_SLAVE_MASTER_KEEP_ALIVE_TIMEOUT
        ("Reached master keep-alive retries limit: " ++ toString s.keep_alive_retries)) 0) ∧
    (process_keep_alive K e s).stop_on_failure_attempts = s.stop_on_failure_attempts - 1 ∧
    (process_keep_alive K e s).is_slave_reset = true ∧
    (process_keep_alive K e s).slave_resets_counter = s.slave_resets_counter + 1 := by
  rw [process_keep_alive_timeout K e s m hen hN hm hk h1 h2]
  refine ⟨?_, ?_, ?_, ?_⟩
  · rw [slave_reset_sent]
    simp only [platform_notify_error_eq]
  · rw [sofa_slave_reset]
    simp only [platform_notify_error_eq]
  · exact (slave_reset_flags K e _).1
  · rw [(slave_reset_flags K e _).2]
    simp only [platform_notify_error_eq]

/-- C12, as the code has it. With keep-alive enabled, N = `slave_keep_alive_retries` > 0 and
the controller attached, a call of `process_keep_alive` made at least
KEEP_ALIVE_INTERVAL_MSC and less than 2^31 ms (the range of the `int` that holds the
elapsed time) after `master_last_seen`: with fewer than N retries counted it sends exactly
one ping request (total 1, seq 0, size 0) to the controller, adds one to
`keep_alive_retries` and sets `master_last_seen` to now, changing nothing else; with N or
more retries counted it sends no ping, hands the platform error
`BPL_ERR_SLAVE_MASTER_KEEP_ALIVE_TIMEOUT` to the platform socket, takes one from
`stop_on_failure_attempts` and resets. A call made less than the interval after
`master_last_seen` changes nothing. Hence, starting from `keep_alive_retries = 0`, N calls
each made in that range after the one before send N pings, and the next such call is the
one that resets. -/
theorem keep_alive_schedule (K : Constants) (e : Env) (s : State) (m : SocketId)
    (hen : s.config.enable_keep_alive = true)
    (hN : 0 < s.son_config.slave_keep_alive_retries)
    (hm : s.master_socket = some m) :
    (K.KEEP_ALIVE_INTERVAL_MSC ≤ (e.now : Int) - (s.master_last_seen : Int) →
      (e.now : Int) - (s.master_last_seen : Int) < 2147483648 →
      s.keep_alive_retries < s.son_config.slave_keep_alive_retries →
      process_keep_alive K e s =
        { s with sent := s.sent ++ [keep_alive_ping K s m],
                 keep_alive_retries := s.keep_alive_retries + 1,
                 master_last_seen := e.now }) ∧
    (K.KEEP_ALIVE_INTERVAL_MSC ≤ (e.now : Int) - (s.master_last_seen : Int) →
      (e.now : Int) - (s.master_last_seen : Int) < 2147483648 →
      s.son_config.slave_keep_alive_retries ≤ s.keep_alive_retries →
      (process_keep_alive K e s).sent = s.sent ++ frames_to s.platform_manager_socket
        (create_vs_message K (.cACTION_PLATFORM_ERROR_NOTIFICATION
          BPL_ERR_SLAVE_MASTER_KEEP_ALIVE_TIMEOUT
          ("Reached master keep-alive retries limit: " ++ toString s.keep_alive_retries)) 0) ∧
      (process_keep_alive K e s).stop_on_failure_attempts = s.stop_on_failure_attempts - 1 ∧
      (process_keep_alive K e s).is_slave_reset = true ∧
      (process_keep_alive K e s).slave_resets_counter = s.slave_resets_counter + 1) ∧
    ((s.master_last_seen : Int) ≤ (e.now : Int) →
      (e.now : Int) - (s.master_last_seen : Int) < K.KEEP_ALIVE_INTERVAL_MSC →
      (e.now : Int) - (s.master_last_seen : Int) < 2147483648 →
      process_keep_alive K e s = s) ∧
    (∀ (ts : List TimePoint) (t : TimePoint),
      s.keep_alive_retries = 0 → ts.length = s.son_config.slave_keep_alive_retries →
      paced K.KEEP_ALIVE_INTERVAL_MSC 2147483648 s.master_last_seen (ts ++ [t]) = true →
      keep_alive_calls K e s ts =
        { s with sent := s.sent ++ List.replicate ts.length (keep_alive_ping K s m),
                 keep_alive_retries := ts.length,
                 master_last_seen := ts.getLastD s.master_last_seen } ∧
      (keep_alive_calls K e s (ts ++ [t])).sent =
        s.sent ++ List.replicate ts.length (keep_alive_ping K s m) ++
          frames_to s.platform_manager_socket
            (create_vs_message K (.cACTION_PLATFORM_ERROR_NOTIFICATION
              BPL_ERR_SLAVE_MASTER_KEEP_ALIVE_TIMEOUT
              ("Reached master keep-alive retries limit: " ++ toString ts.length)) 0) ∧
      (keep_alive_calls K e s (ts ++ [t])).stop_on_failure_attempts
        = s.stop_on_failure_attempts - 1 ∧
      (keep_alive_calls K e s (ts ++ [t])).is_slave_reset = true) := by
  refine ⟨fun h1 h2 hk => process_keep_alive_ping K e s m hen hm hk h1 h2,
    fun h1 h2 hk => process_keep_alive_timeout_effects K e s m hen (by omega) hm hk h1 h2,
    fun h0 h1 h2 => process_keep_alive_early K e s h0 h1 h2, ?_⟩
  intro ts t hk0 hlen hp
  obtain ⟨hp1, h1, h2⟩ := paced_append _ _ ts t _ hp
  have hrun := keep_alive_calls_pings K e m ts s hen hm hp1 (by omega)
  rw [hk0, Nat.zero_add] at hrun
  have heff := process_keep_alive_timeout_effects K { e with now := t }
    { s with sent := s.sent ++ List.replicate ts.length (keep_alive_ping K s m),
             keep_alive_retries := ts.length,
             master_last_seen := ts.getLastD s.master_last_seen } m hen (by
      simp only []; omega) hm (by simp only []; omega) h1 h2
  rw [keep_alive_calls_append, hrun]
  exact ⟨rfl, heff.1, heff.2.1, heff.2.2.1⟩

/-- C12, at a concrete input: the supervisor with 10 keep-alive retries configured, the
controller last heard 100 s ago, sends one ping and counts one retry. -/
theorem keep_alive_schedule_witness :
    s_keep_alive_silent.config.enable_keep_alive = true ∧
    s_keep_alive_silent.son_config.slave_keep_alive_retries = 10 ∧
    (process_keep_alive K0 env0 s_keep_alive_silent).keep_alive_retries = 1 ∧
    (process_keep_alive K0 env0 s_keep_alive_silent).sent
      = [keep_alive_ping K0 s_keep_alive_silent 12] :=
  ⟨rfl, rfl,
    congrArg State.keep_alive_retries
      ((keep_alive_schedule K0 env0 s_keep_alive_silent 12 rfl (by decide) rfl).1
        (by decide) (by decide) (by decide)),
    congrArg State.sent
      ((keep_alive_schedule K0 env0 s_keep_alive_silent 12 rfl (by decide) rfl).1
        (by decide) (by decide) (by decide))⟩

/-- C12, the sentence as the specification has it fails: the controller was last heard
2^31 ms (about 24.9 days) ago, far more than the keep-alive interval of 10 s, and no retry
has been counted; the elapsed time stored into the `int` is negative, and the call sends no
ping and changes nothing. -/
theorem keep_alive_elapsed_overflow :
    s_keep_alive_silent.config.enable_keep_alive = true ∧
    s_keep_alive_silent.son_config.slave_keep_alive_retries = 10 ∧
    s_keep_alive_silent.master_socket = some 12 ∧
    s_keep_alive_silent.keep_alive_retries = 0 ∧
    K0.KEEP_ALIVE_INTERVAL_MSC
      ≤ (env_late.now : Int) - (s_keep_alive_silent.master_last_seen : Int) ∧
    (process_keep_alive K0 env_late s_keep_alive_silent).sent.length = 0 ∧
    (process_keep_alive K0 env_late s_keep_alive_silent).keep_alive_retries = 0 ∧
    (process_keep_alive K0 env_late s_keep_alive_silent).master_last_seen = 0 := by
  decide

/-! ## Disconnects of the endpoints -/

theorem slave_reset_keeps_should_stop (K : Constants) (e : Env) (s : State) :
    (slave_reset K e s).should_stop = s.should_stop := by
  unfold slave_reset
  simp only [hostap_services_off, platform_manager_stop, ap_manager_stop, monitor_stop,
    backhaul_manager_stop, platform_notify_error]
  split_ifs <;> simp

theorem slave_reset_state_cases (K : Constants) (e : Env) (s : State) :
    (slave_reset K e s).slave_state = STATE_STOPPED ∨
    (slave_reset K e s).slave_state = STATE_WAIT_BERFORE_INIT ∨
    (slave_reset K e s).slave_state = STATE_INIT := by
  unfold slave_reset
  simp only [hostap_services_off, platform_manager_stop, ap_manager_stop, monitor_stop,
    backhaul_manager_stop, platform_notify_error]
  split_ifs <;> simp

theorem slave_reset_pending (K : Constants) (e : Env) (s : State) :
    (slave_reset K e s).pending_iface_actions = [] := by
  unfold slave_reset
  simp only [hostap_services_off, platform_manager_stop, ap_manager_stop, monitor_stop,
    backhaul_manager_stop, platform_notify_error]
  split_ifs <;> simp

theorem slave_reset_null_dereference (K : Constants) (e : Env) (s : State) :
    (slave_reset K e s).null_dereference = s.null_dereference := by
  unfold slave_reset
  simp only [hostap_services_off, platform_manager_stop, ap_manager_stop, monitor_stop,
    backhaul_manager_stop, platform_notify_error]
  split_ifs <;> simp

theorem socket_disconnected_worker (K : Constants) (e : Env) (s : State) (sd : SocketId)
    (hw1 : s.slave_state ≠ STATE_WAIT_FOR_WIFI_CONFIGURATION_UPDATE_COMPLETE)
    (hw2 : s.slave_state ≠ STATE_WAIT_FOR_ANOTHER_WIFI_CONFIGURATION_UPDATE)
    (hw3 : s.slave_state ≠ STATE_WAIT_FOR_UNIFY_WIFI_CREDENTIALS_RESPONSE)
    (hb : s.backhaul_manager_socket ≠ some sd) (hp : s.platform_manager_socket ≠ some sd)
    (hwk : s.ap_manager_socket = some sd ∨ s.monitor_socket = some sd)
    (ha : s.ap_manager = true) :
    socket_disconnected K e s sd =
      (false, slave_reset K e
        (if s.platform_settings.passive_mode_enabled = true then s
         else platform_notify_error K
           { s with stop_on_failure_attempts := s.stop_on_failure_attempts - 1 }
           (if s.ap_manager_socket = some sd ∨
                e.ap_manager_last_error ≠ .APMANAGER_THREAD_ERROR_NO_ERROR
            then ap_manager_err_code_to_bpl_err_code e.ap_manager_last_error
            else BPL_ERR_MONITOR_DISCONNECTED) "")) := by
  unfold socket_disconnected
  simp only [hw1, hw2, hw3, hb, hp, hwk, ha, Bool.true_eq_false, or_self, if_false, if_true]
  by_cases h1 : s.ap_manager_socket = some sd ∨
      e.ap_manager_last_error ≠ .APMANAGER_THREAD_ERROR_NO_ERROR <;>
    by_cases h2 : s.platform_settings.passive_mode_enabled = true <;>
    simp [h1, h2]

theorem socket_disconnected_no_thread (K : Constants) (e : Env) (s : State) (sd : SocketId)
    (hw1 : s.slave_state ≠ STATE_WAIT_FOR_WIFI_CONFIGURATION_UPDATE_COMPLETE)
    (hw2 : s.slave_state ≠ STATE_WAIT_FOR_ANOTHER_WIFI_CONFIGURATION_UPDATE)
    (hw3 : s.slave_state ≠ STATE_WAIT_FOR_UNIFY_WIFI_CREDENTIALS_RESPONSE)
    (hb : s.backhaul_manager_socket ≠ some sd) (hp : s.platform_manager_socket ≠ some sd)
    (hwk : s.ap_manager_socket = some sd ∨ s.monitor_socket = some sd)
    (ha : s.ap_manager = false) :
    socket_disconnected K e s sd = (false, { s with null_dereference := true }) := by
  unfold socket_disconnected
  simp only [hw1, hw2, hw3, hb, hp, hwk, ha, or_self, if_false, if_true]

theorem worker_disconnect_with_thread (K : Constants) (e : Env) (s : State)
    (sd : SocketId)
    (hw1 : s.slave_state ≠ STATE_WAIT_FOR_WIFI_CONFIGURATION_UPDATE_COMPLETE)
    (hw2 : s.slave_state ≠ STATE_WAIT_FOR_ANOTHER_WIFI_CONFIGURATION_UPDATE)
    (hw3 : s.slave_state ≠ STATE_WAIT_FOR_UNIFY_WIFI_CREDENTIALS_RESPONSE)
    (hb : s.backhaul_manager_socket ≠ some sd) (hp : s.platform_manager_socket ≠ some sd)
    (hwk : s.ap_manager_socket = some sd ∨ s.monitor_socket = some sd)
    (ha : s.ap_manager = true) :
    (socket_disconnected K e s sd).1 = false ∧
    (socket_disconnected K e s sd).2.is_slave_reset = true ∧
    (socket_disconnected K e s sd).2.slave_resets_counter = s.slave_resets_counter + 1 ∧
    (socket_disconnected K e s sd).2.null_dereference = s.null_dereference ∧
    (s.platform_settings.passive_mode_enabled = false →
      (socket_disconnected K e s sd).2.stop_on_failure_attempts
        = s.stop_on_failure_attempts - 1 ∧
      (socket_disconnected K e s sd).2.sent
        = s.sent ++ frames_to s.platform_manager_socket
            (create_vs_message K (.cACTION_PLATFORM_ERROR_NOTIFICATION
              (if s.ap_manager_socket = some sd ∨
                  e.ap_manager_last_error ≠ .APMANAGER_THREAD_ERROR_NO_ERROR
               then ap_manager_err_code_to_bpl_err_code e.ap_manager_last_error
               else BPL_ERR_MONITOR_DISCONNECTED) "") 0)) ∧
    (s.platform_settings.passive_mode_enabled = true →
      (socket_disconnected K e s sd).2.stop_on_failure_attempts = s.stop_on_failure_attempts ∧
      (socket_disconnected K e s sd).2.sent = s.sent) := by
  rw [socket_disconnected_worker K e s sd hw1 hw2 hw3 hb hp hwk ha]
  refine ⟨rfl, (slave_reset_flags K e _).1, ?_, ?_, ?_, ?_⟩
  · rw [(slave_reset_flags K e _).2]
    split_ifs <;> simp [platform_notify_error_eq]
  · rw [slave_reset_null_dereference]
    split_ifs <;> simp [platform_notify_error_eq]
  · intro hpm
    simp only [hpm, Bool.false_eq_true, if_false, sofa_slave_reset, slave_reset_sent,
      platform_notify_error_eq]
    exact ⟨trivial, trivial⟩
  · intro hpm
    simp only [hpm, if_true, sofa_slave_reset, slave_reset_sent]
    exact ⟨trivial, trivial⟩

/-- C21: the disconnect of a worker socket with no AP manager thread object is a null
dereference. The AP manager socket (13) of the operational supervisor disconnects: one
attempt of three is spent, `BPL_ERR_AP_MANAGER_DISCONNECTED` goes to the platform socket
(11) and the supervisor resets, which deletes the thread object. An
`ACTION_APMANAGER_INIT_DONE_NOTIFICATION` that then arrives on socket 15 attaches
`ap_manager_socket` again while `ap_manager` is `nullptr`, and the disconnect of socket
15 calls `ap_manager->get_thread_last_error_code()` on the null pointer. So does
every worker disconnect outside the three Wifi-configuration wait states with
`ap_manager == nullptr`. With the thread object there, the handler
returns false and the supervisor resets; with passive mode off the failure budget goes
down by exactly one and exactly one platform error is handed to the platform socket before
the reset: for an AP manager drop, or a monitor drop while the AP manager's last error is
set, the code mapped from that last error (HostapDisabled, AttachFail, SuddenDetach,
HalDisconnected, CacTimeout, otherwise ApManagerDisconnected), for a monitor-only drop
MonitorDisconnected; in passive mode the budget is unchanged and nothing is sent. -/
theorem worker_disconnect_null_thread :
    s_operational.ap_manager = true ∧
    (socket_disconnected K0 env0 s_operational 13).1 = false ∧
    (socket_disconnected K0 env0 s_operational 13).2.stop_on_failure_attempts = 2 ∧
    (socket_disconnected K0 env0 s_operational 13).2.sent.map Sent.op
      = [some (.cACTION_PLATFORM_ERROR_NOTIFICATION BPL_ERR_AP_MANAGER_DISCONNECTED "")] ∧
    (socket_disconnected K0 env0 s_operational 13).2.slave_resets_counter = 1 ∧
    s_nothread.slave_state = STATE_WAIT_FOR_AP_MANAGER_JOINED ∧
    s_nothread.ap_manager_socket = some 15 ∧
    s_nothread.ap_manager = false ∧
    s_nothread.null_dereference = false ∧
    (socket_disconnected K0 env0 s_nothread 15).2.null_dereference = true ∧
    (∀ (K : Constants) (e : Env) (s : State) (sd : SocketId),
      s.slave_state ≠ STATE_WAIT_FOR_WIFI_CONFIGURATION_UPDATE_COMPLETE →
      s.slave_state ≠ STATE_WAIT_FOR_ANOTHER_WIFI_CONFIGURATION_UPDATE →
      s.slave_state ≠ STATE_WAIT_FOR_UNIFY_WIFI_CREDENTIALS_RESPONSE →
      s.backhaul_manager_socket ≠ some sd → s.platform_manager_socket ≠ some sd →
      (s.ap_manager_socket = some sd ∨ s.monitor_socket = some sd) →
      (s.ap_manager = false →
        socket_disconnected K e s sd = (false, { s with null_dereference := true })) ∧
      (s.ap_manager = true →
        (socket_disconnected K e s sd).1 = false ∧
        (socket_disconnected K e s sd).2.is_slave_reset = true ∧
        (socket_disconnected K e s sd).2.slave_resets_counter = s.slave_resets_counter + 1 ∧
        (socket_disconnected K e s sd).2.null_dereference = s.null_dereference ∧
        (s.platform_settings.passive_mode_enabled = false →
          (socket_disconnected K e s sd).2.stop_on_failure_attempts
            = s.stop_on_failure_attempts - 1 ∧
          (socket_disconnected K e s sd).2.sent
            = s.sent ++ frames_to s.platform_manager_socket
                (create_vs_message K (.cACTION_PLATFORM_ERROR_NOTIFICATION
                  (if s.ap_manager_socket = some sd ∨
                      e.ap_manager_last_error ≠ .APMANAGER_THREAD_ERROR_NO_ERROR
                   then ap_manager_err_code_to_bpl_err_code e.ap_manager_last_error
                   else BPL_ERR_MONITOR_DISCONNECTED) "") 0)) ∧
        (s.platform_settings.passive_mode_enabled = true →
          (socket_disconnected K e s sd).2.stop_on_failure_attempts
            = s.stop_on_failure_attempts ∧
          (socket_disconnected K e s sd).2.sent = s.sent))) ∧
    ap_manager_err_code_to_bpl_err_code .APMANAGER_THREAD_ERROR_HOSTAP_DISABLED
      = BPL_ERR_AP_MANAGER_HOSTAP_DISABLED ∧
    ap_manager_err_code_to_bpl_err_code .APMANAGER_THREAD_ERROR_ATTACH_FAIL
      = BPL_ERR_AP_MANAGER_ATTACH_FAIL ∧
    ap_manager_err_code_to_bpl_err_code .APMANAGER_THREAD_ERROR_SUDDEN_DETACH
      = BPL_ERR_AP_MANAGER_SUDDEN_DETACH ∧
    ap_manager_err_code_to_bpl_err_code .APMANAGER_THREAD_ERROR_HAL_DISCONNECTED
      = BPL_ERR_AP_MANAGER_HAL_DISCONNECTED ∧
    ap_manager_err_code_to_bpl_err_code .APMANAGER_THREAD_ERROR_CAC_TIMEOUT
      = BPL_ERR_AP_MANAGER_CAC_TIMEOUT ∧
    ap_manager_err_code_to_bpl_err_code .APMANAGER_THREAD_ERROR_NO_ERROR
      = BPL_ERR_AP_MANAGER_DISCONNECTED := by
  refine ⟨rfl, rfl, rfl, rfl, rfl, rfl, rfl, rfl, rfl, rfl, ?_,
    rfl, rfl, rfl, rfl, rfl, rfl⟩
  intro K e s sd hw1 hw2 hw3 hb hp hwk
  exact ⟨socket_disconnected_no_thread K e s sd hw1 hw2 hw3 hb hp hwk,
    worker_disconnect_with_thread K e s sd hw1 hw2 hw3 hb hp hwk⟩

/-- C22: when the socket of the backhaul manager or of the platform manager disconnects
outside the three Wifi-configuration wait states, `socket_disconnected` resets the
supervisor, sets `should_stop` and returns false. The disconnect of a worker socket (AP
manager or monitor, not also the backhaul or platform socket) leaves `should_stop` as it
was. -/
theorem fatal_disconnect_stops (K : Constants) (e : Env) (s : State) (sd : SocketId)
    (hw1 : s.slave_state ≠ STATE_WAIT_FOR_WIFI_CONFIGURATION_UPDATE_COMPLETE)
    (hw2 : s.slave_state ≠ STATE_WAIT_FOR_ANOTHER_WIFI_CONFIGURATION_UPDATE)
    (hw3 : s.slave_state ≠ STATE_WAIT_FOR_UNIFY_WIFI_CREDENTIALS_RESPONSE) :
    (s.backhaul_manager_socket = some sd ∨ s.platform_manager_socket = some sd →
      (socket_disconnected K e s sd).1 = false ∧
      (socket_disconnected K e s sd).2.should_stop = true ∧
      (socket_disconnected K e s sd).2.is_slave_reset = true ∧
      (socket_disconnected K e s sd).2.slave_resets_counter = s.slave_resets_counter + 1) ∧
    (s.backhaul_manager_socket ≠ some sd → s.platform_manager_socket ≠ some sd →
      (socket_disconnected K e s sd).2.should_stop = s.should_stop) := by
  constructor
  · intro h
    unfold socket_disconnected
    simp only [hw1, hw2, hw3, or_self, if_false]
    by_cases hb : s.backhaul_manager_socket = some sd
    · simp only [hb, if_true, stop_slave_thread]
      refine ⟨trivial, trivial, (slave_reset_flags K e _).1, ?_⟩
      rw [(slave_reset_flags K e _).2, platform_notify_error_eq]
    · have hp : s.platform_manager_socket = some sd := h.resolve_left hb
      simp only [hb, if_false, hp, if_true, stop_slave_thread]
      exact ⟨trivial, trivial, (slave_reset_flags K e _).1, (slave_reset_flags K e _).2⟩
  · intro hb hp
    by_cases hwk : s.ap_manager_socket = some sd ∨ s.monitor_socket = some sd
    · cases ha : s.ap_manager with
      | false => rw [socket_disconnected_no_thread K e s sd hw1 hw2 hw3 hb hp hwk ha]
      | true =>
        rw [socket_disconnected_worker K e s sd hw1 hw2 hw3 hb hp hwk ha]
        simp only [slave_reset_keeps_should_stop]
        split_ifs <;> simp [platform_notify_error_eq]
    · unfold socket_disconnected
      simp only [hw1, hw2, hw3, or_self, if_false, hb, hp, hwk]

/-- C22, at a concrete input: the platform socket (11) of the operational supervisor
disconnects. -/
theorem fatal_disconnect_stops_witness :
    s_operational.platform_manager_socket = some 11 ∧
    s_operational.should_stop = false ∧
    (socket_disconnected K0 env0 s_operational 11).1 = false ∧
    (socket_disconnected K0 env0 s_operational 11).2.should_stop = true :=
  ⟨rfl, rfl,
    ((fatal_disconnect_stops K0 env0 s_operational 11 (by decide) (by decide)
      (by decide)).1 (Or.inr rfl)).1,
    ((fatal_disconnect_stops K0 env0 s_operational 11 (by decide) (by decide)
      (by decide)).1 (Or.inr rfl)).2.1⟩

/-- C23: a socket that disconnects while the FSM is in
`STATE_WAIT_FOR_WIFI_CONFIGURATION_UPDATE_COMPLETE`,
`STATE_WAIT_FOR_ANOTHER_WIFI_CONFIGURATION_UPDATE` or
`STATE_WAIT_FOR_UNIFY_WIFI_CREDENTIALS_RESPONSE` sets `detach_on_conf_change` and is
absorbed: the FSM state, the reset counter and flag, the failure budget, the trace of sent
frames and `should_stop` are as before. For a socket that is neither the AP manager's nor
the monitor's nothing else changes and the handler returns true; for one of those two the
handler returns false. -/
theorem disconnect_absorbed_in_conf_change (K : Constants) (e : Env) (s : State)
    (sd : SocketId)
    (hw : s.slave_state = STATE_WAIT_FOR_WIFI_CONFIGURATION_UPDATE_COMPLETE ∨
      s.slave_state = STATE_WAIT_FOR_ANOTHER_WIFI_CONFIGURATION_UPDATE ∨
      s.slave_state = STATE_WAIT_FOR_UNIFY_WIFI_CREDENTIALS_RESPONSE) :
    (socket_disconnected K e s sd).2.detach_on_conf_change = true ∧
    (socket_disconnected K e s sd).2.slave_state = s.slave_state ∧
    (socket_disconnected K e s sd).2.slave_resets_counter = s.slave_resets_counter ∧
    (socket_disconnected K e s sd).2.is_slave_reset = s.is_slave_reset ∧
    (socket_disconnected K e s sd).2.stop_on_failure_attempts = s.stop_on_failure_attempts ∧
    (socket_disconnected K e s sd).2.sent = s.sent ∧
    (socket_disconnected K e s sd).2.should_stop = s.should_stop ∧
    (¬ (s.ap_manager_socket = some sd ∨ s.monitor_socket = some sd) →
      socket_disconnected K e s sd = (true, { s with detach_on_conf_change := true })) ∧
    (s.ap_manager_socket = some sd ∨ s.monitor_socket = some sd →
      (socket_disconnected K e s sd).1 = false) := by
  unfold socket_disconnected
  simp only [hw, if_true]
  by_cases hwk : s.ap_manager_socket = some sd ∨ s.monitor_socket = some sd
  · simp [hwk, monitor_stop, ap_manager_stop]
  · simp [hwk]

/-- C23, at a concrete input: the monitor socket (14) disconnects while the supervisor
waits for the Wifi configuration update to complete. -/
theorem disconnect_absorbed_in_conf_change_witness :
    (socket_disconnected K0 env0
      { s_operational with slave_state := STATE_WAIT_FOR_WIFI_CONFIGURATION_UPDATE_COMPLETE }
      14).2.detach_on_conf_change = true ∧
    (socket_disconnected K0 env0
      { s_operational with slave_state := STATE_WAIT_FOR_WIFI_CONFIGURATION_UPDATE_COMPLETE }
      14).2.slave_state = STATE_WAIT_FOR_WIFI_CONFIGURATION_UPDATE_COMPLETE :=
  ⟨(disconnect_absorbed_in_conf_change K0 env0
      { s_operational with slave_state := STATE_WAIT_FOR_WIFI_CONFIGURATION_UPDATE_COMPLETE }
      14 (Or.inl rfl)).1,
    (disconnect_absorbed_in_conf_change K0 env0
      { s_operational with slave_state := STATE_WAIT_FOR_WIFI_CONFIGURATION_UPDATE_COMPLETE }
      14 (Or.inl rfl)).2.1⟩

/-! ## Pending interface actions -/

/-- C24: `work` finds the pending action for wlan0 timed out (requested 100 s ago, timeout
60 s). It sends exactly one platform error naming wlan0, spends one failure attempt (3 to 2)
and resets, which empties `pending_iface_actions`; but for a requested ENABLE the code of
the error is `BPL_ERR_SLAVE_TIMEOUT_IFACE_DISABLE_REQUEST`, and for a requested DISABLE it
is `BPL_ERR_SLAVE_TIMEOUT_IFACE_ENABLE_REQUEST`: the lambda `operation_to_err_code` has the
two codes exchanged. RESTORE and RESTART get their own codes. -/
theorem work_timeout_code_exchanged :
    (work K0 env0 (s_pending_stale WIFI_IFACE_OPER_ENABLE)).state.sent.map Sent.op
      = [some (.cACTION_PLATFORM_ERROR_NOTIFICATION
          BPL_ERR_SLAVE_TIMEOUT_IFACE_DISABLE_REQUEST "wlan0")] ∧
    (work K0 env0 (s_pending_stale WIFI_IFACE_OPER_DISABLE)).state.sent.map Sent.op
      = [some (.cACTION_PLATFORM_ERROR_NOTIFICATION
          BPL_ERR_SLAVE_TIMEOUT_IFACE_ENABLE_REQUEST "wlan0")] ∧
    (work K0 env0 (s_pending_stale WIFI_IFACE_OPER_RESTORE)).state.sent.map Sent.op
      = [some (.cACTION_PLATFORM_ERROR_NOTIFICATION
          BPL_ERR_SLAVE_TIMEOUT_IFACE_RESTORE_REQUEST "wlan0")] ∧
    (work K0 env0 (s_pending_stale WIFI_IFACE_OPER_RESTART)).state.sent.map Sent.op
      = [some (.cACTION_PLATFORM_ERROR_NOTIFICATION
          BPL_ERR_SLAVE_TIMEOUT_IFACE_RESTART_REQUEST "wlan0")] ∧
    (s_pending_stale WIFI_IFACE_OPER_ENABLE).stop_on_failure_attempts = 3 ∧
    (work K0 env0 (s_pending_stale WIFI_IFACE_OPER_ENABLE)).state.stop_on_failure_attempts = 2 ∧
    (work K0 env0 (s_pending_stale WIFI_IFACE_OPER_ENABLE)).state.is_slave_reset = true ∧
    (work K0 env0 (s_pending_stale WIFI_IFACE_OPER_ENABLE)).state.slave_resets_counter
      = (s_pending_stale WIFI_IFACE_OPER_ENABLE).slave_resets_counter + 1 ∧
    (work K0 env0 (s_pending_stale WIFI_IFACE_OPER_ENABLE)).state.pending_iface_actions = [] := by
  refine ⟨rfl, rfl, rfl, rfl, rfl, ?_, ?_, ?_, ?_⟩ <;> decide

/-! ## Heartbeats of the workers -/

theorem monitor_heartbeat_check_eq (K : Constants) (e : Env) (s : State)
    (h : s.monitor_socket ≠ none) :
    monitor_heartbeat_check K e s =
      (decide ((if elapsed_secs e.now s.monitor_last_seen > K.MONITOR_HEARTBEAT_TIMEOUT_SEC
          then s.monitor_retries_counter + 1 else s.monitor_retries_counter)
          < K.MONITOR_HEARTBEAT_RETRIES),
       { s with
         monitor_retries_counter :=
           (if K.MONITOR_HEARTBEAT_RETRIES ≤
               (if elapsed_secs e.now s.monitor_last_seen > K.MONITOR_HEARTBEAT_TIMEOUT_SEC
                then s.monitor_retries_counter + 1 else s.monitor_retries_counter)
            then 0
            else (if elapsed_secs e.now s.monitor_last_seen > K.MONITOR_HEARTBEAT_TIMEOUT_SEC
              then s.monitor_retries_counter + 1 else s.monitor_retries_counter)),
         monitor_last_seen :=
           (if elapsed_secs e.now s.monitor_last_seen > K.MONITOR_HEARTBEAT_TIMEOUT_SEC
            then e.now else s.monitor_last_seen) }) := by
  unfold monitor_heartbeat_check
  cases hs : s.monitor_socket with
  | none => exact absurd hs h
  | some k =>
    simp only []
    by_cases h1 : elapsed_secs e.now s.monitor_last_seen > K.MONITOR_HEARTBEAT_TIMEOUT_SEC
    · by_cases h2 : K.MONITOR_HEARTBEAT_RETRIES ≤ s.monitor_retries_counter + 1
      · simp [h1, h2, hs]
      · have h3 := Nat.lt_of_not_le h2
        simp [h1, h2, h3, hs]
    · by_cases h2 : K.MONITOR_HEARTBEAT_RETRIES ≤ s.monitor_retries_counter
      · simp [h1, h2, hs]
      · have h3 := Nat.lt_of_not_le h2
        simp [h1, h2, h3, hs]
        rw [← hs]

theorem ap_manager_heartbeat_check_eq (K : Constants) (e : Env) (s : State)
    (h : s.ap_manager_socket ≠ none) :
    ap_manager_heartbeat_check K e s =
      (decide ((if elapsed_secs e.now s.ap_manager_last_seen > K.AP_MANAGER_HEARTBEAT_TIMEOUT_SEC
          then s.ap_manager_retries_counter + 1 else s.ap_manager_retries_counter)
          < K.AP_MANAGER_HEARTBEAT_RETRIES),
       { s with
         ap_manager_retries_counter :=
           (if K.AP_MANAGER_HEARTBEAT_RETRIES ≤
               (if elapsed_secs e.now s.ap_manager_last_seen > K.AP_MANAGER_HEARTBEAT_TIMEOUT_SEC
                then s.ap_manager_retries_counter + 1 else s.ap_manager_retries_counter)
            then 0
            else (if elapsed_secs e.now s.ap_manager_last_seen
                > K.AP_MANAGER_HEARTBEAT_TIMEOUT_SEC
              then s.ap_manager_retries_counter + 1 else s.ap_manager_retries_counter)),
         ap_manager_last_seen :=
           (if elapsed_secs e.now s.ap_manager_last_seen > K.AP_MANAGER_HEARTBEAT_TIMEOUT_SEC
            then e.now else s.ap_manager_last_seen) }) := by
  unfold ap_manager_heartbeat_check
  cases hs : s.ap_manager_socket with
  | none => exact absurd hs h
  | some k =>
    simp only []
    by_cases h1 : elapsed_secs e.now s.ap_manager_last_seen > K.AP_MANAGER_HEARTBEAT_TIMEOUT_SEC
    · by_cases h2 : K.AP_MANAGER_HEARTBEAT_RETRIES ≤ s.ap_manager_retries_counter + 1
      · simp [h1, h2, hs]
      · have h3 := Nat.lt_of_not_le h2
        simp [h1, h2, h3, hs]
    · by_cases h2 : K.AP_MANAGER_HEARTBEAT_RETRIES ≤ s.ap_manager_retries_counter
      · simp [h1, h2, hs]
      · have h3 := Nat.lt_of_not_le h2
        simp [h1, h2, h3, hs]
        rw [← hs]

theorem heartbeat_checks_keep_resets (K : Constants) (e : Env) (s : State) :
    (monitor_heartbeat_check K e s).2.slave_resets_counter = s.slave_resets_counter ∧
    (ap_manager_heartbeat_check K e s).2.slave_resets_counter = s.slave_resets_counter := by
  constructor
  · unfold monitor_heartbeat_check
    split
    · rfl
    · simp only []
      split_ifs <;> rfl
  · unfold ap_manager_heartbeat_check
    split
    · rfl
    · simp only []
      split_ifs <;> rfl

theorem send_iface_status_keeps_reset (K : Constants) (s : State) :
    (send_iface_status K s).is_slave_reset = s.is_slave_reset ∧
    (send_iface_status K s).slave_resets_counter = s.slave_resets_counter := by
  unfold send_iface_status
  split_ifs <;> simp [send_platform_iface_status_notif, send_cmdu_snd]

theorem slave_fsm_after_reset (K : Constants) (e : Env) (s : State) :
    (slave_fsm K e (slave_reset K e s)).slave_ok = true ∧
    (slave_fsm K e (slave_reset K e s)).state.is_slave_reset = true ∧
    (slave_fsm K e (slave_reset K e s)).state.slave_resets_counter
      = s.slave_resets_counter + 1 := by
  have hf := slave_reset_flags K e s
  unfold slave_fsm
  rcases slave_reset_state_cases K e s with h | h | h <;> rw [h] <;>
    simp only [fsm_case, fsm_break] <;> (try split_ifs) <;> simp [hf.1, hf.2]

theorem work_after_failed_check (K : Constants) (e : Env) (s : State)
    (h : (monitor_heartbeat_check K e s).1 = false ∨
      (ap_manager_heartbeat_check K e (monitor_heartbeat_check K e s).2).1 = false) :
    (work K e s).ret = true ∧
    (work K e s).state.is_slave_reset = true ∧
    (work K e s).state.slave_resets_counter = s.slave_resets_counter + 1 := by
  have hr : ∃ t : State, t.slave_resets_counter = s.slave_resets_counter ∧
      (if ¬ (if ¬ (monitor_heartbeat_check K e s).1 = true
              then (false, (monitor_heartbeat_check K e s).2)
              else ap_manager_heartbeat_check K e (monitor_heartbeat_check K e s).2).1 = true
        then slave_reset K e
          (if ¬ (monitor_heartbeat_check K e s).1 = true
              then (false, (monitor_heartbeat_check K e s).2)
              else ap_manager_heartbeat_check K e (monitor_heartbeat_check K e s).2).2
        else (if ¬ (monitor_heartbeat_check K e s).1 = true
              then (false, (monitor_heartbeat_check K e s).2)
              else ap_manager_heartbeat_check K e (monitor_heartbeat_check K e s).2).2)
        = slave_reset K e t := by
    by_cases hm : (monitor_heartbeat_check K e s).1 = true
    · have ha : (ap_manager_heartbeat_check K e (monitor_heartbeat_check K e s).2).1 = false := by
        rcases h with h | h
        · rw [hm] at h; cases h
        · exact h
      refine ⟨(ap_manager_heartbeat_check K e (monitor_heartbeat_check K e s).2).2, ?_, ?_⟩
      · rw [(heartbeat_checks_keep_resets K e _).2, (heartbeat_checks_keep_resets K e s).1]
      · simp [hm, ha]
    · refine ⟨(monitor_heartbeat_check K e s).2, (heartbeat_checks_keep_resets K e s).1, ?_⟩
      simp [hm]
  obtain ⟨t, ht, heq⟩ := hr
  have hfsm := slave_fsm_after_reset K e t
  unfold work
  simp only [heq, slave_reset_pending, ne_eq, not_true_eq_false, if_false, hfsm.1]
  split_ifs <;> simp [send_iface_status_keeps_reset, hfsm.2.1, hfsm.2.2, ht]

/-- C25, the sentence as the specification has it fails: the monitor is attached and was
last heard of 10.5 s ago, more than the heartbeat timeout of 10 s; the check counts 10
whole seconds, which is not more than the timeout, so it neither increments the retry
counter nor refreshes `monitor_last_seen`. -/
theorem heartbeat_check_counts_whole_seconds :
    s_monitor_quiet.monitor_socket = some 14 ∧
    env0.now - s_monitor_quiet.monitor_last_seen = 10500 ∧
    1000 * K0.MONITOR_HEARTBEAT_TIMEOUT_SEC = 10000 ∧
    elapsed_secs env0.now s_monitor_quiet.monitor_last_seen = 10 ∧
    (monitor_heartbeat_check K0 env0 s_monitor_quiet).1 = true ∧
    (monitor_heartbeat_check K0 env0 s_monitor_quiet).2.monitor_retries_counter
      = s_monitor_quiet.monitor_retries_counter ∧
    (monitor_heartbeat_check K0 env0 s_monitor_quiet).2.monitor_last_seen = 89500 := by
  decide

/-- C25, as the code has it: for each worker (monitor, AP manager) whose socket is attached,
a liveness check made when the whole seconds elapsed since `last_seen` (`elapsed_secs`: the
duration truncated to seconds, as held in the 32-bit `int`) exceed the heartbeat timeout
increments the worker's retry counter and sets `last_seen` to now, and a check made earlier
leaves both; the check fails exactly when the counter, after that possible increment, has
reached the retry bound, and then the counter is set to 0; nothing else changes. When a
check fails, `work` resets the supervisor (once). A heartbeat notification from the worker
sets its counter to 0 and `last_seen` to now. With the socket absent the check succeeds and
changes nothing. -/
theorem heartbeat_liveness (K : Constants) (e : Env) (s : State) (sd : SocketId)
    (hdr : cACTION_HEADER) (cls_ok : Bool) :
    (s.monitor_socket = none → monitor_heartbeat_check K e s = (true, s)) ∧
    (s.monitor_socket ≠ none →
      monitor_heartbeat_check K e s =
        (decide ((if elapsed_secs e.now s.monitor_last_seen > K.MONITOR_HEARTBEAT_TIMEOUT_SEC
            then s.monitor_retries_counter + 1 else s.monitor_retries_counter)
            < K.MONITOR_HEARTBEAT_RETRIES),
         { s with
           monitor_retries_counter :=
             (if K.MONITOR_HEARTBEAT_RETRIES ≤
                 (if elapsed_secs e.now s.monitor_last_seen > K.MONITOR_HEARTBEAT_TIMEOUT_SEC
                  then s.monitor_retries_counter + 1 else s.monitor_retries_counter)
              then 0
              else (if elapsed_secs e.now s.monitor_last_seen > K.MONITOR_HEARTBEAT_TIMEOUT_SEC
                then s.monitor_retries_counter + 1 else s.monitor_retries_counter)),
           monitor_last_seen :=
             (if elapsed_secs e.now s.monitor_last_seen > K.MONITOR_HEARTBEAT_TIMEOUT_SEC
              then e.now else s.monitor_last_seen) })) ∧
    (s.ap_manager_socket = none → ap_manager_heartbeat_check K e s = (true, s)) ∧
    (s.ap_manager_socket ≠ none →
      ap_manager_heartbeat_check K e s =
        (decide ((if elapsed_secs e.now s.ap_manager_last_seen
              > K.AP_MANAGER_HEARTBEAT_TIMEOUT_SEC
            then s.ap_manager_retries_counter + 1 else s.ap_manager_retries_counter)
            < K.AP_MANAGER_HEARTBEAT_RETRIES),
         { s with
           ap_manager_retries_counter :=
             (if K.AP_MANAGER_HEARTBEAT_RETRIES ≤
                 (if elapsed_secs e.now s.ap_manager_last_seen
                    > K.AP_MANAGER_HEARTBEAT_TIMEOUT_SEC
                  then s.ap_manager_retries_counter + 1 else s.ap_manager_retries_counter)
              then 0
              else (if elapsed_secs e.now s.ap_manager_last_seen
                  > K.AP_MANAGER_HEARTBEAT_TIMEOUT_SEC
                then s.ap_manager_retries_counter + 1 else s.ap_manager_retries_counter)),
           ap_manager_last_seen :=
             (if elapsed_secs e.now s.ap_manager_last_seen > K.AP_MANAGER_HEARTBEAT_TIMEOUT_SEC
              then e.now else s.ap_manager_last_seen) })) ∧
    ((monitor_heartbeat_check K e s).1 = false ∨
        (ap_manager_heartbeat_check K e (monitor_heartbeat_check K e s).2).1 = false →
      (work K e s).state.is_slave_reset = true ∧
      (work K e s).state.slave_resets_counter = s.slave_resets_counter + 1) ∧
    (s.monitor_socket = some sd →
      handle_cmdu_monitor_message K e s sd hdr cls_ok .ACTION_MONITOR_HEARTBEAT_NOTIFICATION
        = (true, { s with monitor_last_seen := e.now, monitor_retries_counter := 0 })) ∧
    (s.ap_manager_socket = some sd →
      handle_cmdu_ap_manager_message K e s sd hdr cls_ok
          .ACTION_APMANAGER_HEARTBEAT_NOTIFICATION
        = (true, { s with ap_manager_last_seen := e.now, ap_manager_retries_counter := 0 })) := by
  refine ⟨?_, monitor_heartbeat_check_eq K e s, ?_, ap_manager_heartbeat_check_eq K e s,
    fun h => (work_after_failed_check K e s h).2, ?_, ?_⟩
  · intro h
    unfold monitor_heartbeat_check
    rw [h]
  · intro h
    unfold ap_manager_heartbeat_check
    rw [h]
  · intro h
    unfold handle_cmdu_monitor_message
    rw [h]
    simp
  · intro h
    unfold handle_cmdu_ap_manager_message
    rw [h]
    simp

/-- C25, at a concrete input: the monitor has been silent for 100 s with 9 periods already
missed; the check counts the tenth, fails and clears the counter, and `work` resets the
supervisor. -/
theorem heartbeat_liveness_witness :
    s_pending_monitor_silent.monitor_retries_counter = 9 ∧
    (monitor_heartbeat_check K0 env0 s_pending_monitor_silent).1 = false ∧
    (monitor_heartbeat_check K0 env0 s_pending_monitor_silent).2.monitor_retries_counter = 0 ∧
    (work K0 env0 s_pending_monitor_silent).state.is_slave_reset = true :=
  ⟨rfl,
    congrArg Prod.fst
      ((heartbeat_liveness K0 env0 s_pending_monitor_silent 14 hdr0 true).2.1 (by decide)),
    congrArg (fun r : Bool × State => r.2.monitor_retries_counter)
      ((heartbeat_liveness K0 env0 s_pending_monitor_silent 14 hdr0 true).2.1 (by decide)),
    ((heartbeat_liveness K0 env0 s_pending_monitor_silent 14 hdr0 true).2.2.2.2.1
      (Or.inl (by decide))).1⟩

/-! ## Deadlines of the waiting states -/

theorem slave_reset_timer_of_credentials_changed (K : Constants) (e : Env) (s : State)
    (h : s.is_credentials_changed_on_db = true) :
    (slave_reset K e s).slave_state_timer = e.now + 1000 * K.SLAVE_INIT_DELAY_SEC := by
  unfold slave_reset
  simp only [hostap_services_off, platform_manager_stop, ap_manager_stop, monitor_stop,
    backhaul_manager_stop, platform_notify_error]
  split_ifs <;> simp_all

theorem slave_reset_leaves_wait (K : Constants) (e : Env) (s : State) (st : eSlaveState)
    (h : has_deadline st = true) (h0 : st ≠ STATE_WAIT_BERFORE_INIT) :
    (slave_reset K e s).slave_state ≠ st := by
  rcases slave_reset_state_cases K e s with h1 | h1 | h1 <;> rw [h1] <;>
    cases st <;> simp_all [has_deadline]

theorem fsm_case_credentials_update_wait (K : Constants) (e : Env) (s : State)
    (ht : e.now > s.slave_state_timer) :
    (fsm_case K e s STATE_WAIT_FOR_PLATFORM_BEEROCKS_CREDENTIALS_UPDATE_RESPONSE).state.is_slave_reset
      = true ∧
    (fsm_case K e s
        STATE_WAIT_FOR_PLATFORM_BEEROCKS_CREDENTIALS_UPDATE_RESPONSE).state.slave_resets_counter
      = s.slave_resets_counter + 1 ∧
    (fsm_case K e s STATE_WAIT_FOR_PLATFORM_BEEROCKS_CREDENTIALS_UPDATE_RESPONSE).state.sent
      = s.sent ∧
    (fsm_case K e s STATE_WAIT_FOR_PLATFORM_BEEROCKS_CREDENTIALS_UPDATE_RESPONSE).state.slave_state
      ≠ STATE_WAIT_FOR_PLATFORM_BEEROCKS_CREDENTIALS_UPDATE_RESPONSE := by
  simp only [fsm_case, fsm_break]
  split_ifs with hc h2
  · exfalso
    have h3 := slave_reset_timer_of_credentials_changed K e
      { s with slave_state_timer := (e.now + K.IRE_MAX_WIRELESS_RECONNECTION_TIME_MSC) } hc
    rw [h3] at h2
    exact absurd h2 (Nat.not_lt.mpr (Nat.le_add_right _ _))
  · exact ⟨(slave_reset_flags K e _).1, (slave_reset_flags K e _).2, slave_reset_sent K e _,
      slave_reset_leaves_wait K e _ _ rfl (by decide)⟩
  · exact ⟨(slave_reset_flags K e _).1, (slave_reset_flags K e _).2, slave_reset_sent K e _,
      slave_reset_leaves_wait K e _ _ rfl (by decide)⟩

theorem fsm_case_deadline_leaves (K : Constants) (e : Env) (s : State) (st : eSlaveState)
    (hd : has_deadline st = true) (ht : e.now > s.slave_state_timer) :
    (fsm_case K e s st).state.slave_state ≠ st := by
  cases st <;> (try (simp [has_deadline] at hd; done))
  all_goals first
    | exact (fsm_case_credentials_update_wait K e s ht).2.2.2
    | (simp only [fsm_case, ht, if_true, fsm_break, fsm_fail]
       first
         | decide
         | exact slave_reset_leaves_wait K e _ _ rfl (by decide))

theorem fsm_case_deadline_moves (K : Constants) (e : Env) (s : State)
    (st target : eSlaveState)
    (h : (st, target) ∈
      [(STATE_WAIT_BERFORE_INIT, STATE_INIT),
       (STATE_WAIT_RETRY_CONNECT_TO_BACKHAUL_MANAGER, STATE_CONNECT_TO_BACKHAUL_MANAGER),
       (STATE_WAIT_BACKHAUL_MANAGER_BUSY, STATE_SEND_BACKHAUL_MANAGER_ENABLE),
       (STATE_WAIT_BEFORE_JOIN_MASTER, STATE_JOIN_MASTER),
       (STATE_WAIT_FOR_JOINED_RESPONSE, STATE_JOIN_MASTER)])
    (ht : e.now > s.slave_state_timer) :
    (fsm_case K e s st).state.slave_state = target := by
  simp only [List.mem_cons, Prod.mk.injEq, List.mem_nil_iff, or_false] at h
  rcases h with ⟨rfl, rfl⟩ | ⟨rfl, rfl⟩ | ⟨rfl, rfl⟩ | ⟨rfl, rfl⟩ | ⟨rfl, rfl⟩ <;>
    simp [fsm_case, ht, fsm_break]

theorem fsm_case_deadline_error (K : Constants) (e : Env) (s : State)
    (st : eSlaveState) (code : BplErr) (data : String)
    (h : (st, code, data) ∈
      [(STATE_WAIT_FOR_PLATFORM_MANAGER_REGISTER_RESPONSE,
          BPL_ERR_SLAVE_PLATFORM_MANAGER_REGISTER_TIMEOUT, ""),
       (STATE_WAIT_FOR_WLAN_READY_STATUS_RESPONSE,
          BPL_ERR_SLAVE_TIMEOUT_GET_WLAN_READY_STATUS_REQUEST, ""),
       (STATE_WAIT_FOR_UNIFY_WIFI_CREDENTIALS_RESPONSE,
          BPL_ERR_SLAVE_TIMEOUT_WIFI_CREDENTIALS_SET_REQUEST, ""),
       (STATE_WAIT_FOR_WIFI_CONFIGURATION_UPDATE_COMPLETE,
          BPL_ERR_WIFI_CONFIGURATION_CHANGE_TIMEOUT, "WIFI configuration timeout!")])
    (ht : e.now > s.slave_state_timer) :
    (fsm_case K e s st).state.is_slave_reset = true ∧
    (fsm_case K e s st).state.slave_resets_counter = s.slave_resets_counter + 1 ∧
    (fsm_case K e s st).state.sent = s.sent ++ frames_to s.platform_manager_socket
      (create_vs_message K (.cACTION_PLATFORM_ERROR_NOTIFICATION code data) 0) := by
  simp only [List.mem_cons, Prod.mk.injEq, List.mem_nil_iff, or_false] at h
  rcases h with ⟨rfl, rfl, rfl⟩ | ⟨rfl, rfl, rfl⟩ | ⟨rfl, rfl, rfl⟩ | ⟨rfl, rfl, rfl⟩ <;>
    simp only [fsm_case, ht, if_true, fsm_break, fsm_fail] <;>
    refine ⟨(slave_reset_flags K e _).1, ?_, ?_⟩ <;>
    simp [slave_reset_flags, slave_reset_sent, platform_notify_error_eq]

theorem fsm_case_deadline_quiet (K : Constants) (e : Env) (s : State) (st : eSlaveState)
    (h : st ∈ [STATE_WAIT_FOR_PLATFORM_BEEROCKS_CREDENTIALS_UPDATE_RESPONSE,
       STATE_WAIT_FOR_ANOTHER_WIFI_CONFIGURATION_UPDATE])
    (ht : e.now > s.slave_state_timer) :
    (fsm_case K e s st).state.is_slave_reset = true ∧
    (fsm_case K e s st).state.slave_resets_counter = s.slave_resets_counter + 1 ∧
    (fsm_case K e s st).state.sent = s.sent := by
  simp only [List.mem_cons, List.mem_nil_iff, or_false] at h
  rcases h with rfl | rfl
  · exact ⟨(fsm_case_credentials_update_wait K e s ht).1,
      (fsm_case_credentials_update_wait K e s ht).2.1,
      (fsm_case_credentials_update_wait K e s ht).2.2.1⟩
  · simp only [fsm_case, ht, if_true, fsm_break]
    exact ⟨(slave_reset_flags K e _).1, (slave_reset_flags K e _).2, slave_reset_sent K e _⟩

theorem fsm_case_without_deadline (K : Constants) (e : Env) (s : State) (st : eSlaveState)
    (h : waits_without_deadline st = true) :
    fsm_case K e s st = fsm_break s := by
  cases st <;> (try (simp [waits_without_deadline] at h; done)) <;> rfl

/-- C26, the sentence as the specification has it fails: the supervisor waits in
`STATE_WAIT_FOR_AP_MANAGER_JOINED` with a state timer that ran out 100 s ago; the FSM step
does not look at the timer and stays in the state, sending nothing. And where the deadline
of `STATE_WAIT_FOR_ANOTHER_WIFI_CONFIGURATION_UPDATE` has passed, the step resets without
raising a platform error: nothing is sent although the platform socket is attached. -/
theorem wait_for_ap_manager_joined_has_no_deadline :
    s_wait_ap_manager_joined.slave_state = STATE_WAIT_FOR_AP_MANAGER_JOINED ∧
    env0.now > s_wait_ap_manager_joined.slave_state_timer ∧
    (slave_fsm K0 env0 s_wait_ap_manager_joined).state.slave_state
      = STATE_WAIT_FOR_AP_MANAGER_JOINED ∧
    (slave_fsm K0 env0 s_wait_ap_manager_joined).state.sent.length = 0 ∧
    s_operational.platform_manager_socket = some 11 ∧
    env0.now > s_operational.slave_state_timer ∧
    (slave_fsm K0 env0
      { s_operational with
        slave_state := STATE_WAIT_FOR_ANOTHER_WIFI_CONFIGURATION_UPDATE }).state.is_slave_reset
      = true ∧
    (slave_fsm K0 env0
      { s_operational with
        slave_state := STATE_WAIT_FOR_ANOTHER_WIFI_CONFIGURATION_UPDATE }).state.sent.length
      = 0 := by
  decide

/-- C26, as the code has it: the waiting states that carry a deadline are those of
`has_deadline`. An FSM step taken in one of them after `slave_state_timer` has passed
leaves the state: it moves on or retries (`STATE_WAIT_FOR_JOINED_RESPONSE` goes back to
`STATE_JOIN_MASTER`), or it resets after raising a typed platform error, or, in the two
states `STATE_WAIT_FOR_PLATFORM_BEEROCKS_CREDENTIALS_UPDATE_RESPONSE` and
`STATE_WAIT_FOR_ANOTHER_WIFI_CONFIGURATION_UPDATE`, it resets without raising an error. The
six waiting states of `waits_without_deadline` carry no deadline: an FSM step leaves the
supervisor as it is, whatever the clock says. -/
theorem wait_state_deadlines (K : Constants) (e : Env) (s : State) :
    (has_deadline s.slave_state = true → e.now > s.slave_state_timer →
      (slave_fsm K e s).state.slave_state ≠ s.slave_state) ∧
    (∀ target : eSlaveState,
      (s.slave_state, target) ∈
        [(STATE_WAIT_BERFORE_INIT, STATE_INIT),
         (STATE_WAIT_RETRY_CONNECT_TO_BACKHAUL_MANAGER, STATE_CONNECT_TO_BACKHAUL_MANAGER),
         (STATE_WAIT_BACKHAUL_MANAGER_BUSY, STATE_SEND_BACKHAUL_MANAGER_ENABLE),
         (STATE_WAIT_BEFORE_JOIN_MASTER, STATE_JOIN_MASTER),
         (STATE_WAIT_FOR_JOINED_RESPONSE, STATE_JOIN_MASTER)] →
      e.now > s.slave_state_timer →
      (slave_fsm K e s).state.slave_state = target) ∧
    (∀ (code : BplErr) (data : String),
      (s.slave_state, code, data) ∈
        [(STATE_WAIT_FOR_PLATFORM_MANAGER_REGISTER_RESPONSE,
            BPL_ERR_SLAVE_PLATFORM_MANAGER_REGISTER_TIMEOUT, ""),
         (STATE_WAIT_FOR_WLAN_READY_STATUS_RESPONSE,
            BPL_ERR_SLAVE_TIMEOUT_GET_WLAN_READY_STATUS_REQUEST, ""),
         (STATE_WAIT_FOR_UNIFY_WIFI_CREDENTIALS_RESPONSE,
            BPL_ERR_SLAVE_TIMEOUT_WIFI_CREDENTIALS_SET_REQUEST, ""),
         (STATE_WAIT_FOR_WIFI_CONFIGURATION_UPDATE_COMPLETE,
            BPL_ERR_WIFI_CONFIGURATION_CHANGE_TIMEOUT, "WIFI configuration timeout!")] →
      e.now > s.slave_state_timer →
      (slave_fsm K e s).state.is_slave_reset = true ∧
      (slave_fsm K e s).state.slave_resets_counter = s.slave_resets_counter + 1 ∧
      (slave_fsm K e s).state.sent = s.sent ++ frames_to s.platform_manager_socket
        (create_vs_message K (.cACTION_PLATFORM_ERROR_NOTIFICATION code data) 0)) ∧
    (s.slave_state ∈ [STATE_WAIT_FOR_PLATFORM_BEEROCKS_CREDENTIALS_UPDATE_RESPONSE,
        STATE_WAIT_FOR_ANOTHER_WIFI_CONFIGURATION_UPDATE] →
      e.now > s.slave_state_timer →
      (slave_fsm K e s).state.is_slave_reset = true ∧
      (slave_fsm K e s).state.slave_resets_counter = s.slave_resets_counter + 1 ∧
      (slave_fsm K e s).state.sent = s.sent) ∧
    (waits_without_deadline s.slave_state = true →
      (slave_fsm K e s).state = { s with fsm_runs := s.fsm_runs + 1 }) := by
  refine ⟨?_, ?_, ?_, ?_, ?_⟩
  · intro hd ht
    exact fsm_case_deadline_leaves K e { s with fsm_runs := s.fsm_runs + 1 } _ hd ht
  · intro target h ht
    exact fsm_case_deadline_moves K e { s with fsm_runs := s.fsm_runs + 1 } _ target h ht
  · intro code data h ht
    exact fsm_case_deadline_error K e { s with fsm_runs := s.fsm_runs + 1 } _ code data h ht
  · intro h ht
    exact fsm_case_deadline_quiet K e { s with fsm_runs := s.fsm_runs + 1 } _ h ht
  · intro h
    unfold slave_fsm
    rw [fsm_case_without_deadline K e _ _ h]
    rfl

/-- C26, at a concrete input: the join response has not come within the deadline; the
FSM step leaves `STATE_WAIT_FOR_JOINED_RESPONSE` for `STATE_JOIN_MASTER`. -/
theorem wait_state_deadlines_witness :
    s_wait_joined.slave_state = STATE_WAIT_FOR_JOINED_RESPONSE ∧
    env0.now > s_wait_joined.slave_state_timer ∧
    (slave_fsm K0 env0 s_wait_joined).state.slave_state ≠ s_wait_joined.slave_state ∧
    (slave_fsm K0 env0 s_wait_joined).state.slave_state = STATE_JOIN_MASTER :=
  ⟨rfl, by decide,
    (wait_state_deadlines K0 env0 s_wait_joined).1 rfl (by decide),
    (wait_state_deadlines K0 env0 s_wait_joined).2.1 STATE_JOIN_MASTER (by decide) (by decide)⟩

/-! ## Onboarding -/

/-- C28, the sentence as the specification has it fails: the supervisor that waits for the
connected notification of the backhaul manager, with no controller attached, receives a
DL-RSSI report of -80 dBm from the backhaul manager (socket 12). Nothing is relayed, but
`last_reported_backhaul_rssi` and `iface_status_bh` follow the report. -/
theorem dl_rssi_report_without_controller :
    s_backhaul_only.backhaul_manager_socket = some 12 ∧
    s_backhaul_only.master_socket = none ∧
    s_backhaul_only.last_reported_backhaul_rssi = 0 ∧
    (handle_cmdu_backhaul_manager_message K0 env0 s_backhaul_only 12 hdr0 true
      (.ACTION_BACKHAUL_DL_RSSI_REPORT_NOTIFICATION { rssi := -80, other := [] })).1 = true ∧
    (handle_cmdu_backhaul_manager_message K0 env0 s_backhaul_only 12 hdr0 true
      (.ACTION_BACKHAUL_DL_RSSI_REPORT_NOTIFICATION
        { rssi := -80, other := [] })).2.sent.length = 0 ∧
    (handle_cmdu_backhaul_manager_message K0 env0 s_backhaul_only 12 hdr0 true
      (.ACTION_BACKHAUL_DL_RSSI_REPORT_NOTIFICATION
        { rssi := -80, other := [] })).2.last_reported_backhaul_rssi = -80 ∧
    (handle_cmdu_backhaul_manager_message K0 env0 s_backhaul_only 12 hdr0 true
      (.ACTION_BACKHAUL_DL_RSSI_REPORT_NOTIFICATION
        { rssi := -80, other := [] })).2.iface_status_bh = .BH_SIGNAL_TOO_LOW := by
  decide

/-- C28, as the code has it: a DL-RSSI report of the backhaul manager is relayed to the
controller, its parameters copied and the header id kept, when the controller socket is
attached; with no controller attached nothing is sent. In both cases the handler returns
true and `iface_status_bh` follows with hysteresis: when the reported rssi differs from
`last_reported_backhaul_rssi` by at least BH_SIGNAL_RSSI_THRESHOLD_HYSTERESIS,
`last_reported_backhaul_rssi` becomes the rssi and the status becomes `BH_SIGNAL_TOO_LOW`
below THRESHOLD_LOW, `BH_SIGNAL_OK` from THRESHOLD_LOW up to but not including
THRESHOLD_HIGH, and `BH_SIGNAL_TOO_HIGH` from THRESHOLD_HIGH on; otherwise both are
unchanged. The FSM state is unchanged in both cases. (The two thresholds are constants of
the build with LOW not above HIGH.) -/
theorem dl_rssi_report_hybrid (K : Constants) (e : Env) (s : State) (sd : SocketId)
    (hdr : cACTION_HEADER) (params : sBackhaulRssi)
    (hb : s.backhaul_manager_socket = some sd)
    (hth : K.BH_SIGNAL_RSSI_THRESHOLD_LOW ≤ K.BH_SIGNAL_RSSI_THRESHOLD_HIGH) :
    let r := handle_cmdu_backhaul_manager_message K e s sd hdr true
      (.ACTION_BACKHAUL_DL_RSSI_REPORT_NOTIFICATION params)
    r.1 = true ∧
    r.2.slave_state = s.slave_state ∧
    (∀ m : SocketId, s.master_socket = some m →
      r.2.sent = s.sent ++
        [{ sd := m,
           frame := .VENDOR_SPECIFIC_MESSAGE
             { direction := .BEEROCKS_DIRECTION_CONTROLLER, id := hdr.id,
               radio_mac := s.hostap_params.iface_mac }
             (.cACTION_CONTROL_BACKHAUL_DL_RSSI_REPORT_NOTIFICATION params),
           dst_mac := s.backhaul_params.controller_bridge_mac,
           src_mac := s.backhaul_params.bridge_mac }]) ∧
    (s.master_socket = none → r.2.sent = s.sent) ∧
    (|s.last_reported_backhaul_rssi - params.rssi| ≥ K.BH_SIGNAL_RSSI_THRESHOLD_HYSTERESIS →
      r.2.last_reported_backhaul_rssi = params.rssi ∧
      (params.rssi < K.BH_SIGNAL_RSSI_THRESHOLD_LOW →
        r.2.iface_status_bh = .BH_SIGNAL_TOO_LOW) ∧
      (K.BH_SIGNAL_RSSI_THRESHOLD_LOW ≤ params.rssi →
        params.rssi < K.BH_SIGNAL_RSSI_THRESHOLD_HIGH →
        r.2.iface_status_bh = .BH_SIGNAL_OK) ∧
      (K.BH_SIGNAL_RSSI_THRESHOLD_HIGH ≤ params.rssi →
        r.2.iface_status_bh = .BH_SIGNAL_TOO_HIGH)) ∧
    (¬ |s.last_reported_backhaul_rssi - params.rssi| ≥ K.BH_SIGNAL_RSSI_THRESHOLD_HYSTERESIS →
      r.2.last_reported_backhaul_rssi = s.last_reported_backhaul_rssi ∧
      r.2.iface_status_bh = s.iface_status_bh) := by
  intro r
  have hr : r = backhaul_switch K e s hdr true
      (.ACTION_BACKHAUL_DL_RSSI_REPORT_NOTIFICATION params) := by
    show handle_cmdu_backhaul_manager_message K e s sd hdr true _ = _
    unfold handle_cmdu_backhaul_manager_message
    simp [hb]
  rw [hr]
  simp only [backhaul_switch, not_true_eq_false, if_false, send_vs_to_controller_eq]
  cases hm : s.master_socket <;>
  by_cases hh : |s.last_reported_backhaul_rssi - params.rssi|
      ≥ K.BH_SIGNAL_RSSI_THRESHOLD_HYSTERESIS
  all_goals
    first
    | (by_cases h1 : params.rssi < K.BH_SIGNAL_RSSI_THRESHOLD_LOW
       · have h3 : ¬ K.BH_SIGNAL_RSSI_THRESHOLD_HIGH ≤ params.rssi := by omega
         have h4 : ¬ K.BH_SIGNAL_RSSI_THRESHOLD_LOW ≤ params.rssi := by omega
         simp [hh, h1, h3, h4, controller_frames, controller_stamp, create_vs_message, hm]
       · by_cases h2 : params.rssi < K.BH_SIGNAL_RSSI_THRESHOLD_HIGH
         · have h3 : ¬ K.BH_SIGNAL_RSSI_THRESHOLD_HIGH ≤ params.rssi := by omega
           have h4 : K.BH_SIGNAL_RSSI_THRESHOLD_LOW ≤ params.rssi := by omega
           simp [hh, h1, h2, h3, h4, controller_frames, controller_stamp, create_vs_message,
             hm]
         · have h3 : K.BH_SIGNAL_RSSI_THRESHOLD_HIGH ≤ params.rssi := by omega
           have h4 : K.BH_SIGNAL_RSSI_THRESHOLD_LOW ≤ params.rssi := by omega
           simp [hh, h1, h2, h3, h4, controller_frames, controller_stamp, create_vs_message,
             hm])

/-- C28, at a concrete input: the backhaul manager (socket 12) reports -80 dBm, below the
low threshold of -75 and 80 away from the last reported value 0; the report goes on to the
controller (socket 12). -/
theorem dl_rssi_report_hybrid_witness :
    s_operational.last_reported_backhaul_rssi = 0 ∧
    (handle_cmdu_backhaul_manager_message K0 env0 s_operational 12 hdr0 true
      (.ACTION_BACKHAUL_DL_RSSI_REPORT_NOTIFICATION
        { rssi := -80, other := [] })).2.sent.map Sent.op
      = [some (.cACTION_CONTROL_BACKHAUL_DL_RSSI_REPORT_NOTIFICATION
          { rssi := -80, other := [] })] ∧
    (handle_cmdu_backhaul_manager_message K0 env0 s_operational 12 hdr0 true
      (.ACTION_BACKHAUL_DL_RSSI_REPORT_NOTIFICATION
        { rssi := -80, other := [] })).2.last_reported_backhaul_rssi = -80 ∧
    (handle_cmdu_backhaul_manager_message K0 env0 s_operational 12 hdr0 true
      (.ACTION_BACKHAUL_DL_RSSI_REPORT_NOTIFICATION
        { rssi := -80, other := [] })).2.iface_status_bh = .BH_SIGNAL_TOO_LOW :=
  ⟨rfl,
    congrArg (List.map Sent.op)
      ((dl_rssi_report_hybrid K0 env0 s_operational 12 hdr0 { rssi := -80, other := [] }
        rfl (by decide)).2.2.1 12 rfl),
    ((dl_rssi_report_hybrid K0 env0 s_operational 12 hdr0 { rssi := -80, other := [] }
      rfl (by decide)).2.2.2.2.1 (by decide)).1,
    ((dl_rssi_report_hybrid K0 env0 s_operational 12 hdr0 { rssi := -80, other := [] }
      rfl (by decide)).2.2.2.2.1 (by decide)).2.1 (by decide)⟩

/-- C29, the sentence as the specification has it fails: the controller sends a beacon
request with `use_optional_ssid` set and an empty ssid; the request forwarded to the monitor
carries the ssid "home" of the platform settings, not the empty ssid of the inbound
request. -/
theorem beacon_request_ssid_overridden :
    s_front_ssid.platform_settings.front_ssid = "home" ∧
    (beacon_request true "").ssid = "" ∧
    (handle_cmdu_control_message K0 env0 s_front_ssid 12 hdr0 true
      (.ACTION_CONTROL_CLIENT_BEACON_11K_REQUEST (beacon_request true ""))).1 = true ∧
    ((handle_cmdu_control_message K0 env0 s_front_ssid 12 hdr0 true
      (.ACTION_CONTROL_CLIENT_BEACON_11K_REQUEST (beacon_request true ""))).2.sent.map Sent.op)
      = [some (.cACTION_MONITOR_CLIENT_BEACON_11K_REQUEST (beacon_request true "home"))] ∧
    beacon_request true "home" ≠ beacon_request true "" :=
  ⟨rfl, rfl, rfl, rfl, by decide⟩

/-- C29, as the code has it: an accepted channel-load, statistics or link-measurement 11k
request of the controller is forwarded to the monitor socket with exactly the parameters
of the inbound request and the inbound header id, and so is an accepted beacon request,
except that a beacon request with `use_optional_ssid` set and an empty ssid is forwarded
with the ssid replaced by `platform_settings.front_ssid`. Nothing else is sent. -/
theorem measurement_11k_requests_forwarded (K : Constants) (e : Env) (s : State)
    (sd : SocketId) (hdr : cACTION_HEADER)
    (hmac : hdr.radio_mac = s.hostap_params.iface_mac)
    (hdir : hdr.direction ≠ .BEEROCKS_DIRECTION_CONTROLLER)
    (hm : s.master_socket = some sd) (hs : s.slave_state ≠ STATE_STOPPED) :
    (∀ params : sBeaconRequest11k,
      (handle_cmdu_control_message K e s sd hdr true
        (.ACTION_CONTROL_CLIENT_BEACON_11K_REQUEST params)).2.sent
        = s.sent ++ frames_to s.monitor_socket (create_vs_message K
            (.cACTION_MONITOR_CLIENT_BEACON_11K_REQUEST
              (if params.use_optional_ssid = true ∧ params.ssid = "" then
                { use_optional_ssid := params.use_optional_ssid,
                  ssid := s.platform_settings.front_ssid, other := params.other }
               else params)) hdr.id)) ∧
    (∀ params : Payload,
      (handle_cmdu_control_message K e s sd hdr true
        (.ACTION_CONTROL_CLIENT_CHANNEL_LOAD_11K_REQUEST params)).2.sent
        = s.sent ++ frames_to s.monitor_socket (create_vs_message K
            (.cACTION_MONITOR_CLIENT_CHANNEL_LOAD_11K_REQUEST params) hdr.id)) ∧
    (∀ params : Payload,
      (handle_cmdu_control_message K e s sd hdr true
        (.ACTION_CONTROL_CLIENT_STATISTICS_11K_REQUEST params)).2.sent
        = s.sent ++ frames_to s.monitor_socket (create_vs_message K
            (.cACTION_MONITOR_CLIENT_STATISTICS_11K_REQUEST params) hdr.id)) ∧
    (∀ mac : sMacAddr,
      (handle_cmdu_control_message K e s sd hdr true
        (.ACTION_CONTROL_CLIENT_LINK_MEASUREMENT_11K_REQUEST mac)).2.sent
        = s.sent ++ frames_to s.monitor_socket (create_vs_message K
            (.cACTION_MONITOR_CLIENT_LINK_MEASUREMENT_11K_REQUEST mac) hdr.id)) := by
  refine ⟨?_, ?_, ?_, ?_⟩ <;> intro p <;>
    rw [handle_cmdu_control_message_accepted K e s sd hdr true _ hmac hdir hm hs] <;>
    simp only [control_switch, not_true_eq_false, if_false, send_vs_eq]

/-- C29, at a concrete input: a statistics request arrives from the controller (socket 12)
and goes to the monitor (socket 14) with its parameters and the header id 7. -/
theorem measurement_11k_requests_forwarded_witness :
    s_operational.monitor_socket = some 14 ∧
    (handle_cmdu_control_message K0 env0 s_operational 12 hdr0 true
      (.ACTION_CONTROL_CLIENT_STATISTICS_11K_REQUEST [1, 2, 3])).2.sent
      = [{ sd := 14,
           frame := create_vs_message K0
             (.cACTION_MONITOR_CLIENT_STATISTICS_11K_REQUEST [1, 2, 3]) 7,
           dst_mac := "", src_mac := "" }] :=
  ⟨rfl,
    (measurement_11k_requests_forwarded K0 env0 s_operational 12 hdr0 rfl (by decide) rfl
      (by decide)).2.2.1 [1, 2, 3]⟩

/-- C30: the channel preference report does not carry what the handler stores. A
CHANNEL_PREFERENCE_QUERY with message id 42, received from the controller (socket 12), is
answered by one CHANNEL_PREFERENCE_REPORT with the same message id, sent to the
controller; its ChannelPreference TLV holds the local radio identifier
(02:00:00:00:00:01) as `radio_uid` and one operating-class entry with operating class 80
and seven channels. But `m_flags` was set by `init` when the list was empty, to the address
where the first channel then went and from where no `alloc_channel_list` moves it: the
stores `flags().preference = 15` and `flags().reason_code = UNSPECIFIED` overwrite the
channel 36 with the flags byte 240, and the flags byte of the entry, behind the list, is
never written: it holds what the transmit buffer held before (0 in a cleared buffer, 255
in one filled with 255). The channel list on the wire is 240, 38, 40, 42, 44, 46, 48. With
fewer than 20 bytes behind the CMDU header the handler returns false and sends nothing. -/
theorem channel_preference_report_overridden :
    (handle_cmdu_control_ieee1905_1_message K0 env0 s_operational 12
      .CHANNEL_PREFERENCE_QUERY_MESSAGE 42 []).1 = true ∧
    (handle_cmdu_control_ieee1905_1_message K0 env0 s_operational 12
      .CHANNEL_PREFERENCE_QUERY_MESSAGE 42 []).2.sent.map (fun x => (x.sd, x.frame))
      = [(12, .CHANNEL_PREFERENCE_REPORT_MESSAGE 42
          { radio_uid := 2199023255553
            operating_classes_list :=
              [{ operating_class := 80
                 channel_list := [240, 38, 40, 42, 44, 46, 48]
                 flags := 0 }] })] ∧
    s_operational.config.radio_identifier = "02:00:00:00:00:01" ∧
    (K0.mac_from_string "02:00:00:00:00:01").to_nat = 2199023255553 ∧
    sFlags.set_reason_code (sFlags.set_preference 36 15) eReasonCode_UNSPECIFIED = 240 ∧
    sFlags.preference 240 = 15 ∧
    sFlags.reason_code 240 = eReasonCode_UNSPECIFIED ∧
    sFlags.preference 0 = 0 ∧
    channel_preference_report_body K0 { env0 with tx_buffer := List.replicate 64 255 }
        s_operational
      = some (some
          { radio_uid := 2199023255553
            operating_classes_list :=
              [{ operating_class := 80
                 channel_list := [240, 38, 40, 42, 44, 46, 48]
                 flags := 255 }] }) ∧
    (handle_cmdu_control_ieee1905_1_message { K0 with tx_buffer_len := 28 } env0
      s_operational 12 .CHANNEL_PREFERENCE_QUERY_MESSAGE 42 []).1 = true ∧
    (handle_cmdu_control_ieee1905_1_message { K0 with tx_buffer_len := 27 } env0
      s_operational 12 .CHANNEL_PREFERENCE_QUERY_MESSAGE 42 []).1 = false ∧
    (handle_cmdu_control_ieee1905_1_message { K0 with tx_buffer_len := 27 } env0
      s_operational 12 .CHANNEL_PREFERENCE_QUERY_MESSAGE 42 []).2.sent.length = 0 := by
  refine ⟨rfl, rfl, rfl, ?_, ?_, ?_, ?_, ?_, ?_, rfl, rfl, rfl⟩ <;> decide

/-! ## Frames to the controller, interface actions, ping replies -/

/-- C31: with no controller endpoint attached `send_cmdu_to_controller` sends nothing and
returns false. With a controller endpoint attached it returns true and hands exactly one
frame to the transport; for a vendor-specific frame the header of the frame handed over has
the direction `BEEROCKS_DIRECTION_CONTROLLER` and the radio MAC `hostap_params.iface_mac`,
whatever direction and radio MAC the builder had put there, and keeps the id and the
message class; a frame that is not vendor-specific is handed over as it is. -/
theorem send_cmdu_to_controller_stamps (s : State) (f : TxFrame) :
    (s.master_socket = none → send_cmdu_to_controller s f = (false, s)) ∧
    (∀ (k : SocketId) (h : cACTION_HEADER) (op : TxOp),
      s.master_socket = some k → f = .VENDOR_SPECIFIC_MESSAGE h op →
      send_cmdu_to_controller s f
        = (true, { s with sent := s.sent ++
            [{ sd := k,
               frame := .VENDOR_SPECIFIC_MESSAGE
                 { direction := .BEEROCKS_DIRECTION_CONTROLLER, id := h.id,
                   radio_mac := s.hostap_params.iface_mac } op,
               dst_mac := s.backhaul_params.controller_bridge_mac,
               src_mac := s.backhaul_params.bridge_mac }] })) ∧
    (∀ k : SocketId, s.master_socket = some k →
      (∀ (h : cACTION_HEADER) (op : TxOp), f ≠ .VENDOR_SPECIFIC_MESSAGE h op) →
      send_cmdu_to_controller s f
        = (true, { s with sent := s.sent ++
            [{ sd := k, frame := f,
               dst_mac := s.backhaul_params.controller_bridge_mac,
               src_mac := s.backhaul_params.bridge_mac }] })) := by
  refine ⟨?_, ?_, ?_⟩
  · intro h
    unfold send_cmdu_to_controller
    rw [h]
  · intro k h op hk hf
    unfold send_cmdu_to_controller
    rw [hk, hf]
  · intro k hk hf
    unfold send_cmdu_to_controller
    rw [hk]
    cases f with
    | VENDOR_SPECIFIC_MESSAGE h op => exact absurd rfl (hf h op)
    | AP_AUTOCONFIGURATION_WSC_MESSAGE a b c => rfl
    | CHANNEL_PREFERENCE_REPORT_MESSAGE a b => rfl

/-- C31, at a concrete input: a frame built with the direction `BEEROCKS_DIRECTION_AGENT`
and the radio MAC 02:00:00:00:00:02 goes to the controller (socket 12) with the direction
`BEEROCKS_DIRECTION_CONTROLLER` and the radio MAC 02:00:00:00:00:01 of the supervisor. -/
theorem send_cmdu_to_controller_stamps_witness :
    s_operational.master_socket = some 12 ∧
    s_operational.hostap_params.iface_mac = mac0 ∧
    (send_cmdu_to_controller s_operational
      (.VENDOR_SPECIFIC_MESSAGE
        { direction := .BEEROCKS_DIRECTION_AGENT, id := 7, radio_mac := mac1 }
        (.cACTION_CONTROL_CLIENT_NO_ACTIVITY_NOTIFICATION mac1))).2.sent
      = [{ sd := 12,
           frame := .VENDOR_SPECIFIC_MESSAGE
             { direction := .BEEROCKS_DIRECTION_CONTROLLER, id := 7, radio_mac := mac0 }
             (.cACTION_CONTROL_CLIENT_NO_ACTIVITY_NOTIFICATION mac1),
           dst_mac := s_operational.backhaul_params.controller_bridge_mac,
           src_mac := s_operational.backhaul_params.bridge_mac }] :=
  ⟨rfl, rfl,
    congrArg (fun r : Bool × State => r.2.sent)
      ((send_cmdu_to_controller_stamps s_operational _).2.1 12
        { direction := .BEEROCKS_DIRECTION_AGENT, id := 7, radio_mac := mac1 }
        (.cACTION_CONTROL_CLIENT_NO_ACTIVITY_NOTIFICATION mac1) rfl rfl)⟩

theorem not_mem_keys_of_lookup_none {V : Type} (m : List (String × V)) (key : String)
    (h : m.lookup key = none) : key ∉ m.map Prod.fst := by
  induction m with
  | nil => simp
  | cons p m ih =>
    obtain ⟨k, v⟩ := p
    by_cases hk : key = k
    · subst hk
      simp [List.lookup_cons] at h
    · have hb : (key == k) = false := by simpa using hk
      simp only [List.lookup_cons, hb] at h
      simp only [List.map_cons, List.mem_cons, not_or]
      exact ⟨hk, ih h⟩

/-- C32: `set_wifi_iface_state(iface, op)` fails on an empty interface name. When an action
for `iface` is pending with another operation it fails, and when one is pending with the
same operation it succeeds; in both cases nothing is sent and the supervisor state, the
pending entry with its operation and timestamp included, is unchanged. When none is pending
it records `(iface, op, now)` and sends one `cACTION_PLATFORM_WIFI_SET_IFACE_STATE_REQUEST`
to the platform manager socket (returning whether that socket is attached). So the names in
`pending_iface_actions` stay pairwise different: at most one action is outstanding for an
interface. -/
theorem set_wifi_iface_state_one_per_iface (K : Constants) (e : Env) (s : State)
    (iface : String) (iface_operation : eWifiIfaceOperation) :
    (iface = "" → set_wifi_iface_state K e s iface iface_operation = (false, s)) ∧
    (∀ a : sIfaceAction, iface ≠ "" → s.pending_iface_actions.lookup iface = some a →
      a.operation ≠ iface_operation →
      set_wifi_iface_state K e s iface iface_operation = (false, s)) ∧
    (∀ a : sIfaceAction, iface ≠ "" → s.pending_iface_actions.lookup iface = some a →
      a.operation = iface_operation →
      set_wifi_iface_state K e s iface iface_operation = (true, s)) ∧
    (iface ≠ "" → s.pending_iface_actions.lookup iface = none →
      set_wifi_iface_state K e s iface iface_operation
        = (s.platform_manager_socket.isSome,
           { s with
             pending_iface_actions := s.pending_iface_actions ++
               [(iface, { iface := iface, operation := iface_operation, timestamp := e.now })],
             sent := s.sent ++ frames_to s.platform_manager_socket
               (create_vs_message K
                 (.cACTION_PLATFORM_WIFI_SET_IFACE_STATE_REQUEST iface iface_operation) 0) })) ∧
    ((s.pending_iface_actions.map Prod.fst).Nodup →
      ((set_wifi_iface_state K e s iface iface_operation).2.pending_iface_actions.map
        Prod.fst).Nodup) := by
  have h4 : iface ≠ "" → s.pending_iface_actions.lookup iface = none →
      set_wifi_iface_state K e s iface iface_operation
        = (s.platform_manager_socket.isSome,
           { s with
             pending_iface_actions := s.pending_iface_actions ++
               [(iface, { iface := iface, operation := iface_operation, timestamp := e.now })],
             sent := s.sent ++ frames_to s.platform_manager_socket
               (create_vs_message K
                 (.cACTION_PLATFORM_WIFI_SET_IFACE_STATE_REQUEST iface iface_operation) 0) }) := by
    intro hi hl
    unfold set_wifi_iface_state
    rw [if_neg hi, hl]
    simp only [map_assign, hl, Option.isSome_none, Bool.false_eq_true, if_false,
      send_cmdu_snd, send_cmdu_fst]
    cases s.platform_manager_socket <;> simp
  refine ⟨?_, ?_, ?_, h4, ?_⟩
  · intro h
    unfold set_wifi_iface_state
    rw [if_pos h]
  · intro a hi hl ho
    unfold set_wifi_iface_state
    rw [if_neg hi, hl]
    simp only [ho, if_false]
  · intro a hi hl ho
    unfold set_wifi_iface_state
    rw [if_neg hi, hl]
    simp only [ho, if_true]
  · intro hn
    by_cases hi : iface = ""
    · unfold set_wifi_iface_state
      rw [if_pos hi]
      exact hn
    · cases hl : s.pending_iface_actions.lookup iface with
      | some a =>
        unfold set_wifi_iface_state
        rw [if_neg hi, hl]
        simp only []
        split_ifs <;> exact hn
      | none =>
        rw [h4 hi hl]
        simp only [List.map_append, List.map_cons, List.map_nil]
        rw [List.nodup_append]
        refine ⟨hn, List.nodup_singleton _, ?_⟩
        intro x hx hx2
        rw [List.mem_singleton] at hx2
        subst hx2
        exact not_mem_keys_of_lookup_none _ _ hl hx

/-- C32, at a concrete input: an enable for wlan0 is pending since clock value 100000; a
second enable for wlan0 succeeds and a disable fails, and neither changes the supervisor;
an enable for wlan1 is recorded and requested from the platform manager (socket 11). -/
theorem set_wifi_iface_state_one_per_iface_witness :
    s_pending.pending_iface_actions
      = [("wlan0", { iface := "wlan0", operation := WIFI_IFACE_OPER_ENABLE,
                     timestamp := 100000 })] ∧
    set_wifi_iface_state K0 env_late s_pending "wlan0" WIFI_IFACE_OPER_ENABLE
      = (true, s_pending) ∧
    set_wifi_iface_state K0 env_late s_pending "wlan0" WIFI_IFACE_OPER_DISABLE
      = (false, s_pending) ∧
    (set_wifi_iface_state K0 env_late s_pending "wlan1"
      WIFI_IFACE_OPER_ENABLE).2.pending_iface_actions.map Prod.fst = ["wlan0", "wlan1"] :=
  ⟨rfl,
    (set_wifi_iface_state_one_per_iface K0 env_late s_pending "wlan0"
      WIFI_IFACE_OPER_ENABLE).2.2.1 _ (by decide) rfl rfl,
    (set_wifi_iface_state_one_per_iface K0 env_late s_pending "wlan0"
      WIFI_IFACE_OPER_DISABLE).2.1 _ (by decide) rfl (by decide),
    congrArg (fun r : Bool × State => r.2.pending_iface_actions.map Prod.fst)
      ((set_wifi_iface_state_one_per_iface K0 env_late s_pending "wlan1"
        WIFI_IFACE_OPER_ENABLE).2.2.2.1 (by decide) rfl)⟩

/-- C34, the sentence as the specification has it fails: the reply to the first ping of a
series of three, of size 65535, more than the transmit buffer holds, is accepted (the
handler returns true) and has seq = 0 < total - 1 = 2, but no further ping is sent. -/
theorem agent_ping_response_too_large :
    ((0 : Int) < (3 : Int) - 1) ∧
    (handle_cmdu_control_message K0 env0 s_operational 12 hdr0 true
      (.ACTION_CONTROL_AGENT_PING_RESPONSE 3 0 65535)).1 = true ∧
    (handle_cmdu_control_message K0 env0 s_operational 12 hdr0 true
      (.ACTION_CONTROL_AGENT_PING_RESPONSE 3 0 65535)).2.sent.length = 0 := by
  decide

/-- C34, as the code has it: on an accepted ping reply with the 16-bit fields
(total, seq, size) the handler returns true; it sends a next ping request to the controller
exactly when seq < total - 1 (computed in `int`, so never for total = 0) and the data of
`size` bytes can be allocated on the transmit buffer (always when size = 0); the request
carries total, seq + 1, size and `size` zero bytes, and nothing else is sent. The reply to
a keep-alive ping (total = 1, seq = 0) triggers no further ping. -/
theorem agent_ping_response_next (K : Constants) (e : Env) (s : State)
    (sd : SocketId) (hdr : cACTION_HEADER) (total seq size : Nat)
    (hmac : hdr.radio_mac = s.hostap_params.iface_mac)
    (hdir : hdr.direction ≠ .BEEROCKS_DIRECTION_CONTROLLER)
    (hm : s.master_socket = some sd) (hs : s.slave_state ≠ STATE_STOPPED)
    (htotal : total < 65536) :
    let r := handle_cmdu_control_message K e s sd hdr true
      (.ACTION_CONTROL_AGENT_PING_RESPONSE total seq size)
    r.1 = true ∧
    r.2.slave_state = s.slave_state ∧
    ((seq : Int) < (total : Int) - 1 → (size = 0 ∨ size ≤ K.tx_data_capacity) →
      r.2.sent = s.sent ++
        [{ sd := sd,
           frame := .VENDOR_SPECIFIC_MESSAGE
             { direction := .BEEROCKS_DIRECTION_CONTROLLER, id := 0,
               radio_mac := s.hostap_params.iface_mac }
             (.cACTION_CONTROL_AGENT_PING_REQUEST total (seq + 1) size
               (List.replicate size 0)),
           dst_mac := s.backhaul_params.controller_bridge_mac,
           src_mac := s.backhaul_params.bridge_mac }]) ∧
    (¬ ((seq : Int) < (total : Int) - 1 ∧ (size = 0 ∨ size ≤ K.tx_data_capacity)) →
      r.2.sent = s.sent) ∧
    (total = 0 → r.2.sent = s.sent) ∧
    (total = 1 → seq = 0 → r.2.sent = s.sent) := by
  intro r
  have hr : r = _ := handle_cmdu_control_message_accepted K e s sd hdr true _ hmac hdir hm hs
  rw [hr]
  simp only [control_switch, not_true_eq_false, if_false]
  by_cases hlt : (seq : Int) < (total : Int) - 1
  · have hseq : (seq + 1) % 65536 = seq + 1 := by
      apply Nat.mod_eq_of_lt
      omega
    by_cases hfit : size = 0 ∨ size ≤ K.tx_data_capacity
    · have hfit2 : ¬ (size ≠ 0 ∧ ¬ size ≤ K.tx_data_capacity) := by
        rintro ⟨h1, h2⟩
        rcases hfit with h | h
        · exact h1 h
        · exact h2 h
      simp only [if_pos hlt, if_neg hfit2, hseq]
      refine ⟨trivial, ?_, ?_, ?_, ?_, ?_⟩
      · simp [send_vs_to_controller_eq]
      · intro _ _
        simp [send_vs_to_controller_eq, controller_frames, controller_stamp,
          create_vs_message, hm]
      · intro h
        exact absurd ⟨hlt, hfit⟩ h
      · intro h
        omega
      · intro h1 h2
        omega
    · have hfit2 : size ≠ 0 ∧ ¬ size ≤ K.tx_data_capacity := by
        constructor
        · intro h
          exact hfit (Or.inl h)
        · intro h
          exact hfit (Or.inr h)
      simp only [if_pos hlt, if_pos hfit2]
      refine ⟨trivial, trivial, ?_, ?_, ?_, ?_⟩
      · intro _ h
        exact absurd h hfit
      · intro _
        trivial
      · intro _
        trivial
      · intro _ _
        trivial
  · simp only [if_neg hlt]
    refine ⟨trivial, trivial, ?_, ?_, ?_, ?_⟩
    · intro h
      exact absurd h hlt
    · intro _
      trivial
    · intro _
      trivial
    · intro _ _
      trivial

/-- C34, at a concrete input: the reply to the first ping of a series of three pings of
16 bytes triggers the second ping; the reply to a keep-alive ping triggers none. -/
theorem agent_ping_response_next_witness :
    ((handle_cmdu_control_message K0 env0 s_operational 12 hdr0 true
      (.ACTION_CONTROL_AGENT_PING_RESPONSE 3 0 16)).2.sent.map Sent.op)
      = [some (.cACTION_CONTROL_AGENT_PING_REQUEST 3 1 16 (List.replicate 16 0))] ∧
    (handle_cmdu_control_message K0 env0 s_operational 12 hdr0 true
      (.ACTION_CONTROL_AGENT_PING_RESPONSE 1 0 0)).2.sent = s_operational.sent :=
  ⟨congrArg (fun l : List Sent => l.map Sent.op)
      ((agent_ping_response_next K0 env0 s_operational 12 hdr0 3 0 16 rfl (by decide) rfl
        (by decide) (by decide)).2.2.1 (by decide) (Or.inr (by decide))),
    (agent_ping_response_next K0 env0 s_operational 12 hdr0 1 0 0 rfl (by decide) rfl
      (by decide) (by decide)).2.2.2.2.2 rfl rfl⟩

/-! ## What a reset leaves behind -/

/-- C35: after every `slave_reset` the pending interface actions are empty, the operational
flag `iface_status_operational_state`, the role flag `is_backhaul_manager` and
`detach_on_conf_change` are false, `is_slave_reset` is true, and the platform manager, AP
manager and monitor sockets are detached (the AP manager thread is gone too). When
`detach_on_conf_change` was false before the reset, the backhaul manager socket and the
controller socket are detached as well; when it was true, both are left exactly as they
were. -/
theorem slave_reset_effects (K : Constants) (e : Env) (s : State) :
    (slave_reset K e s).pending_iface_actions = [] ∧
    (slave_reset K e s).iface_status_operational_state = false ∧
    (slave_reset K e s).is_backhaul_manager = false ∧
    (slave_reset K e s).detach_on_conf_change = false ∧
    (slave_reset K e s).is_slave_reset = true ∧
    (slave_reset K e s).platform_manager_socket = none ∧
    (slave_reset K e s).ap_manager_socket = none ∧
    (slave_reset K e s).ap_manager = false ∧
    (slave_reset K e s).monitor_socket = none ∧
    (s.detach_on_conf_change = false →
      (slave_reset K e s).backhaul_manager_socket = none ∧
      (slave_reset K e s).master_socket = none) ∧
    (s.detach_on_conf_change = true →
      (slave_reset K e s).backhaul_manager_socket = s.backhaul_manager_socket ∧
      (slave_reset K e s).master_socket = s.master_socket) := by
  unfold slave_reset
  simp only [hostap_services_off, platform_manager_stop, ap_manager_stop, monitor_stop,
    backhaul_manager_stop, platform_notify_error]
  split_ifs <;> simp_all

/-- C35, at a concrete input: a reset of the operational supervisor detaches the backhaul
manager and the controller (both on socket 12); with `detach_on_conf_change` set, the same
reset leaves both attached. -/
theorem slave_reset_effects_witness :
    s_operational.master_socket = some 12 ∧
    (slave_reset K0 env0 s_operational).master_socket = none ∧
    (slave_reset K0 env0 s_operational).backhaul_manager_socket = none ∧
    (slave_reset K0 env0 s_detach).master_socket = some 12 ∧
    (slave_reset K0 env0 s_detach).backhaul_manager_socket = some 12 ∧
    (slave_reset K0 env0 s_detach).platform_manager_socket = none :=
  ⟨rfl,
    ((slave_reset_effects K0 env0 s_operational).2.2.2.2.2.2.2.2.2.1 rfl).2,
    ((slave_reset_effects K0 env0 s_operational).2.2.2.2.2.2.2.2.2.1 rfl).1,
    ((slave_reset_effects K0 env0 s_detach).2.2.2.2.2.2.2.2.2.2 rfl).2,
    ((slave_reset_effects K0 env0 s_detach).2.2.2.2.2.2.2.2.2.2 rfl).1,
    (slave_reset_effects K0 env0 s_detach).2.2.2.2.2.1⟩

/-- C36: the FSM step in `STATE_SEND_BACKHAUL_MANAGER_ENABLE` whose send to the backhaul
manager fails performs a `slave_reset`, which chooses `STATE_INIT`, and then goes on to set
`STATE_WAIT_FOR_BACKHAUL_MANAGER_CONNECTED_NOTIFICATION`: the step ends in that waiting
state with every endpoint detached, not in the state the reset chose. The operational
supervisor gets there when the backhaul manager goes away and the workers then announce
themselves: the FSM reaches `STATE_SEND_BACKHAUL_MANAGER_ENABLE` without a backhaul manager
endpoint, and the next step resets a second time and ends in the waiting state. -/
theorem send_backhaul_enable_overwrites_reset :
    s_send_backhaul_enable.slave_state = STATE_SEND_BACKHAUL_MANAGER_ENABLE ∧
    (send_cmdu s_send_backhaul_enable s_send_backhaul_enable.backhaul_manager_socket
      (create_vs_message K0
        (.cACTION_BACKHAUL_ENABLE (build_backhaul_enable s_send_backhaul_enable)) 0)).1
      = false ∧
    (slave_reset K0 env0 s_send_backhaul_enable).slave_state = STATE_INIT ∧
    (slave_fsm K0 env0 s_send_backhaul_enable).state.slave_resets_counter
      = s_send_backhaul_enable.slave_resets_counter + 1 ∧
    (slave_fsm K0 env0 s_send_backhaul_enable).state.is_slave_reset = true ∧
    (slave_fsm K0 env0 s_send_backhaul_enable).state.slave_state
      = STATE_WAIT_FOR_BACKHAUL_MANAGER_CONNECTED_NOTIFICATION ∧
    (slave_fsm K0 env0 s_send_backhaul_enable).state.backhaul_manager_socket = none ∧
    (slave_fsm K0 env0 s_send_backhaul_enable).state.platform_manager_socket = none ∧
    (steps K0 env0 s_operational backhaul_lost_events).slave_state
      = STATE_SEND_BACKHAUL_MANAGER_ENABLE ∧
    (steps K0 env0 s_operational backhaul_lost_events).backhaul_manager_socket = none ∧
    (steps K0 env0 s_operational backhaul_lost_events).slave_resets_counter = 1 ∧
    (steps K0 env0 s_operational (backhaul_lost_events ++ [.fsm_step])).slave_resets_counter
      = 2 ∧
    (steps K0 env0 s_operational (backhaul_lost_events ++ [.fsm_step])).slave_state
      = STATE_WAIT_FOR_BACKHAUL_MANAGER_CONNECTED_NOTIFICATION ∧
    (steps K0 env0 s_operational (backhaul_lost_events ++ [.fsm_step])).ap_manager_socket
      = none := by
  decide

/-! ## The controller endpoint and the FSM state -/

/-- What a step from `s` to `t` keeps of the relation between the controller endpoint and
the FSM state: it does not attach the controller endpoint, and if it runs no reset it keeps
`controller_link_ok`. -/
theorem controller_link_ok_iff (s : State) :
    controller_link_ok s = true ↔ (s.master_socket ≠ none → pre_backhaul s.slave_state = false) := by
  unfold controller_link_ok
  cases s.master_socket <;> cases pre_backhaul s.slave_state <;> simp

theorem slave_reset_counter (K : Constants) (e : Env) (s : State) :
    (slave_reset K e s).slave_resets_counter = s.slave_resets_counter + 1 :=
  (slave_reset_flags K e s).2

theorem slave_reset_master_of_none (K : Constants) (e : Env) (s : State)
    (h : s.master_socket = none) : (slave_reset K e s).master_socket = none := by
  unfold slave_reset
  simp only [hostap_services_off, platform_manager_stop, ap_manager_stop, monitor_stop,
    backhaul_manager_stop, platform_notify_error]
  split_ifs <;> simp_all

theorem frame_update_iface_status (s : State) (a : Bool) (i : Int) :
    (update_iface_status s a i).master_socket = s.master_socket ∧
    (update_iface_status s a i).slave_state = s.slave_state ∧
    (update_iface_status s a i).slave_resets_counter = s.slave_resets_counter := by
  unfold update_iface_status
  split_ifs <;> exact ⟨rfl, rfl, rfl⟩

theorem frame_set_wifi_iface_state (K : Constants) (e : Env) (s : State) (i : String)
    (o : eWifiIfaceOperation) :
    (set_wifi_iface_state K e s i o).2.master_socket = s.master_socket ∧
    (set_wifi_iface_state K e s i o).2.slave_state = s.slave_state ∧
    (set_wifi_iface_state K e s i o).2.slave_resets_counter = s.slave_resets_counter := by
  unfold set_wifi_iface_state
  simp only [send_cmdu_snd]
  (repeat' split) <;> exact ⟨rfl, rfl, rfl⟩

theorem frame_set_radio_tx_enable (K : Constants) (s : State) (i : String) (b : Bool) :
    (set_radio_tx_enable K s i b).2.master_socket = s.master_socket ∧
    (set_radio_tx_enable K s i b).2.slave_state = s.slave_state ∧
    (set_radio_tx_enable K s i b).2.slave_resets_counter = s.slave_resets_counter := by
  unfold set_radio_tx_enable
  simp only [send_cmdu_snd]
  (repeat' split) <;> exact ⟨rfl, rfl, rfl⟩

theorem frame_send_platform_iface_status_notif (K : Constants) (s : State)
    (r : eRadioStatus) (b : Bool) :
    (send_platform_iface_status_notif K s r b).master_socket = s.master_socket ∧
    (send_platform_iface_status_notif K s r b).slave_state = s.slave_state ∧
    (send_platform_iface_status_notif K s r b).slave_resets_counter
      = s.slave_resets_counter := by
  simp [send_platform_iface_status_notif, send_cmdu_snd]

theorem link_backhaul_switch (K : Constants) (e : Env) (s : State)
    (hdr : cACTION_HEADER) (ok : Bool) (op : BackhaulOp) :
    (s.master_socket = none → (backhaul_switch K e s hdr ok op).2.master_socket = none) ∧
    ((backhaul_switch K e s hdr ok op).2.slave_resets_counter = s.slave_resets_counter →
      controller_link_ok s = true →
      controller_link_ok (backhaul_switch K e s hdr ok op).2 = true) := by
  simp only [controller_link_ok_iff]
  cases op <;> simp only [backhaul_switch] <;> (repeat' split) <;>
    simp_all [send_vs_to_controller_eq, send_vs_eq, slave_reset_counter,
      frame_update_iface_status, slave_reset_master_of_none, pre_backhaul]

theorem link_platform_switch (K : Constants) (e : Env) (s : State)
    (hdr : cACTION_HEADER) (ok : Bool) (op : PlatformOp) :
    (s.master_socket = none → (platform_switch K e s hdr ok op).2.master_socket = none) ∧
    ((platform_switch K e s hdr ok op).2.slave_resets_counter = s.slave_resets_counter →
      controller_link_ok s = true →
      controller_link_ok (platform_switch K e s hdr ok op).2 = true) := by
  simp only [controller_link_ok_iff]
  cases op <;> simp only [platform_switch] <;> (repeat' split) <;>
    simp_all [send_vs_to_controller_eq, send_vs_eq, slave_reset_counter,
      frame_update_iface_status, slave_reset_master_of_none, pre_backhaul,
      platform_notify_error_eq, frame_set_radio_tx_enable, frame_set_wifi_iface_state,
      frame_send_platform_iface_status_notif]

theorem link_monitor_switch (K : Constants) (e : Env) (s : State) (sd : SocketId)
    (hdr : cACTION_HEADER) (ok : Bool) (op : MonitorOp) :
    (s.master_socket = none → (monitor_switch K e s sd hdr ok op).2.master_socket = none) ∧
    ((monitor_switch K e s sd hdr ok op).2.slave_resets_counter = s.slave_resets_counter →
      controller_link_ok s = true →
      controller_link_ok (monitor_switch K e s sd hdr ok op).2 = true) := by
  simp only [controller_link_ok_iff]
  cases op <;> simp only [monitor_switch] <;> (repeat' split) <;>
    simp_all [send_vs_to_controller_eq, send_vs_eq, slave_reset_counter,
      frame_update_iface_status, slave_reset_master_of_none, pre_backhaul,
      platform_notify_error_eq, frame_set_radio_tx_enable, frame_set_wifi_iface_state,
      frame_send_platform_iface_status_notif]

theorem link_ap_manager_switch (K : Constants) (e : Env) (s : State) (sd : SocketId)
    (hdr : cACTION_HEADER) (ok : Bool) (op : ApManagerOp)
    (hop : op ≠ .ACTION_APMANAGER_INIT_DONE_NOTIFICATION) :
    (s.master_socket = none → (ap_manager_switch K e s sd hdr ok op).2.master_socket = none) ∧
    ((ap_manager_switch K e s sd hdr ok op).2.slave_resets_counter = s.slave_resets_counter →
      controller_link_ok s = true →
      controller_link_ok (ap_manager_switch K e s sd hdr ok op).2 = true) := by
  simp only [controller_link_ok_iff]
  cases op <;> simp only [ap_manager_switch] <;> (try contradiction) <;> (repeat' split) <;>
    simp_all [send_vs_to_controller_eq, send_vs_eq, slave_reset_counter,
      frame_update_iface_status, slave_reset_master_of_none, pre_backhaul,
      platform_notify_error_eq, frame_set_radio_tx_enable, frame_set_wifi_iface_state,
      frame_send_platform_iface_status_notif]

theorem link_join_response_body (K : Constants) (e : Env) (s : State)
    (err_code : eSlaveJoinResponseErrCode) (master_version : String) (config : sSonConfig) :
    (s.master_socket = none →
      (join_response_body K e s err_code master_version config).2.master_socket = none) ∧
    ((join_response_body K e s err_code master_version config).2.slave_resets_counter
        = s.slave_resets_counter →
      controller_link_ok s = true →
      controller_link_ok (join_response_body K e s err_code master_version config).2
        = true) := by
  simp only [controller_link_ok_iff]
  unfold join_response_body
  simp only [send_vs_eq, foldl_send_associated]
  (repeat' split) <;>
    simp_all [slave_reset_counter, slave_reset_master_of_none, pre_backhaul,
      platform_notify_error_eq]

set_option maxHeartbeats 1600000 in
theorem frame_control_switch (K : Constants) (e : Env) (s : State)
    (hdr : cACTION_HEADER) (ok : Bool) (op : ControlOp) :
    (control_switch K e s hdr ok op).2.master_socket = s.master_socket ∧
    (control_switch K e s hdr ok op).2.slave_resets_counter = s.slave_resets_counter ∧
    ((control_switch K e s hdr ok op).2.slave_state = s.slave_state ∨
      (control_switch K e s hdr ok op).2.slave_state
        = STATE_WAIT_FOR_PLATFORM_BEEROCKS_CREDENTIALS_UPDATE_RESPONSE) := by
  cases op <;> simp only [control_switch] <;> (repeat' split) <;>
    simp [send_vs_eq, send_vs_to_controller_eq, frame_set_radio_tx_enable]

theorem keeps_link_refl (s : State) : keeps_link s s :=
  ⟨fun h => h, fun _ h => h⟩

theorem keeps_link_of_frame (s t : State) (hm : t.master_socket = s.master_socket)
    (hs : t.slave_state = s.slave_state ∨ pre_backhaul t.slave_state = false) :
    keeps_link s t := by
  unfold keeps_link
  simp only [controller_link_ok_iff, hm]
  refine ⟨fun h => h, ?_⟩
  intro _ h1 h2
  rcases hs with hs | hs
  · rw [hs]
    exact h1 h2
  · exact hs

theorem keeps_link_of_reset (K : Constants) (e : Env) (s t : State)
    (hm : s.master_socket = none → t.master_socket = none)
    (hc : t.slave_resets_counter = s.slave_resets_counter) :
    keeps_link s (slave_reset K e t) := by
  unfold keeps_link
  refine ⟨fun h => slave_reset_master_of_none K e t (hm h), ?_⟩
  intro h
  rw [slave_reset_counter, hc] at h
  omega

theorem keeps_link_congr (s s1 t : State) (hm : s1.master_socket = s.master_socket)
    (hs : s1.slave_state = s.slave_state)
    (hc : s1.slave_resets_counter = s.slave_resets_counter)
    (h : keeps_link s1 t) : keeps_link s t := by
  unfold keeps_link controller_link_ok at *
  simp only [hm, hs, hc] at h
  exact h

theorem link_control_switch (K : Constants) (e : Env) (s : State)
    (hdr : cACTION_HEADER) (ok : Bool) (op : ControlOp) :
    keeps_link s (control_switch K e s hdr ok op).2 := by
  have h := frame_control_switch K e s hdr ok op
  refine keeps_link_of_frame _ _ h.1 ?_
  rcases h.2.2 with h2 | h2
  · exact Or.inl h2
  · exact Or.inr (by rw [h2]; rfl)

theorem link_handle_cmdu_control_message (K : Constants) (e : Env) (s : State)
    (sd : SocketId) (hdr : cACTION_HEADER) (ok : Bool) (op : ControlOp) :
    keeps_link s (handle_cmdu_control_message K e s sd hdr ok op).2 := by
  unfold handle_cmdu_control_message
  split_ifs
  · exact keeps_link_refl s
  · exact keeps_link_refl s
  · exact keeps_link_refl s
  · exact keeps_link_refl s
  · exact keeps_link_refl s
  · exact keeps_link_congr s { s with master_last_seen := e.now, keep_alive_retries := 0 } _
      rfl rfl rfl (link_control_switch K e _ hdr ok op)

theorem link_handle_cmdu_backhaul_manager_message (K : Constants) (e : Env) (s : State)
    (sd : SocketId) (hdr : cACTION_HEADER) (ok : Bool) (op : BackhaulOp) :
    keeps_link s (handle_cmdu_backhaul_manager_message K e s sd hdr ok op).2 := by
  unfold handle_cmdu_backhaul_manager_message
  split_ifs
  · exact keeps_link_refl s
  · exact keeps_link_refl s
  · exact link_backhaul_switch K e s hdr ok op

theorem link_handle_cmdu_platform_manager_message (K : Constants) (e : Env) (s : State)
    (sd : SocketId) (hdr : cACTION_HEADER) (ok : Bool) (op : PlatformOp) :
    keeps_link s (handle_cmdu_platform_manager_message K e s sd hdr ok op).2 := by
  unfold handle_cmdu_platform_manager_message
  split_ifs
  · exact keeps_link_refl s
  · exact link_platform_switch K e s hdr ok op

theorem link_handle_cmdu_monitor_message (K : Constants) (e : Env) (s : State)
    (sd : SocketId) (hdr : cACTION_HEADER) (ok : Bool) (op : MonitorOp) :
    keeps_link s (handle_cmdu_monitor_message K e s sd hdr ok op).2 := by
  unfold handle_cmdu_monitor_message
  (repeat' split) <;> first
    | exact keeps_link_refl s
    | exact link_monitor_switch K e s sd hdr ok _

theorem link_handle_cmdu_ap_manager_message (K : Constants) (e : Env) (s : State)
    (sd : SocketId) (hdr : cACTION_HEADER) (ok : Bool) (op : ApManagerOp)
    (hop : op ≠ .ACTION_APMANAGER_INIT_DONE_NOTIFICATION) :
    keeps_link s (handle_cmdu_ap_manager_message K e s sd hdr ok op).2 := by
  unfold handle_cmdu_ap_manager_message
  (repeat' split) <;> first
    | exact keeps_link_refl s
    | exact link_ap_manager_switch K e s sd hdr ok _ hop

theorem link_parse_intel_join_response (K : Constants) (e : Env) (s : State)
    (tlvs : List Tlv) :
    keeps_link s (parse_intel_join_response K e s tlvs).2 := by
  unfold parse_intel_join_response
  (repeat' split) <;> first
    | exact keeps_link_refl s
    | exact link_join_response_body K e s _ _ _

theorem link_handle_autoconfiguration_wsc (K : Constants) (e : Env) (s : State)
    (tlvs : List Tlv) :
    keeps_link s (handle_autoconfiguration_wsc K e s tlvs).2 := by
  unfold handle_autoconfiguration_wsc
  (repeat' split) <;> first
    | exact keeps_link_refl s
    | (simp only []; split_ifs <;> exact link_parse_intel_join_response _ _ _ _)

theorem link_handle_cmdu_control_ieee1905_1_message (K : Constants) (e : Env) (s : State)
    (sd : SocketId) (type : eMessageType) (mid : Nat) (tlvs : List Tlv) :
    keeps_link s (handle_cmdu_control_ieee1905_1_message K e s sd type mid tlvs).2 := by
  unfold handle_cmdu_control_ieee1905_1_message
  split_ifs
  · exact keeps_link_refl s
  · exact keeps_link_refl s
  · exact keeps_link_refl s
  · cases type <;> simp only []
    · exact keeps_link_congr s { s with master_last_seen := e.now, keep_alive_retries := 0 } _
        rfl rfl rfl (link_handle_autoconfiguration_wsc K e _ tlvs)
    · exact keeps_link_of_frame _ _
        (frame_handle_channel_preference_query K e
          { s with master_last_seen := e.now, keep_alive_retries := 0 } mid).1
        (Or.inl (frame_handle_channel_preference_query K e
          { s with master_last_seen := e.now, keep_alive_retries := 0 } mid).2.1)
    · exact keeps_link_refl s

theorem link_socket_disconnected (K : Constants) (e : Env) (s : State) (sd : SocketId) :
    keeps_link s (socket_disconnected K e s sd).2 := by
  unfold keeps_link
  simp only [controller_link_ok_iff]
  unfold socket_disconnected
  simp only []
  split_ifs <;>
    simp_all [monitor_stop, ap_manager_stop, stop_slave_thread, slave_reset_counter,
      slave_reset_master_of_none, platform_notify_error_eq]

theorem link_process_keep_alive (K : Constants) (e : Env) (s : State) :
    keeps_link s (process_keep_alive K e s) := by
  unfold keeps_link
  simp only [controller_link_ok_iff]
  unfold process_keep_alive
  (repeat' split) <;>
    simp_all [slave_reset_counter, slave_reset_master_of_none, platform_notify_error_eq,
      send_vs_to_controller_eq, send_cmdu_to_controller_snd]

theorem frame_ap_manager_start (e : Env) (s : State) :
    (ap_manager_start e s).2.master_socket = s.master_socket ∧
    (ap_manager_start e s).2.slave_state = s.slave_state ∧
    (ap_manager_start e s).2.slave_resets_counter = s.slave_resets_counter := by
  unfold ap_manager_start
  split_ifs <;> exact ⟨rfl, rfl, rfl⟩

set_option maxHeartbeats 4000000 in
theorem fsm_case_no_attach (K : Constants) (e : Env) (s : State) (st : eSlaveState)
    (hst : st ≠ STATE_BACKHAUL_MANAGER_CONNECTED) (hm : s.master_socket = none) :
    (fsm_case K e s st).state.master_socket = none := by
  have hk := (link_process_keep_alive K e
    { s with stop_on_failure_attempts := s.configuration_stop_on_failure_attempts }).1 hm
  cases st <;> simp only [fsm_case] <;> (try contradiction) <;> (repeat' split) <;>
    first
      | exact hk
      | simp_all [fsm_break, fsm_return_false, fsm_fail, monitor_start, monitor_stop, send_vs_eq,
          send_cmdu_snd, send_cmdu_to_controller_snd, slave_reset_master_of_none,
          platform_notify_error_eq, frame_set_wifi_iface_state, frame_ap_manager_start,
          frame_send_platform_iface_status_notif]

set_option maxHeartbeats 4000000 in
theorem fsm_case_link_ok (K : Constants) (e : Env) (s : State) (st : eSlaveState)
    (hst : s.slave_state = st)
    (hc : (fsm_case K e s st).state.slave_resets_counter = s.slave_resets_counter)
    (hok : controller_link_ok s = true) :
    controller_link_ok (fsm_case K e s st).state = true := by
  have hk := (link_process_keep_alive K e
    { s with stop_on_failure_attempts := s.configuration_stop_on_failure_attempts }).2
  simp only [controller_link_ok_iff] at hok hk ⊢
  subst hst
  revert hc
  generalize hs : s.slave_state = st
  cases st <;> simp only [fsm_case] <;> (repeat' split) <;>
    first
      | (intro hc; exact hk hc (by simpa [hs] using hok))
      | (intro hc
         simp_all [fsm_break, fsm_return_false, fsm_fail, monitor_start, monitor_stop,
          send_vs_eq, send_cmdu_snd, send_cmdu_to_controller_snd, slave_reset_counter,
          platform_notify_error_eq, frame_set_wifi_iface_state, frame_ap_manager_start,
          frame_send_platform_iface_status_notif, pre_backhaul]
         try omega)

theorem set_wifi_iface_state_backhaul_socket (K : Constants) (e : Env) (s : State)
    (i : String) (o : eWifiIfaceOperation) :
    (set_wifi_iface_state K e s i o).2.backhaul_manager_socket = s.backhaul_manager_socket := by
  unfold set_wifi_iface_state
  simp only [send_cmdu_snd]
  (repeat' split) <;> rfl

theorem fsm_case_attach (K : Constants) (e : Env) (s : State)
    (hm : s.master_socket = none)
    (ht : (fsm_case K e s STATE_BACKHAUL_MANAGER_CONNECTED).state.master_socket ≠ none) :
    (fsm_case K e s STATE_BACKHAUL_MANAGER_CONNECTED).state.master_socket
      = s.backhaul_manager_socket ∧
    ((fsm_case K e s STATE_BACKHAUL_MANAGER_CONNECTED).state.slave_state = STATE_JOIN_MASTER ∨
      (fsm_case K e s STATE_BACKHAUL_MANAGER_CONNECTED).state.slave_state
        = STATE_OPERATIONAL) := by
  revert ht
  simp only [fsm_case]
  (repeat' split) <;>
    simp_all [fsm_break, fsm_fail, send_vs_eq, slave_reset_master_of_none,
      platform_notify_error_eq, frame_set_wifi_iface_state,
      set_wifi_iface_state_backhaul_socket]

theorem link_handle_cmdu (K : Constants) (e : Env) (s : State) (sd : SocketId)
    (cmdu_rx : CmduRx) :
    keeps_link s (handle_cmdu K e s sd cmdu_rx).2 ∨
    ((∃ vs : VsRx, cmdu_rx = .VENDOR_SPECIFIC_MESSAGE (some vs) ∧
        vs.body = .ACTION_APMANAGER .ACTION_APMANAGER_INIT_DONE_NOTIFICATION) ∧
      (handle_cmdu K e s sd cmdu_rx).2.slave_state = STATE_WAIT_FOR_AP_MANAGER_JOINED ∧
      (handle_cmdu K e s sd cmdu_rx).2.master_socket = s.master_socket) := by
  unfold handle_cmdu
  split
  · exact Or.inl (keeps_link_refl s)
  · rename_i vs
    split
    · exact Or.inl (link_handle_cmdu_control_message _ _ _ _ _ _ _)
    · exact Or.inl (link_handle_cmdu_backhaul_manager_message _ _ _ _ _ _ _)
    · exact Or.inl (link_handle_cmdu_platform_manager_message _ _ _ _ _ _ _)
    · rename_i op hb
      by_cases hop : op = .ACTION_APMANAGER_INIT_DONE_NOTIFICATION
      · subst hop
        by_cases hk : keeps_link s (handle_cmdu_ap_manager_message K e s sd vs.header vs.cls_ok
            .ACTION_APMANAGER_INIT_DONE_NOTIFICATION).2
        · exact Or.inl hk
        · refine Or.inr ⟨⟨vs, rfl, hb⟩, ?_⟩
          revert hk
          unfold handle_cmdu_ap_manager_message
          (repeat' split) <;> intro hk <;>
            first
              | exact absurd (keeps_link_refl s) hk
              | exact ⟨rfl, rfl⟩
      · exact Or.inl (link_handle_cmdu_ap_manager_message _ _ _ _ _ _ _ hop)
    · exact Or.inl (link_handle_cmdu_monitor_message _ _ _ _ _ _ _)
    · exact Or.inl (keeps_link_refl s)
  · exact Or.inl (link_handle_cmdu_control_ieee1905_1_message _ _ _ _ _ _ _)

theorem slave_reset_master (K : Constants) (e : Env) (s : State) :
    (slave_reset K e s).master_socket
      = (if s.detach_on_conf_change = true then s.master_socket else none) := by
  unfold slave_reset
  simp only [hostap_services_off, platform_manager_stop, ap_manager_stop, monitor_stop,
    backhaul_manager_stop, platform_notify_error]
  split_ifs <;> simp_all

/-- C33, the sentence as the specification has it fails: the joined supervisor (controller
on socket 12, `STATE_OPERATIONAL`) goes through a Wifi configuration change during which
the monitor socket disconnects. The disconnect sets `detach_on_conf_change`, and the reset
at the end of the configuration change therefore leaves the backhaul manager and controller
sockets attached while the FSM goes back to `STATE_INIT`: the controller endpoint is
non-null in a state before `STATE_BACKHAUL_MANAGER_CONNECTED`. And without any reset: the
joined supervisor that receives an `ACTION_APMANAGER_INIT_DONE_NOTIFICATION` from its AP
manager (socket 13) goes to `STATE_WAIT_FOR_AP_MANAGER_JOINED` with the controller
endpoint attached. -/
theorem controller_attached_in_init :
    controller_link_ok s_operational = true ∧
    controller_link_ok (steps K0 env0 s_operational (conf_change_events.take 2)) = true ∧
    (steps K0 env0 s_operational (conf_change_events.take 2)).detach_on_conf_change = true ∧
    (steps K0 env0 s_operational conf_change_events).slave_resets_counter
      = s_operational.slave_resets_counter + 1 ∧
    (steps K0 env0 s_operational conf_change_events).master_socket = some 12 ∧
    (steps K0 env0 s_operational conf_change_events).slave_state = STATE_INIT ∧
    controller_link_ok (steps K0 env0 s_operational conf_change_events) = false ∧
    (step K0 env0 s_operational (.cmdu 13 apmanager_init_done)).slave_resets_counter
      = s_operational.slave_resets_counter ∧
    (step K0 env0 s_operational (.cmdu 13 apmanager_init_done)).master_socket = some 12 ∧
    (step K0 env0 s_operational (.cmdu 13 apmanager_init_done)).slave_state
      = STATE_WAIT_FOR_AP_MANAGER_JOINED ∧
    controller_link_ok (step K0 env0 s_operational (.cmdu 13 apmanager_init_done))
      = false := by
  decide

/-- C33, as the code has it. (1) The controller endpoint becomes non-null only in the FSM
step taken in `STATE_BACKHAUL_MANAGER_CONNECTED`, where it is set to the backhaul manager
socket and the step ends in `STATE_JOIN_MASTER` or `STATE_OPERATIONAL`; no other FSM step,
no message handler and no disconnect attaches it. (2) An FSM step, message handler or
disconnect that runs no `slave_reset` keeps the implication that a non-null controller
endpoint goes with a state that is not before `STATE_BACKHAUL_MANAGER_CONNECTED`; the one
exception is the AP manager's `ACTION_APMANAGER_INIT_DONE_NOTIFICATION`, which sets
`STATE_WAIT_FOR_AP_MANAGER_JOINED` whatever the state was. (3) A `slave_reset` goes to
`STATE_STOPPED`, `STATE_WAIT_BERFORE_INIT` or `STATE_INIT`; it detaches the controller
endpoint when `detach_on_conf_change` is false and leaves it as it was when the flag is
set. -/
theorem controller_link_steps (K : Constants) (e : Env) (s : State) (ev : Event) :
    (s.master_socket = none → (step K e s ev).master_socket ≠ none →
      ev = .fsm_step ∧ s.slave_state = STATE_BACKHAUL_MANAGER_CONNECTED ∧
      (step K e s ev).master_socket = s.backhaul_manager_socket ∧
      ((step K e s ev).slave_state = STATE_JOIN_MASTER ∨
        (step K e s ev).slave_state = STATE_OPERATIONAL)) ∧
    (controller_link_ok s = true →
      (step K e s ev).slave_resets_counter = s.slave_resets_counter →
      controller_link_ok (step K e s ev) = true ∨
      ((∃ (sd : SocketId) (vs : VsRx),
          ev = .cmdu sd (.VENDOR_SPECIFIC_MESSAGE (some vs)) ∧
          vs.body = .ACTION_APMANAGER .ACTION_APMANAGER_INIT_DONE_NOTIFICATION) ∧
        (step K e s ev).slave_state = STATE_WAIT_FOR_AP_MANAGER_JOINED)) ∧
    ((slave_reset K e s).master_socket
      = (if s.detach_on_conf_change = true then s.master_socket else none)) ∧
    ((slave_reset K e s).slave_state = STATE_STOPPED ∨
      (slave_reset K e s).slave_state = STATE_WAIT_BERFORE_INIT ∨
      (slave_reset K e s).slave_state = STATE_INIT) := by
  refine ⟨?_, ?_, slave_reset_master K e s, slave_reset_state_cases K e s⟩
  · intro hm ht
    cases ev with
    | cmdu sd cmdu_rx =>
      exfalso
      apply ht
      rcases link_handle_cmdu K e s sd cmdu_rx with h | h
      · exact h.1 hm
      · exact h.2.2.trans hm
    | disconnected sd =>
      exact absurd ((link_socket_disconnected K e s sd).1 hm) ht
    | fsm_step =>
      by_cases hst : s.slave_state = STATE_BACKHAUL_MANAGER_CONNECTED
      · have h3 : ∀ st : eSlaveState, st = STATE_BACKHAUL_MANAGER_CONNECTED →
            (fsm_case K e { s with fsm_runs := s.fsm_runs + 1 } st).state.master_socket ≠ none →
            (fsm_case K e { s with fsm_runs := s.fsm_runs + 1 } st).state.master_socket
              = s.backhaul_manager_socket ∧
            ((fsm_case K e { s with fsm_runs := s.fsm_runs + 1 } st).state.slave_state
                = STATE_JOIN_MASTER ∨
              (fsm_case K e { s with fsm_runs := s.fsm_runs + 1 } st).state.slave_state
                = STATE_OPERATIONAL) := by
          intro st h1 h2
          subst h1
          exact fsm_case_attach K e { s with fsm_runs := s.fsm_runs + 1 } hm h2
        exact ⟨rfl, hst, h3 s.slave_state hst ht⟩
      · exact absurd (fsm_case_no_attach K e { s with fsm_runs := s.fsm_runs + 1 }
          s.slave_state hst hm) ht
  · intro hok hc
    cases ev with
    | cmdu sd cmdu_rx =>
      rcases link_handle_cmdu K e s sd cmdu_rx with h | h
      · exact Or.inl (h.2 hc hok)
      · obtain ⟨⟨vs, h1, h2⟩, h3, _⟩ := h
        exact Or.inr ⟨⟨sd, vs, by rw [h1], h2⟩, h3⟩
    | disconnected sd =>
      exact Or.inl ((link_socket_disconnected K e s sd).2 hc hok)
    | fsm_step =>
      exact Or.inl (fsm_case_link_ok K e { s with fsm_runs := s.fsm_runs + 1 } s.slave_state
        rfl hc hok)

/-- C33, at a concrete input: a reset of the operational supervisor detaches the controller
endpoint (socket 12); with `detach_on_conf_change` set the same reset leaves it attached. -/
theorem controller_link_steps_witness :
    s_operational.master_socket = some 12 ∧
    (slave_reset K0 env0 s_operational).master_socket = none ∧
    (slave_reset K0 env0 s_detach).master_socket = some 12 :=
  ⟨rfl,
    (controller_link_steps K0 env0 s_operational .fsm_step).2.2.1,
    (controller_link_steps K0 env0 s_detach .fsm_step).2.2.1⟩

/-! ## Where a reset inside an FSM step leaves the state -/

theorem process_keep_alive_reset_state (K : Constants) (e : Env) (s : State)
    (hc : (process_keep_alive K e s).slave_resets_counter ≠ s.slave_resets_counter) :
    (process_keep_alive K e s).slave_state = STATE_STOPPED ∨
    (process_keep_alive K e s).slave_state = STATE_WAIT_BERFORE_INIT ∨
    (process_keep_alive K e s).slave_state = STATE_INIT := by
  revert hc
  unfold process_keep_alive
  (repeat' split) <;> intro hc <;>
    first
      | exact slave_reset_state_cases K e _
      | (exfalso; apply hc; simp [send_cmdu_to_controller_snd, send_vs_to_controller_eq])

set_option maxHeartbeats 4000000 in
theorem fsm_case_reset_state (K : Constants) (e : Env) (s : State) (st : eSlaveState)
    (hst : st ≠ STATE_SEND_BACKHAUL_MANAGER_ENABLE)
    (hc : (fsm_case K e s st).state.slave_resets_counter ≠ s.slave_resets_counter) :
    (fsm_case K e s st).state.slave_state = STATE_STOPPED ∨
    (fsm_case K e s st).state.slave_state = STATE_WAIT_BERFORE_INIT ∨
    (fsm_case K e s st).state.slave_state = STATE_INIT := by
  have hk := process_keep_alive_reset_state K e
    { s with stop_on_failure_attempts := s.configuration_stop_on_failure_attempts }
  revert hc
  cases st <;> simp only [fsm_case] <;> (try contradiction) <;> (repeat' split) <;>
    intro hc <;>
    first
      | exact hk hc
      | (simp only [fsm_break, fsm_fail]; exact slave_reset_state_cases K e _)
      | (exfalso; apply hc
         simp [fsm_break, fsm_return_false, monitor_start, monitor_stop,
          send_vs_eq, send_cmdu_snd, send_cmdu_to_controller_snd,
          frame_set_wifi_iface_state, frame_ap_manager_start,
          frame_send_platform_iface_status_notif, platform_notify_error_eq])

/-! ## tlvf: `sVendorOUI` round trip -/

theorem and_255 (x : Nat) : x &&& 255 = x % 256 :=
  Nat.and_pow_two_sub_one_eq_mod x 8

theorem xor_lt_256 (a b : Nat) (ha : a < 256) (hb : b < 256) : a ^^^ b < 256 :=
  Nat.xor_lt_two_pow (n := 8) ha hb

theorem xor_swap_left (a b : Nat) : b ^^^ (a ^^^ b) = a := by
  rw [Nat.xor_comm a b, ← Nat.xor_assoc, Nat.xor_self, Nat.zero_xor]

theorem xor_swap_right (a b : Nat) : (a ^^^ b) ^^^ a = b := by
  rw [Nat.xor_comm a b, Nat.xor_assoc, Nat.xor_self, Nat.xor_zero]

theorem of_uint32_fields (v : Nat) :
    sVendorOUI.of_uint32 v
      = { upper := v / 65536 % 256, middle := v / 256 % 256, lower := v % 256 } := by
  simp only [sVendorOUI.of_uint32, and_255, Nat.shiftRight_eq_div_pow]

theorem to_uint32_value (o : sVendorOUI) (h : o.in_range = true) :
    o.to_uint32 = o.upper * 65536 + o.middle * 256 + o.lower := by
  simp only [sVendorOUI.in_range, Bool.and_eq_true, decide_eq_true_eq] at h
  simp only [sVendorOUI.to_uint32, Nat.shiftLeft_eq]
  norm_num
  omega

theorem struct_swap_fields (o : sVendorOUI) (h : o.in_range = true) :
    o.struct_swap = { upper := o.lower, middle := o.middle, lower := o.upper } := by
  simp only [sVendorOUI.in_range, Bool.and_eq_true, decide_eq_true_eq] at h
  obtain ⟨⟨hu, hm⟩, hl⟩ := h
  have h1 : (o.upper ^^^ o.lower) % 256 = o.upper ^^^ o.lower :=
    Nat.mod_eq_of_lt (xor_lt_256 _ _ hu hl)
  simp only [sVendorOUI.struct_swap, h1, xor_swap_left, xor_swap_right, Nat.mod_eq_of_lt hu,
    Nat.mod_eq_of_lt hl]

/-- C40: `sVendorOUI` holds a 24-bit value, most significant byte first. For every
`uint32_t` v the conversion back gives v mod 2^24, so the round trip is the identity below
2^24; for every `sVendorOUI` o (three bytes), constructing from the converted value gives
the same upper, middle and lower bytes; `struct_swap` exchanges upper and lower, leaves
middle as it is and is its own inverse. -/
theorem sVendorOUI_round_trip (v : Nat) (o : sVendorOUI) (ho : o.in_range = true) :
    (sVendorOUI.of_uint32 v).to_uint32 = v % 16777216 ∧
    (v < 16777216 → (sVendorOUI.of_uint32 v).to_uint32 = v) ∧
    (sVendorOUI.of_uint32 v).in_range = true ∧
    sVendorOUI.of_uint32 o.to_uint32 = o ∧
    o.struct_swap = { upper := o.lower, middle := o.middle, lower := o.upper } ∧
    o.struct_swap.struct_swap = o := by
  have hv : (sVendorOUI.of_uint32 v).in_range = true := by
    rw [of_uint32_fields]
    simp only [sVendorOUI.in_range, Bool.and_eq_true, decide_eq_true_eq]
    omega
  have h1 : (sVendorOUI.of_uint32 v).to_uint32 = v % 16777216 := by
    rw [to_uint32_value _ hv, of_uint32_fields]
    simp only []
    omega
  have hs : o.struct_swap.in_range = true := by
    rw [struct_swap_fields o ho]
    simp only [sVendorOUI.in_range, Bool.and_eq_true, decide_eq_true_eq] at ho ⊢
    omega
  refine ⟨h1, ?_, hv, ?_, struct_swap_fields o ho, ?_⟩
  · intro h
    rw [h1]
    exact Nat.mod_eq_of_lt h
  · rw [to_uint32_value o ho, of_uint32_fields]
    simp only [sVendorOUI.in_range, Bool.and_eq_true, decide_eq_true_eq] at ho
    obtain ⟨⟨hu, hm⟩, hl⟩ := ho
    cases o with
    | mk u m l =>
      simp only [sVendorOUI.mk.injEq] at *
      omega
  · rw [struct_swap_fields _ hs, struct_swap_fields o ho]

/-- C40, at concrete inputs: the value 0x12ABCDEF is cut to 0xABCDEF, whose bytes are
0xAB, 0xCD, 0xEF; swapping exchanges 0xAB and 0xEF. -/
theorem sVendorOUI_round_trip_witness :
    (sVendorOUI.of_uint32 313249263).to_uint32 = 11259375 ∧
    sVendorOUI.of_uint32 11259375 = { upper := 171, middle := 205, lower := 239 } ∧
    (sVendorOUI.struct_swap { upper := 171, middle := 205, lower := 239 })
      = { upper := 239, middle := 205, lower := 171 } :=
  ⟨(sVendorOUI_round_trip 313249263 { upper := 171, middle := 205, lower := 239 }
      (by decide)).1,
    by decide,
    (sVendorOUI_round_trip 313249263 { upper := 171, middle := 205, lower := 239 }
      (by decide)).2.2.2.2.1⟩

/-! ## `cMacList` in build mode -/

theorem remaining_of_le (K : TlvConstants) (b : BaseClass)
    (h1 : b.m_buff_ptr__ ≤ b.m_buff__ + b.m_buff_len__)
    (h2 : b.m_buff__ ≤ b.m_buff_ptr__)
    (h3 : b.m_buff_len__ < 2 ^ K.size_bits) :
    b.getBuffRemainingBytes K = b.m_buff__ + b.m_buff_len__ - b.m_buff_ptr__ := by
  unfold BaseClass.getBuffRemainingBytes
  have h4 : b.m_buff__ + b.m_buff_len__ + 2 ^ K.size_bits - b.m_buff_ptr__
      = (b.m_buff__ + b.m_buff_len__ - b.m_buff_ptr__) + 2 ^ K.size_bits := by omega
  rw [h4, Nat.add_mod_right]
  apply Nat.mod_eq_of_lt
  omega

theorem cMacList_construct_build (K : TlvConstants) (p len : Nat) (mem : Mem)
    (hk : K.kMinimumLength ≤ len) (h1 : 1 ≤ len) (hs : len < 2 ^ K.size_bits) :
    cMacList.construct K p len false false mem = (mac_list_built p len 0, write mem p 0) := by
  have hr : (BaseClass.construct p len false false).getBuffRemainingBytes K = len := by
    rw [remaining_of_le K _ (by simp [BaseClass.construct]) (by simp [BaseClass.construct])
      (by simpa [BaseClass.construct] using hs)]
    simp [BaseClass.construct]
  unfold cMacList.construct cMacList.init
  simp only [hr]
  rw [if_neg (by omega)]
  have hread : read8 (write mem p 0) p = 0 := by simp [read8, write]
  simp only [BaseClass.construct, Bool.false_eq_true, not_false_eq_true, if_true, hread,
    Nat.mul_zero, Nat.add_zero, false_and, if_false]
  rw [if_neg (by omega)]
  rfl

theorem mac_list_built_remaining (K : TlvConstants) (p len n : Nat)
    (h1 : 1 + 6 * n ≤ len) (hs : len < 2 ^ K.size_bits) :
    (mac_list_built p len n).base.getBuffRemainingBytes K = len - 1 - 6 * n := by
  rw [remaining_of_le K _ (by simp [mac_list_built, sizeof_sMacAddr]; omega)
    (by simp [mac_list_built, sizeof_sMacAddr]; omega) (by simpa [mac_list_built] using hs)]
  simp [mac_list_built, sizeof_sMacAddr]
  omega

theorem alloc_mac_list_built (K : TlvConstants) (p len n count : Nat) (mem : Mem)
    (h1 : 1 + 6 * n ≤ len) (hs : len < 2 ^ K.size_bits)
    (hc : 6 * count < 2 ^ K.size_bits) :
    (mac_list_built p len n).alloc_mac_list K mem count =
      (if count = 0 ∨ len - 1 - 6 * n < 6 * count then
        some (false, mac_list_built p len n, mem)
       else
        some (true, mac_list_built p len (n + count),
          write mem p ((read8 mem p + count) % 256))) := by
  unfold cMacList.alloc_mac_list
  rw [mac_list_built_remaining K p len n h1 hs]
  have hlen : (sizeof_sMacAddr * count) % 2 ^ K.size_bits = 6 * count := by
    rw [sizeof_sMacAddr]
    exact Nat.mod_eq_of_lt hc
  rw [hlen]
  by_cases h0 : count = 0
  · simp [h0]
  · by_cases hfit : len - 1 - 6 * n < 6 * count
    · simp [h0, hfit]
    · have hidx : (n + count) % 2 ^ K.size_bits = n + count := by
        apply Nat.mod_eq_of_lt
        omega
      simp only [h0, hfit, or_self, if_false, mac_list_built, sizeof_sMacAddr]
      rw [hidx]
      have h6 : p + 1 + 6 * n + 6 * count = p + 1 + 6 * (n + count) := by omega
      rw [h6]

theorem read8_write_self (mem : Mem) (p v : Nat) : read8 (write mem p v) p = v % 256 := by
  simp [read8, write]

theorem read8_write_ne (mem : Mem) (p q v : Nat) (h : q ≠ p) :
    read8 (write mem p v) q = read8 mem q := by
  simp [read8, write, h]

theorem read16_write_self (mem : Mem) (p v : Nat) : read16 (write mem p v) p = v % 65536 := by
  simp [read16, write]

theorem read16_write_ne (mem : Mem) (p q v : Nat) (h : q ≠ p) :
    read16 (write mem p v) q = read16 mem q := by
  simp [read16, write, h]

theorem alloc_seq_built (K : TlvConstants) (p len : Nat) (hs : len < 2 ^ K.size_bits)
    (counts : List Nat) (hc : ∀ c ∈ counts, 6 * c < 2 ^ K.size_bits) :
    ∀ (n : Nat) (mem : Mem), 1 + 6 * n ≤ len →
      ∃ (m : Mem) (total : Nat),
        alloc_seq K (mac_list_built p len n) mem counts
          = some (mac_list_built p len (n + total), m, total) ∧
        1 + 6 * (n + total) ≤ len ∧
        read8 m p = (read8 mem p + total) % 256 ∧
        (∀ q, q ≠ p → m q = mem q) := by
  induction counts with
  | nil =>
    intro n mem h1
    refine ⟨mem, 0, rfl, h1, ?_, fun _ _ => rfl⟩
    simp [read8]
  | cons count rest ih =>
    intro n mem h1
    have hc0 : 6 * count < 2 ^ K.size_bits := hc count (List.mem_cons_self _ _)
    have hrest : ∀ c ∈ rest, 6 * c < 2 ^ K.size_bits :=
      fun c h => hc c (List.mem_cons_of_mem _ h)
    have hstep := alloc_mac_list_built K p len n count mem h1 hs hc0
    by_cases hfail : count = 0 ∨ len - 1 - 6 * n < 6 * count
    · rw [if_pos hfail] at hstep
      obtain ⟨m, total, h2, h3, h4, h5⟩ := ih hrest n mem h1
      refine ⟨m, total, ?_, h3, h4, h5⟩
      simp only [alloc_seq, hstep, h2]
      simp
    · rw [if_neg hfail] at hstep
      have h1b : 1 + 6 * (n + count) ≤ len := by omega
      obtain ⟨m, total, h2, h3, h4, h5⟩ :=
        ih hrest (n + count) (write mem p ((read8 mem p + count) % 256)) h1b
      refine ⟨m, count + total, ?_, by omega, ?_, ?_⟩
      · simp only [alloc_seq, hstep, h2]
        simp [Nat.add_assoc]
      · rw [h4, read8_write_self]
        omega
      · intro q hq
        rw [h5 q hq]
        simp [write, hq]

theorem alloc_all_built (K : TlvConstants) (p len : Nat) (hs : len < 2 ^ K.size_bits)
    (counts : List Nat) (hpos : ∀ c ∈ counts, 0 < c) :
    ∀ (n : Nat) (mem : Mem), 1 + 6 * (n + counts.sum) ≤ len →
      ∃ m : Mem,
        alloc_all K (mac_list_built p len n) mem counts
          = some (mac_list_built p len (n + counts.sum), m) ∧
        (∀ q, q ≠ p → m q = mem q) := by
  induction counts with
  | nil =>
    intro n mem _
    exact ⟨mem, rfl, fun _ _ => rfl⟩
  | cons count rest ih =>
    intro n mem h1
    simp only [List.sum_cons] at h1
    have hc0 : 6 * count < 2 ^ K.size_bits := by omega
    have hp : 0 < count := hpos count (List.mem_cons_self _ _)
    have hrest : ∀ c ∈ rest, 0 < c := fun c h => hpos c (List.mem_cons_of_mem _ h)
    have hstep := alloc_mac_list_built K p len n count mem (by omega) hs hc0
    rw [if_neg (by omega)] at hstep
    obtain ⟨m, h2, h3⟩ :=
      ih hrest (n + count) (write mem p ((read8 mem p + count) % 256)) (by omega)
    refine ⟨m, ?_, ?_⟩
    · simp only [alloc_all, hstep, h2, List.sum_cons, Nat.add_assoc]
    · intro q hq
      rw [h3 q hq]
      simp [write, hq]

/-! ## Allocation in a `cMacList` -/

/-- C39, the sentence as the specification has it fails. A list in build mode over a
buffer of 2048 bytes takes one `alloc_mac_list(256)`: the call succeeds, 256 entries are
allocated, but `mac_list_length()`, a `uint8_t`, reads 0, and `mac_list(0)` reports success
although 0 is not below `mac_list_length()`. And over a buffer of 3 bytes, where 2 bytes
remain, `alloc_mac_list(3074457345618258603)` succeeds: six times the count is 2^64 + 2,
which is 2 as a `size_t` of 64 bits. -/
theorem mac_list_length_wraps :
    (alloc_seq K0t (cMacList.construct K0t 0 2048 false false mem0).1
      (cMacList.construct K0t 0 2048 false false mem0).2 [256]).map (fun r => r.2.2)
      = some 256 ∧
    (alloc_seq K0t (cMacList.construct K0t 0 2048 false false mem0).1
      (cMacList.construct K0t 0 2048 false false mem0).2 [256]).bind
        (fun r => r.1.mac_list_length r.2.1) = some 0 ∧
    (alloc_seq K0t (cMacList.construct K0t 0 2048 false false mem0).1
      (cMacList.construct K0t 0 2048 false false mem0).2 [256]).map
        (fun r => (r.1.mac_list 0).1) = some true ∧
    (cMacList.construct K0t 0 3 false false mem0).1.base.getBuffRemainingBytes K0t = 2 ∧
    ((cMacList.construct K0t 0 3 false false mem0).1.alloc_mac_list K0t
      (cMacList.construct K0t 0 3 false false mem0).2 3074457345618258603).map
        (fun r => r.1) = some true := by
  decide

/-- C39, as the code has it: a `cMacList` constructed in build mode over a buffer of at
least one byte (and of `kMinimumLength`) is initialised and holds no entry. A call
`alloc_mac_list(count)`, with 6 * count in the range of `size_t`, fails and changes nothing
when count = 0 or fewer than 6 * count bytes remain, and succeeds otherwise. After every
sequence of such calls `mac_list(idx)` reports success exactly for idx below the number of
entries of the calls that succeeded, and `mac_list_length()` is that number modulo 256,
the number itself while it is below 256. -/
theorem alloc_mac_list_lengths (K : TlvConstants) (p len : Nat) (mem : Mem)
    (counts : List Nat)
    (hk : K.kMinimumLength ≤ len) (h1 : 1 ≤ len) (hs : len < 2 ^ K.size_bits)
    (hc : ∀ c ∈ counts, 6 * c < 2 ^ K.size_bits) :
    (cMacList.construct K p len false false mem).1 = mac_list_built p len 0 ∧
    (∀ (n count : Nat) (m : Mem), 1 + 6 * n ≤ len → 6 * count < 2 ^ K.size_bits →
      ((count = 0 ∨ (mac_list_built p len n).base.getBuffRemainingBytes K < 6 * count) →
        (mac_list_built p len n).alloc_mac_list K m count
          = some (false, mac_list_built p len n, m)) ∧
      (¬ (count = 0 ∨ (mac_list_built p len n).base.getBuffRemainingBytes K < 6 * count) →
        ∃ m1 : Mem, (mac_list_built p len n).alloc_mac_list K m count
          = some (true, mac_list_built p len (n + count), m1))) ∧
    (∃ (m : Mem) (total : Nat),
      alloc_seq K (cMacList.construct K p len false false mem).1
          (cMacList.construct K p len false false mem).2 counts
        = some (mac_list_built p len total, m, total) ∧
      1 + 6 * total ≤ len ∧
      (mac_list_built p len total).mac_list_length m = some (total % 256) ∧
      (total < 256 → (mac_list_built p len total).mac_list_length m = some total) ∧
      (∀ idx : Nat, ((mac_list_built p len total).mac_list idx).1 = decide (idx < total))) := by
  have hcon := cMacList_construct_build K p len mem hk h1 hs
  refine ⟨by rw [hcon], ?_, ?_⟩
  · intro n count m hn hcount
    have hstep := alloc_mac_list_built K p len n count m hn hs hcount
    rw [mac_list_built_remaining K p len n hn hs]
    constructor
    · intro h
      rw [hstep, if_pos h]
    · intro h
      rw [hstep, if_neg h]
      exact ⟨_, rfl⟩
  · obtain ⟨m, total, h2, h3, h4, _⟩ :=
      alloc_seq_built K p len hs counts hc 0 (write mem p 0) (by omega)
    rw [hcon]
    simp only [Nat.zero_add] at h2 h3
    have hlen : (mac_list_built p len total).mac_list_length m = some (total % 256) := by
      simp only [cMacList.mac_list_length, mac_list_built, Option.map_some', h4,
        read8_write_self]
      simp
    refine ⟨m, total, h2, h3, hlen, ?_, ?_⟩
    · intro ht
      rw [hlen, Nat.mod_eq_of_lt ht]
    · intro idx
      simp only [cMacList.mac_list, mac_list_built, gt_iff_lt]
      by_cases hi : idx < total
      · have h0 : 0 < total := by omega
        simp [hi, h0]
      · simp [hi]

/-- C39, at a concrete input: over a buffer of 32 bytes the calls `alloc_mac_list(2)`,
`alloc_mac_list(0)`, `alloc_mac_list(9)` and `alloc_mac_list(1)` allocate 2 and 1 entries;
the call for no entry and the call for 9 entries, which do not fit, fail. -/
theorem alloc_mac_list_lengths_witness :
    ∃ m : Mem,
      alloc_seq K0t (cMacList.construct K0t 0 32 false false mem0).1
          (cMacList.construct K0t 0 32 false false mem0).2 [2, 0, 9, 1]
        = some (mac_list_built 0 32 3, m, 3) ∧
      (mac_list_built 0 32 3).mac_list_length m = some 3 := by
  obtain ⟨m, total, h1, _, _, h4, _⟩ :=
    (alloc_mac_list_lengths K0t 0 32 mem0 [2, 0, 9, 1] (by decide) (by decide) (by decide)
      (by decide)).2.2
  have ht : total = 3 := by
    have h2 : (alloc_seq K0t (cMacList.construct K0t 0 32 false false mem0).1
        (cMacList.construct K0t 0 32 false false mem0).2 [2, 0, 9, 1]).map (fun r => r.2.2)
        = some 3 := by decide
    rw [h1] at h2
    simpa using h2
  subst ht
  exact ⟨m, h1, h4 (by decide)⟩

/-! ## `tlvDeviceBridgingCapability` in build mode -/

theorem tlv_built_remaining (K : TlvConstants) (b len S k : Nat) (v : List cMacList)
    (h1 : 4 + S ≤ len) (hs : len < 2 ^ K.size_bits) :
    (tlv_built b len S k v).base.getBuffRemainingBytes K = len - 4 - S := by
  rw [remaining_of_le K _ (by simp [tlv_built]; omega) (by simp [tlv_built]; omega)
    (by simpa [tlv_built] using hs)]
  simp [tlv_built]
  omega

theorem create_bridging_tuples_list_built (K : TlvConstants) (b len S k : Nat)
    (v : List cMacList) (mem : Mem)
    (h1 : K.kMinimumLength + 4 + S + 1 ≤ len) (hs : len < 2 ^ K.size_bits) :
    (tlv_built b len S k v).create_bridging_tuples_list K mem
      = (some (mac_list_built (b + 4 + S) (len - 4 - S) 0), tlv_locked b len S k v,
          write mem (b + 4 + S) 0) := by
  have hrem := tlv_built_remaining K b len S k v (by omega) hs
  have hcon := cMacList_construct_build K (b + 4 + S) (len - 4 - S) mem (by omega) (by omega)
    (by omega)
  unfold tlvDeviceBridgingCapability.create_bridging_tuples_list
  have hlock : (tlv_built b len S k v).base.m_lock_allocation__ = false := rfl
  simp only [cMacList.get_initial_size]
  rw [if_neg (by rw [hlock, hrem]; simp; omega)]
  change (some (cMacList.construct K (b + 4 + S)
      ((tlv_built b len S k v).base.getBuffRemainingBytes K) false false mem).1,
    tlv_locked b len S k v,
    (cMacList.construct K (b + 4 + S)
      ((tlv_built b len S k v).base.getBuffRemainingBytes K) false false mem).2) = _
  rw [hrem, hcon]

theorem add_bridging_tuples_list_built (K : TlvConstants) (b len S k n : Nat)
    (v : List cMacList) (mem : Mem)
    (h1 : 4 + S + 1 + 6 * n ≤ len) (hs : len < 2 ^ K.size_bits) (hk : k + 1 < 2 ^ K.size_bits) :
    (tlv_locked b len S k v).add_bridging_tuples_list K mem
        (some (mac_list_built (b + 4 + S) (len - 4 - S) n))
      = some (true,
          tlv_built b len (S + (1 + 6 * n)) (k + 1)
            (v ++ [mac_list_built (b + 4 + S) (len - 4 - S) n]),
          write (write mem (b + 3) ((read8 mem (b + 3) + 1) % 256)) (b + 1)
            ((read16 (write mem (b + 3) ((read8 mem (b + 3) + 1) % 256)) (b + 1)
              + (1 + 6 * n)) % 65536)) := by
  have hrem : (tlv_locked b len S k v).base.getBuffRemainingBytes K = len - 4 - S :=
    tlv_built_remaining K b len S k v (by omega) hs
  have hidx : (k + 1) % 2 ^ K.size_bits = k + 1 := Nat.mod_eq_of_lt hk
  have hlen : (mac_list_built (b + 4 + S) (len - 4 - S) n).base.getLen = 1 + 6 * n := by
    simp [BaseClass.getLen, mac_list_built, sizeof_sMacAddr]
    omega
  unfold tlvDeviceBridgingCapability.add_bridging_tuples_list
  simp only [hrem, hlen]
  have hlock : (tlv_locked b len S k v).base.m_lock_allocation__ = true := rfl
  have hptr : (tlv_locked b len S k v).base.getBuffPtr = b + 4 + S := rfl
  have hstart : (mac_list_built (b + 4 + S) (len - 4 - S) n).base.getStartBuffPtr
      = b + 4 + S := rfl
  have hparse : (tlv_locked b len S k v).base.m_parse__ = false := rfl
  rw [if_neg (by rw [hlock]; simp), if_neg (by rw [hptr, hstart]; simp),
    if_neg (by omega)]
  simp only [hparse, Bool.false_eq_true, not_false_eq_true, if_true, tlv_locked, tlv_built,
    hidx]
  have h6 : b + 4 + S + (1 + 6 * n) = b + 4 + (S + (1 + 6 * n)) := by omega
  rw [h6]

theorem tlv_construct_build (K : TlvConstants) (b len : Nat) (mem : Mem)
    (hk : K.kMinimumLength ≤ len) (h4 : 4 ≤ len) (hs : len < 2 ^ K.size_bits) :
    ∃ m : Mem,
      tlvDeviceBridgingCapability.construct K b len false false mem
        = some (tlv_built b len 0 0 [], m) ∧
      read8 m b = K.TLV_DEVICE_BRIDGING_CAPABILITY % 256 ∧
      read16 m (b + 1) = 1 ∧ read8 m (b + 3) = 0 := by
  have hr : (BaseClass.construct b len false false).getBuffRemainingBytes K = len := by
    rw [remaining_of_le K _ (by simp [BaseClass.construct]) (by simp [BaseClass.construct])
      (by simpa [BaseClass.construct] using hs)]
    simp [BaseClass.construct]
  unfold tlvDeviceBridgingCapability.construct tlvDeviceBridgingCapability.init
  simp only [hr]
  rw [if_neg (by omega)]
  simp only [BaseClass.construct, Bool.false_eq_true, not_false_eq_true, if_true, false_and,
    if_false, read8_write_self, read16_write_self,
    read8_write_ne _ _ _ _ (show b + 3 ≠ b + 1 by omega)]
  unfold tlvDeviceBridgingCapability.init_loop
  simp only [read8_write_self, read8_write_ne _ _ _ _ (show b + 3 ≠ b + 1 by omega),
    Nat.zero_mod, Nat.lt_irrefl, if_false, Bool.true_eq_false]
  rw [if_neg (by omega)]
  simp only [Bool.false_eq_true, false_and, if_false]
  refine ⟨_, rfl, ?_, ?_, ?_⟩
  · rw [read8_write_ne _ _ _ _ (show b ≠ b + 1 by omega),
      read8_write_ne _ _ _ _ (show b ≠ b + 3 by omega),
      read8_write_ne _ _ _ _ (show b ≠ b + 1 by omega), read8_write_self]
    simp
  · rw [read16_write_self, read16_write_ne _ _ _ _ (show b + 1 ≠ b + 3 by omega),
      read16_write_self]
  · rw [read8_write_ne _ _ _ _ (show b + 3 ≠ b + 1 by omega), read8_write_self]

theorem build_cycle_built (K : TlvConstants) (b len S k : Nat) (v : List cMacList)
    (mem : Mem) (counts : List Nat)
    (hpos : ∀ c ∈ counts, 0 < c)
    (hfit : K.kMinimumLength + 4 + S + tuple_size counts ≤ len)
    (hs : len < 2 ^ K.size_bits) (hk : k ≤ S) :
    ∃ m : Mem,
      build_cycle K (tlv_built b len S k v) mem counts
        = some (tlv_built b len (S + tuple_size counts) (k + 1)
            (v ++ [mac_list_built (b + 4 + S) (len - 4 - S) counts.sum]), m) ∧
      read8 m b = read8 mem b ∧
      read16 m (b + 1) = (read16 mem (b + 1) + tuple_size counts) % 65536 ∧
      read8 m (b + 3) = (read8 mem (b + 3) + 1) % 256 := by
  have hsz : tuple_size counts = 1 + 6 * counts.sum := rfl
  rw [hsz] at hfit ⊢
  have hcreate := create_bridging_tuples_list_built K b len S k v mem (by omega) hs
  obtain ⟨m1, hall, hother⟩ := alloc_all_built K (b + 4 + S) (len - 4 - S) (by omega)
    counts hpos 0 (write mem (b + 4 + S) 0) (by omega)
  simp only [Nat.zero_add] at hall
  have hadd := add_bridging_tuples_list_built K b len S k counts.sum v m1 (by omega) hs
    (by omega)
  refine ⟨write (write m1 (b + 3) ((read8 m1 (b + 3) + 1) % 256)) (b + 1)
      ((read16 (write m1 (b + 3) ((read8 m1 (b + 3) + 1) % 256)) (b + 1)
        + (1 + 6 * counts.sum)) % 65536), ?_, ?_, ?_, ?_⟩
  · unfold build_cycle
    simp only [hcreate, hall, hadd]
  · rw [read8_write_ne _ _ _ _ (show b ≠ b + 1 by omega),
      read8_write_ne _ _ _ _ (show b ≠ b + 3 by omega)]
    simp only [read8, hother b (by omega), write]
    rw [if_neg (by omega)]
  · rw [read16_write_self, read16_write_ne _ _ _ _ (show b + 1 ≠ b + 3 by omega)]
    simp only [read16, hother (b + 1) (by omega), write]
    rw [if_neg (by omega)]
    omega
  · rw [read8_write_ne _ _ _ _ (show b + 3 ≠ b + 1 by omega), read8_write_self]
    simp only [read8, hother (b + 3) (by omega), write]
    rw [if_neg (by omega)]
    omega

/-! ## Lengths of a built TLV, and of a parsed one -/

theorem build_cycles_built (K : TlvConstants) (b len : Nat) (hs : len < 2 ^ K.size_bits)
    (tuples : List (List Nat)) (hpos : ∀ counts ∈ tuples, ∀ c ∈ counts, 0 < c) :
    ∀ (S k : Nat) (v : List cMacList) (mem : Mem), k ≤ S →
      K.kMinimumLength + 4 + S + tuples_size tuples ≤ len →
      ∃ (m : Mem) (w : List cMacList),
        build_cycles K (tlv_built b len S k v) mem tuples
          = some (tlv_built b len (S + tuples_size tuples) (k + tuples.length) w, m) ∧
        read8 m b = read8 mem b ∧
        read16 m (b + 1) = (read16 mem (b + 1) + tuples_size tuples) % 65536 ∧
        read8 m (b + 3) = (read8 mem (b + 3) + tuples.length) % 256 := by
  induction tuples with
  | nil =>
    intro S k v mem _ _
    refine ⟨mem, v, rfl, rfl, ?_, ?_⟩
    · simp [tuples_size, read16]
    · simp [read8]
  | cons counts rest ih =>
    intro S k v mem hk hfit
    have hsz : tuples_size (counts :: rest) = tuple_size counts + tuples_size rest := by
      simp [tuples_size]
    rw [hsz] at hfit ⊢
    have h1 : 1 ≤ tuple_size counts := by
      unfold tuple_size
      omega
    obtain ⟨m1, hc1, hc2, hc3, hc4⟩ := build_cycle_built K b len S k v mem counts
      (hpos counts (List.mem_cons_self _ _)) (by omega) hs hk
    obtain ⟨m, w, hr1, hr2, hr3, hr4⟩ :=
      ih (fun cs h => hpos cs (List.mem_cons_of_mem _ h)) (S + tuple_size counts) (k + 1)
        (v ++ [mac_list_built (b + 4 + S) (len - 4 - S) counts.sum]) m1 (by omega) (by omega)
    refine ⟨m, w, ?_, ?_, ?_, ?_⟩
    · simp only [build_cycles, hc1, hr1, List.length_cons]
      have e1 : S + tuple_size counts + tuples_size rest
          = S + (tuple_size counts + tuples_size rest) := by omega
      have e2 : k + 1 + rest.length = k + (rest.length + 1) := by omega
      rw [e1, e2]
    · rw [hr2, hc2]
    · rw [hr3, hc3]
      omega
    · rw [hr4, hc4, List.length_cons]
      omega

set_option maxRecDepth 100000 in
/-- C37, the sentence as the specification has it fails: `length()` is a `uint16_t`. In a
buffer of 70000 bytes, 43 cycles that each put one tuple of 255 MAC addresses succeed; the
bytes written after the 3-byte header are 1 + 43 * (1 + 6 * 255) = 65834, and `length()`
reads 298. -/
theorem build_length_wraps :
    (build K0t 0 70000 mem0 (List.replicate 43 [255])).bind
      (fun r => r.1.bridging_tuples_list_length r.2) = some 43 ∧
    (build K0t 0 70000 mem0 (List.replicate 43 [255])).map (fun r => r.1.base.getLen)
      = some (3 + 65834) ∧
    (build K0t 0 70000 mem0 (List.replicate 43 [255])).bind (fun r => r.1.length r.2)
      = some 298 := by
  decide

/-- C37, as the code has it: building a `tlvDeviceBridgingCapability` (parse = false) in
a buffer that holds `kMinimumLength`, the 4 bytes of the fixed fields and the tuples: the
constructor and every create / alloc / add cycle succeed (tuple i is given as the counts
of its `alloc_mac_list` calls, all positive, n_i being their sum). Afterwards `type()` is
TLV_DEVICE_BRIDGING_CAPABILITY, `bridging_tuples_list_length()` is the number k of cycles
modulo 256 (so k while k < 256), `getLen()` is the 3 bytes of the header plus
1 + sum of (1 + 6 * n_i), and `length()` is 1 + sum of (1 + 6 * n_i) modulo 65536: the
number of bytes written after the header provided that number is below 65536. With no
cycle (the state after construction) the list length is 0 and `length()` is 1. -/
theorem build_lengths (K : TlvConstants) (b len : Nat) (mem : Mem)
    (tuples : List (List Nat))
    (htype : K.TLV_DEVICE_BRIDGING_CAPABILITY < 256)
    (hpos : ∀ counts ∈ tuples, ∀ c ∈ counts, 0 < c)
    (hfit : K.kMinimumLength + 4 + tuples_size tuples ≤ len)
    (hs : len < 2 ^ K.size_bits) :
    ∃ (t : tlvDeviceBridgingCapability) (m : Mem),
      build K b len mem tuples = some (t, m) ∧
      t.type m = some K.TLV_DEVICE_BRIDGING_CAPABILITY ∧
      t.bridging_tuples_list_length m = some (tuples.length % 256) ∧
      (tuples.length < 256 → t.bridging_tuples_list_length m = some tuples.length) ∧
      t.base.getLen = 3 + (1 + tuples_size tuples) ∧
      t.length m = some ((1 + tuples_size tuples) % 65536) ∧
      (1 + tuples_size tuples < 65536 → t.length m = some (1 + tuples_size tuples)) ∧
      (tuples = [] → t.bridging_tuples_list_length m = some 0 ∧ t.length m = some 1) := by
  obtain ⟨m0, hcon, ht0, hl0, hk0⟩ := tlv_construct_build K b len mem (by omega) (by omega) hs
  obtain ⟨m, w, hcyc, ht, hl, hk⟩ := build_cycles_built K b len hs tuples hpos 0 0 [] m0
    (Nat.le_refl 0) (by omega)
  simp only [Nat.zero_add] at hcyc
  rw [ht0] at ht
  rw [hl0] at hl
  rw [hk0, Nat.zero_add] at hk
  have hbuild : build K b len mem tuples
      = some (tlv_built b len (tuples_size tuples) tuples.length w, m) := by
    unfold build
    simp only [hcon]
    rw [if_neg (by simp [tlv_built])]
    exact hcyc
  have htype1 : (tlv_built b len (tuples_size tuples) tuples.length w).type m
      = some K.TLV_DEVICE_BRIDGING_CAPABILITY := by
    simp only [tlvDeviceBridgingCapability.type, tlv_built, Option.map_some', ht,
      Nat.mod_eq_of_lt htype]
  have hcount : (tlv_built b len (tuples_size tuples) tuples.length w).bridging_tuples_list_length m
      = some (tuples.length % 256) := by
    simp only [tlvDeviceBridgingCapability.bridging_tuples_list_length, tlv_built,
      Option.map_some', hk]
  have hlength : (tlv_built b len (tuples_size tuples) tuples.length w).length m
      = some ((1 + tuples_size tuples) % 65536) := by
    simp only [tlvDeviceBridgingCapability.length, tlv_built, Option.map_some', hl]
  refine ⟨_, m, hbuild, htype1, hcount, ?_, ?_, hlength, ?_, ?_⟩
  · intro h
    rw [hcount, Nat.mod_eq_of_lt h]
  · simp only [BaseClass.getLen, tlv_built]
    omega
  · intro h
    rw [hlength, Nat.mod_eq_of_lt h]
  · intro h
    subst h
    exact ⟨hcount, hlength⟩

/-- C37, at a concrete input: in a buffer of 64 bytes, three cycles with 1, 2 and 3 MAC
addresses (the last in two allocations) give a list length of 3 and a length of
1 + 7 + 13 + 19 = 40. -/
theorem build_lengths_witness :
    ∃ (t : tlvDeviceBridgingCapability) (m : Mem),
      build K0t 0 64 mem0 [[1], [2], [1, 2]] = some (t, m) ∧
      t.type m = some 4 ∧
      t.bridging_tuples_list_length m = some 3 ∧
      t.length m = some 40 := by
  obtain ⟨t, m, h1, h2, _, h3, _, _, h4, _⟩ :=
    build_lengths K0t 0 64 mem0 [[1], [2], [1, 2]] (by decide) (by decide) (by decide)
      (by decide)
  exact ⟨t, m, h1, h2, h3 (by decide), h4 (by decide)⟩

/-- C38: parsing adds to the length field. A TLV with one tuple of one MAC address is built
in a buffer of 64 bytes: `length()` is 8. The constructor with `parse = true` and
`swap_needed = false` over that buffer succeeds, reports a list length of 1 and a
`mac_list_length()` of 1 for the tuple, and leaves `length()` at 15: the 7 bytes of the
tuple were added to the field once more. With two tuples of 1 and 2 addresses the built
length is 21 and the length after parsing 41. Only a TLV without tuples keeps its length
of 1. -/
theorem parse_adds_to_length :
    (build K0t 0 64 mem0 [[1]]).bind (fun r => r.1.length r.2) = some 8 ∧
    (parse_built K0t 0 64 mem0 [[1]]).map (fun r => r.1.base.m_init_succeeded) = some true ∧
    (parse_built K0t 0 64 mem0 [[1]]).bind
      (fun r => r.1.bridging_tuples_list_length r.2) = some 1 ∧
    (parse_built K0t 0 64 mem0 [[1]]).bind
      (fun r => (r.1.bridging_tuples_list r.2 0).bind
        (fun x => x.2.bind (fun c => c.mac_list_length r.2))) = some 1 ∧
    (parse_built K0t 0 64 mem0 [[1]]).bind (fun r => r.1.length r.2) = some 15 ∧
    (build K0t 0 64 mem0 [[1], [2]]).bind (fun r => r.1.length r.2) = some 21 ∧
    (parse_built K0t 0 64 mem0 [[1], [2]]).bind (fun r => r.1.length r.2) = some 41 ∧
    (build K0t 0 64 mem0 []).bind (fun r => r.1.length r.2) = some 1 ∧
    (parse_built K0t 0 64 mem0 []).bind (fun r => r.1.length r.2) = some 1 := by
  decide

end Slave
